import Mathlib

set_option maxRecDepth 100000

/-!
Verification of the CTD document organizer.

Shallow embedding of the classification core of the repository
(create_ctd_structure.py, organize_documents.py, organize_documents_by_ai.py).

Strings are modeled as Lean `String`/`List Char`; Python semantics that the
code relies on (substring containment with the `in` operator, non-overlapping
`str.count`, `str.split()`/`' '.join`, insertion-ordered `dict` with
last-write-wins update, stable descending `sorted`) are embedded as explicit
executable functions below.  Paths use the POSIX separator "/".  Filesystem
state is modeled as the list of existing folder paths.
-/

/-- Python whitespace for `str.split()` / `str.strip()` and the regex class
backslash-s restricted to ASCII: space, tab, newline, carriage return,
vertical tab, form feed. -/
def pyIsSpace (c : Char) : Bool :=
  c = ' ' || c = '\t' || c = '\n' || c = '\r' || c = '\x0b' || c = '\x0c'

/-- Word character for the regex backslash-b word boundary (ASCII fragment of
Python's backslash-w). -/
def isWordChar (c : Char) : Bool :=
  c.isAlpha || c.isDigit || c = '_'

/-- Python `str.lower()` (ASCII fragment). -/
def pyLower (s : String) : String :=
  String.mk (s.data.map Char.toLower)

/-- Python `str.strip()`: remove leading and trailing whitespace. -/
def pyStrip (s : String) : String :=
  String.mk (((s.data.dropWhile pyIsSpace).reverse.dropWhile pyIsSpace).reverse)

/-- Substring test on character lists: Python's `needle in haystack`. -/
def containsSub : List Char → List Char → Bool
  | [], n => n.isEmpty
  | c :: cs, n => n.isPrefixOf (c :: cs) || containsSub cs n

/-- Python's `needle in haystack` on strings. -/
def pyIn (needle haystack : String) : Bool :=
  containsSub haystack.data needle.data

/-- Fueled worker for `pyCount`: non-overlapping occurrence count, scanning
left to right and skipping the pattern length after each hit. -/
def countOccAux : Nat → List Char → List Char → Nat
  | 0, _, _ => 0
  | _ + 1, [], _ => 0
  | fuel + 1, c :: cs, n =>
    if n.isPrefixOf (c :: cs) then
      1 + countOccAux fuel (List.drop n.length (c :: cs)) n
    else
      countOccAux fuel cs n

/-- Python `haystack.count(needle)`: number of non-overlapping occurrences
(`s.count ""` is `s.length + 1` in Python). -/
def pyCount (haystack needle : String) : Nat :=
  if needle.data.isEmpty then haystack.data.length + 1
  else countOccAux haystack.data.length haystack.data needle.data

/-- Consume a literal from the front of the input, returning the rest. -/
def stripLit : List Char → List Char → Option (List Char)
  | [], s => some s
  | _ :: _, [] => none
  | l :: ls, c :: cs => if c = l then stripLit ls cs else none

/-- Regex `\s*`: drop leading whitespace. -/
def dropSpaces (s : List Char) : List Char :=
  s.dropWhile pyIsSpace

/-- Regex `[0-9]+`: maximal run of leading digits, with the rest. -/
def takeDigits : List Char → List Char × List Char
  | [] => ([], [])
  | c :: cs =>
    if c.isDigit then
      let (d, r) := takeDigits cs
      (c :: d, r)
    else ([], c :: cs)

theorem takeDigits_rest_length : ∀ s : List Char, (takeDigits s).2.length ≤ s.length := by
  intro s
  induction s with
  | nil => simp [takeDigits]
  | cons c cs ih =>
    simp only [takeDigits]
    by_cases h : c.isDigit
    · simp only [h, if_pos]
      exact Nat.le_trans ih (Nat.le_succ _)
    · simp [h]

/-- Fueled greedy parse of regex `(\.[0-9]+)*`: the list of parsed groups
(each including its leading dot) and the rest of the input. -/
def takeDotGroups : Nat → List Char → List (List Char) × List Char
  | 0, s => ([], s)
  | fuel + 1, s =>
    match s with
    | c0 :: c :: cs =>
      if c0 = '.' && c.isDigit then
        let (d, r1) := takeDigits (c :: cs)
        let (gs, r2) := takeDotGroups fuel r1
        (('.' :: d) :: gs, r2)
      else ([], s)
    | _ => ([], s)

/-- Regex `\b` looking forward: holds at end of input or before a non-word
character. -/
def boundaryOk : List Char → Bool
  | [] => true
  | c :: _ => !(isWordChar c)

/-- Parse `[0-9]+(\.[0-9]+)+\b` at the head of the input, the numeric tail
shared by the three section-number patterns of
PDFProcessor._extract_ctd_sections.  Greedy with the regex backtracking
behavior: if the trailing word boundary fails after the maximal match, the
final dot group is dropped (after which the boundary necessarily holds, the
next character being a dot); at least one dot group must remain. -/
def parseNumTail (s : List Char) : Option (List Char × List Char) :=
  let (d1, r1) := takeDigits s
  if d1.isEmpty then none
  else
    let (gs, r2) := takeDotGroups r1.length r1
    match gs.reverse with
    | [] => none
    | glast :: grest =>
      if boundaryOk r2 then some (d1 ++ gs.flatten, r2)
      else
        match grest with
        | [] => none
        | _ :: _ => some (d1 ++ grest.reverse.flatten, glast ++ r2)

/-- Pattern `\b([0-9]+\.[0-9]+(?:\.[0-9]+)*)\b` tried at the current
position (the word boundary in front is checked by the scanner). -/
def tryMatchBare (s : List Char) : Option (List Char × List Char) :=
  parseNumTail s

/-- Pattern `\bsection\s*([0-9]+(?:\.[0-9]+)+)\b` tried at the current
position. -/
def tryMatchSection (s : List Char) : Option (List Char × List Char) :=
  match stripLit "section".data s with
  | none => none
  | some r1 => parseNumTail (dropSpaces r1)

/-- Pattern `\b(?:ctd|module)\s*(?:section)?\s*[:]?\s*([0-9]+(?:\.[0-9]+)+)\b`
tried at the current position.  The optional pieces are deterministic here:
whitespace runs are consumed greedily and the literals "section" and ":"
start with non-space non-digit characters, so skipping a present literal can
never rescue a failed parse. -/
def tryMatchModule (s : List Char) : Option (List Char × List Char) :=
  match
    (match stripLit "ctd".data s with
     | some r => some r
     | none => stripLit "module".data s) with
  | none => none
  | some r1 =>
    let r2 := dropSpaces r1
    let r3 :=
      match stripLit "section".data r2 with
      | some r => dropSpaces r
      | none => r2
    let r4 :=
      match r3 with
      | c :: rr => if c = ':' then dropSpaces rr else r3
      | [] => r3
    parseNumTail r4

/-- Scanner driver shared by the three patterns: models `re.findall` with one
capture group, trying the pattern at every position whose preceding character
is not a word character (the leading word boundary) and resuming after the end
of each match (non-overlapping).  The fuel is the input length. -/
def scanWith (tryPat : List Char → Option (List Char × List Char)) :
    Nat → Bool → List Char → List (List Char)
  | 0, _, _ => []
  | _ + 1, _, [] => []
  | fuel + 1, prevW, c :: cs =>
    match (if prevW then none else tryPat (c :: cs)) with
    | some (m, rest) => m :: scanWith tryPat fuel true rest
    | none => scanWith tryPat fuel (isWordChar c) cs

/-- `re.findall` for the ctd/module pattern. -/
def findallModulePat (text : String) : List String :=
  (scanWith tryMatchModule text.data.length false text.data).map String.mk

/-- `re.findall` for the section pattern. -/
def findallSectionPat (text : String) : List String :=
  (scanWith tryMatchSection text.data.length false text.data).map String.mk

/-- `re.findall` for the bare dotted-number pattern. -/
def findallBarePat (text : String) : List String :=
  (scanWith tryMatchBare text.data.length false text.data).map String.mk

/-- Deduplicate keeping first occurrences; canonical enumeration of the
Python set used in _extract_ctd_sections (the real set's enumeration order is
hash-dependent and not canonical; claims about order are stated against
explicit orderings). -/
def dedupFirst (l : List String) : List String :=
  l.foldl (fun acc s => if s ∈ acc then acc else acc ++ [s]) []

/-- PDFProcessor._extract_ctd_sections (organize_documents.py lines 229-245):
run the three patterns over the (already lowercased) text, keep matches with
at least one dot, and collect them into a set. -/
def extract_ctd_sections (text : String) : List String :=
  dedupFirst
    (((findallModulePat text ++ findallSectionPat text) ++ findallBarePat text).filter
      (fun s => 1 ≤ pyCount s "."))

-- sanity checks for the scanners
example : extract_ctd_sections "see section 1.1 and module 2.3" = ["2.3", "1.1"] := by decide
example : extract_ctd_sections "module 5.3.1 text" = ["5.3.1"] := by decide
example : extract_ctd_sections "a 12.34.5a and 7" = ["12.34"] := by decide
example : pyCount "stability study stability" "stability" = 2 := by decide
example : pyIn "cover letter" (pyLower "EMEA-Cover Letter.pdf") = true := by decide

/-! ## Folder-name sanitization (clean_folder_name) -/

/-- The characters replaced by '-' in clean_folder_name
(create_ctd_structure.py lines 445-455 and the identical
PDFProcessor._clean_folder_name / CTDOrganizer._clean_folder_name). -/
def invalidChars : List Char := ['<', '>', ':', '"', '/', '\\', '|', '?', '*']

/-- Python `name.replace(a, b)` for single characters. -/
def replaceAllChar (s : List Char) (a b : Char) : List Char :=
  s.map fun c => if c = a then b else c

/-- The replacement loop of clean_folder_name: each invalid character is
replaced by '-'. -/
def removeInvalid (s : List Char) : List Char :=
  invalidChars.foldl (fun acc a => replaceAllChar acc a '-') s

/-- Python `str.split()` worker: split on runs of whitespace, discarding
empty pieces; `acc` holds the current word reversed. -/
def pySplitAux : List Char → List Char → List (List Char)
  | [], acc => if acc.isEmpty then [] else [acc.reverse]
  | c :: cs, acc =>
    if pyIsSpace c then
      if acc.isEmpty then pySplitAux cs [] else acc.reverse :: pySplitAux cs []
    else pySplitAux cs (c :: acc)

/-- Python `str.split()` with no arguments. -/
def pySplit (s : List Char) : List (List Char) :=
  pySplitAux s []

/-- Python `' '.join(words)`. -/
def joinWords : List (List Char) → List Char
  | [] => []
  | [w] => w
  | w :: ws => w ++ ' ' :: joinWords ws

/-- clean_folder_name: replace the invalid path characters by '-', then
collapse whitespace runs to single spaces (and trim) via split/join. -/
def clean_folder_name (s : String) : String :=
  String.mk (joinWords (pySplit (removeInvalid s.data)))

example : clean_folder_name "1.3.1  Summary / SmPC?" = "1.3.1 Summary - SmPC-" := by decide

/-! ## Python dict model

The folder mapping of CTDOrganizer._get_all_folder_paths is a Python dict:
insertion-ordered association list where updating an existing key overwrites
its value in place (keeping the key's original position). -/

/-- Python `d[k] = v`: overwrite the value in place when the key is present
(keeping the key's original position), otherwise append the new pair at the
end. -/
def dictInsert (d : List (String × String)) (k v : String) : List (String × String) :=
  match d with
  | [] => [(k, v)]
  | p :: rest => if p.1 = k then (k, v) :: rest else p :: dictInsert rest k v

/-- Python `d.get(k)` / `k in d` combined: first entry with the key. -/
def dictFind? (d : List (String × String)) (k : String) : Option String :=
  (d.find? (fun p => p.1 = k)).map (fun p => p.2)

/-- Filesystem model: `os.path.exists` over the list of existing paths. -/
def pathExists (fs : List String) (p : String) : Bool :=
  decide (p ∈ fs)

/-! ## Stable descending sort (Python sorted with key=score, reverse=True) -/

/-- Insert an element in front of the first entry whose score is not larger;
elements inserted later (i.e. occurring later in the original list) end up
after equal-score elements inserted earlier, matching the stability of
Python's sort. -/
def insertDesc (x : String × Nat) : List (String × Nat) → List (String × Nat)
  | [] => [x]
  | y :: ys => if y.2 > x.2 then y :: insertDesc x ys else x :: y :: ys

/-- `sorted(scores.items(), key=lambda x: x[1], reverse=True)`:
stable sort, descending by score. -/
def sortDescStable (l : List (String × Nat)) : List (String × Nat) :=
  l.foldr insertDesc []

example :
    sortDescStable [("a", 3), ("b", 7), ("c", 7), ("d", 1)] =
      [("b", 7), ("c", 7), ("a", 3), ("d", 1)] := by decide

/-! ## The CTD taxonomy

The taxonomy tree embedded in create_ctd_structure.py (saved to
ctd_structure.json and loaded back by CTDOrganizer._load_ctd_structure).
Only the name/children fields are modeled: the description fields of the
JSON are never read by the folder traversals or by the resolver. -/

inductive CTDNode where
  | node : String → List CTDNode → CTDNode

/-- A taxonomy node without children. -/
def leafN (s : String) : CTDNode := CTDNode.node s []

/-- A taxonomy node with children. -/
def branchN (s : String) (cs : List CTDNode) : CTDNode := CTDNode.node s cs

/-- The complete_ctd_structure literal of create_ctd_structure.py
(lines 23-400), names and nesting transcribed verbatim. -/
def ctdStructureTree : CTDNode :=
  branchN "CTD Structure" [
    branchN "Module 1 Administrative Information and Prescribing Information" [
      branchN "1.0 Correspondence" [
        leafN "1.0.1 Cover Letter",
        leafN "1.0.2 General Note to Reviewer",
        leafN "1.0.3 Life Cycle Management Tracking Table",
        leafN "1.0.4 Correspondence Issued by Regulatory Authority",
        leafN "1.0.5 Response to Information Solicited by Regulatory Authority",
        leafN "1.0.6 Meeting Information",
        leafN "1.0.7 Request for Appeal Documentation"],
      branchN "1.2 Administrative Information" [
        leafN "1.2.1 Application Form",
        leafN "1.2.2 Fee Forms",
        leafN "1.2.3 Certification and Attestation Forms",
        leafN "1.2.4 Compliance and Site Information",
        leafN "1.2.5 Authorization for Sharing Information",
        leafN "1.2.6 Electronic Declaration",
        leafN "1.2.7 Trademark & Intellectual Property Information",
        leafN "1.2.8 Screening Details",
        leafN "1.2.A Additional Administrative Information"],
      branchN "1.3 Product Information" [
        branchN "1.3.1 Summary of Product Characteristics (SmPC)" [
          branchN "1.3.1.1 Approved - SmPC" [
            leafN "1.3.1.1.1 Approved - SmPC - English",
            leafN "1.3.1.1.2 Approved - SmPC - French",
            leafN "1.3.1.1.3 Approved - SmPC - Portuguese"],
          branchN "1.3.1.2 Clean - SmPC" [
            leafN "1.3.1.2.1 Clean - SmPC - English",
            leafN "1.3.1.2.2 Clean - SmPC - French",
            leafN "1.3.1.2.3 Clean - SmPC - Portuguese"],
          branchN "1.3.1.3 Annotated - SmPC" [
            leafN "1.3.1.3.1 Annotated - SmPC - English",
            leafN "1.3.1.3.2 Annotated - SmPC - French",
            leafN "1.3.1.3.3 Annotated - SmPC - Portuguese"]],
        branchN "1.3.2 Patient Information Leaflet (PIL)" [
          branchN "1.3.2.1 Approved - PIL" [
            leafN "1.3.2.1.1 Approved - PIL - English",
            leafN "1.3.2.1.2 Approved - PIL - French",
            leafN "1.3.2.1.3 Approved - PIL - Portuguese"],
          branchN "1.3.2.2 Clean - PIL" [
            leafN "1.3.2.2.1 Clean - PIL - English",
            leafN "1.3.2.2.2 Clean - PIL - French",
            leafN "1.3.2.2.3 Clean - PIL - Portuguese"],
          branchN "1.3.2.3 Annotated - PIL" [
            leafN "1.3.2.3.1 Annotated - PIL - English",
            leafN "1.3.2.3.2 Annotated - PIL - French",
            leafN "1.3.2.3.3 Annotated - PIL - Portuguese"]],
        branchN "1.3.3 Container Labels" [
          branchN "1.3.3.1 Approved - Container Labels" [
            leafN "1.3.3.1.1 Approved - Container Labels - English",
            leafN "1.3.3.1.2 Approved - Container Labels - French",
            leafN "1.3.3.1.3 Approved - Container Labels - Portuguese"],
          branchN "1.3.3.2 Clean - Container Labels" [
            leafN "1.3.3.2.1 Clean - Container Labels - English",
            leafN "1.3.3.2.2 Clean - Container Labels - French",
            leafN "1.3.3.2.3 Clean - Container Labels - Portuguese"],
          branchN "1.3.3.3 Annotated - Container Labels" [
            leafN "1.3.3.3.1 Annotated - Container Labels - English",
            leafN "1.3.3.3.2 Annotated - Container Labels - French",
            leafN "1.3.3.3.3 Annotated - Container Labels - Portuguese"]],
        leafN "1.3.4 Foreign Labelling",
        leafN "1.3.5 Reference Product Labelling",
        leafN "1.3.6 Artwork and Samples"],
      branchN "1.4 Information about the Experts" [
        leafN "1.4.1 Quality",
        leafN "1.4.2 Non-Clinical",
        leafN "1.4.3 Clinical"],
      branchN "1.5 Specific Requirements for Different Types of Applications" [
        leafN "1.5.1 Bioequivalence Trial Information"],
      branchN "1.6 Environmental Risk Assessment" [
        leafN "1.6.1 Non-GMO",
        leafN "1.6.2 GMO"],
      branchN "1.7 Good Manufacturing Practice (GMP)" [
        leafN "1.7.1 Date of Inspection of Each Site",
        leafN "1.7.2 Inspection Reports or Equivalent Documents",
        leafN "1.7.3 GMP Certificates or Manufacturing Licences",
        leafN "1.7.4 Other GMP Documents"],
      branchN "1.8 Information Relating to Pharmacovigilance" [
        leafN "1.8.1 Pharmacovigilance System",
        leafN "1.8.2 Risk-management System"],
      leafN "1.9 Individual Patient Data - Statement of Availability",
      branchN "1.10 Foreign Regulatory Information" [
        leafN "1.10.1 Regional & Foreign Regulatory Status",
        leafN "1.10.2 WHO Type Certificate of Pharmaceutical Product (COPP)",
        leafN "1.10.3 Data Set Similarities and Differences",
        leafN "1.10.4 Foreign Evaluation Reports"],
      branchN "1.A Additional Data" [
        leafN "1.A.1 Country Specific Data"]],
    branchN "Module 2 Common Technical Document Summaries" [
      leafN "2.2 Introduction to Summary",
      branchN "2.3 Quality Overall Summary (QOS)" [
        leafN "2.3 Introduction",
        leafN "2.3.S Drug Substance",
        leafN "2.3.P Drug Product",
        leafN "2.3.A Appendices",
        leafN "2.3.R Regional Information"],
      leafN "2.4 Nonclinical Overview",
      leafN "2.5 Clinical Overview",
      branchN "2.6 NonClinical Written and Tabulated Summaries" [
        leafN "2.6.1 Introduction",
        leafN "2.6.2 Pharmacology Written Summary",
        leafN "2.6.3 Pharmacology Tabulated Summary",
        leafN "2.6.4 Pharmacokinetics Written Summary",
        leafN "2.6.5 Pharmacokinetics Tabulated Summary",
        leafN "2.6.6 Toxicology Written Summary",
        leafN "2.6.7 Toxicology Tabulated Summary"],
      branchN "2.7 Clinical Summary" [
        leafN "2.7.1 Summary of Biopharmaceutic Studies",
        leafN "2.7.2 Summary of Clinical Pharmacology Studies",
        leafN "2.7.3 Summary of Clinical Efficacy",
        leafN "2.7.4 Summary of Clinical Safety",
        leafN "2.7.5 References",
        leafN "2.7.6 Synopses of Individual Studies"]],
    branchN "Module 3 Quality" [
      branchN "3.2 Body of Data" [
        branchN "3.2.S Drug Substance" [
          branchN "3.2.S.1 General Information" [
            leafN "3.2.S.1.1 Nomenclature",
            leafN "3.2.S.1.2 Structure",
            leafN "3.2.S.1.3 General Properties"],
          leafN "3.2.S.2 Manufacture",
          leafN "3.2.S.3 Characterization",
          leafN "3.2.S.4 Control of Drug Substance",
          leafN "3.2.S.5 Reference Standards or Materials",
          leafN "3.2.S.6 Container Closure Systems",
          leafN "3.2.S.7 Stability"],
        branchN "3.2.P Drug Product" [
          leafN "3.2.P.1 Description and Composition",
          leafN "3.2.P.2 Pharmaceutical Development",
          leafN "3.2.P.3 Manufacture",
          leafN "3.2.P.4 Control of Excipients",
          leafN "3.2.P.5 Control of Drug Product",
          leafN "3.2.P.6 Reference Standards or Materials",
          leafN "3.2.P.7 Container Closure System",
          leafN "3.2.P.8 Stability"]],
      leafN "3.3 Literature References"],
    branchN "Module 4 Nonclinical Study Reports" [
      branchN "4.2 Study Reports" [
        branchN "4.2.1 Pharmacology" [
          leafN "4.2.1.1 Primary Pharmacodynamics",
          leafN "4.2.1.2 Secondary Pharmacodynamics",
          leafN "4.2.1.3 Safety Pharmacology",
          leafN "4.2.1.4 Pharmacodynamic Drug Interactions"],
        branchN "4.2.2 Pharmacokinetics" [
          leafN "4.2.2.1 Analytical Methods and Validation",
          leafN "4.2.2.2 Absorption",
          leafN "4.2.2.3 Distribution",
          leafN "4.2.2.4 Metabolism",
          leafN "4.2.2.5 Excretion",
          leafN "4.2.2.6 Pharmacokinetic Drug Interactions",
          leafN "4.2.2.7 Other Pharmacokinetic Studies"],
        branchN "4.2.3 Toxicology" [
          leafN "4.2.3.1 Single-Dose Toxicity",
          leafN "4.2.3.2 Repeat-Dose Toxicity",
          leafN "4.2.3.3 Genotoxicity",
          leafN "4.2.3.4 Carcinogenicity",
          leafN "4.2.3.5 Reproductive and Developmental Toxicity",
          leafN "4.2.3.6 Local Tolerance",
          leafN "4.2.3.7 Other Toxicity Studies"]],
      leafN "4.3 Literature References"],
    branchN "Module 5 Clinical Study Reports" [
      leafN "5.2 Tabular Listing of all Clinical Studies",
      branchN "5.3 Clinical Study Reports and Related Information" [
        branchN "5.3.1 Reports of Biopharmaceutic Studies" [
          leafN "5.3.1.1 Bioavailability (BA) Study Reports",
          leafN "5.3.1.2 Comparative BA and BE Study Reports",
          leafN "5.3.1.3 In Vitro - In Vivo Correlation",
          leafN "5.3.1.4 Bioanalytical Methods"],
        branchN "5.3.2 Reports of Studies Pertinent to Pharmacokinetics" [
          leafN "5.3.2.1 Plasma Protein Binding",
          leafN "5.3.2.2 Hepatic Metabolism and Drug Interaction",
          leafN "5.3.2.3 Other Human Biomaterials"],
        branchN "5.3.3 Reports of Human Pharmacokinetic Studies" [
          leafN "5.3.3.1 Healthy Subject PK",
          leafN "5.3.3.2 Patient PK",
          leafN "5.3.3.3 Intrinsic Factor PK",
          leafN "5.3.3.4 Extrinsic Factor PK",
          leafN "5.3.3.5 Population PK"],
        branchN "5.3.4 Reports of Human Pharmacodynamic Studies" [
          leafN "5.3.4.1 Healthy Subject PD",
          leafN "5.3.4.2 Patient PD"],
        branchN "5.3.5 Reports of Efficacy and Safety Studies" [
          leafN "5.3.5.1 Controlled Clinical Studies",
          leafN "5.3.5.2 Uncontrolled Clinical Studies",
          leafN "5.3.5.3 Analyses from Multiple Studies",
          leafN "5.3.5.4 Other Study Reports"]],
      leafN "5.4 Literature References"]]

/-- `re.search(r'(\d+(?:\.\d+)*)', name)`: first digit run in the name,
greedily extended by dot-separated digit runs (used by _get_all_folder_paths
and build_folder_index to register section-number lookup keys). -/
def firstSectionNum : List Char → Option (List Char)
  | [] => none
  | c :: cs =>
    if c.isDigit then
      let (d, r) := takeDigits (c :: cs)
      let (gs, _) := takeDotGroups r.length r
      some (d ++ gs.flatten)
    else firstSectionNum cs

/-- CTDOrganizer._get_all_folder_paths traversal (organize_documents.py
lines 279-300): depth-first walk registering, for every node, its display
name and (when present) its first dotted numeric run as dict keys mapped to
the node's folder path.  The recursion is bounded by a fuel exceeding the
taxonomy's depth so that the definition stays structural (and hence
kernel-computable); fuel 16 is far above the tree's depth of 6. -/
def traverseNodeFuel : Nat → List (String × String) → String → CTDNode → List (String × String)
  | 0, fp, _, _ => fp
  | fuel + 1, fp, current, CTDNode.node nm ch =>
    if nm = "" then fp
    else
      let folderName := clean_folder_name nm
      let fullPath := if current = "" then folderName else current ++ "/" ++ folderName
      let fp1 := dictInsert fp nm fullPath
      let fp2 :=
        match firstSectionNum nm.data with
        | some sec => dictInsert fp1 (String.mk sec) fullPath
        | none => fp1
      ch.foldl (fun acc child => traverseNodeFuel fuel acc fullPath child) fp2

/-- The CTD_FOLDER configuration constant. -/
def CTD_FOLDER : String := "organized_ctd"

/-- self.all_folders built at CTDOrganizer startup. -/
def allFoldersActual : List (String × String) :=
  traverseNodeFuel 16 [] CTD_FOLDER ctdStructureTree

/-- The dict writes performed for one visited node: its display name, and
(when the name contains a dotted numeric run) that run, both mapped to the
node's folder path.  This is the loop body of _get_all_folder_paths,
factored out so the traversal can be related to a flat left fold. -/
def nodeKeyInserts (fp : List (String × String)) (e : String × String) :
    List (String × String) :=
  let fp1 := dictInsert fp e.1 e.2
  match firstSectionNum e.1.data with
  | some sec => dictInsert fp1 (String.mk sec) e.2
  | none => fp1

/-- The (display name, folder path) pairs of the taxonomy in the depth-first
order in which _get_all_folder_paths visits them. -/
def flattenFuel : Nat → String → CTDNode → List (String × String)
  | 0, _, _ => []
  | fuel + 1, current, CTDNode.node nm ch =>
    if nm = "" then []
    else
      let folderName := clean_folder_name nm
      let fullPath := if current = "" then folderName else current ++ "/" ++ folderName
      (nm, fullPath) :: (ch.map (fun child => flattenFuel fuel fullPath child)).flatten

/-- The traversal is the left fold of the per-node dict writes over the
depth-first node list. -/
theorem traverseNodeFuel_eq_flatten : ∀ (fuel : Nat) (fp : List (String × String))
    (cur : String) (t : CTDNode),
    traverseNodeFuel fuel fp cur t = (flattenFuel fuel cur t).foldl nodeKeyInserts fp := by
  intro fuel
  induction fuel with
  | zero => intro fp cur t; rfl
  | succ f ih =>
    intro fp cur t
    obtain ⟨nm, ch⟩ := t
    rw [traverseNodeFuel, flattenFuel]
    by_cases hnm : nm = ""
    · rw [if_pos hnm, if_pos hnm]
      rfl
    · rw [if_neg hnm, if_neg hnm]
      rw [List.foldl_cons]
      have hlist : ∀ (cs : List CTDNode) (acc : List (String × String)) (pathAcc : String),
          cs.foldl (fun a child => traverseNodeFuel f a pathAcc child) acc =
            ((cs.map (fun child => flattenFuel f pathAcc child)).flatten).foldl
              nodeKeyInserts acc := by
        intro cs
        induction cs with
        | nil => intro acc pathAcc; rfl
        | cons c cs2 ihc =>
          intro acc pathAcc
          rw [List.foldl_cons, List.map_cons, List.flatten_cons, List.foldl_append]
          rw [ih acc pathAcc c]
          rw [ihc]
      exact hlist ch _ _

/-- create_folder_structure (create_ctd_structure.py lines 413-443): the
list of folder paths created on disk, in creation order (parent before
children).  Fueled like the traversal above. -/
def createFoldersFuel : Nat → CTDNode → String → List String
  | 0, _, _ => []
  | fuel + 1, CTDNode.node nm ch, base =>
    if nm = "" then []
    else
      let p := base ++ "/" ++ clean_folder_name nm
      p :: (ch.map (fun child => createFoldersFuel fuel child p)).flatten

/-- The set of folders that exist after running create_ctd_structure.py. -/
def fsAll : List String :=
  createFoldersFuel 16 ctdStructureTree CTD_FOLDER

/-- The folder mapping produced by _get_all_folder_paths on the repository's
taxonomy, written out literally so that concrete evaluations stay cheap.
The theorem allFoldersActual_eq_list below proves it equal to the traversal
of the source tree; all concrete facts below are stated against
allFoldersActual and discharged through this literal. -/
def allFoldersList : List (String × String) := [
  ("CTD Structure", "organized_ctd/CTD Structure"),
  ("Module 1 Administrative Information and Prescribing Information", "organized_ctd/CTD Structure/Module 1 Administrative Information and Prescribing Information"),
  ("1", "organized_ctd/CTD Structure/Module 1 Administrative Information and Prescribing Information/1.A Additional Data/1.A.1 Country Specific Data"),
  ("1.0 Correspondence", "organized_ctd/CTD Structure/Module 1 Administrative Information and Prescribing Information/1.0 Correspondence"),
  ("1.0", "organized_ctd/CTD Structure/Module 1 Administrative Information and Prescribing Information/1.0 Correspondence"),
  ("1.0.1 Cover Letter", "organized_ctd/CTD Structure/Module 1 Administrative Information and Prescribing Information/1.0 Correspondence/1.0.1 Cover Letter"),
  ("1.0.1", "organized_ctd/CTD Structure/Module 1 Administrative Information and Prescribing Information/1.0 Correspondence/1.0.1 Cover Letter"),
  ("1.0.2 General Note to Reviewer", "organized_ctd/CTD Structure/Module 1 Administrative Information and Prescribing Information/1.0 Correspondence/1.0.2 General Note to Reviewer"),
  ("1.0.2", "organized_ctd/CTD Structure/Module 1 Administrative Information and Prescribing Information/1.0 Correspondence/1.0.2 General Note to Reviewer"),
  ("1.0.3 Life Cycle Management Tracking Table", "organized_ctd/CTD Structure/Module 1 Administrative Information and Prescribing Information/1.0 Correspondence/1.0.3 Life Cycle Management Tracking Table"),
  ("1.0.3", "organized_ctd/CTD Structure/Module 1 Administrative Information and Prescribing Information/1.0 Correspondence/1.0.3 Life Cycle Management Tracking Table"),
  ("1.0.4 Correspondence Issued by Regulatory Authority", "organized_ctd/CTD Structure/Module 1 Administrative Information and Prescribing Information/1.0 Correspondence/1.0.4 Correspondence Issued by Regulatory Authority"),
  ("1.0.4", "organized_ctd/CTD Structure/Module 1 Administrative Information and Prescribing Information/1.0 Correspondence/1.0.4 Correspondence Issued by Regulatory Authority"),
  ("1.0.5 Response to Information Solicited by Regulatory Authority", "organized_ctd/CTD Structure/Module 1 Administrative Information and Prescribing Information/1.0 Correspondence/1.0.5 Response to Information Solicited by Regulatory Authority"),
  ("1.0.5", "organized_ctd/CTD Structure/Module 1 Administrative Information and Prescribing Information/1.0 Correspondence/1.0.5 Response to Information Solicited by Regulatory Authority"),
  ("1.0.6 Meeting Information", "organized_ctd/CTD Structure/Module 1 Administrative Information and Prescribing Information/1.0 Correspondence/1.0.6 Meeting Information"),
  ("1.0.6", "organized_ctd/CTD Structure/Module 1 Administrative Information and Prescribing Information/1.0 Correspondence/1.0.6 Meeting Information"),
  ("1.0.7 Request for Appeal Documentation", "organized_ctd/CTD Structure/Module 1 Administrative Information and Prescribing Information/1.0 Correspondence/1.0.7 Request for Appeal Documentation"),
  ("1.0.7", "organized_ctd/CTD Structure/Module 1 Administrative Information and Prescribing Information/1.0 Correspondence/1.0.7 Request for Appeal Documentation"),
  ("1.2 Administrative Information", "organized_ctd/CTD Structure/Module 1 Administrative Information and Prescribing Information/1.2 Administrative Information"),
  ("1.2", "organized_ctd/CTD Structure/Module 1 Administrative Information and Prescribing Information/1.2 Administrative Information/1.2.A Additional Administrative Information"),
  ("1.2.1 Application Form", "organized_ctd/CTD Structure/Module 1 Administrative Information and Prescribing Information/1.2 Administrative Information/1.2.1 Application Form"),
  ("1.2.1", "organized_ctd/CTD Structure/Module 1 Administrative Information and Prescribing Information/1.2 Administrative Information/1.2.1 Application Form"),
  ("1.2.2 Fee Forms", "organized_ctd/CTD Structure/Module 1 Administrative Information and Prescribing Information/1.2 Administrative Information/1.2.2 Fee Forms"),
  ("1.2.2", "organized_ctd/CTD Structure/Module 1 Administrative Information and Prescribing Information/1.2 Administrative Information/1.2.2 Fee Forms"),
  ("1.2.3 Certification and Attestation Forms", "organized_ctd/CTD Structure/Module 1 Administrative Information and Prescribing Information/1.2 Administrative Information/1.2.3 Certification and Attestation Forms"),
  ("1.2.3", "organized_ctd/CTD Structure/Module 1 Administrative Information and Prescribing Information/1.2 Administrative Information/1.2.3 Certification and Attestation Forms"),
  ("1.2.4 Compliance and Site Information", "organized_ctd/CTD Structure/Module 1 Administrative Information and Prescribing Information/1.2 Administrative Information/1.2.4 Compliance and Site Information"),
  ("1.2.4", "organized_ctd/CTD Structure/Module 1 Administrative Information and Prescribing Information/1.2 Administrative Information/1.2.4 Compliance and Site Information"),
  ("1.2.5 Authorization for Sharing Information", "organized_ctd/CTD Structure/Module 1 Administrative Information and Prescribing Information/1.2 Administrative Information/1.2.5 Authorization for Sharing Information"),
  ("1.2.5", "organized_ctd/CTD Structure/Module 1 Administrative Information and Prescribing Information/1.2 Administrative Information/1.2.5 Authorization for Sharing Information"),
  ("1.2.6 Electronic Declaration", "organized_ctd/CTD Structure/Module 1 Administrative Information and Prescribing Information/1.2 Administrative Information/1.2.6 Electronic Declaration"),
  ("1.2.6", "organized_ctd/CTD Structure/Module 1 Administrative Information and Prescribing Information/1.2 Administrative Information/1.2.6 Electronic Declaration"),
  ("1.2.7 Trademark & Intellectual Property Information", "organized_ctd/CTD Structure/Module 1 Administrative Information and Prescribing Information/1.2 Administrative Information/1.2.7 Trademark & Intellectual Property Information"),
  ("1.2.7", "organized_ctd/CTD Structure/Module 1 Administrative Information and Prescribing Information/1.2 Administrative Information/1.2.7 Trademark & Intellectual Property Information"),
  ("1.2.8 Screening Details", "organized_ctd/CTD Structure/Module 1 Administrative Information and Prescribing Information/1.2 Administrative Information/1.2.8 Screening Details"),
  ("1.2.8", "organized_ctd/CTD Structure/Module 1 Administrative Information and Prescribing Information/1.2 Administrative Information/1.2.8 Screening Details"),
  ("1.2.A Additional Administrative Information", "organized_ctd/CTD Structure/Module 1 Administrative Information and Prescribing Information/1.2 Administrative Information/1.2.A Additional Administrative Information"),
  ("1.3 Product Information", "organized_ctd/CTD Structure/Module 1 Administrative Information and Prescribing Information/1.3 Product Information"),
  ("1.3", "organized_ctd/CTD Structure/Module 1 Administrative Information and Prescribing Information/1.3 Product Information"),
  ("1.3.1 Summary of Product Characteristics (SmPC)", "organized_ctd/CTD Structure/Module 1 Administrative Information and Prescribing Information/1.3 Product Information/1.3.1 Summary of Product Characteristics (SmPC)"),
  ("1.3.1", "organized_ctd/CTD Structure/Module 1 Administrative Information and Prescribing Information/1.3 Product Information/1.3.1 Summary of Product Characteristics (SmPC)"),
  ("1.3.1.1 Approved - SmPC", "organized_ctd/CTD Structure/Module 1 Administrative Information and Prescribing Information/1.3 Product Information/1.3.1 Summary of Product Characteristics (SmPC)/1.3.1.1 Approved - SmPC"),
  ("1.3.1.1", "organized_ctd/CTD Structure/Module 1 Administrative Information and Prescribing Information/1.3 Product Information/1.3.1 Summary of Product Characteristics (SmPC)/1.3.1.1 Approved - SmPC"),
  ("1.3.1.1.1 Approved - SmPC - English", "organized_ctd/CTD Structure/Module 1 Administrative Information and Prescribing Information/1.3 Product Information/1.3.1 Summary of Product Characteristics (SmPC)/1.3.1.1 Approved - SmPC/1.3.1.1.1 Approved - SmPC - English"),
  ("1.3.1.1.1", "organized_ctd/CTD Structure/Module 1 Administrative Information and Prescribing Information/1.3 Product Information/1.3.1 Summary of Product Characteristics (SmPC)/1.3.1.1 Approved - SmPC/1.3.1.1.1 Approved - SmPC - English"),
  ("1.3.1.1.2 Approved - SmPC - French", "organized_ctd/CTD Structure/Module 1 Administrative Information and Prescribing Information/1.3 Product Information/1.3.1 Summary of Product Characteristics (SmPC)/1.3.1.1 Approved - SmPC/1.3.1.1.2 Approved - SmPC - French"),
  ("1.3.1.1.2", "organized_ctd/CTD Structure/Module 1 Administrative Information and Prescribing Information/1.3 Product Information/1.3.1 Summary of Product Characteristics (SmPC)/1.3.1.1 Approved - SmPC/1.3.1.1.2 Approved - SmPC - French"),
  ("1.3.1.1.3 Approved - SmPC - Portuguese", "organized_ctd/CTD Structure/Module 1 Administrative Information and Prescribing Information/1.3 Product Information/1.3.1 Summary of Product Characteristics (SmPC)/1.3.1.1 Approved - SmPC/1.3.1.1.3 Approved - SmPC - Portuguese"),
  ("1.3.1.1.3", "organized_ctd/CTD Structure/Module 1 Administrative Information and Prescribing Information/1.3 Product Information/1.3.1 Summary of Product Characteristics (SmPC)/1.3.1.1 Approved - SmPC/1.3.1.1.3 Approved - SmPC - Portuguese"),
  ("1.3.1.2 Clean - SmPC", "organized_ctd/CTD Structure/Module 1 Administrative Information and Prescribing Information/1.3 Product Information/1.3.1 Summary of Product Characteristics (SmPC)/1.3.1.2 Clean - SmPC"),
  ("1.3.1.2", "organized_ctd/CTD Structure/Module 1 Administrative Information and Prescribing Information/1.3 Product Information/1.3.1 Summary of Product Characteristics (SmPC)/1.3.1.2 Clean - SmPC"),
  ("1.3.1.2.1 Clean - SmPC - English", "organized_ctd/CTD Structure/Module 1 Administrative Information and Prescribing Information/1.3 Product Information/1.3.1 Summary of Product Characteristics (SmPC)/1.3.1.2 Clean - SmPC/1.3.1.2.1 Clean - SmPC - English"),
  ("1.3.1.2.1", "organized_ctd/CTD Structure/Module 1 Administrative Information and Prescribing Information/1.3 Product Information/1.3.1 Summary of Product Characteristics (SmPC)/1.3.1.2 Clean - SmPC/1.3.1.2.1 Clean - SmPC - English"),
  ("1.3.1.2.2 Clean - SmPC - French", "organized_ctd/CTD Structure/Module 1 Administrative Information and Prescribing Information/1.3 Product Information/1.3.1 Summary of Product Characteristics (SmPC)/1.3.1.2 Clean - SmPC/1.3.1.2.2 Clean - SmPC - French"),
  ("1.3.1.2.2", "organized_ctd/CTD Structure/Module 1 Administrative Information and Prescribing Information/1.3 Product Information/1.3.1 Summary of Product Characteristics (SmPC)/1.3.1.2 Clean - SmPC/1.3.1.2.2 Clean - SmPC - French"),
  ("1.3.1.2.3 Clean - SmPC - Portuguese", "organized_ctd/CTD Structure/Module 1 Administrative Information and Prescribing Information/1.3 Product Information/1.3.1 Summary of Product Characteristics (SmPC)/1.3.1.2 Clean - SmPC/1.3.1.2.3 Clean - SmPC - Portuguese"),
  ("1.3.1.2.3", "organized_ctd/CTD Structure/Module 1 Administrative Information and Prescribing Information/1.3 Product Information/1.3.1 Summary of Product Characteristics (SmPC)/1.3.1.2 Clean - SmPC/1.3.1.2.3 Clean - SmPC - Portuguese"),
  ("1.3.1.3 Annotated - SmPC", "organized_ctd/CTD Structure/Module 1 Administrative Information and Prescribing Information/1.3 Product Information/1.3.1 Summary of Product Characteristics (SmPC)/1.3.1.3 Annotated - SmPC"),
  ("1.3.1.3", "organized_ctd/CTD Structure/Module 1 Administrative Information and Prescribing Information/1.3 Product Information/1.3.1 Summary of Product Characteristics (SmPC)/1.3.1.3 Annotated - SmPC"),
  ("1.3.1.3.1 Annotated - SmPC - English", "organized_ctd/CTD Structure/Module 1 Administrative Information and Prescribing Information/1.3 Product Information/1.3.1 Summary of Product Characteristics (SmPC)/1.3.1.3 Annotated - SmPC/1.3.1.3.1 Annotated - SmPC - English"),
  ("1.3.1.3.1", "organized_ctd/CTD Structure/Module 1 Administrative Information and Prescribing Information/1.3 Product Information/1.3.1 Summary of Product Characteristics (SmPC)/1.3.1.3 Annotated - SmPC/1.3.1.3.1 Annotated - SmPC - English"),
  ("1.3.1.3.2 Annotated - SmPC - French", "organized_ctd/CTD Structure/Module 1 Administrative Information and Prescribing Information/1.3 Product Information/1.3.1 Summary of Product Characteristics (SmPC)/1.3.1.3 Annotated - SmPC/1.3.1.3.2 Annotated - SmPC - French"),
  ("1.3.1.3.2", "organized_ctd/CTD Structure/Module 1 Administrative Information and Prescribing Information/1.3 Product Information/1.3.1 Summary of Product Characteristics (SmPC)/1.3.1.3 Annotated - SmPC/1.3.1.3.2 Annotated - SmPC - French"),
  ("1.3.1.3.3 Annotated - SmPC - Portuguese", "organized_ctd/CTD Structure/Module 1 Administrative Information and Prescribing Information/1.3 Product Information/1.3.1 Summary of Product Characteristics (SmPC)/1.3.1.3 Annotated - SmPC/1.3.1.3.3 Annotated - SmPC - Portuguese"),
  ("1.3.1.3.3", "organized_ctd/CTD Structure/Module 1 Administrative Information and Prescribing Information/1.3 Product Information/1.3.1 Summary of Product Characteristics (SmPC)/1.3.1.3 Annotated - SmPC/1.3.1.3.3 Annotated - SmPC - Portuguese"),
  ("1.3.2 Patient Information Leaflet (PIL)", "organized_ctd/CTD Structure/Module 1 Administrative Information and Prescribing Information/1.3 Product Information/1.3.2 Patient Information Leaflet (PIL)"),
  ("1.3.2", "organized_ctd/CTD Structure/Module 1 Administrative Information and Prescribing Information/1.3 Product Information/1.3.2 Patient Information Leaflet (PIL)"),
  ("1.3.2.1 Approved - PIL", "organized_ctd/CTD Structure/Module 1 Administrative Information and Prescribing Information/1.3 Product Information/1.3.2 Patient Information Leaflet (PIL)/1.3.2.1 Approved - PIL"),
  ("1.3.2.1", "organized_ctd/CTD Structure/Module 1 Administrative Information and Prescribing Information/1.3 Product Information/1.3.2 Patient Information Leaflet (PIL)/1.3.2.1 Approved - PIL"),
  ("1.3.2.1.1 Approved - PIL - English", "organized_ctd/CTD Structure/Module 1 Administrative Information and Prescribing Information/1.3 Product Information/1.3.2 Patient Information Leaflet (PIL)/1.3.2.1 Approved - PIL/1.3.2.1.1 Approved - PIL - English"),
  ("1.3.2.1.1", "organized_ctd/CTD Structure/Module 1 Administrative Information and Prescribing Information/1.3 Product Information/1.3.2 Patient Information Leaflet (PIL)/1.3.2.1 Approved - PIL/1.3.2.1.1 Approved - PIL - English"),
  ("1.3.2.1.2 Approved - PIL - French", "organized_ctd/CTD Structure/Module 1 Administrative Information and Prescribing Information/1.3 Product Information/1.3.2 Patient Information Leaflet (PIL)/1.3.2.1 Approved - PIL/1.3.2.1.2 Approved - PIL - French"),
  ("1.3.2.1.2", "organized_ctd/CTD Structure/Module 1 Administrative Information and Prescribing Information/1.3 Product Information/1.3.2 Patient Information Leaflet (PIL)/1.3.2.1 Approved - PIL/1.3.2.1.2 Approved - PIL - French"),
  ("1.3.2.1.3 Approved - PIL - Portuguese", "organized_ctd/CTD Structure/Module 1 Administrative Information and Prescribing Information/1.3 Product Information/1.3.2 Patient Information Leaflet (PIL)/1.3.2.1 Approved - PIL/1.3.2.1.3 Approved - PIL - Portuguese"),
  ("1.3.2.1.3", "organized_ctd/CTD Structure/Module 1 Administrative Information and Prescribing Information/1.3 Product Information/1.3.2 Patient Information Leaflet (PIL)/1.3.2.1 Approved - PIL/1.3.2.1.3 Approved - PIL - Portuguese"),
  ("1.3.2.2 Clean - PIL", "organized_ctd/CTD Structure/Module 1 Administrative Information and Prescribing Information/1.3 Product Information/1.3.2 Patient Information Leaflet (PIL)/1.3.2.2 Clean - PIL"),
  ("1.3.2.2", "organized_ctd/CTD Structure/Module 1 Administrative Information and Prescribing Information/1.3 Product Information/1.3.2 Patient Information Leaflet (PIL)/1.3.2.2 Clean - PIL"),
  ("1.3.2.2.1 Clean - PIL - English", "organized_ctd/CTD Structure/Module 1 Administrative Information and Prescribing Information/1.3 Product Information/1.3.2 Patient Information Leaflet (PIL)/1.3.2.2 Clean - PIL/1.3.2.2.1 Clean - PIL - English"),
  ("1.3.2.2.1", "organized_ctd/CTD Structure/Module 1 Administrative Information and Prescribing Information/1.3 Product Information/1.3.2 Patient Information Leaflet (PIL)/1.3.2.2 Clean - PIL/1.3.2.2.1 Clean - PIL - English"),
  ("1.3.2.2.2 Clean - PIL - French", "organized_ctd/CTD Structure/Module 1 Administrative Information and Prescribing Information/1.3 Product Information/1.3.2 Patient Information Leaflet (PIL)/1.3.2.2 Clean - PIL/1.3.2.2.2 Clean - PIL - French"),
  ("1.3.2.2.2", "organized_ctd/CTD Structure/Module 1 Administrative Information and Prescribing Information/1.3 Product Information/1.3.2 Patient Information Leaflet (PIL)/1.3.2.2 Clean - PIL/1.3.2.2.2 Clean - PIL - French"),
  ("1.3.2.2.3 Clean - PIL - Portuguese", "organized_ctd/CTD Structure/Module 1 Administrative Information and Prescribing Information/1.3 Product Information/1.3.2 Patient Information Leaflet (PIL)/1.3.2.2 Clean - PIL/1.3.2.2.3 Clean - PIL - Portuguese"),
  ("1.3.2.2.3", "organized_ctd/CTD Structure/Module 1 Administrative Information and Prescribing Information/1.3 Product Information/1.3.2 Patient Information Leaflet (PIL)/1.3.2.2 Clean - PIL/1.3.2.2.3 Clean - PIL - Portuguese"),
  ("1.3.2.3 Annotated - PIL", "organized_ctd/CTD Structure/Module 1 Administrative Information and Prescribing Information/1.3 Product Information/1.3.2 Patient Information Leaflet (PIL)/1.3.2.3 Annotated - PIL"),
  ("1.3.2.3", "organized_ctd/CTD Structure/Module 1 Administrative Information and Prescribing Information/1.3 Product Information/1.3.2 Patient Information Leaflet (PIL)/1.3.2.3 Annotated - PIL"),
  ("1.3.2.3.1 Annotated - PIL - English", "organized_ctd/CTD Structure/Module 1 Administrative Information and Prescribing Information/1.3 Product Information/1.3.2 Patient Information Leaflet (PIL)/1.3.2.3 Annotated - PIL/1.3.2.3.1 Annotated - PIL - English"),
  ("1.3.2.3.1", "organized_ctd/CTD Structure/Module 1 Administrative Information and Prescribing Information/1.3 Product Information/1.3.2 Patient Information Leaflet (PIL)/1.3.2.3 Annotated - PIL/1.3.2.3.1 Annotated - PIL - English"),
  ("1.3.2.3.2 Annotated - PIL - French", "organized_ctd/CTD Structure/Module 1 Administrative Information and Prescribing Information/1.3 Product Information/1.3.2 Patient Information Leaflet (PIL)/1.3.2.3 Annotated - PIL/1.3.2.3.2 Annotated - PIL - French"),
  ("1.3.2.3.2", "organized_ctd/CTD Structure/Module 1 Administrative Information and Prescribing Information/1.3 Product Information/1.3.2 Patient Information Leaflet (PIL)/1.3.2.3 Annotated - PIL/1.3.2.3.2 Annotated - PIL - French"),
  ("1.3.2.3.3 Annotated - PIL - Portuguese", "organized_ctd/CTD Structure/Module 1 Administrative Information and Prescribing Information/1.3 Product Information/1.3.2 Patient Information Leaflet (PIL)/1.3.2.3 Annotated - PIL/1.3.2.3.3 Annotated - PIL - Portuguese"),
  ("1.3.2.3.3", "organized_ctd/CTD Structure/Module 1 Administrative Information and Prescribing Information/1.3 Product Information/1.3.2 Patient Information Leaflet (PIL)/1.3.2.3 Annotated - PIL/1.3.2.3.3 Annotated - PIL - Portuguese"),
  ("1.3.3 Container Labels", "organized_ctd/CTD Structure/Module 1 Administrative Information and Prescribing Information/1.3 Product Information/1.3.3 Container Labels"),
  ("1.3.3", "organized_ctd/CTD Structure/Module 1 Administrative Information and Prescribing Information/1.3 Product Information/1.3.3 Container Labels"),
  ("1.3.3.1 Approved - Container Labels", "organized_ctd/CTD Structure/Module 1 Administrative Information and Prescribing Information/1.3 Product Information/1.3.3 Container Labels/1.3.3.1 Approved - Container Labels"),
  ("1.3.3.1", "organized_ctd/CTD Structure/Module 1 Administrative Information and Prescribing Information/1.3 Product Information/1.3.3 Container Labels/1.3.3.1 Approved - Container Labels"),
  ("1.3.3.1.1 Approved - Container Labels - English", "organized_ctd/CTD Structure/Module 1 Administrative Information and Prescribing Information/1.3 Product Information/1.3.3 Container Labels/1.3.3.1 Approved - Container Labels/1.3.3.1.1 Approved - Container Labels - English"),
  ("1.3.3.1.1", "organized_ctd/CTD Structure/Module 1 Administrative Information and Prescribing Information/1.3 Product Information/1.3.3 Container Labels/1.3.3.1 Approved - Container Labels/1.3.3.1.1 Approved - Container Labels - English"),
  ("1.3.3.1.2 Approved - Container Labels - French", "organized_ctd/CTD Structure/Module 1 Administrative Information and Prescribing Information/1.3 Product Information/1.3.3 Container Labels/1.3.3.1 Approved - Container Labels/1.3.3.1.2 Approved - Container Labels - French"),
  ("1.3.3.1.2", "organized_ctd/CTD Structure/Module 1 Administrative Information and Prescribing Information/1.3 Product Information/1.3.3 Container Labels/1.3.3.1 Approved - Container Labels/1.3.3.1.2 Approved - Container Labels - French"),
  ("1.3.3.1.3 Approved - Container Labels - Portuguese", "organized_ctd/CTD Structure/Module 1 Administrative Information and Prescribing Information/1.3 Product Information/1.3.3 Container Labels/1.3.3.1 Approved - Container Labels/1.3.3.1.3 Approved - Container Labels - Portuguese"),
  ("1.3.3.1.3", "organized_ctd/CTD Structure/Module 1 Administrative Information and Prescribing Information/1.3 Product Information/1.3.3 Container Labels/1.3.3.1 Approved - Container Labels/1.3.3.1.3 Approved - Container Labels - Portuguese"),
  ("1.3.3.2 Clean - Container Labels", "organized_ctd/CTD Structure/Module 1 Administrative Information and Prescribing Information/1.3 Product Information/1.3.3 Container Labels/1.3.3.2 Clean - Container Labels"),
  ("1.3.3.2", "organized_ctd/CTD Structure/Module 1 Administrative Information and Prescribing Information/1.3 Product Information/1.3.3 Container Labels/1.3.3.2 Clean - Container Labels"),
  ("1.3.3.2.1 Clean - Container Labels - English", "organized_ctd/CTD Structure/Module 1 Administrative Information and Prescribing Information/1.3 Product Information/1.3.3 Container Labels/1.3.3.2 Clean - Container Labels/1.3.3.2.1 Clean - Container Labels - English"),
  ("1.3.3.2.1", "organized_ctd/CTD Structure/Module 1 Administrative Information and Prescribing Information/1.3 Product Information/1.3.3 Container Labels/1.3.3.2 Clean - Container Labels/1.3.3.2.1 Clean - Container Labels - English"),
  ("1.3.3.2.2 Clean - Container Labels - French", "organized_ctd/CTD Structure/Module 1 Administrative Information and Prescribing Information/1.3 Product Information/1.3.3 Container Labels/1.3.3.2 Clean - Container Labels/1.3.3.2.2 Clean - Container Labels - French"),
  ("1.3.3.2.2", "organized_ctd/CTD Structure/Module 1 Administrative Information and Prescribing Information/1.3 Product Information/1.3.3 Container Labels/1.3.3.2 Clean - Container Labels/1.3.3.2.2 Clean - Container Labels - French"),
  ("1.3.3.2.3 Clean - Container Labels - Portuguese", "organized_ctd/CTD Structure/Module 1 Administrative Information and Prescribing Information/1.3 Product Information/1.3.3 Container Labels/1.3.3.2 Clean - Container Labels/1.3.3.2.3 Clean - Container Labels - Portuguese"),
  ("1.3.3.2.3", "organized_ctd/CTD Structure/Module 1 Administrative Information and Prescribing Information/1.3 Product Information/1.3.3 Container Labels/1.3.3.2 Clean - Container Labels/1.3.3.2.3 Clean - Container Labels - Portuguese"),
  ("1.3.3.3 Annotated - Container Labels", "organized_ctd/CTD Structure/Module 1 Administrative Information and Prescribing Information/1.3 Product Information/1.3.3 Container Labels/1.3.3.3 Annotated - Container Labels"),
  ("1.3.3.3", "organized_ctd/CTD Structure/Module 1 Administrative Information and Prescribing Information/1.3 Product Information/1.3.3 Container Labels/1.3.3.3 Annotated - Container Labels"),
  ("1.3.3.3.1 Annotated - Container Labels - English", "organized_ctd/CTD Structure/Module 1 Administrative Information and Prescribing Information/1.3 Product Information/1.3.3 Container Labels/1.3.3.3 Annotated - Container Labels/1.3.3.3.1 Annotated - Container Labels - English"),
  ("1.3.3.3.1", "organized_ctd/CTD Structure/Module 1 Administrative Information and Prescribing Information/1.3 Product Information/1.3.3 Container Labels/1.3.3.3 Annotated - Container Labels/1.3.3.3.1 Annotated - Container Labels - English"),
  ("1.3.3.3.2 Annotated - Container Labels - French", "organized_ctd/CTD Structure/Module 1 Administrative Information and Prescribing Information/1.3 Product Information/1.3.3 Container Labels/1.3.3.3 Annotated - Container Labels/1.3.3.3.2 Annotated - Container Labels - French"),
  ("1.3.3.3.2", "organized_ctd/CTD Structure/Module 1 Administrative Information and Prescribing Information/1.3 Product Information/1.3.3 Container Labels/1.3.3.3 Annotated - Container Labels/1.3.3.3.2 Annotated - Container Labels - French"),
  ("1.3.3.3.3 Annotated - Container Labels - Portuguese", "organized_ctd/CTD Structure/Module 1 Administrative Information and Prescribing Information/1.3 Product Information/1.3.3 Container Labels/1.3.3.3 Annotated - Container Labels/1.3.3.3.3 Annotated - Container Labels - Portuguese"),
  ("1.3.3.3.3", "organized_ctd/CTD Structure/Module 1 Administrative Information and Prescribing Information/1.3 Product Information/1.3.3 Container Labels/1.3.3.3 Annotated - Container Labels/1.3.3.3.3 Annotated - Container Labels - Portuguese"),
  ("1.3.4 Foreign Labelling", "organized_ctd/CTD Structure/Module 1 Administrative Information and Prescribing Information/1.3 Product Information/1.3.4 Foreign Labelling"),
  ("1.3.4", "organized_ctd/CTD Structure/Module 1 Administrative Information and Prescribing Information/1.3 Product Information/1.3.4 Foreign Labelling"),
  ("1.3.5 Reference Product Labelling", "organized_ctd/CTD Structure/Module 1 Administrative Information and Prescribing Information/1.3 Product Information/1.3.5 Reference Product Labelling"),
  ("1.3.5", "organized_ctd/CTD Structure/Module 1 Administrative Information and Prescribing Information/1.3 Product Information/1.3.5 Reference Product Labelling"),
  ("1.3.6 Artwork and Samples", "organized_ctd/CTD Structure/Module 1 Administrative Information and Prescribing Information/1.3 Product Information/1.3.6 Artwork and Samples"),
  ("1.3.6", "organized_ctd/CTD Structure/Module 1 Administrative Information and Prescribing Information/1.3 Product Information/1.3.6 Artwork and Samples"),
  ("1.4 Information about the Experts", "organized_ctd/CTD Structure/Module 1 Administrative Information and Prescribing Information/1.4 Information about the Experts"),
  ("1.4", "organized_ctd/CTD Structure/Module 1 Administrative Information and Prescribing Information/1.4 Information about the Experts"),
  ("1.4.1 Quality", "organized_ctd/CTD Structure/Module 1 Administrative Information and Prescribing Information/1.4 Information about the Experts/1.4.1 Quality"),
  ("1.4.1", "organized_ctd/CTD Structure/Module 1 Administrative Information and Prescribing Information/1.4 Information about the Experts/1.4.1 Quality"),
  ("1.4.2 Non-Clinical", "organized_ctd/CTD Structure/Module 1 Administrative Information and Prescribing Information/1.4 Information about the Experts/1.4.2 Non-Clinical"),
  ("1.4.2", "organized_ctd/CTD Structure/Module 1 Administrative Information and Prescribing Information/1.4 Information about the Experts/1.4.2 Non-Clinical"),
  ("1.4.3 Clinical", "organized_ctd/CTD Structure/Module 1 Administrative Information and Prescribing Information/1.4 Information about the Experts/1.4.3 Clinical"),
  ("1.4.3", "organized_ctd/CTD Structure/Module 1 Administrative Information and Prescribing Information/1.4 Information about the Experts/1.4.3 Clinical"),
  ("1.5 Specific Requirements for Different Types of Applications", "organized_ctd/CTD Structure/Module 1 Administrative Information and Prescribing Information/1.5 Specific Requirements for Different Types of Applications"),
  ("1.5", "organized_ctd/CTD Structure/Module 1 Administrative Information and Prescribing Information/1.5 Specific Requirements for Different Types of Applications"),
  ("1.5.1 Bioequivalence Trial Information", "organized_ctd/CTD Structure/Module 1 Administrative Information and Prescribing Information/1.5 Specific Requirements for Different Types of Applications/1.5.1 Bioequivalence Trial Information"),
  ("1.5.1", "organized_ctd/CTD Structure/Module 1 Administrative Information and Prescribing Information/1.5 Specific Requirements for Different Types of Applications/1.5.1 Bioequivalence Trial Information"),
  ("1.6 Environmental Risk Assessment", "organized_ctd/CTD Structure/Module 1 Administrative Information and Prescribing Information/1.6 Environmental Risk Assessment"),
  ("1.6", "organized_ctd/CTD Structure/Module 1 Administrative Information and Prescribing Information/1.6 Environmental Risk Assessment"),
  ("1.6.1 Non-GMO", "organized_ctd/CTD Structure/Module 1 Administrative Information and Prescribing Information/1.6 Environmental Risk Assessment/1.6.1 Non-GMO"),
  ("1.6.1", "organized_ctd/CTD Structure/Module 1 Administrative Information and Prescribing Information/1.6 Environmental Risk Assessment/1.6.1 Non-GMO"),
  ("1.6.2 GMO", "organized_ctd/CTD Structure/Module 1 Administrative Information and Prescribing Information/1.6 Environmental Risk Assessment/1.6.2 GMO"),
  ("1.6.2", "organized_ctd/CTD Structure/Module 1 Administrative Information and Prescribing Information/1.6 Environmental Risk Assessment/1.6.2 GMO"),
  ("1.7 Good Manufacturing Practice (GMP)", "organized_ctd/CTD Structure/Module 1 Administrative Information and Prescribing Information/1.7 Good Manufacturing Practice (GMP)"),
  ("1.7", "organized_ctd/CTD Structure/Module 1 Administrative Information and Prescribing Information/1.7 Good Manufacturing Practice (GMP)"),
  ("1.7.1 Date of Inspection of Each Site", "organized_ctd/CTD Structure/Module 1 Administrative Information and Prescribing Information/1.7 Good Manufacturing Practice (GMP)/1.7.1 Date of Inspection of Each Site"),
  ("1.7.1", "organized_ctd/CTD Structure/Module 1 Administrative Information and Prescribing Information/1.7 Good Manufacturing Practice (GMP)/1.7.1 Date of Inspection of Each Site"),
  ("1.7.2 Inspection Reports or Equivalent Documents", "organized_ctd/CTD Structure/Module 1 Administrative Information and Prescribing Information/1.7 Good Manufacturing Practice (GMP)/1.7.2 Inspection Reports or Equivalent Documents"),
  ("1.7.2", "organized_ctd/CTD Structure/Module 1 Administrative Information and Prescribing Information/1.7 Good Manufacturing Practice (GMP)/1.7.2 Inspection Reports or Equivalent Documents"),
  ("1.7.3 GMP Certificates or Manufacturing Licences", "organized_ctd/CTD Structure/Module 1 Administrative Information and Prescribing Information/1.7 Good Manufacturing Practice (GMP)/1.7.3 GMP Certificates or Manufacturing Licences"),
  ("1.7.3", "organized_ctd/CTD Structure/Module 1 Administrative Information and Prescribing Information/1.7 Good Manufacturing Practice (GMP)/1.7.3 GMP Certificates or Manufacturing Licences"),
  ("1.7.4 Other GMP Documents", "organized_ctd/CTD Structure/Module 1 Administrative Information and Prescribing Information/1.7 Good Manufacturing Practice (GMP)/1.7.4 Other GMP Documents"),
  ("1.7.4", "organized_ctd/CTD Structure/Module 1 Administrative Information and Prescribing Information/1.7 Good Manufacturing Practice (GMP)/1.7.4 Other GMP Documents"),
  ("1.8 Information Relating to Pharmacovigilance", "organized_ctd/CTD Structure/Module 1 Administrative Information and Prescribing Information/1.8 Information Relating to Pharmacovigilance"),
  ("1.8", "organized_ctd/CTD Structure/Module 1 Administrative Information and Prescribing Information/1.8 Information Relating to Pharmacovigilance"),
  ("1.8.1 Pharmacovigilance System", "organized_ctd/CTD Structure/Module 1 Administrative Information and Prescribing Information/1.8 Information Relating to Pharmacovigilance/1.8.1 Pharmacovigilance System"),
  ("1.8.1", "organized_ctd/CTD Structure/Module 1 Administrative Information and Prescribing Information/1.8 Information Relating to Pharmacovigilance/1.8.1 Pharmacovigilance System"),
  ("1.8.2 Risk-management System", "organized_ctd/CTD Structure/Module 1 Administrative Information and Prescribing Information/1.8 Information Relating to Pharmacovigilance/1.8.2 Risk-management System"),
  ("1.8.2", "organized_ctd/CTD Structure/Module 1 Administrative Information and Prescribing Information/1.8 Information Relating to Pharmacovigilance/1.8.2 Risk-management System"),
  ("1.9 Individual Patient Data - Statement of Availability", "organized_ctd/CTD Structure/Module 1 Administrative Information and Prescribing Information/1.9 Individual Patient Data - Statement of Availability"),
  ("1.9", "organized_ctd/CTD Structure/Module 1 Administrative Information and Prescribing Information/1.9 Individual Patient Data - Statement of Availability"),
  ("1.10 Foreign Regulatory Information", "organized_ctd/CTD Structure/Module 1 Administrative Information and Prescribing Information/1.10 Foreign Regulatory Information"),
  ("1.10", "organized_ctd/CTD Structure/Module 1 Administrative Information and Prescribing Information/1.10 Foreign Regulatory Information"),
  ("1.10.1 Regional & Foreign Regulatory Status", "organized_ctd/CTD Structure/Module 1 Administrative Information and Prescribing Information/1.10 Foreign Regulatory Information/1.10.1 Regional & Foreign Regulatory Status"),
  ("1.10.1", "organized_ctd/CTD Structure/Module 1 Administrative Information and Prescribing Information/1.10 Foreign Regulatory Information/1.10.1 Regional & Foreign Regulatory Status"),
  ("1.10.2 WHO Type Certificate of Pharmaceutical Product (COPP)", "organized_ctd/CTD Structure/Module 1 Administrative Information and Prescribing Information/1.10 Foreign Regulatory Information/1.10.2 WHO Type Certificate of Pharmaceutical Product (COPP)"),
  ("1.10.2", "organized_ctd/CTD Structure/Module 1 Administrative Information and Prescribing Information/1.10 Foreign Regulatory Information/1.10.2 WHO Type Certificate of Pharmaceutical Product (COPP)"),
  ("1.10.3 Data Set Similarities and Differences", "organized_ctd/CTD Structure/Module 1 Administrative Information and Prescribing Information/1.10 Foreign Regulatory Information/1.10.3 Data Set Similarities and Differences"),
  ("1.10.3", "organized_ctd/CTD Structure/Module 1 Administrative Information and Prescribing Information/1.10 Foreign Regulatory Information/1.10.3 Data Set Similarities and Differences"),
  ("1.10.4 Foreign Evaluation Reports", "organized_ctd/CTD Structure/Module 1 Administrative Information and Prescribing Information/1.10 Foreign Regulatory Information/1.10.4 Foreign Evaluation Reports"),
  ("1.10.4", "organized_ctd/CTD Structure/Module 1 Administrative Information and Prescribing Information/1.10 Foreign Regulatory Information/1.10.4 Foreign Evaluation Reports"),
  ("1.A Additional Data", "organized_ctd/CTD Structure/Module 1 Administrative Information and Prescribing Information/1.A Additional Data"),
  ("1.A.1 Country Specific Data", "organized_ctd/CTD Structure/Module 1 Administrative Information and Prescribing Information/1.A Additional Data/1.A.1 Country Specific Data"),
  ("Module 2 Common Technical Document Summaries", "organized_ctd/CTD Structure/Module 2 Common Technical Document Summaries"),
  ("2", "organized_ctd/CTD Structure/Module 2 Common Technical Document Summaries"),
  ("2.2 Introduction to Summary", "organized_ctd/CTD Structure/Module 2 Common Technical Document Summaries/2.2 Introduction to Summary"),
  ("2.2", "organized_ctd/CTD Structure/Module 2 Common Technical Document Summaries/2.2 Introduction to Summary"),
  ("2.3 Quality Overall Summary (QOS)", "organized_ctd/CTD Structure/Module 2 Common Technical Document Summaries/2.3 Quality Overall Summary (QOS)"),
  ("2.3", "organized_ctd/CTD Structure/Module 2 Common Technical Document Summaries/2.3 Quality Overall Summary (QOS)/2.3.R Regional Information"),
  ("2.3 Introduction", "organized_ctd/CTD Structure/Module 2 Common Technical Document Summaries/2.3 Quality Overall Summary (QOS)/2.3 Introduction"),
  ("2.3.S Drug Substance", "organized_ctd/CTD Structure/Module 2 Common Technical Document Summaries/2.3 Quality Overall Summary (QOS)/2.3.S Drug Substance"),
  ("2.3.P Drug Product", "organized_ctd/CTD Structure/Module 2 Common Technical Document Summaries/2.3 Quality Overall Summary (QOS)/2.3.P Drug Product"),
  ("2.3.A Appendices", "organized_ctd/CTD Structure/Module 2 Common Technical Document Summaries/2.3 Quality Overall Summary (QOS)/2.3.A Appendices"),
  ("2.3.R Regional Information", "organized_ctd/CTD Structure/Module 2 Common Technical Document Summaries/2.3 Quality Overall Summary (QOS)/2.3.R Regional Information"),
  ("2.4 Nonclinical Overview", "organized_ctd/CTD Structure/Module 2 Common Technical Document Summaries/2.4 Nonclinical Overview"),
  ("2.4", "organized_ctd/CTD Structure/Module 2 Common Technical Document Summaries/2.4 Nonclinical Overview"),
  ("2.5 Clinical Overview", "organized_ctd/CTD Structure/Module 2 Common Technical Document Summaries/2.5 Clinical Overview"),
  ("2.5", "organized_ctd/CTD Structure/Module 2 Common Technical Document Summaries/2.5 Clinical Overview"),
  ("2.6 NonClinical Written and Tabulated Summaries", "organized_ctd/CTD Structure/Module 2 Common Technical Document Summaries/2.6 NonClinical Written and Tabulated Summaries"),
  ("2.6", "organized_ctd/CTD Structure/Module 2 Common Technical Document Summaries/2.6 NonClinical Written and Tabulated Summaries"),
  ("2.6.1 Introduction", "organized_ctd/CTD Structure/Module 2 Common Technical Document Summaries/2.6 NonClinical Written and Tabulated Summaries/2.6.1 Introduction"),
  ("2.6.1", "organized_ctd/CTD Structure/Module 2 Common Technical Document Summaries/2.6 NonClinical Written and Tabulated Summaries/2.6.1 Introduction"),
  ("2.6.2 Pharmacology Written Summary", "organized_ctd/CTD Structure/Module 2 Common Technical Document Summaries/2.6 NonClinical Written and Tabulated Summaries/2.6.2 Pharmacology Written Summary"),
  ("2.6.2", "organized_ctd/CTD Structure/Module 2 Common Technical Document Summaries/2.6 NonClinical Written and Tabulated Summaries/2.6.2 Pharmacology Written Summary"),
  ("2.6.3 Pharmacology Tabulated Summary", "organized_ctd/CTD Structure/Module 2 Common Technical Document Summaries/2.6 NonClinical Written and Tabulated Summaries/2.6.3 Pharmacology Tabulated Summary"),
  ("2.6.3", "organized_ctd/CTD Structure/Module 2 Common Technical Document Summaries/2.6 NonClinical Written and Tabulated Summaries/2.6.3 Pharmacology Tabulated Summary"),
  ("2.6.4 Pharmacokinetics Written Summary", "organized_ctd/CTD Structure/Module 2 Common Technical Document Summaries/2.6 NonClinical Written and Tabulated Summaries/2.6.4 Pharmacokinetics Written Summary"),
  ("2.6.4", "organized_ctd/CTD Structure/Module 2 Common Technical Document Summaries/2.6 NonClinical Written and Tabulated Summaries/2.6.4 Pharmacokinetics Written Summary"),
  ("2.6.5 Pharmacokinetics Tabulated Summary", "organized_ctd/CTD Structure/Module 2 Common Technical Document Summaries/2.6 NonClinical Written and Tabulated Summaries/2.6.5 Pharmacokinetics Tabulated Summary"),
  ("2.6.5", "organized_ctd/CTD Structure/Module 2 Common Technical Document Summaries/2.6 NonClinical Written and Tabulated Summaries/2.6.5 Pharmacokinetics Tabulated Summary"),
  ("2.6.6 Toxicology Written Summary", "organized_ctd/CTD Structure/Module 2 Common Technical Document Summaries/2.6 NonClinical Written and Tabulated Summaries/2.6.6 Toxicology Written Summary"),
  ("2.6.6", "organized_ctd/CTD Structure/Module 2 Common Technical Document Summaries/2.6 NonClinical Written and Tabulated Summaries/2.6.6 Toxicology Written Summary"),
  ("2.6.7 Toxicology Tabulated Summary", "organized_ctd/CTD Structure/Module 2 Common Technical Document Summaries/2.6 NonClinical Written and Tabulated Summaries/2.6.7 Toxicology Tabulated Summary"),
  ("2.6.7", "organized_ctd/CTD Structure/Module 2 Common Technical Document Summaries/2.6 NonClinical Written and Tabulated Summaries/2.6.7 Toxicology Tabulated Summary"),
  ("2.7 Clinical Summary", "organized_ctd/CTD Structure/Module 2 Common Technical Document Summaries/2.7 Clinical Summary"),
  ("2.7", "organized_ctd/CTD Structure/Module 2 Common Technical Document Summaries/2.7 Clinical Summary"),
  ("2.7.1 Summary of Biopharmaceutic Studies", "organized_ctd/CTD Structure/Module 2 Common Technical Document Summaries/2.7 Clinical Summary/2.7.1 Summary of Biopharmaceutic Studies"),
  ("2.7.1", "organized_ctd/CTD Structure/Module 2 Common Technical Document Summaries/2.7 Clinical Summary/2.7.1 Summary of Biopharmaceutic Studies"),
  ("2.7.2 Summary of Clinical Pharmacology Studies", "organized_ctd/CTD Structure/Module 2 Common Technical Document Summaries/2.7 Clinical Summary/2.7.2 Summary of Clinical Pharmacology Studies"),
  ("2.7.2", "organized_ctd/CTD Structure/Module 2 Common Technical Document Summaries/2.7 Clinical Summary/2.7.2 Summary of Clinical Pharmacology Studies"),
  ("2.7.3 Summary of Clinical Efficacy", "organized_ctd/CTD Structure/Module 2 Common Technical Document Summaries/2.7 Clinical Summary/2.7.3 Summary of Clinical Efficacy"),
  ("2.7.3", "organized_ctd/CTD Structure/Module 2 Common Technical Document Summaries/2.7 Clinical Summary/2.7.3 Summary of Clinical Efficacy"),
  ("2.7.4 Summary of Clinical Safety", "organized_ctd/CTD Structure/Module 2 Common Technical Document Summaries/2.7 Clinical Summary/2.7.4 Summary of Clinical Safety"),
  ("2.7.4", "organized_ctd/CTD Structure/Module 2 Common Technical Document Summaries/2.7 Clinical Summary/2.7.4 Summary of Clinical Safety"),
  ("2.7.5 References", "organized_ctd/CTD Structure/Module 2 Common Technical Document Summaries/2.7 Clinical Summary/2.7.5 References"),
  ("2.7.5", "organized_ctd/CTD Structure/Module 2 Common Technical Document Summaries/2.7 Clinical Summary/2.7.5 References"),
  ("2.7.6 Synopses of Individual Studies", "organized_ctd/CTD Structure/Module 2 Common Technical Document Summaries/2.7 Clinical Summary/2.7.6 Synopses of Individual Studies"),
  ("2.7.6", "organized_ctd/CTD Structure/Module 2 Common Technical Document Summaries/2.7 Clinical Summary/2.7.6 Synopses of Individual Studies"),
  ("Module 3 Quality", "organized_ctd/CTD Structure/Module 3 Quality"),
  ("3", "organized_ctd/CTD Structure/Module 3 Quality"),
  ("3.2 Body of Data", "organized_ctd/CTD Structure/Module 3 Quality/3.2 Body of Data"),
  ("3.2", "organized_ctd/CTD Structure/Module 3 Quality/3.2 Body of Data/3.2.P Drug Product/3.2.P.8 Stability"),
  ("3.2.S Drug Substance", "organized_ctd/CTD Structure/Module 3 Quality/3.2 Body of Data/3.2.S Drug Substance"),
  ("3.2.S.1 General Information", "organized_ctd/CTD Structure/Module 3 Quality/3.2 Body of Data/3.2.S Drug Substance/3.2.S.1 General Information"),
  ("3.2.S.1.1 Nomenclature", "organized_ctd/CTD Structure/Module 3 Quality/3.2 Body of Data/3.2.S Drug Substance/3.2.S.1 General Information/3.2.S.1.1 Nomenclature"),
  ("3.2.S.1.2 Structure", "organized_ctd/CTD Structure/Module 3 Quality/3.2 Body of Data/3.2.S Drug Substance/3.2.S.1 General Information/3.2.S.1.2 Structure"),
  ("3.2.S.1.3 General Properties", "organized_ctd/CTD Structure/Module 3 Quality/3.2 Body of Data/3.2.S Drug Substance/3.2.S.1 General Information/3.2.S.1.3 General Properties"),
  ("3.2.S.2 Manufacture", "organized_ctd/CTD Structure/Module 3 Quality/3.2 Body of Data/3.2.S Drug Substance/3.2.S.2 Manufacture"),
  ("3.2.S.3 Characterization", "organized_ctd/CTD Structure/Module 3 Quality/3.2 Body of Data/3.2.S Drug Substance/3.2.S.3 Characterization"),
  ("3.2.S.4 Control of Drug Substance", "organized_ctd/CTD Structure/Module 3 Quality/3.2 Body of Data/3.2.S Drug Substance/3.2.S.4 Control of Drug Substance"),
  ("3.2.S.5 Reference Standards or Materials", "organized_ctd/CTD Structure/Module 3 Quality/3.2 Body of Data/3.2.S Drug Substance/3.2.S.5 Reference Standards or Materials"),
  ("3.2.S.6 Container Closure Systems", "organized_ctd/CTD Structure/Module 3 Quality/3.2 Body of Data/3.2.S Drug Substance/3.2.S.6 Container Closure Systems"),
  ("3.2.S.7 Stability", "organized_ctd/CTD Structure/Module 3 Quality/3.2 Body of Data/3.2.S Drug Substance/3.2.S.7 Stability"),
  ("3.2.P Drug Product", "organized_ctd/CTD Structure/Module 3 Quality/3.2 Body of Data/3.2.P Drug Product"),
  ("3.2.P.1 Description and Composition", "organized_ctd/CTD Structure/Module 3 Quality/3.2 Body of Data/3.2.P Drug Product/3.2.P.1 Description and Composition"),
  ("3.2.P.2 Pharmaceutical Development", "organized_ctd/CTD Structure/Module 3 Quality/3.2 Body of Data/3.2.P Drug Product/3.2.P.2 Pharmaceutical Development"),
  ("3.2.P.3 Manufacture", "organized_ctd/CTD Structure/Module 3 Quality/3.2 Body of Data/3.2.P Drug Product/3.2.P.3 Manufacture"),
  ("3.2.P.4 Control of Excipients", "organized_ctd/CTD Structure/Module 3 Quality/3.2 Body of Data/3.2.P Drug Product/3.2.P.4 Control of Excipients"),
  ("3.2.P.5 Control of Drug Product", "organized_ctd/CTD Structure/Module 3 Quality/3.2 Body of Data/3.2.P Drug Product/3.2.P.5 Control of Drug Product"),
  ("3.2.P.6 Reference Standards or Materials", "organized_ctd/CTD Structure/Module 3 Quality/3.2 Body of Data/3.2.P Drug Product/3.2.P.6 Reference Standards or Materials"),
  ("3.2.P.7 Container Closure System", "organized_ctd/CTD Structure/Module 3 Quality/3.2 Body of Data/3.2.P Drug Product/3.2.P.7 Container Closure System"),
  ("3.2.P.8 Stability", "organized_ctd/CTD Structure/Module 3 Quality/3.2 Body of Data/3.2.P Drug Product/3.2.P.8 Stability"),
  ("3.3 Literature References", "organized_ctd/CTD Structure/Module 3 Quality/3.3 Literature References"),
  ("3.3", "organized_ctd/CTD Structure/Module 3 Quality/3.3 Literature References"),
  ("Module 4 Nonclinical Study Reports", "organized_ctd/CTD Structure/Module 4 Nonclinical Study Reports"),
  ("4", "organized_ctd/CTD Structure/Module 4 Nonclinical Study Reports"),
  ("4.2 Study Reports", "organized_ctd/CTD Structure/Module 4 Nonclinical Study Reports/4.2 Study Reports"),
  ("4.2", "organized_ctd/CTD Structure/Module 4 Nonclinical Study Reports/4.2 Study Reports"),
  ("4.2.1 Pharmacology", "organized_ctd/CTD Structure/Module 4 Nonclinical Study Reports/4.2 Study Reports/4.2.1 Pharmacology"),
  ("4.2.1", "organized_ctd/CTD Structure/Module 4 Nonclinical Study Reports/4.2 Study Reports/4.2.1 Pharmacology"),
  ("4.2.1.1 Primary Pharmacodynamics", "organized_ctd/CTD Structure/Module 4 Nonclinical Study Reports/4.2 Study Reports/4.2.1 Pharmacology/4.2.1.1 Primary Pharmacodynamics"),
  ("4.2.1.1", "organized_ctd/CTD Structure/Module 4 Nonclinical Study Reports/4.2 Study Reports/4.2.1 Pharmacology/4.2.1.1 Primary Pharmacodynamics"),
  ("4.2.1.2 Secondary Pharmacodynamics", "organized_ctd/CTD Structure/Module 4 Nonclinical Study Reports/4.2 Study Reports/4.2.1 Pharmacology/4.2.1.2 Secondary Pharmacodynamics"),
  ("4.2.1.2", "organized_ctd/CTD Structure/Module 4 Nonclinical Study Reports/4.2 Study Reports/4.2.1 Pharmacology/4.2.1.2 Secondary Pharmacodynamics"),
  ("4.2.1.3 Safety Pharmacology", "organized_ctd/CTD Structure/Module 4 Nonclinical Study Reports/4.2 Study Reports/4.2.1 Pharmacology/4.2.1.3 Safety Pharmacology"),
  ("4.2.1.3", "organized_ctd/CTD Structure/Module 4 Nonclinical Study Reports/4.2 Study Reports/4.2.1 Pharmacology/4.2.1.3 Safety Pharmacology"),
  ("4.2.1.4 Pharmacodynamic Drug Interactions", "organized_ctd/CTD Structure/Module 4 Nonclinical Study Reports/4.2 Study Reports/4.2.1 Pharmacology/4.2.1.4 Pharmacodynamic Drug Interactions"),
  ("4.2.1.4", "organized_ctd/CTD Structure/Module 4 Nonclinical Study Reports/4.2 Study Reports/4.2.1 Pharmacology/4.2.1.4 Pharmacodynamic Drug Interactions"),
  ("4.2.2 Pharmacokinetics", "organized_ctd/CTD Structure/Module 4 Nonclinical Study Reports/4.2 Study Reports/4.2.2 Pharmacokinetics"),
  ("4.2.2", "organized_ctd/CTD Structure/Module 4 Nonclinical Study Reports/4.2 Study Reports/4.2.2 Pharmacokinetics"),
  ("4.2.2.1 Analytical Methods and Validation", "organized_ctd/CTD Structure/Module 4 Nonclinical Study Reports/4.2 Study Reports/4.2.2 Pharmacokinetics/4.2.2.1 Analytical Methods and Validation"),
  ("4.2.2.1", "organized_ctd/CTD Structure/Module 4 Nonclinical Study Reports/4.2 Study Reports/4.2.2 Pharmacokinetics/4.2.2.1 Analytical Methods and Validation"),
  ("4.2.2.2 Absorption", "organized_ctd/CTD Structure/Module 4 Nonclinical Study Reports/4.2 Study Reports/4.2.2 Pharmacokinetics/4.2.2.2 Absorption"),
  ("4.2.2.2", "organized_ctd/CTD Structure/Module 4 Nonclinical Study Reports/4.2 Study Reports/4.2.2 Pharmacokinetics/4.2.2.2 Absorption"),
  ("4.2.2.3 Distribution", "organized_ctd/CTD Structure/Module 4 Nonclinical Study Reports/4.2 Study Reports/4.2.2 Pharmacokinetics/4.2.2.3 Distribution"),
  ("4.2.2.3", "organized_ctd/CTD Structure/Module 4 Nonclinical Study Reports/4.2 Study Reports/4.2.2 Pharmacokinetics/4.2.2.3 Distribution"),
  ("4.2.2.4 Metabolism", "organized_ctd/CTD Structure/Module 4 Nonclinical Study Reports/4.2 Study Reports/4.2.2 Pharmacokinetics/4.2.2.4 Metabolism"),
  ("4.2.2.4", "organized_ctd/CTD Structure/Module 4 Nonclinical Study Reports/4.2 Study Reports/4.2.2 Pharmacokinetics/4.2.2.4 Metabolism"),
  ("4.2.2.5 Excretion", "organized_ctd/CTD Structure/Module 4 Nonclinical Study Reports/4.2 Study Reports/4.2.2 Pharmacokinetics/4.2.2.5 Excretion"),
  ("4.2.2.5", "organized_ctd/CTD Structure/Module 4 Nonclinical Study Reports/4.2 Study Reports/4.2.2 Pharmacokinetics/4.2.2.5 Excretion"),
  ("4.2.2.6 Pharmacokinetic Drug Interactions", "organized_ctd/CTD Structure/Module 4 Nonclinical Study Reports/4.2 Study Reports/4.2.2 Pharmacokinetics/4.2.2.6 Pharmacokinetic Drug Interactions"),
  ("4.2.2.6", "organized_ctd/CTD Structure/Module 4 Nonclinical Study Reports/4.2 Study Reports/4.2.2 Pharmacokinetics/4.2.2.6 Pharmacokinetic Drug Interactions"),
  ("4.2.2.7 Other Pharmacokinetic Studies", "organized_ctd/CTD Structure/Module 4 Nonclinical Study Reports/4.2 Study Reports/4.2.2 Pharmacokinetics/4.2.2.7 Other Pharmacokinetic Studies"),
  ("4.2.2.7", "organized_ctd/CTD Structure/Module 4 Nonclinical Study Reports/4.2 Study Reports/4.2.2 Pharmacokinetics/4.2.2.7 Other Pharmacokinetic Studies"),
  ("4.2.3 Toxicology", "organized_ctd/CTD Structure/Module 4 Nonclinical Study Reports/4.2 Study Reports/4.2.3 Toxicology"),
  ("4.2.3", "organized_ctd/CTD Structure/Module 4 Nonclinical Study Reports/4.2 Study Reports/4.2.3 Toxicology"),
  ("4.2.3.1 Single-Dose Toxicity", "organized_ctd/CTD Structure/Module 4 Nonclinical Study Reports/4.2 Study Reports/4.2.3 Toxicology/4.2.3.1 Single-Dose Toxicity"),
  ("4.2.3.1", "organized_ctd/CTD Structure/Module 4 Nonclinical Study Reports/4.2 Study Reports/4.2.3 Toxicology/4.2.3.1 Single-Dose Toxicity"),
  ("4.2.3.2 Repeat-Dose Toxicity", "organized_ctd/CTD Structure/Module 4 Nonclinical Study Reports/4.2 Study Reports/4.2.3 Toxicology/4.2.3.2 Repeat-Dose Toxicity"),
  ("4.2.3.2", "organized_ctd/CTD Structure/Module 4 Nonclinical Study Reports/4.2 Study Reports/4.2.3 Toxicology/4.2.3.2 Repeat-Dose Toxicity"),
  ("4.2.3.3 Genotoxicity", "organized_ctd/CTD Structure/Module 4 Nonclinical Study Reports/4.2 Study Reports/4.2.3 Toxicology/4.2.3.3 Genotoxicity"),
  ("4.2.3.3", "organized_ctd/CTD Structure/Module 4 Nonclinical Study Reports/4.2 Study Reports/4.2.3 Toxicology/4.2.3.3 Genotoxicity"),
  ("4.2.3.4 Carcinogenicity", "organized_ctd/CTD Structure/Module 4 Nonclinical Study Reports/4.2 Study Reports/4.2.3 Toxicology/4.2.3.4 Carcinogenicity"),
  ("4.2.3.4", "organized_ctd/CTD Structure/Module 4 Nonclinical Study Reports/4.2 Study Reports/4.2.3 Toxicology/4.2.3.4 Carcinogenicity"),
  ("4.2.3.5 Reproductive and Developmental Toxicity", "organized_ctd/CTD Structure/Module 4 Nonclinical Study Reports/4.2 Study Reports/4.2.3 Toxicology/4.2.3.5 Reproductive and Developmental Toxicity"),
  ("4.2.3.5", "organized_ctd/CTD Structure/Module 4 Nonclinical Study Reports/4.2 Study Reports/4.2.3 Toxicology/4.2.3.5 Reproductive and Developmental Toxicity"),
  ("4.2.3.6 Local Tolerance", "organized_ctd/CTD Structure/Module 4 Nonclinical Study Reports/4.2 Study Reports/4.2.3 Toxicology/4.2.3.6 Local Tolerance"),
  ("4.2.3.6", "organized_ctd/CTD Structure/Module 4 Nonclinical Study Reports/4.2 Study Reports/4.2.3 Toxicology/4.2.3.6 Local Tolerance"),
  ("4.2.3.7 Other Toxicity Studies", "organized_ctd/CTD Structure/Module 4 Nonclinical Study Reports/4.2 Study Reports/4.2.3 Toxicology/4.2.3.7 Other Toxicity Studies"),
  ("4.2.3.7", "organized_ctd/CTD Structure/Module 4 Nonclinical Study Reports/4.2 Study Reports/4.2.3 Toxicology/4.2.3.7 Other Toxicity Studies"),
  ("4.3 Literature References", "organized_ctd/CTD Structure/Module 4 Nonclinical Study Reports/4.3 Literature References"),
  ("4.3", "organized_ctd/CTD Structure/Module 4 Nonclinical Study Reports/4.3 Literature References"),
  ("Module 5 Clinical Study Reports", "organized_ctd/CTD Structure/Module 5 Clinical Study Reports"),
  ("5", "organized_ctd/CTD Structure/Module 5 Clinical Study Reports"),
  ("5.2 Tabular Listing of all Clinical Studies", "organized_ctd/CTD Structure/Module 5 Clinical Study Reports/5.2 Tabular Listing of all Clinical Studies"),
  ("5.2", "organized_ctd/CTD Structure/Module 5 Clinical Study Reports/5.2 Tabular Listing of all Clinical Studies"),
  ("5.3 Clinical Study Reports and Related Information", "organized_ctd/CTD Structure/Module 5 Clinical Study Reports/5.3 Clinical Study Reports and Related Information"),
  ("5.3", "organized_ctd/CTD Structure/Module 5 Clinical Study Reports/5.3 Clinical Study Reports and Related Information"),
  ("5.3.1 Reports of Biopharmaceutic Studies", "organized_ctd/CTD Structure/Module 5 Clinical Study Reports/5.3 Clinical Study Reports and Related Information/5.3.1 Reports of Biopharmaceutic Studies"),
  ("5.3.1", "organized_ctd/CTD Structure/Module 5 Clinical Study Reports/5.3 Clinical Study Reports and Related Information/5.3.1 Reports of Biopharmaceutic Studies"),
  ("5.3.1.1 Bioavailability (BA) Study Reports", "organized_ctd/CTD Structure/Module 5 Clinical Study Reports/5.3 Clinical Study Reports and Related Information/5.3.1 Reports of Biopharmaceutic Studies/5.3.1.1 Bioavailability (BA) Study Reports"),
  ("5.3.1.1", "organized_ctd/CTD Structure/Module 5 Clinical Study Reports/5.3 Clinical Study Reports and Related Information/5.3.1 Reports of Biopharmaceutic Studies/5.3.1.1 Bioavailability (BA) Study Reports"),
  ("5.3.1.2 Comparative BA and BE Study Reports", "organized_ctd/CTD Structure/Module 5 Clinical Study Reports/5.3 Clinical Study Reports and Related Information/5.3.1 Reports of Biopharmaceutic Studies/5.3.1.2 Comparative BA and BE Study Reports"),
  ("5.3.1.2", "organized_ctd/CTD Structure/Module 5 Clinical Study Reports/5.3 Clinical Study Reports and Related Information/5.3.1 Reports of Biopharmaceutic Studies/5.3.1.2 Comparative BA and BE Study Reports"),
  ("5.3.1.3 In Vitro - In Vivo Correlation", "organized_ctd/CTD Structure/Module 5 Clinical Study Reports/5.3 Clinical Study Reports and Related Information/5.3.1 Reports of Biopharmaceutic Studies/5.3.1.3 In Vitro - In Vivo Correlation"),
  ("5.3.1.3", "organized_ctd/CTD Structure/Module 5 Clinical Study Reports/5.3 Clinical Study Reports and Related Information/5.3.1 Reports of Biopharmaceutic Studies/5.3.1.3 In Vitro - In Vivo Correlation"),
  ("5.3.1.4 Bioanalytical Methods", "organized_ctd/CTD Structure/Module 5 Clinical Study Reports/5.3 Clinical Study Reports and Related Information/5.3.1 Reports of Biopharmaceutic Studies/5.3.1.4 Bioanalytical Methods"),
  ("5.3.1.4", "organized_ctd/CTD Structure/Module 5 Clinical Study Reports/5.3 Clinical Study Reports and Related Information/5.3.1 Reports of Biopharmaceutic Studies/5.3.1.4 Bioanalytical Methods"),
  ("5.3.2 Reports of Studies Pertinent to Pharmacokinetics", "organized_ctd/CTD Structure/Module 5 Clinical Study Reports/5.3 Clinical Study Reports and Related Information/5.3.2 Reports of Studies Pertinent to Pharmacokinetics"),
  ("5.3.2", "organized_ctd/CTD Structure/Module 5 Clinical Study Reports/5.3 Clinical Study Reports and Related Information/5.3.2 Reports of Studies Pertinent to Pharmacokinetics"),
  ("5.3.2.1 Plasma Protein Binding", "organized_ctd/CTD Structure/Module 5 Clinical Study Reports/5.3 Clinical Study Reports and Related Information/5.3.2 Reports of Studies Pertinent to Pharmacokinetics/5.3.2.1 Plasma Protein Binding"),
  ("5.3.2.1", "organized_ctd/CTD Structure/Module 5 Clinical Study Reports/5.3 Clinical Study Reports and Related Information/5.3.2 Reports of Studies Pertinent to Pharmacokinetics/5.3.2.1 Plasma Protein Binding"),
  ("5.3.2.2 Hepatic Metabolism and Drug Interaction", "organized_ctd/CTD Structure/Module 5 Clinical Study Reports/5.3 Clinical Study Reports and Related Information/5.3.2 Reports of Studies Pertinent to Pharmacokinetics/5.3.2.2 Hepatic Metabolism and Drug Interaction"),
  ("5.3.2.2", "organized_ctd/CTD Structure/Module 5 Clinical Study Reports/5.3 Clinical Study Reports and Related Information/5.3.2 Reports of Studies Pertinent to Pharmacokinetics/5.3.2.2 Hepatic Metabolism and Drug Interaction"),
  ("5.3.2.3 Other Human Biomaterials", "organized_ctd/CTD Structure/Module 5 Clinical Study Reports/5.3 Clinical Study Reports and Related Information/5.3.2 Reports of Studies Pertinent to Pharmacokinetics/5.3.2.3 Other Human Biomaterials"),
  ("5.3.2.3", "organized_ctd/CTD Structure/Module 5 Clinical Study Reports/5.3 Clinical Study Reports and Related Information/5.3.2 Reports of Studies Pertinent to Pharmacokinetics/5.3.2.3 Other Human Biomaterials"),
  ("5.3.3 Reports of Human Pharmacokinetic Studies", "organized_ctd/CTD Structure/Module 5 Clinical Study Reports/5.3 Clinical Study Reports and Related Information/5.3.3 Reports of Human Pharmacokinetic Studies"),
  ("5.3.3", "organized_ctd/CTD Structure/Module 5 Clinical Study Reports/5.3 Clinical Study Reports and Related Information/5.3.3 Reports of Human Pharmacokinetic Studies"),
  ("5.3.3.1 Healthy Subject PK", "organized_ctd/CTD Structure/Module 5 Clinical Study Reports/5.3 Clinical Study Reports and Related Information/5.3.3 Reports of Human Pharmacokinetic Studies/5.3.3.1 Healthy Subject PK"),
  ("5.3.3.1", "organized_ctd/CTD Structure/Module 5 Clinical Study Reports/5.3 Clinical Study Reports and Related Information/5.3.3 Reports of Human Pharmacokinetic Studies/5.3.3.1 Healthy Subject PK"),
  ("5.3.3.2 Patient PK", "organized_ctd/CTD Structure/Module 5 Clinical Study Reports/5.3 Clinical Study Reports and Related Information/5.3.3 Reports of Human Pharmacokinetic Studies/5.3.3.2 Patient PK"),
  ("5.3.3.2", "organized_ctd/CTD Structure/Module 5 Clinical Study Reports/5.3 Clinical Study Reports and Related Information/5.3.3 Reports of Human Pharmacokinetic Studies/5.3.3.2 Patient PK"),
  ("5.3.3.3 Intrinsic Factor PK", "organized_ctd/CTD Structure/Module 5 Clinical Study Reports/5.3 Clinical Study Reports and Related Information/5.3.3 Reports of Human Pharmacokinetic Studies/5.3.3.3 Intrinsic Factor PK"),
  ("5.3.3.3", "organized_ctd/CTD Structure/Module 5 Clinical Study Reports/5.3 Clinical Study Reports and Related Information/5.3.3 Reports of Human Pharmacokinetic Studies/5.3.3.3 Intrinsic Factor PK"),
  ("5.3.3.4 Extrinsic Factor PK", "organized_ctd/CTD Structure/Module 5 Clinical Study Reports/5.3 Clinical Study Reports and Related Information/5.3.3 Reports of Human Pharmacokinetic Studies/5.3.3.4 Extrinsic Factor PK"),
  ("5.3.3.4", "organized_ctd/CTD Structure/Module 5 Clinical Study Reports/5.3 Clinical Study Reports and Related Information/5.3.3 Reports of Human Pharmacokinetic Studies/5.3.3.4 Extrinsic Factor PK"),
  ("5.3.3.5 Population PK", "organized_ctd/CTD Structure/Module 5 Clinical Study Reports/5.3 Clinical Study Reports and Related Information/5.3.3 Reports of Human Pharmacokinetic Studies/5.3.3.5 Population PK"),
  ("5.3.3.5", "organized_ctd/CTD Structure/Module 5 Clinical Study Reports/5.3 Clinical Study Reports and Related Information/5.3.3 Reports of Human Pharmacokinetic Studies/5.3.3.5 Population PK"),
  ("5.3.4 Reports of Human Pharmacodynamic Studies", "organized_ctd/CTD Structure/Module 5 Clinical Study Reports/5.3 Clinical Study Reports and Related Information/5.3.4 Reports of Human Pharmacodynamic Studies"),
  ("5.3.4", "organized_ctd/CTD Structure/Module 5 Clinical Study Reports/5.3 Clinical Study Reports and Related Information/5.3.4 Reports of Human Pharmacodynamic Studies"),
  ("5.3.4.1 Healthy Subject PD", "organized_ctd/CTD Structure/Module 5 Clinical Study Reports/5.3 Clinical Study Reports and Related Information/5.3.4 Reports of Human Pharmacodynamic Studies/5.3.4.1 Healthy Subject PD"),
  ("5.3.4.1", "organized_ctd/CTD Structure/Module 5 Clinical Study Reports/5.3 Clinical Study Reports and Related Information/5.3.4 Reports of Human Pharmacodynamic Studies/5.3.4.1 Healthy Subject PD"),
  ("5.3.4.2 Patient PD", "organized_ctd/CTD Structure/Module 5 Clinical Study Reports/5.3 Clinical Study Reports and Related Information/5.3.4 Reports of Human Pharmacodynamic Studies/5.3.4.2 Patient PD"),
  ("5.3.4.2", "organized_ctd/CTD Structure/Module 5 Clinical Study Reports/5.3 Clinical Study Reports and Related Information/5.3.4 Reports of Human Pharmacodynamic Studies/5.3.4.2 Patient PD"),
  ("5.3.5 Reports of Efficacy and Safety Studies", "organized_ctd/CTD Structure/Module 5 Clinical Study Reports/5.3 Clinical Study Reports and Related Information/5.3.5 Reports of Efficacy and Safety Studies"),
  ("5.3.5", "organized_ctd/CTD Structure/Module 5 Clinical Study Reports/5.3 Clinical Study Reports and Related Information/5.3.5 Reports of Efficacy and Safety Studies"),
  ("5.3.5.1 Controlled Clinical Studies", "organized_ctd/CTD Structure/Module 5 Clinical Study Reports/5.3 Clinical Study Reports and Related Information/5.3.5 Reports of Efficacy and Safety Studies/5.3.5.1 Controlled Clinical Studies"),
  ("5.3.5.1", "organized_ctd/CTD Structure/Module 5 Clinical Study Reports/5.3 Clinical Study Reports and Related Information/5.3.5 Reports of Efficacy and Safety Studies/5.3.5.1 Controlled Clinical Studies"),
  ("5.3.5.2 Uncontrolled Clinical Studies", "organized_ctd/CTD Structure/Module 5 Clinical Study Reports/5.3 Clinical Study Reports and Related Information/5.3.5 Reports of Efficacy and Safety Studies/5.3.5.2 Uncontrolled Clinical Studies"),
  ("5.3.5.2", "organized_ctd/CTD Structure/Module 5 Clinical Study Reports/5.3 Clinical Study Reports and Related Information/5.3.5 Reports of Efficacy and Safety Studies/5.3.5.2 Uncontrolled Clinical Studies"),
  ("5.3.5.3 Analyses from Multiple Studies", "organized_ctd/CTD Structure/Module 5 Clinical Study Reports/5.3 Clinical Study Reports and Related Information/5.3.5 Reports of Efficacy and Safety Studies/5.3.5.3 Analyses from Multiple Studies"),
  ("5.3.5.3", "organized_ctd/CTD Structure/Module 5 Clinical Study Reports/5.3 Clinical Study Reports and Related Information/5.3.5 Reports of Efficacy and Safety Studies/5.3.5.3 Analyses from Multiple Studies"),
  ("5.3.5.4 Other Study Reports", "organized_ctd/CTD Structure/Module 5 Clinical Study Reports/5.3 Clinical Study Reports and Related Information/5.3.5 Reports of Efficacy and Safety Studies/5.3.5.4 Other Study Reports"),
  ("5.3.5.4", "organized_ctd/CTD Structure/Module 5 Clinical Study Reports/5.3 Clinical Study Reports and Related Information/5.3.5 Reports of Efficacy and Safety Studies/5.3.5.4 Other Study Reports"),
  ("5.4 Literature References", "organized_ctd/CTD Structure/Module 5 Clinical Study Reports/5.4 Literature References"),
  ("5.4", "organized_ctd/CTD Structure/Module 5 Clinical Study Reports/5.4 Literature References")]

/-- The depth-first (name, folder path) node list of the taxonomy, as a
literal, for chunked evaluation of the folder mapping. -/
def ctdFlatList : List (String × String) :=
[("CTD Structure", "organized_ctd/CTD Structure"),
 ("Module 1 Administrative Information and Prescribing Information",
  "organized_ctd/CTD Structure/Module 1 Administrative Information and Prescribing Information"),
 ("1.0 Correspondence",
  "organized_ctd/CTD Structure/Module 1 Administrative Information and Prescribing Information/1.0 Correspondence"),
 ("1.0.1 Cover Letter",
  "organized_ctd/CTD Structure/Module 1 Administrative Information and Prescribing Information/1.0 Correspondence/1.0.1 Cover Letter"),
 ("1.0.2 General Note to Reviewer",
  "organized_ctd/CTD Structure/Module 1 Administrative Information and Prescribing Information/1.0 Correspondence/1.0.2 General Note to Reviewer"),
 ("1.0.3 Life Cycle Management Tracking Table",
  "organized_ctd/CTD Structure/Module 1 Administrative Information and Prescribing Information/1.0 Correspondence/1.0.3 Life Cycle Management Tracking Table"),
 ("1.0.4 Correspondence Issued by Regulatory Authority",
  "organized_ctd/CTD Structure/Module 1 Administrative Information and Prescribing Information/1.0 Correspondence/1.0.4 Correspondence Issued by Regulatory Authority"),
 ("1.0.5 Response to Information Solicited by Regulatory Authority",
  "organized_ctd/CTD Structure/Module 1 Administrative Information and Prescribing Information/1.0 Correspondence/1.0.5 Response to Information Solicited by Regulatory Authority"),
 ("1.0.6 Meeting Information",
  "organized_ctd/CTD Structure/Module 1 Administrative Information and Prescribing Information/1.0 Correspondence/1.0.6 Meeting Information"),
 ("1.0.7 Request for Appeal Documentation",
  "organized_ctd/CTD Structure/Module 1 Administrative Information and Prescribing Information/1.0 Correspondence/1.0.7 Request for Appeal Documentation"),
 ("1.2 Administrative Information",
  "organized_ctd/CTD Structure/Module 1 Administrative Information and Prescribing Information/1.2 Administrative Information"),
 ("1.2.1 Application Form",
  "organized_ctd/CTD Structure/Module 1 Administrative Information and Prescribing Information/1.2 Administrative Information/1.2.1 Application Form"),
 ("1.2.2 Fee Forms",
  "organized_ctd/CTD Structure/Module 1 Administrative Information and Prescribing Information/1.2 Administrative Information/1.2.2 Fee Forms"),
 ("1.2.3 Certification and Attestation Forms",
  "organized_ctd/CTD Structure/Module 1 Administrative Information and Prescribing Information/1.2 Administrative Information/1.2.3 Certification and Attestation Forms"),
 ("1.2.4 Compliance and Site Information",
  "organized_ctd/CTD Structure/Module 1 Administrative Information and Prescribing Information/1.2 Administrative Information/1.2.4 Compliance and Site Information"),
 ("1.2.5 Authorization for Sharing Information",
  "organized_ctd/CTD Structure/Module 1 Administrative Information and Prescribing Information/1.2 Administrative Information/1.2.5 Authorization for Sharing Information"),
 ("1.2.6 Electronic Declaration",
  "organized_ctd/CTD Structure/Module 1 Administrative Information and Prescribing Information/1.2 Administrative Information/1.2.6 Electronic Declaration"),
 ("1.2.7 Trademark & Intellectual Property Information",
  "organized_ctd/CTD Structure/Module 1 Administrative Information and Prescribing Information/1.2 Administrative Information/1.2.7 Trademark & Intellectual Property Information"),
 ("1.2.8 Screening Details",
  "organized_ctd/CTD Structure/Module 1 Administrative Information and Prescribing Information/1.2 Administrative Information/1.2.8 Screening Details"),
 ("1.2.A Additional Administrative Information",
  "organized_ctd/CTD Structure/Module 1 Administrative Information and Prescribing Information/1.2 Administrative Information/1.2.A Additional Administrative Information"),
 ("1.3 Product Information",
  "organized_ctd/CTD Structure/Module 1 Administrative Information and Prescribing Information/1.3 Product Information"),
 ("1.3.1 Summary of Product Characteristics (SmPC)",
  "organized_ctd/CTD Structure/Module 1 Administrative Information and Prescribing Information/1.3 Product Information/1.3.1 Summary of Product Characteristics (SmPC)"),
 ("1.3.1.1 Approved - SmPC",
  "organized_ctd/CTD Structure/Module 1 Administrative Information and Prescribing Information/1.3 Product Information/1.3.1 Summary of Product Characteristics (SmPC)/1.3.1.1 Approved - SmPC"),
 ("1.3.1.1.1 Approved - SmPC - English",
  "organized_ctd/CTD Structure/Module 1 Administrative Information and Prescribing Information/1.3 Product Information/1.3.1 Summary of Product Characteristics (SmPC)/1.3.1.1 Approved - SmPC/1.3.1.1.1 Approved - SmPC - English"),
 ("1.3.1.1.2 Approved - SmPC - French",
  "organized_ctd/CTD Structure/Module 1 Administrative Information and Prescribing Information/1.3 Product Information/1.3.1 Summary of Product Characteristics (SmPC)/1.3.1.1 Approved - SmPC/1.3.1.1.2 Approved - SmPC - French"),
 ("1.3.1.1.3 Approved - SmPC - Portuguese",
  "organized_ctd/CTD Structure/Module 1 Administrative Information and Prescribing Information/1.3 Product Information/1.3.1 Summary of Product Characteristics (SmPC)/1.3.1.1 Approved - SmPC/1.3.1.1.3 Approved - SmPC - Portuguese"),
 ("1.3.1.2 Clean - SmPC",
  "organized_ctd/CTD Structure/Module 1 Administrative Information and Prescribing Information/1.3 Product Information/1.3.1 Summary of Product Characteristics (SmPC)/1.3.1.2 Clean - SmPC"),
 ("1.3.1.2.1 Clean - SmPC - English",
  "organized_ctd/CTD Structure/Module 1 Administrative Information and Prescribing Information/1.3 Product Information/1.3.1 Summary of Product Characteristics (SmPC)/1.3.1.2 Clean - SmPC/1.3.1.2.1 Clean - SmPC - English"),
 ("1.3.1.2.2 Clean - SmPC - French",
  "organized_ctd/CTD Structure/Module 1 Administrative Information and Prescribing Information/1.3 Product Information/1.3.1 Summary of Product Characteristics (SmPC)/1.3.1.2 Clean - SmPC/1.3.1.2.2 Clean - SmPC - French"),
 ("1.3.1.2.3 Clean - SmPC - Portuguese",
  "organized_ctd/CTD Structure/Module 1 Administrative Information and Prescribing Information/1.3 Product Information/1.3.1 Summary of Product Characteristics (SmPC)/1.3.1.2 Clean - SmPC/1.3.1.2.3 Clean - SmPC - Portuguese"),
 ("1.3.1.3 Annotated - SmPC",
  "organized_ctd/CTD Structure/Module 1 Administrative Information and Prescribing Information/1.3 Product Information/1.3.1 Summary of Product Characteristics (SmPC)/1.3.1.3 Annotated - SmPC"),
 ("1.3.1.3.1 Annotated - SmPC - English",
  "organized_ctd/CTD Structure/Module 1 Administrative Information and Prescribing Information/1.3 Product Information/1.3.1 Summary of Product Characteristics (SmPC)/1.3.1.3 Annotated - SmPC/1.3.1.3.1 Annotated - SmPC - English"),
 ("1.3.1.3.2 Annotated - SmPC - French",
  "organized_ctd/CTD Structure/Module 1 Administrative Information and Prescribing Information/1.3 Product Information/1.3.1 Summary of Product Characteristics (SmPC)/1.3.1.3 Annotated - SmPC/1.3.1.3.2 Annotated - SmPC - French"),
 ("1.3.1.3.3 Annotated - SmPC - Portuguese",
  "organized_ctd/CTD Structure/Module 1 Administrative Information and Prescribing Information/1.3 Product Information/1.3.1 Summary of Product Characteristics (SmPC)/1.3.1.3 Annotated - SmPC/1.3.1.3.3 Annotated - SmPC - Portuguese"),
 ("1.3.2 Patient Information Leaflet (PIL)",
  "organized_ctd/CTD Structure/Module 1 Administrative Information and Prescribing Information/1.3 Product Information/1.3.2 Patient Information Leaflet (PIL)"),
 ("1.3.2.1 Approved - PIL",
  "organized_ctd/CTD Structure/Module 1 Administrative Information and Prescribing Information/1.3 Product Information/1.3.2 Patient Information Leaflet (PIL)/1.3.2.1 Approved - PIL"),
 ("1.3.2.1.1 Approved - PIL - English",
  "organized_ctd/CTD Structure/Module 1 Administrative Information and Prescribing Information/1.3 Product Information/1.3.2 Patient Information Leaflet (PIL)/1.3.2.1 Approved - PIL/1.3.2.1.1 Approved - PIL - English"),
 ("1.3.2.1.2 Approved - PIL - French",
  "organized_ctd/CTD Structure/Module 1 Administrative Information and Prescribing Information/1.3 Product Information/1.3.2 Patient Information Leaflet (PIL)/1.3.2.1 Approved - PIL/1.3.2.1.2 Approved - PIL - French"),
 ("1.3.2.1.3 Approved - PIL - Portuguese",
  "organized_ctd/CTD Structure/Module 1 Administrative Information and Prescribing Information/1.3 Product Information/1.3.2 Patient Information Leaflet (PIL)/1.3.2.1 Approved - PIL/1.3.2.1.3 Approved - PIL - Portuguese"),
 ("1.3.2.2 Clean - PIL",
  "organized_ctd/CTD Structure/Module 1 Administrative Information and Prescribing Information/1.3 Product Information/1.3.2 Patient Information Leaflet (PIL)/1.3.2.2 Clean - PIL"),
 ("1.3.2.2.1 Clean - PIL - English",
  "organized_ctd/CTD Structure/Module 1 Administrative Information and Prescribing Information/1.3 Product Information/1.3.2 Patient Information Leaflet (PIL)/1.3.2.2 Clean - PIL/1.3.2.2.1 Clean - PIL - English"),
 ("1.3.2.2.2 Clean - PIL - French",
  "organized_ctd/CTD Structure/Module 1 Administrative Information and Prescribing Information/1.3 Product Information/1.3.2 Patient Information Leaflet (PIL)/1.3.2.2 Clean - PIL/1.3.2.2.2 Clean - PIL - French"),
 ("1.3.2.2.3 Clean - PIL - Portuguese",
  "organized_ctd/CTD Structure/Module 1 Administrative Information and Prescribing Information/1.3 Product Information/1.3.2 Patient Information Leaflet (PIL)/1.3.2.2 Clean - PIL/1.3.2.2.3 Clean - PIL - Portuguese"),
 ("1.3.2.3 Annotated - PIL",
  "organized_ctd/CTD Structure/Module 1 Administrative Information and Prescribing Information/1.3 Product Information/1.3.2 Patient Information Leaflet (PIL)/1.3.2.3 Annotated - PIL"),
 ("1.3.2.3.1 Annotated - PIL - English",
  "organized_ctd/CTD Structure/Module 1 Administrative Information and Prescribing Information/1.3 Product Information/1.3.2 Patient Information Leaflet (PIL)/1.3.2.3 Annotated - PIL/1.3.2.3.1 Annotated - PIL - English"),
 ("1.3.2.3.2 Annotated - PIL - French",
  "organized_ctd/CTD Structure/Module 1 Administrative Information and Prescribing Information/1.3 Product Information/1.3.2 Patient Information Leaflet (PIL)/1.3.2.3 Annotated - PIL/1.3.2.3.2 Annotated - PIL - French"),
 ("1.3.2.3.3 Annotated - PIL - Portuguese",
  "organized_ctd/CTD Structure/Module 1 Administrative Information and Prescribing Information/1.3 Product Information/1.3.2 Patient Information Leaflet (PIL)/1.3.2.3 Annotated - PIL/1.3.2.3.3 Annotated - PIL - Portuguese"),
 ("1.3.3 Container Labels",
  "organized_ctd/CTD Structure/Module 1 Administrative Information and Prescribing Information/1.3 Product Information/1.3.3 Container Labels"),
 ("1.3.3.1 Approved - Container Labels",
  "organized_ctd/CTD Structure/Module 1 Administrative Information and Prescribing Information/1.3 Product Information/1.3.3 Container Labels/1.3.3.1 Approved - Container Labels"),
 ("1.3.3.1.1 Approved - Container Labels - English",
  "organized_ctd/CTD Structure/Module 1 Administrative Information and Prescribing Information/1.3 Product Information/1.3.3 Container Labels/1.3.3.1 Approved - Container Labels/1.3.3.1.1 Approved - Container Labels - English"),
 ("1.3.3.1.2 Approved - Container Labels - French",
  "organized_ctd/CTD Structure/Module 1 Administrative Information and Prescribing Information/1.3 Product Information/1.3.3 Container Labels/1.3.3.1 Approved - Container Labels/1.3.3.1.2 Approved - Container Labels - French"),
 ("1.3.3.1.3 Approved - Container Labels - Portuguese",
  "organized_ctd/CTD Structure/Module 1 Administrative Information and Prescribing Information/1.3 Product Information/1.3.3 Container Labels/1.3.3.1 Approved - Container Labels/1.3.3.1.3 Approved - Container Labels - Portuguese"),
 ("1.3.3.2 Clean - Container Labels",
  "organized_ctd/CTD Structure/Module 1 Administrative Information and Prescribing Information/1.3 Product Information/1.3.3 Container Labels/1.3.3.2 Clean - Container Labels"),
 ("1.3.3.2.1 Clean - Container Labels - English",
  "organized_ctd/CTD Structure/Module 1 Administrative Information and Prescribing Information/1.3 Product Information/1.3.3 Container Labels/1.3.3.2 Clean - Container Labels/1.3.3.2.1 Clean - Container Labels - English"),
 ("1.3.3.2.2 Clean - Container Labels - French",
  "organized_ctd/CTD Structure/Module 1 Administrative Information and Prescribing Information/1.3 Product Information/1.3.3 Container Labels/1.3.3.2 Clean - Container Labels/1.3.3.2.2 Clean - Container Labels - French"),
 ("1.3.3.2.3 Clean - Container Labels - Portuguese",
  "organized_ctd/CTD Structure/Module 1 Administrative Information and Prescribing Information/1.3 Product Information/1.3.3 Container Labels/1.3.3.2 Clean - Container Labels/1.3.3.2.3 Clean - Container Labels - Portuguese"),
 ("1.3.3.3 Annotated - Container Labels",
  "organized_ctd/CTD Structure/Module 1 Administrative Information and Prescribing Information/1.3 Product Information/1.3.3 Container Labels/1.3.3.3 Annotated - Container Labels"),
 ("1.3.3.3.1 Annotated - Container Labels - English",
  "organized_ctd/CTD Structure/Module 1 Administrative Information and Prescribing Information/1.3 Product Information/1.3.3 Container Labels/1.3.3.3 Annotated - Container Labels/1.3.3.3.1 Annotated - Container Labels - English"),
 ("1.3.3.3.2 Annotated - Container Labels - French",
  "organized_ctd/CTD Structure/Module 1 Administrative Information and Prescribing Information/1.3 Product Information/1.3.3 Container Labels/1.3.3.3 Annotated - Container Labels/1.3.3.3.2 Annotated - Container Labels - French"),
 ("1.3.3.3.3 Annotated - Container Labels - Portuguese",
  "organized_ctd/CTD Structure/Module 1 Administrative Information and Prescribing Information/1.3 Product Information/1.3.3 Container Labels/1.3.3.3 Annotated - Container Labels/1.3.3.3.3 Annotated - Container Labels - Portuguese"),
 ("1.3.4 Foreign Labelling",
  "organized_ctd/CTD Structure/Module 1 Administrative Information and Prescribing Information/1.3 Product Information/1.3.4 Foreign Labelling"),
 ("1.3.5 Reference Product Labelling",
  "organized_ctd/CTD Structure/Module 1 Administrative Information and Prescribing Information/1.3 Product Information/1.3.5 Reference Product Labelling"),
 ("1.3.6 Artwork and Samples",
  "organized_ctd/CTD Structure/Module 1 Administrative Information and Prescribing Information/1.3 Product Information/1.3.6 Artwork and Samples"),
 ("1.4 Information about the Experts",
  "organized_ctd/CTD Structure/Module 1 Administrative Information and Prescribing Information/1.4 Information about the Experts"),
 ("1.4.1 Quality",
  "organized_ctd/CTD Structure/Module 1 Administrative Information and Prescribing Information/1.4 Information about the Experts/1.4.1 Quality"),
 ("1.4.2 Non-Clinical",
  "organized_ctd/CTD Structure/Module 1 Administrative Information and Prescribing Information/1.4 Information about the Experts/1.4.2 Non-Clinical"),
 ("1.4.3 Clinical",
  "organized_ctd/CTD Structure/Module 1 Administrative Information and Prescribing Information/1.4 Information about the Experts/1.4.3 Clinical"),
 ("1.5 Specific Requirements for Different Types of Applications",
  "organized_ctd/CTD Structure/Module 1 Administrative Information and Prescribing Information/1.5 Specific Requirements for Different Types of Applications"),
 ("1.5.1 Bioequivalence Trial Information",
  "organized_ctd/CTD Structure/Module 1 Administrative Information and Prescribing Information/1.5 Specific Requirements for Different Types of Applications/1.5.1 Bioequivalence Trial Information"),
 ("1.6 Environmental Risk Assessment",
  "organized_ctd/CTD Structure/Module 1 Administrative Information and Prescribing Information/1.6 Environmental Risk Assessment"),
 ("1.6.1 Non-GMO",
  "organized_ctd/CTD Structure/Module 1 Administrative Information and Prescribing Information/1.6 Environmental Risk Assessment/1.6.1 Non-GMO"),
 ("1.6.2 GMO",
  "organized_ctd/CTD Structure/Module 1 Administrative Information and Prescribing Information/1.6 Environmental Risk Assessment/1.6.2 GMO"),
 ("1.7 Good Manufacturing Practice (GMP)",
  "organized_ctd/CTD Structure/Module 1 Administrative Information and Prescribing Information/1.7 Good Manufacturing Practice (GMP)"),
 ("1.7.1 Date of Inspection of Each Site",
  "organized_ctd/CTD Structure/Module 1 Administrative Information and Prescribing Information/1.7 Good Manufacturing Practice (GMP)/1.7.1 Date of Inspection of Each Site"),
 ("1.7.2 Inspection Reports or Equivalent Documents",
  "organized_ctd/CTD Structure/Module 1 Administrative Information and Prescribing Information/1.7 Good Manufacturing Practice (GMP)/1.7.2 Inspection Reports or Equivalent Documents"),
 ("1.7.3 GMP Certificates or Manufacturing Licences",
  "organized_ctd/CTD Structure/Module 1 Administrative Information and Prescribing Information/1.7 Good Manufacturing Practice (GMP)/1.7.3 GMP Certificates or Manufacturing Licences"),
 ("1.7.4 Other GMP Documents",
  "organized_ctd/CTD Structure/Module 1 Administrative Information and Prescribing Information/1.7 Good Manufacturing Practice (GMP)/1.7.4 Other GMP Documents"),
 ("1.8 Information Relating to Pharmacovigilance",
  "organized_ctd/CTD Structure/Module 1 Administrative Information and Prescribing Information/1.8 Information Relating to Pharmacovigilance"),
 ("1.8.1 Pharmacovigilance System",
  "organized_ctd/CTD Structure/Module 1 Administrative Information and Prescribing Information/1.8 Information Relating to Pharmacovigilance/1.8.1 Pharmacovigilance System"),
 ("1.8.2 Risk-management System",
  "organized_ctd/CTD Structure/Module 1 Administrative Information and Prescribing Information/1.8 Information Relating to Pharmacovigilance/1.8.2 Risk-management System"),
 ("1.9 Individual Patient Data - Statement of Availability",
  "organized_ctd/CTD Structure/Module 1 Administrative Information and Prescribing Information/1.9 Individual Patient Data - Statement of Availability"),
 ("1.10 Foreign Regulatory Information",
  "organized_ctd/CTD Structure/Module 1 Administrative Information and Prescribing Information/1.10 Foreign Regulatory Information"),
 ("1.10.1 Regional & Foreign Regulatory Status",
  "organized_ctd/CTD Structure/Module 1 Administrative Information and Prescribing Information/1.10 Foreign Regulatory Information/1.10.1 Regional & Foreign Regulatory Status"),
 ("1.10.2 WHO Type Certificate of Pharmaceutical Product (COPP)",
  "organized_ctd/CTD Structure/Module 1 Administrative Information and Prescribing Information/1.10 Foreign Regulatory Information/1.10.2 WHO Type Certificate of Pharmaceutical Product (COPP)"),
 ("1.10.3 Data Set Similarities and Differences",
  "organized_ctd/CTD Structure/Module 1 Administrative Information and Prescribing Information/1.10 Foreign Regulatory Information/1.10.3 Data Set Similarities and Differences"),
 ("1.10.4 Foreign Evaluation Reports",
  "organized_ctd/CTD Structure/Module 1 Administrative Information and Prescribing Information/1.10 Foreign Regulatory Information/1.10.4 Foreign Evaluation Reports"),
 ("1.A Additional Data",
  "organized_ctd/CTD Structure/Module 1 Administrative Information and Prescribing Information/1.A Additional Data"),
 ("1.A.1 Country Specific Data",
  "organized_ctd/CTD Structure/Module 1 Administrative Information and Prescribing Information/1.A Additional Data/1.A.1 Country Specific Data"),
 ("Module 2 Common Technical Document Summaries",
  "organized_ctd/CTD Structure/Module 2 Common Technical Document Summaries"),
 ("2.2 Introduction to Summary",
  "organized_ctd/CTD Structure/Module 2 Common Technical Document Summaries/2.2 Introduction to Summary"),
 ("2.3 Quality Overall Summary (QOS)",
  "organized_ctd/CTD Structure/Module 2 Common Technical Document Summaries/2.3 Quality Overall Summary (QOS)"),
 ("2.3 Introduction",
  "organized_ctd/CTD Structure/Module 2 Common Technical Document Summaries/2.3 Quality Overall Summary (QOS)/2.3 Introduction"),
 ("2.3.S Drug Substance",
  "organized_ctd/CTD Structure/Module 2 Common Technical Document Summaries/2.3 Quality Overall Summary (QOS)/2.3.S Drug Substance"),
 ("2.3.P Drug Product",
  "organized_ctd/CTD Structure/Module 2 Common Technical Document Summaries/2.3 Quality Overall Summary (QOS)/2.3.P Drug Product"),
 ("2.3.A Appendices",
  "organized_ctd/CTD Structure/Module 2 Common Technical Document Summaries/2.3 Quality Overall Summary (QOS)/2.3.A Appendices"),
 ("2.3.R Regional Information",
  "organized_ctd/CTD Structure/Module 2 Common Technical Document Summaries/2.3 Quality Overall Summary (QOS)/2.3.R Regional Information"),
 ("2.4 Nonclinical Overview",
  "organized_ctd/CTD Structure/Module 2 Common Technical Document Summaries/2.4 Nonclinical Overview"),
 ("2.5 Clinical Overview",
  "organized_ctd/CTD Structure/Module 2 Common Technical Document Summaries/2.5 Clinical Overview"),
 ("2.6 NonClinical Written and Tabulated Summaries",
  "organized_ctd/CTD Structure/Module 2 Common Technical Document Summaries/2.6 NonClinical Written and Tabulated Summaries"),
 ("2.6.1 Introduction",
  "organized_ctd/CTD Structure/Module 2 Common Technical Document Summaries/2.6 NonClinical Written and Tabulated Summaries/2.6.1 Introduction"),
 ("2.6.2 Pharmacology Written Summary",
  "organized_ctd/CTD Structure/Module 2 Common Technical Document Summaries/2.6 NonClinical Written and Tabulated Summaries/2.6.2 Pharmacology Written Summary"),
 ("2.6.3 Pharmacology Tabulated Summary",
  "organized_ctd/CTD Structure/Module 2 Common Technical Document Summaries/2.6 NonClinical Written and Tabulated Summaries/2.6.3 Pharmacology Tabulated Summary"),
 ("2.6.4 Pharmacokinetics Written Summary",
  "organized_ctd/CTD Structure/Module 2 Common Technical Document Summaries/2.6 NonClinical Written and Tabulated Summaries/2.6.4 Pharmacokinetics Written Summary"),
 ("2.6.5 Pharmacokinetics Tabulated Summary",
  "organized_ctd/CTD Structure/Module 2 Common Technical Document Summaries/2.6 NonClinical Written and Tabulated Summaries/2.6.5 Pharmacokinetics Tabulated Summary"),
 ("2.6.6 Toxicology Written Summary",
  "organized_ctd/CTD Structure/Module 2 Common Technical Document Summaries/2.6 NonClinical Written and Tabulated Summaries/2.6.6 Toxicology Written Summary"),
 ("2.6.7 Toxicology Tabulated Summary",
  "organized_ctd/CTD Structure/Module 2 Common Technical Document Summaries/2.6 NonClinical Written and Tabulated Summaries/2.6.7 Toxicology Tabulated Summary"),
 ("2.7 Clinical Summary",
  "organized_ctd/CTD Structure/Module 2 Common Technical Document Summaries/2.7 Clinical Summary"),
 ("2.7.1 Summary of Biopharmaceutic Studies",
  "organized_ctd/CTD Structure/Module 2 Common Technical Document Summaries/2.7 Clinical Summary/2.7.1 Summary of Biopharmaceutic Studies"),
 ("2.7.2 Summary of Clinical Pharmacology Studies",
  "organized_ctd/CTD Structure/Module 2 Common Technical Document Summaries/2.7 Clinical Summary/2.7.2 Summary of Clinical Pharmacology Studies"),
 ("2.7.3 Summary of Clinical Efficacy",
  "organized_ctd/CTD Structure/Module 2 Common Technical Document Summaries/2.7 Clinical Summary/2.7.3 Summary of Clinical Efficacy"),
 ("2.7.4 Summary of Clinical Safety",
  "organized_ctd/CTD Structure/Module 2 Common Technical Document Summaries/2.7 Clinical Summary/2.7.4 Summary of Clinical Safety"),
 ("2.7.5 References",
  "organized_ctd/CTD Structure/Module 2 Common Technical Document Summaries/2.7 Clinical Summary/2.7.5 References"),
 ("2.7.6 Synopses of Individual Studies",
  "organized_ctd/CTD Structure/Module 2 Common Technical Document Summaries/2.7 Clinical Summary/2.7.6 Synopses of Individual Studies"),
 ("Module 3 Quality", "organized_ctd/CTD Structure/Module 3 Quality"),
 ("3.2 Body of Data", "organized_ctd/CTD Structure/Module 3 Quality/3.2 Body of Data"),
 ("3.2.S Drug Substance", "organized_ctd/CTD Structure/Module 3 Quality/3.2 Body of Data/3.2.S Drug Substance"),
 ("3.2.S.1 General Information",
  "organized_ctd/CTD Structure/Module 3 Quality/3.2 Body of Data/3.2.S Drug Substance/3.2.S.1 General Information"),
 ("3.2.S.1.1 Nomenclature",
  "organized_ctd/CTD Structure/Module 3 Quality/3.2 Body of Data/3.2.S Drug Substance/3.2.S.1 General Information/3.2.S.1.1 Nomenclature"),
 ("3.2.S.1.2 Structure",
  "organized_ctd/CTD Structure/Module 3 Quality/3.2 Body of Data/3.2.S Drug Substance/3.2.S.1 General Information/3.2.S.1.2 Structure"),
 ("3.2.S.1.3 General Properties",
  "organized_ctd/CTD Structure/Module 3 Quality/3.2 Body of Data/3.2.S Drug Substance/3.2.S.1 General Information/3.2.S.1.3 General Properties"),
 ("3.2.S.2 Manufacture",
  "organized_ctd/CTD Structure/Module 3 Quality/3.2 Body of Data/3.2.S Drug Substance/3.2.S.2 Manufacture"),
 ("3.2.S.3 Characterization",
  "organized_ctd/CTD Structure/Module 3 Quality/3.2 Body of Data/3.2.S Drug Substance/3.2.S.3 Characterization"),
 ("3.2.S.4 Control of Drug Substance",
  "organized_ctd/CTD Structure/Module 3 Quality/3.2 Body of Data/3.2.S Drug Substance/3.2.S.4 Control of Drug Substance"),
 ("3.2.S.5 Reference Standards or Materials",
  "organized_ctd/CTD Structure/Module 3 Quality/3.2 Body of Data/3.2.S Drug Substance/3.2.S.5 Reference Standards or Materials"),
 ("3.2.S.6 Container Closure Systems",
  "organized_ctd/CTD Structure/Module 3 Quality/3.2 Body of Data/3.2.S Drug Substance/3.2.S.6 Container Closure Systems"),
 ("3.2.S.7 Stability",
  "organized_ctd/CTD Structure/Module 3 Quality/3.2 Body of Data/3.2.S Drug Substance/3.2.S.7 Stability"),
 ("3.2.P Drug Product", "organized_ctd/CTD Structure/Module 3 Quality/3.2 Body of Data/3.2.P Drug Product"),
 ("3.2.P.1 Description and Composition",
  "organized_ctd/CTD Structure/Module 3 Quality/3.2 Body of Data/3.2.P Drug Product/3.2.P.1 Description and Composition"),
 ("3.2.P.2 Pharmaceutical Development",
  "organized_ctd/CTD Structure/Module 3 Quality/3.2 Body of Data/3.2.P Drug Product/3.2.P.2 Pharmaceutical Development"),
 ("3.2.P.3 Manufacture",
  "organized_ctd/CTD Structure/Module 3 Quality/3.2 Body of Data/3.2.P Drug Product/3.2.P.3 Manufacture"),
 ("3.2.P.4 Control of Excipients",
  "organized_ctd/CTD Structure/Module 3 Quality/3.2 Body of Data/3.2.P Drug Product/3.2.P.4 Control of Excipients"),
 ("3.2.P.5 Control of Drug Product",
  "organized_ctd/CTD Structure/Module 3 Quality/3.2 Body of Data/3.2.P Drug Product/3.2.P.5 Control of Drug Product"),
 ("3.2.P.6 Reference Standards or Materials",
  "organized_ctd/CTD Structure/Module 3 Quality/3.2 Body of Data/3.2.P Drug Product/3.2.P.6 Reference Standards or Materials"),
 ("3.2.P.7 Container Closure System",
  "organized_ctd/CTD Structure/Module 3 Quality/3.2 Body of Data/3.2.P Drug Product/3.2.P.7 Container Closure System"),
 ("3.2.P.8 Stability",
  "organized_ctd/CTD Structure/Module 3 Quality/3.2 Body of Data/3.2.P Drug Product/3.2.P.8 Stability"),
 ("3.3 Literature References", "organized_ctd/CTD Structure/Module 3 Quality/3.3 Literature References"),
 ("Module 4 Nonclinical Study Reports", "organized_ctd/CTD Structure/Module 4 Nonclinical Study Reports"),
 ("4.2 Study Reports", "organized_ctd/CTD Structure/Module 4 Nonclinical Study Reports/4.2 Study Reports"),
 ("4.2.1 Pharmacology",
  "organized_ctd/CTD Structure/Module 4 Nonclinical Study Reports/4.2 Study Reports/4.2.1 Pharmacology"),
 ("4.2.1.1 Primary Pharmacodynamics",
  "organized_ctd/CTD Structure/Module 4 Nonclinical Study Reports/4.2 Study Reports/4.2.1 Pharmacology/4.2.1.1 Primary Pharmacodynamics"),
 ("4.2.1.2 Secondary Pharmacodynamics",
  "organized_ctd/CTD Structure/Module 4 Nonclinical Study Reports/4.2 Study Reports/4.2.1 Pharmacology/4.2.1.2 Secondary Pharmacodynamics"),
 ("4.2.1.3 Safety Pharmacology",
  "organized_ctd/CTD Structure/Module 4 Nonclinical Study Reports/4.2 Study Reports/4.2.1 Pharmacology/4.2.1.3 Safety Pharmacology"),
 ("4.2.1.4 Pharmacodynamic Drug Interactions",
  "organized_ctd/CTD Structure/Module 4 Nonclinical Study Reports/4.2 Study Reports/4.2.1 Pharmacology/4.2.1.4 Pharmacodynamic Drug Interactions"),
 ("4.2.2 Pharmacokinetics",
  "organized_ctd/CTD Structure/Module 4 Nonclinical Study Reports/4.2 Study Reports/4.2.2 Pharmacokinetics"),
 ("4.2.2.1 Analytical Methods and Validation",
  "organized_ctd/CTD Structure/Module 4 Nonclinical Study Reports/4.2 Study Reports/4.2.2 Pharmacokinetics/4.2.2.1 Analytical Methods and Validation"),
 ("4.2.2.2 Absorption",
  "organized_ctd/CTD Structure/Module 4 Nonclinical Study Reports/4.2 Study Reports/4.2.2 Pharmacokinetics/4.2.2.2 Absorption"),
 ("4.2.2.3 Distribution",
  "organized_ctd/CTD Structure/Module 4 Nonclinical Study Reports/4.2 Study Reports/4.2.2 Pharmacokinetics/4.2.2.3 Distribution"),
 ("4.2.2.4 Metabolism",
  "organized_ctd/CTD Structure/Module 4 Nonclinical Study Reports/4.2 Study Reports/4.2.2 Pharmacokinetics/4.2.2.4 Metabolism"),
 ("4.2.2.5 Excretion",
  "organized_ctd/CTD Structure/Module 4 Nonclinical Study Reports/4.2 Study Reports/4.2.2 Pharmacokinetics/4.2.2.5 Excretion"),
 ("4.2.2.6 Pharmacokinetic Drug Interactions",
  "organized_ctd/CTD Structure/Module 4 Nonclinical Study Reports/4.2 Study Reports/4.2.2 Pharmacokinetics/4.2.2.6 Pharmacokinetic Drug Interactions"),
 ("4.2.2.7 Other Pharmacokinetic Studies",
  "organized_ctd/CTD Structure/Module 4 Nonclinical Study Reports/4.2 Study Reports/4.2.2 Pharmacokinetics/4.2.2.7 Other Pharmacokinetic Studies"),
 ("4.2.3 Toxicology",
  "organized_ctd/CTD Structure/Module 4 Nonclinical Study Reports/4.2 Study Reports/4.2.3 Toxicology"),
 ("4.2.3.1 Single-Dose Toxicity",
  "organized_ctd/CTD Structure/Module 4 Nonclinical Study Reports/4.2 Study Reports/4.2.3 Toxicology/4.2.3.1 Single-Dose Toxicity"),
 ("4.2.3.2 Repeat-Dose Toxicity",
  "organized_ctd/CTD Structure/Module 4 Nonclinical Study Reports/4.2 Study Reports/4.2.3 Toxicology/4.2.3.2 Repeat-Dose Toxicity"),
 ("4.2.3.3 Genotoxicity",
  "organized_ctd/CTD Structure/Module 4 Nonclinical Study Reports/4.2 Study Reports/4.2.3 Toxicology/4.2.3.3 Genotoxicity"),
 ("4.2.3.4 Carcinogenicity",
  "organized_ctd/CTD Structure/Module 4 Nonclinical Study Reports/4.2 Study Reports/4.2.3 Toxicology/4.2.3.4 Carcinogenicity"),
 ("4.2.3.5 Reproductive and Developmental Toxicity",
  "organized_ctd/CTD Structure/Module 4 Nonclinical Study Reports/4.2 Study Reports/4.2.3 Toxicology/4.2.3.5 Reproductive and Developmental Toxicity"),
 ("4.2.3.6 Local Tolerance",
  "organized_ctd/CTD Structure/Module 4 Nonclinical Study Reports/4.2 Study Reports/4.2.3 Toxicology/4.2.3.6 Local Tolerance"),
 ("4.2.3.7 Other Toxicity Studies",
  "organized_ctd/CTD Structure/Module 4 Nonclinical Study Reports/4.2 Study Reports/4.2.3 Toxicology/4.2.3.7 Other Toxicity Studies"),
 ("4.3 Literature References",
  "organized_ctd/CTD Structure/Module 4 Nonclinical Study Reports/4.3 Literature References"),
 ("Module 5 Clinical Study Reports", "organized_ctd/CTD Structure/Module 5 Clinical Study Reports"),
 ("5.2 Tabular Listing of all Clinical Studies",
  "organized_ctd/CTD Structure/Module 5 Clinical Study Reports/5.2 Tabular Listing of all Clinical Studies"),
 ("5.3 Clinical Study Reports and Related Information",
  "organized_ctd/CTD Structure/Module 5 Clinical Study Reports/5.3 Clinical Study Reports and Related Information"),
 ("5.3.1 Reports of Biopharmaceutic Studies",
  "organized_ctd/CTD Structure/Module 5 Clinical Study Reports/5.3 Clinical Study Reports and Related Information/5.3.1 Reports of Biopharmaceutic Studies"),
 ("5.3.1.1 Bioavailability (BA) Study Reports",
  "organized_ctd/CTD Structure/Module 5 Clinical Study Reports/5.3 Clinical Study Reports and Related Information/5.3.1 Reports of Biopharmaceutic Studies/5.3.1.1 Bioavailability (BA) Study Reports"),
 ("5.3.1.2 Comparative BA and BE Study Reports",
  "organized_ctd/CTD Structure/Module 5 Clinical Study Reports/5.3 Clinical Study Reports and Related Information/5.3.1 Reports of Biopharmaceutic Studies/5.3.1.2 Comparative BA and BE Study Reports"),
 ("5.3.1.3 In Vitro - In Vivo Correlation",
  "organized_ctd/CTD Structure/Module 5 Clinical Study Reports/5.3 Clinical Study Reports and Related Information/5.3.1 Reports of Biopharmaceutic Studies/5.3.1.3 In Vitro - In Vivo Correlation"),
 ("5.3.1.4 Bioanalytical Methods",
  "organized_ctd/CTD Structure/Module 5 Clinical Study Reports/5.3 Clinical Study Reports and Related Information/5.3.1 Reports of Biopharmaceutic Studies/5.3.1.4 Bioanalytical Methods"),
 ("5.3.2 Reports of Studies Pertinent to Pharmacokinetics",
  "organized_ctd/CTD Structure/Module 5 Clinical Study Reports/5.3 Clinical Study Reports and Related Information/5.3.2 Reports of Studies Pertinent to Pharmacokinetics"),
 ("5.3.2.1 Plasma Protein Binding",
  "organized_ctd/CTD Structure/Module 5 Clinical Study Reports/5.3 Clinical Study Reports and Related Information/5.3.2 Reports of Studies Pertinent to Pharmacokinetics/5.3.2.1 Plasma Protein Binding"),
 ("5.3.2.2 Hepatic Metabolism and Drug Interaction",
  "organized_ctd/CTD Structure/Module 5 Clinical Study Reports/5.3 Clinical Study Reports and Related Information/5.3.2 Reports of Studies Pertinent to Pharmacokinetics/5.3.2.2 Hepatic Metabolism and Drug Interaction"),
 ("5.3.2.3 Other Human Biomaterials",
  "organized_ctd/CTD Structure/Module 5 Clinical Study Reports/5.3 Clinical Study Reports and Related Information/5.3.2 Reports of Studies Pertinent to Pharmacokinetics/5.3.2.3 Other Human Biomaterials"),
 ("5.3.3 Reports of Human Pharmacokinetic Studies",
  "organized_ctd/CTD Structure/Module 5 Clinical Study Reports/5.3 Clinical Study Reports and Related Information/5.3.3 Reports of Human Pharmacokinetic Studies"),
 ("5.3.3.1 Healthy Subject PK",
  "organized_ctd/CTD Structure/Module 5 Clinical Study Reports/5.3 Clinical Study Reports and Related Information/5.3.3 Reports of Human Pharmacokinetic Studies/5.3.3.1 Healthy Subject PK"),
 ("5.3.3.2 Patient PK",
  "organized_ctd/CTD Structure/Module 5 Clinical Study Reports/5.3 Clinical Study Reports and Related Information/5.3.3 Reports of Human Pharmacokinetic Studies/5.3.3.2 Patient PK"),
 ("5.3.3.3 Intrinsic Factor PK",
  "organized_ctd/CTD Structure/Module 5 Clinical Study Reports/5.3 Clinical Study Reports and Related Information/5.3.3 Reports of Human Pharmacokinetic Studies/5.3.3.3 Intrinsic Factor PK"),
 ("5.3.3.4 Extrinsic Factor PK",
  "organized_ctd/CTD Structure/Module 5 Clinical Study Reports/5.3 Clinical Study Reports and Related Information/5.3.3 Reports of Human Pharmacokinetic Studies/5.3.3.4 Extrinsic Factor PK"),
 ("5.3.3.5 Population PK",
  "organized_ctd/CTD Structure/Module 5 Clinical Study Reports/5.3 Clinical Study Reports and Related Information/5.3.3 Reports of Human Pharmacokinetic Studies/5.3.3.5 Population PK"),
 ("5.3.4 Reports of Human Pharmacodynamic Studies",
  "organized_ctd/CTD Structure/Module 5 Clinical Study Reports/5.3 Clinical Study Reports and Related Information/5.3.4 Reports of Human Pharmacodynamic Studies"),
 ("5.3.4.1 Healthy Subject PD",
  "organized_ctd/CTD Structure/Module 5 Clinical Study Reports/5.3 Clinical Study Reports and Related Information/5.3.4 Reports of Human Pharmacodynamic Studies/5.3.4.1 Healthy Subject PD"),
 ("5.3.4.2 Patient PD",
  "organized_ctd/CTD Structure/Module 5 Clinical Study Reports/5.3 Clinical Study Reports and Related Information/5.3.4 Reports of Human Pharmacodynamic Studies/5.3.4.2 Patient PD"),
 ("5.3.5 Reports of Efficacy and Safety Studies",
  "organized_ctd/CTD Structure/Module 5 Clinical Study Reports/5.3 Clinical Study Reports and Related Information/5.3.5 Reports of Efficacy and Safety Studies"),
 ("5.3.5.1 Controlled Clinical Studies",
  "organized_ctd/CTD Structure/Module 5 Clinical Study Reports/5.3 Clinical Study Reports and Related Information/5.3.5 Reports of Efficacy and Safety Studies/5.3.5.1 Controlled Clinical Studies"),
 ("5.3.5.2 Uncontrolled Clinical Studies",
  "organized_ctd/CTD Structure/Module 5 Clinical Study Reports/5.3 Clinical Study Reports and Related Information/5.3.5 Reports of Efficacy and Safety Studies/5.3.5.2 Uncontrolled Clinical Studies"),
 ("5.3.5.3 Analyses from Multiple Studies",
  "organized_ctd/CTD Structure/Module 5 Clinical Study Reports/5.3 Clinical Study Reports and Related Information/5.3.5 Reports of Efficacy and Safety Studies/5.3.5.3 Analyses from Multiple Studies"),
 ("5.3.5.4 Other Study Reports",
  "organized_ctd/CTD Structure/Module 5 Clinical Study Reports/5.3 Clinical Study Reports and Related Information/5.3.5 Reports of Efficacy and Safety Studies/5.3.5.4 Other Study Reports"),
 ("5.4 Literature References", "organized_ctd/CTD Structure/Module 5 Clinical Study Reports/5.4 Literature References")]

set_option maxHeartbeats 1000000 in
/-- The depth-first node list of the taxonomy evaluates to the literal. -/
theorem ctdFlatList_eval : flattenFuel 16 CTD_FOLDER ctdStructureTree = ctdFlatList := by decide

/-- The folder mapping after the first 24 visited nodes. -/
def allFoldersStage1 : List (String × String) :=
[("CTD Structure", "organized_ctd/CTD Structure"),
 ("Module 1 Administrative Information and Prescribing Information",
  "organized_ctd/CTD Structure/Module 1 Administrative Information and Prescribing Information"),
 ("1", "organized_ctd/CTD Structure/Module 1 Administrative Information and Prescribing Information"),
 ("1.0 Correspondence",
  "organized_ctd/CTD Structure/Module 1 Administrative Information and Prescribing Information/1.0 Correspondence"),
 ("1.0",
  "organized_ctd/CTD Structure/Module 1 Administrative Information and Prescribing Information/1.0 Correspondence"),
 ("1.0.1 Cover Letter",
  "organized_ctd/CTD Structure/Module 1 Administrative Information and Prescribing Information/1.0 Correspondence/1.0.1 Cover Letter"),
 ("1.0.1",
  "organized_ctd/CTD Structure/Module 1 Administrative Information and Prescribing Information/1.0 Correspondence/1.0.1 Cover Letter"),
 ("1.0.2 General Note to Reviewer",
  "organized_ctd/CTD Structure/Module 1 Administrative Information and Prescribing Information/1.0 Correspondence/1.0.2 General Note to Reviewer"),
 ("1.0.2",
  "organized_ctd/CTD Structure/Module 1 Administrative Information and Prescribing Information/1.0 Correspondence/1.0.2 General Note to Reviewer"),
 ("1.0.3 Life Cycle Management Tracking Table",
  "organized_ctd/CTD Structure/Module 1 Administrative Information and Prescribing Information/1.0 Correspondence/1.0.3 Life Cycle Management Tracking Table"),
 ("1.0.3",
  "organized_ctd/CTD Structure/Module 1 Administrative Information and Prescribing Information/1.0 Correspondence/1.0.3 Life Cycle Management Tracking Table"),
 ("1.0.4 Correspondence Issued by Regulatory Authority",
  "organized_ctd/CTD Structure/Module 1 Administrative Information and Prescribing Information/1.0 Correspondence/1.0.4 Correspondence Issued by Regulatory Authority"),
 ("1.0.4",
  "organized_ctd/CTD Structure/Module 1 Administrative Information and Prescribing Information/1.0 Correspondence/1.0.4 Correspondence Issued by Regulatory Authority"),
 ("1.0.5 Response to Information Solicited by Regulatory Authority",
  "organized_ctd/CTD Structure/Module 1 Administrative Information and Prescribing Information/1.0 Correspondence/1.0.5 Response to Information Solicited by Regulatory Authority"),
 ("1.0.5",
  "organized_ctd/CTD Structure/Module 1 Administrative Information and Prescribing Information/1.0 Correspondence/1.0.5 Response to Information Solicited by Regulatory Authority"),
 ("1.0.6 Meeting Information",
  "organized_ctd/CTD Structure/Module 1 Administrative Information and Prescribing Information/1.0 Correspondence/1.0.6 Meeting Information"),
 ("1.0.6",
  "organized_ctd/CTD Structure/Module 1 Administrative Information and Prescribing Information/1.0 Correspondence/1.0.6 Meeting Information"),
 ("1.0.7 Request for Appeal Documentation",
  "organized_ctd/CTD Structure/Module 1 Administrative Information and Prescribing Information/1.0 Correspondence/1.0.7 Request for Appeal Documentation"),
 ("1.0.7",
  "organized_ctd/CTD Structure/Module 1 Administrative Information and Prescribing Information/1.0 Correspondence/1.0.7 Request for Appeal Documentation"),
 ("1.2 Administrative Information",
  "organized_ctd/CTD Structure/Module 1 Administrative Information and Prescribing Information/1.2 Administrative Information"),
 ("1.2",
  "organized_ctd/CTD Structure/Module 1 Administrative Information and Prescribing Information/1.2 Administrative Information/1.2.A Additional Administrative Information"),
 ("1.2.1 Application Form",
  "organized_ctd/CTD Structure/Module 1 Administrative Information and Prescribing Information/1.2 Administrative Information/1.2.1 Application Form"),
 ("1.2.1",
  "organized_ctd/CTD Structure/Module 1 Administrative Information and Prescribing Information/1.2 Administrative Information/1.2.1 Application Form"),
 ("1.2.2 Fee Forms",
  "organized_ctd/CTD Structure/Module 1 Administrative Information and Prescribing Information/1.2 Administrative Information/1.2.2 Fee Forms"),
 ("1.2.2",
  "organized_ctd/CTD Structure/Module 1 Administrative Information and Prescribing Information/1.2 Administrative Information/1.2.2 Fee Forms"),
 ("1.2.3 Certification and Attestation Forms",
  "organized_ctd/CTD Structure/Module 1 Administrative Information and Prescribing Information/1.2 Administrative Information/1.2.3 Certification and Attestation Forms"),
 ("1.2.3",
  "organized_ctd/CTD Structure/Module 1 Administrative Information and Prescribing Information/1.2 Administrative Information/1.2.3 Certification and Attestation Forms"),
 ("1.2.4 Compliance and Site Information",
  "organized_ctd/CTD Structure/Module 1 Administrative Information and Prescribing Information/1.2 Administrative Information/1.2.4 Compliance and Site Information"),
 ("1.2.4",
  "organized_ctd/CTD Structure/Module 1 Administrative Information and Prescribing Information/1.2 Administrative Information/1.2.4 Compliance and Site Information"),
 ("1.2.5 Authorization for Sharing Information",
  "organized_ctd/CTD Structure/Module 1 Administrative Information and Prescribing Information/1.2 Administrative Information/1.2.5 Authorization for Sharing Information"),
 ("1.2.5",
  "organized_ctd/CTD Structure/Module 1 Administrative Information and Prescribing Information/1.2 Administrative Information/1.2.5 Authorization for Sharing Information"),
 ("1.2.6 Electronic Declaration",
  "organized_ctd/CTD Structure/Module 1 Administrative Information and Prescribing Information/1.2 Administrative Information/1.2.6 Electronic Declaration"),
 ("1.2.6",
  "organized_ctd/CTD Structure/Module 1 Administrative Information and Prescribing Information/1.2 Administrative Information/1.2.6 Electronic Declaration"),
 ("1.2.7 Trademark & Intellectual Property Information",
  "organized_ctd/CTD Structure/Module 1 Administrative Information and Prescribing Information/1.2 Administrative Information/1.2.7 Trademark & Intellectual Property Information"),
 ("1.2.7",
  "organized_ctd/CTD Structure/Module 1 Administrative Information and Prescribing Information/1.2 Administrative Information/1.2.7 Trademark & Intellectual Property Information"),
 ("1.2.8 Screening Details",
  "organized_ctd/CTD Structure/Module 1 Administrative Information and Prescribing Information/1.2 Administrative Information/1.2.8 Screening Details"),
 ("1.2.8",
  "organized_ctd/CTD Structure/Module 1 Administrative Information and Prescribing Information/1.2 Administrative Information/1.2.8 Screening Details"),
 ("1.2.A Additional Administrative Information",
  "organized_ctd/CTD Structure/Module 1 Administrative Information and Prescribing Information/1.2 Administrative Information/1.2.A Additional Administrative Information"),
 ("1.3 Product Information",
  "organized_ctd/CTD Structure/Module 1 Administrative Information and Prescribing Information/1.3 Product Information"),
 ("1.3",
  "organized_ctd/CTD Structure/Module 1 Administrative Information and Prescribing Information/1.3 Product Information"),
 ("1.3.1 Summary of Product Characteristics (SmPC)",
  "organized_ctd/CTD Structure/Module 1 Administrative Information and Prescribing Information/1.3 Product Information/1.3.1 Summary of Product Characteristics (SmPC)"),
 ("1.3.1",
  "organized_ctd/CTD Structure/Module 1 Administrative Information and Prescribing Information/1.3 Product Information/1.3.1 Summary of Product Characteristics (SmPC)"),
 ("1.3.1.1 Approved - SmPC",
  "organized_ctd/CTD Structure/Module 1 Administrative Information and Prescribing Information/1.3 Product Information/1.3.1 Summary of Product Characteristics (SmPC)/1.3.1.1 Approved - SmPC"),
 ("1.3.1.1",
  "organized_ctd/CTD Structure/Module 1 Administrative Information and Prescribing Information/1.3 Product Information/1.3.1 Summary of Product Characteristics (SmPC)/1.3.1.1 Approved - SmPC"),
 ("1.3.1.1.1 Approved - SmPC - English",
  "organized_ctd/CTD Structure/Module 1 Administrative Information and Prescribing Information/1.3 Product Information/1.3.1 Summary of Product Characteristics (SmPC)/1.3.1.1 Approved - SmPC/1.3.1.1.1 Approved - SmPC - English"),
 ("1.3.1.1.1",
  "organized_ctd/CTD Structure/Module 1 Administrative Information and Prescribing Information/1.3 Product Information/1.3.1 Summary of Product Characteristics (SmPC)/1.3.1.1 Approved - SmPC/1.3.1.1.1 Approved - SmPC - English")]

/-- The folder mapping after the first 48 visited nodes. -/
def allFoldersStage2 : List (String × String) :=
[("CTD Structure", "organized_ctd/CTD Structure"),
 ("Module 1 Administrative Information and Prescribing Information",
  "organized_ctd/CTD Structure/Module 1 Administrative Information and Prescribing Information"),
 ("1", "organized_ctd/CTD Structure/Module 1 Administrative Information and Prescribing Information"),
 ("1.0 Correspondence",
  "organized_ctd/CTD Structure/Module 1 Administrative Information and Prescribing Information/1.0 Correspondence"),
 ("1.0",
  "organized_ctd/CTD Structure/Module 1 Administrative Information and Prescribing Information/1.0 Correspondence"),
 ("1.0.1 Cover Letter",
  "organized_ctd/CTD Structure/Module 1 Administrative Information and Prescribing Information/1.0 Correspondence/1.0.1 Cover Letter"),
 ("1.0.1",
  "organized_ctd/CTD Structure/Module 1 Administrative Information and Prescribing Information/1.0 Correspondence/1.0.1 Cover Letter"),
 ("1.0.2 General Note to Reviewer",
  "organized_ctd/CTD Structure/Module 1 Administrative Information and Prescribing Information/1.0 Correspondence/1.0.2 General Note to Reviewer"),
 ("1.0.2",
  "organized_ctd/CTD Structure/Module 1 Administrative Information and Prescribing Information/1.0 Correspondence/1.0.2 General Note to Reviewer"),
 ("1.0.3 Life Cycle Management Tracking Table",
  "organized_ctd/CTD Structure/Module 1 Administrative Information and Prescribing Information/1.0 Correspondence/1.0.3 Life Cycle Management Tracking Table"),
 ("1.0.3",
  "organized_ctd/CTD Structure/Module 1 Administrative Information and Prescribing Information/1.0 Correspondence/1.0.3 Life Cycle Management Tracking Table"),
 ("1.0.4 Correspondence Issued by Regulatory Authority",
  "organized_ctd/CTD Structure/Module 1 Administrative Information and Prescribing Information/1.0 Correspondence/1.0.4 Correspondence Issued by Regulatory Authority"),
 ("1.0.4",
  "organized_ctd/CTD Structure/Module 1 Administrative Information and Prescribing Information/1.0 Correspondence/1.0.4 Correspondence Issued by Regulatory Authority"),
 ("1.0.5 Response to Information Solicited by Regulatory Authority",
  "organized_ctd/CTD Structure/Module 1 Administrative Information and Prescribing Information/1.0 Correspondence/1.0.5 Response to Information Solicited by Regulatory Authority"),
 ("1.0.5",
  "organized_ctd/CTD Structure/Module 1 Administrative Information and Prescribing Information/1.0 Correspondence/1.0.5 Response to Information Solicited by Regulatory Authority"),
 ("1.0.6 Meeting Information",
  "organized_ctd/CTD Structure/Module 1 Administrative Information and Prescribing Information/1.0 Correspondence/1.0.6 Meeting Information"),
 ("1.0.6",
  "organized_ctd/CTD Structure/Module 1 Administrative Information and Prescribing Information/1.0 Correspondence/1.0.6 Meeting Information"),
 ("1.0.7 Request for Appeal Documentation",
  "organized_ctd/CTD Structure/Module 1 Administrative Information and Prescribing Information/1.0 Correspondence/1.0.7 Request for Appeal Documentation"),
 ("1.0.7",
  "organized_ctd/CTD Structure/Module 1 Administrative Information and Prescribing Information/1.0 Correspondence/1.0.7 Request for Appeal Documentation"),
 ("1.2 Administrative Information",
  "organized_ctd/CTD Structure/Module 1 Administrative Information and Prescribing Information/1.2 Administrative Information"),
 ("1.2",
  "organized_ctd/CTD Structure/Module 1 Administrative Information and Prescribing Information/1.2 Administrative Information/1.2.A Additional Administrative Information"),
 ("1.2.1 Application Form",
  "organized_ctd/CTD Structure/Module 1 Administrative Information and Prescribing Information/1.2 Administrative Information/1.2.1 Application Form"),
 ("1.2.1",
  "organized_ctd/CTD Structure/Module 1 Administrative Information and Prescribing Information/1.2 Administrative Information/1.2.1 Application Form"),
 ("1.2.2 Fee Forms",
  "organized_ctd/CTD Structure/Module 1 Administrative Information and Prescribing Information/1.2 Administrative Information/1.2.2 Fee Forms"),
 ("1.2.2",
  "organized_ctd/CTD Structure/Module 1 Administrative Information and Prescribing Information/1.2 Administrative Information/1.2.2 Fee Forms"),
 ("1.2.3 Certification and Attestation Forms",
  "organized_ctd/CTD Structure/Module 1 Administrative Information and Prescribing Information/1.2 Administrative Information/1.2.3 Certification and Attestation Forms"),
 ("1.2.3",
  "organized_ctd/CTD Structure/Module 1 Administrative Information and Prescribing Information/1.2 Administrative Information/1.2.3 Certification and Attestation Forms"),
 ("1.2.4 Compliance and Site Information",
  "organized_ctd/CTD Structure/Module 1 Administrative Information and Prescribing Information/1.2 Administrative Information/1.2.4 Compliance and Site Information"),
 ("1.2.4",
  "organized_ctd/CTD Structure/Module 1 Administrative Information and Prescribing Information/1.2 Administrative Information/1.2.4 Compliance and Site Information"),
 ("1.2.5 Authorization for Sharing Information",
  "organized_ctd/CTD Structure/Module 1 Administrative Information and Prescribing Information/1.2 Administrative Information/1.2.5 Authorization for Sharing Information"),
 ("1.2.5",
  "organized_ctd/CTD Structure/Module 1 Administrative Information and Prescribing Information/1.2 Administrative Information/1.2.5 Authorization for Sharing Information"),
 ("1.2.6 Electronic Declaration",
  "organized_ctd/CTD Structure/Module 1 Administrative Information and Prescribing Information/1.2 Administrative Information/1.2.6 Electronic Declaration"),
 ("1.2.6",
  "organized_ctd/CTD Structure/Module 1 Administrative Information and Prescribing Information/1.2 Administrative Information/1.2.6 Electronic Declaration"),
 ("1.2.7 Trademark & Intellectual Property Information",
  "organized_ctd/CTD Structure/Module 1 Administrative Information and Prescribing Information/1.2 Administrative Information/1.2.7 Trademark & Intellectual Property Information"),
 ("1.2.7",
  "organized_ctd/CTD Structure/Module 1 Administrative Information and Prescribing Information/1.2 Administrative Information/1.2.7 Trademark & Intellectual Property Information"),
 ("1.2.8 Screening Details",
  "organized_ctd/CTD Structure/Module 1 Administrative Information and Prescribing Information/1.2 Administrative Information/1.2.8 Screening Details"),
 ("1.2.8",
  "organized_ctd/CTD Structure/Module 1 Administrative Information and Prescribing Information/1.2 Administrative Information/1.2.8 Screening Details"),
 ("1.2.A Additional Administrative Information",
  "organized_ctd/CTD Structure/Module 1 Administrative Information and Prescribing Information/1.2 Administrative Information/1.2.A Additional Administrative Information"),
 ("1.3 Product Information",
  "organized_ctd/CTD Structure/Module 1 Administrative Information and Prescribing Information/1.3 Product Information"),
 ("1.3",
  "organized_ctd/CTD Structure/Module 1 Administrative Information and Prescribing Information/1.3 Product Information"),
 ("1.3.1 Summary of Product Characteristics (SmPC)",
  "organized_ctd/CTD Structure/Module 1 Administrative Information and Prescribing Information/1.3 Product Information/1.3.1 Summary of Product Characteristics (SmPC)"),
 ("1.3.1",
  "organized_ctd/CTD Structure/Module 1 Administrative Information and Prescribing Information/1.3 Product Information/1.3.1 Summary of Product Characteristics (SmPC)"),
 ("1.3.1.1 Approved - SmPC",
  "organized_ctd/CTD Structure/Module 1 Administrative Information and Prescribing Information/1.3 Product Information/1.3.1 Summary of Product Characteristics (SmPC)/1.3.1.1 Approved - SmPC"),
 ("1.3.1.1",
  "organized_ctd/CTD Structure/Module 1 Administrative Information and Prescribing Information/1.3 Product Information/1.3.1 Summary of Product Characteristics (SmPC)/1.3.1.1 Approved - SmPC"),
 ("1.3.1.1.1 Approved - SmPC - English",
  "organized_ctd/CTD Structure/Module 1 Administrative Information and Prescribing Information/1.3 Product Information/1.3.1 Summary of Product Characteristics (SmPC)/1.3.1.1 Approved - SmPC/1.3.1.1.1 Approved - SmPC - English"),
 ("1.3.1.1.1",
  "organized_ctd/CTD Structure/Module 1 Administrative Information and Prescribing Information/1.3 Product Information/1.3.1 Summary of Product Characteristics (SmPC)/1.3.1.1 Approved - SmPC/1.3.1.1.1 Approved - SmPC - English"),
 ("1.3.1.1.2 Approved - SmPC - French",
  "organized_ctd/CTD Structure/Module 1 Administrative Information and Prescribing Information/1.3 Product Information/1.3.1 Summary of Product Characteristics (SmPC)/1.3.1.1 Approved - SmPC/1.3.1.1.2 Approved - SmPC - French"),
 ("1.3.1.1.2",
  "organized_ctd/CTD Structure/Module 1 Administrative Information and Prescribing Information/1.3 Product Information/1.3.1 Summary of Product Characteristics (SmPC)/1.3.1.1 Approved - SmPC/1.3.1.1.2 Approved - SmPC - French"),
 ("1.3.1.1.3 Approved - SmPC - Portuguese",
  "organized_ctd/CTD Structure/Module 1 Administrative Information and Prescribing Information/1.3 Product Information/1.3.1 Summary of Product Characteristics (SmPC)/1.3.1.1 Approved - SmPC/1.3.1.1.3 Approved - SmPC - Portuguese"),
 ("1.3.1.1.3",
  "organized_ctd/CTD Structure/Module 1 Administrative Information and Prescribing Information/1.3 Product Information/1.3.1 Summary of Product Characteristics (SmPC)/1.3.1.1 Approved - SmPC/1.3.1.1.3 Approved - SmPC - Portuguese"),
 ("1.3.1.2 Clean - SmPC",
  "organized_ctd/CTD Structure/Module 1 Administrative Information and Prescribing Information/1.3 Product Information/1.3.1 Summary of Product Characteristics (SmPC)/1.3.1.2 Clean - SmPC"),
 ("1.3.1.2",
  "organized_ctd/CTD Structure/Module 1 Administrative Information and Prescribing Information/1.3 Product Information/1.3.1 Summary of Product Characteristics (SmPC)/1.3.1.2 Clean - SmPC"),
 ("1.3.1.2.1 Clean - SmPC - English",
  "organized_ctd/CTD Structure/Module 1 Administrative Information and Prescribing Information/1.3 Product Information/1.3.1 Summary of Product Characteristics (SmPC)/1.3.1.2 Clean - SmPC/1.3.1.2.1 Clean - SmPC - English"),
 ("1.3.1.2.1",
  "organized_ctd/CTD Structure/Module 1 Administrative Information and Prescribing Information/1.3 Product Information/1.3.1 Summary of Product Characteristics (SmPC)/1.3.1.2 Clean - SmPC/1.3.1.2.1 Clean - SmPC - English"),
 ("1.3.1.2.2 Clean - SmPC - French",
  "organized_ctd/CTD Structure/Module 1 Administrative Information and Prescribing Information/1.3 Product Information/1.3.1 Summary of Product Characteristics (SmPC)/1.3.1.2 Clean - SmPC/1.3.1.2.2 Clean - SmPC - French"),
 ("1.3.1.2.2",
  "organized_ctd/CTD Structure/Module 1 Administrative Information and Prescribing Information/1.3 Product Information/1.3.1 Summary of Product Characteristics (SmPC)/1.3.1.2 Clean - SmPC/1.3.1.2.2 Clean - SmPC - French"),
 ("1.3.1.2.3 Clean - SmPC - Portuguese",
  "organized_ctd/CTD Structure/Module 1 Administrative Information and Prescribing Information/1.3 Product Information/1.3.1 Summary of Product Characteristics (SmPC)/1.3.1.2 Clean - SmPC/1.3.1.2.3 Clean - SmPC - Portuguese"),
 ("1.3.1.2.3",
  "organized_ctd/CTD Structure/Module 1 Administrative Information and Prescribing Information/1.3 Product Information/1.3.1 Summary of Product Characteristics (SmPC)/1.3.1.2 Clean - SmPC/1.3.1.2.3 Clean - SmPC - Portuguese"),
 ("1.3.1.3 Annotated - SmPC",
  "organized_ctd/CTD Structure/Module 1 Administrative Information and Prescribing Information/1.3 Product Information/1.3.1 Summary of Product Characteristics (SmPC)/1.3.1.3 Annotated - SmPC"),
 ("1.3.1.3",
  "organized_ctd/CTD Structure/Module 1 Administrative Information and Prescribing Information/1.3 Product Information/1.3.1 Summary of Product Characteristics (SmPC)/1.3.1.3 Annotated - SmPC"),
 ("1.3.1.3.1 Annotated - SmPC - English",
  "organized_ctd/CTD Structure/Module 1 Administrative Information and Prescribing Information/1.3 Product Information/1.3.1 Summary of Product Characteristics (SmPC)/1.3.1.3 Annotated - SmPC/1.3.1.3.1 Annotated - SmPC - English"),
 ("1.3.1.3.1",
  "organized_ctd/CTD Structure/Module 1 Administrative Information and Prescribing Information/1.3 Product Information/1.3.1 Summary of Product Characteristics (SmPC)/1.3.1.3 Annotated - SmPC/1.3.1.3.1 Annotated - SmPC - English"),
 ("1.3.1.3.2 Annotated - SmPC - French",
  "organized_ctd/CTD Structure/Module 1 Administrative Information and Prescribing Information/1.3 Product Information/1.3.1 Summary of Product Characteristics (SmPC)/1.3.1.3 Annotated - SmPC/1.3.1.3.2 Annotated - SmPC - French"),
 ("1.3.1.3.2",
  "organized_ctd/CTD Structure/Module 1 Administrative Information and Prescribing Information/1.3 Product Information/1.3.1 Summary of Product Characteristics (SmPC)/1.3.1.3 Annotated - SmPC/1.3.1.3.2 Annotated - SmPC - French"),
 ("1.3.1.3.3 Annotated - SmPC - Portuguese",
  "organized_ctd/CTD Structure/Module 1 Administrative Information and Prescribing Information/1.3 Product Information/1.3.1 Summary of Product Characteristics (SmPC)/1.3.1.3 Annotated - SmPC/1.3.1.3.3 Annotated - SmPC - Portuguese"),
 ("1.3.1.3.3",
  "organized_ctd/CTD Structure/Module 1 Administrative Information and Prescribing Information/1.3 Product Information/1.3.1 Summary of Product Characteristics (SmPC)/1.3.1.3 Annotated - SmPC/1.3.1.3.3 Annotated - SmPC - Portuguese"),
 ("1.3.2 Patient Information Leaflet (PIL)",
  "organized_ctd/CTD Structure/Module 1 Administrative Information and Prescribing Information/1.3 Product Information/1.3.2 Patient Information Leaflet (PIL)"),
 ("1.3.2",
  "organized_ctd/CTD Structure/Module 1 Administrative Information and Prescribing Information/1.3 Product Information/1.3.2 Patient Information Leaflet (PIL)"),
 ("1.3.2.1 Approved - PIL",
  "organized_ctd/CTD Structure/Module 1 Administrative Information and Prescribing Information/1.3 Product Information/1.3.2 Patient Information Leaflet (PIL)/1.3.2.1 Approved - PIL"),
 ("1.3.2.1",
  "organized_ctd/CTD Structure/Module 1 Administrative Information and Prescribing Information/1.3 Product Information/1.3.2 Patient Information Leaflet (PIL)/1.3.2.1 Approved - PIL"),
 ("1.3.2.1.1 Approved - PIL - English",
  "organized_ctd/CTD Structure/Module 1 Administrative Information and Prescribing Information/1.3 Product Information/1.3.2 Patient Information Leaflet (PIL)/1.3.2.1 Approved - PIL/1.3.2.1.1 Approved - PIL - English"),
 ("1.3.2.1.1",
  "organized_ctd/CTD Structure/Module 1 Administrative Information and Prescribing Information/1.3 Product Information/1.3.2 Patient Information Leaflet (PIL)/1.3.2.1 Approved - PIL/1.3.2.1.1 Approved - PIL - English"),
 ("1.3.2.1.2 Approved - PIL - French",
  "organized_ctd/CTD Structure/Module 1 Administrative Information and Prescribing Information/1.3 Product Information/1.3.2 Patient Information Leaflet (PIL)/1.3.2.1 Approved - PIL/1.3.2.1.2 Approved - PIL - French"),
 ("1.3.2.1.2",
  "organized_ctd/CTD Structure/Module 1 Administrative Information and Prescribing Information/1.3 Product Information/1.3.2 Patient Information Leaflet (PIL)/1.3.2.1 Approved - PIL/1.3.2.1.2 Approved - PIL - French"),
 ("1.3.2.1.3 Approved - PIL - Portuguese",
  "organized_ctd/CTD Structure/Module 1 Administrative Information and Prescribing Information/1.3 Product Information/1.3.2 Patient Information Leaflet (PIL)/1.3.2.1 Approved - PIL/1.3.2.1.3 Approved - PIL - Portuguese"),
 ("1.3.2.1.3",
  "organized_ctd/CTD Structure/Module 1 Administrative Information and Prescribing Information/1.3 Product Information/1.3.2 Patient Information Leaflet (PIL)/1.3.2.1 Approved - PIL/1.3.2.1.3 Approved - PIL - Portuguese"),
 ("1.3.2.2 Clean - PIL",
  "organized_ctd/CTD Structure/Module 1 Administrative Information and Prescribing Information/1.3 Product Information/1.3.2 Patient Information Leaflet (PIL)/1.3.2.2 Clean - PIL"),
 ("1.3.2.2",
  "organized_ctd/CTD Structure/Module 1 Administrative Information and Prescribing Information/1.3 Product Information/1.3.2 Patient Information Leaflet (PIL)/1.3.2.2 Clean - PIL"),
 ("1.3.2.2.1 Clean - PIL - English",
  "organized_ctd/CTD Structure/Module 1 Administrative Information and Prescribing Information/1.3 Product Information/1.3.2 Patient Information Leaflet (PIL)/1.3.2.2 Clean - PIL/1.3.2.2.1 Clean - PIL - English"),
 ("1.3.2.2.1",
  "organized_ctd/CTD Structure/Module 1 Administrative Information and Prescribing Information/1.3 Product Information/1.3.2 Patient Information Leaflet (PIL)/1.3.2.2 Clean - PIL/1.3.2.2.1 Clean - PIL - English"),
 ("1.3.2.2.2 Clean - PIL - French",
  "organized_ctd/CTD Structure/Module 1 Administrative Information and Prescribing Information/1.3 Product Information/1.3.2 Patient Information Leaflet (PIL)/1.3.2.2 Clean - PIL/1.3.2.2.2 Clean - PIL - French"),
 ("1.3.2.2.2",
  "organized_ctd/CTD Structure/Module 1 Administrative Information and Prescribing Information/1.3 Product Information/1.3.2 Patient Information Leaflet (PIL)/1.3.2.2 Clean - PIL/1.3.2.2.2 Clean - PIL - French"),
 ("1.3.2.2.3 Clean - PIL - Portuguese",
  "organized_ctd/CTD Structure/Module 1 Administrative Information and Prescribing Information/1.3 Product Information/1.3.2 Patient Information Leaflet (PIL)/1.3.2.2 Clean - PIL/1.3.2.2.3 Clean - PIL - Portuguese"),
 ("1.3.2.2.3",
  "organized_ctd/CTD Structure/Module 1 Administrative Information and Prescribing Information/1.3 Product Information/1.3.2 Patient Information Leaflet (PIL)/1.3.2.2 Clean - PIL/1.3.2.2.3 Clean - PIL - Portuguese"),
 ("1.3.2.3 Annotated - PIL",
  "organized_ctd/CTD Structure/Module 1 Administrative Information and Prescribing Information/1.3 Product Information/1.3.2 Patient Information Leaflet (PIL)/1.3.2.3 Annotated - PIL"),
 ("1.3.2.3",
  "organized_ctd/CTD Structure/Module 1 Administrative Information and Prescribing Information/1.3 Product Information/1.3.2 Patient Information Leaflet (PIL)/1.3.2.3 Annotated - PIL"),
 ("1.3.2.3.1 Annotated - PIL - English",
  "organized_ctd/CTD Structure/Module 1 Administrative Information and Prescribing Information/1.3 Product Information/1.3.2 Patient Information Leaflet (PIL)/1.3.2.3 Annotated - PIL/1.3.2.3.1 Annotated - PIL - English"),
 ("1.3.2.3.1",
  "organized_ctd/CTD Structure/Module 1 Administrative Information and Prescribing Information/1.3 Product Information/1.3.2 Patient Information Leaflet (PIL)/1.3.2.3 Annotated - PIL/1.3.2.3.1 Annotated - PIL - English"),
 ("1.3.2.3.2 Annotated - PIL - French",
  "organized_ctd/CTD Structure/Module 1 Administrative Information and Prescribing Information/1.3 Product Information/1.3.2 Patient Information Leaflet (PIL)/1.3.2.3 Annotated - PIL/1.3.2.3.2 Annotated - PIL - French"),
 ("1.3.2.3.2",
  "organized_ctd/CTD Structure/Module 1 Administrative Information and Prescribing Information/1.3 Product Information/1.3.2 Patient Information Leaflet (PIL)/1.3.2.3 Annotated - PIL/1.3.2.3.2 Annotated - PIL - French"),
 ("1.3.2.3.3 Annotated - PIL - Portuguese",
  "organized_ctd/CTD Structure/Module 1 Administrative Information and Prescribing Information/1.3 Product Information/1.3.2 Patient Information Leaflet (PIL)/1.3.2.3 Annotated - PIL/1.3.2.3.3 Annotated - PIL - Portuguese"),
 ("1.3.2.3.3",
  "organized_ctd/CTD Structure/Module 1 Administrative Information and Prescribing Information/1.3 Product Information/1.3.2 Patient Information Leaflet (PIL)/1.3.2.3 Annotated - PIL/1.3.2.3.3 Annotated - PIL - Portuguese"),
 ("1.3.3 Container Labels",
  "organized_ctd/CTD Structure/Module 1 Administrative Information and Prescribing Information/1.3 Product Information/1.3.3 Container Labels"),
 ("1.3.3",
  "organized_ctd/CTD Structure/Module 1 Administrative Information and Prescribing Information/1.3 Product Information/1.3.3 Container Labels")]

/-- The folder mapping after the first 72 visited nodes. -/
def allFoldersStage3 : List (String × String) :=
[("CTD Structure", "organized_ctd/CTD Structure"),
 ("Module 1 Administrative Information and Prescribing Information",
  "organized_ctd/CTD Structure/Module 1 Administrative Information and Prescribing Information"),
 ("1", "organized_ctd/CTD Structure/Module 1 Administrative Information and Prescribing Information"),
 ("1.0 Correspondence",
  "organized_ctd/CTD Structure/Module 1 Administrative Information and Prescribing Information/1.0 Correspondence"),
 ("1.0",
  "organized_ctd/CTD Structure/Module 1 Administrative Information and Prescribing Information/1.0 Correspondence"),
 ("1.0.1 Cover Letter",
  "organized_ctd/CTD Structure/Module 1 Administrative Information and Prescribing Information/1.0 Correspondence/1.0.1 Cover Letter"),
 ("1.0.1",
  "organized_ctd/CTD Structure/Module 1 Administrative Information and Prescribing Information/1.0 Correspondence/1.0.1 Cover Letter"),
 ("1.0.2 General Note to Reviewer",
  "organized_ctd/CTD Structure/Module 1 Administrative Information and Prescribing Information/1.0 Correspondence/1.0.2 General Note to Reviewer"),
 ("1.0.2",
  "organized_ctd/CTD Structure/Module 1 Administrative Information and Prescribing Information/1.0 Correspondence/1.0.2 General Note to Reviewer"),
 ("1.0.3 Life Cycle Management Tracking Table",
  "organized_ctd/CTD Structure/Module 1 Administrative Information and Prescribing Information/1.0 Correspondence/1.0.3 Life Cycle Management Tracking Table"),
 ("1.0.3",
  "organized_ctd/CTD Structure/Module 1 Administrative Information and Prescribing Information/1.0 Correspondence/1.0.3 Life Cycle Management Tracking Table"),
 ("1.0.4 Correspondence Issued by Regulatory Authority",
  "organized_ctd/CTD Structure/Module 1 Administrative Information and Prescribing Information/1.0 Correspondence/1.0.4 Correspondence Issued by Regulatory Authority"),
 ("1.0.4",
  "organized_ctd/CTD Structure/Module 1 Administrative Information and Prescribing Information/1.0 Correspondence/1.0.4 Correspondence Issued by Regulatory Authority"),
 ("1.0.5 Response to Information Solicited by Regulatory Authority",
  "organized_ctd/CTD Structure/Module 1 Administrative Information and Prescribing Information/1.0 Correspondence/1.0.5 Response to Information Solicited by Regulatory Authority"),
 ("1.0.5",
  "organized_ctd/CTD Structure/Module 1 Administrative Information and Prescribing Information/1.0 Correspondence/1.0.5 Response to Information Solicited by Regulatory Authority"),
 ("1.0.6 Meeting Information",
  "organized_ctd/CTD Structure/Module 1 Administrative Information and Prescribing Information/1.0 Correspondence/1.0.6 Meeting Information"),
 ("1.0.6",
  "organized_ctd/CTD Structure/Module 1 Administrative Information and Prescribing Information/1.0 Correspondence/1.0.6 Meeting Information"),
 ("1.0.7 Request for Appeal Documentation",
  "organized_ctd/CTD Structure/Module 1 Administrative Information and Prescribing Information/1.0 Correspondence/1.0.7 Request for Appeal Documentation"),
 ("1.0.7",
  "organized_ctd/CTD Structure/Module 1 Administrative Information and Prescribing Information/1.0 Correspondence/1.0.7 Request for Appeal Documentation"),
 ("1.2 Administrative Information",
  "organized_ctd/CTD Structure/Module 1 Administrative Information and Prescribing Information/1.2 Administrative Information"),
 ("1.2",
  "organized_ctd/CTD Structure/Module 1 Administrative Information and Prescribing Information/1.2 Administrative Information/1.2.A Additional Administrative Information"),
 ("1.2.1 Application Form",
  "organized_ctd/CTD Structure/Module 1 Administrative Information and Prescribing Information/1.2 Administrative Information/1.2.1 Application Form"),
 ("1.2.1",
  "organized_ctd/CTD Structure/Module 1 Administrative Information and Prescribing Information/1.2 Administrative Information/1.2.1 Application Form"),
 ("1.2.2 Fee Forms",
  "organized_ctd/CTD Structure/Module 1 Administrative Information and Prescribing Information/1.2 Administrative Information/1.2.2 Fee Forms"),
 ("1.2.2",
  "organized_ctd/CTD Structure/Module 1 Administrative Information and Prescribing Information/1.2 Administrative Information/1.2.2 Fee Forms"),
 ("1.2.3 Certification and Attestation Forms",
  "organized_ctd/CTD Structure/Module 1 Administrative Information and Prescribing Information/1.2 Administrative Information/1.2.3 Certification and Attestation Forms"),
 ("1.2.3",
  "organized_ctd/CTD Structure/Module 1 Administrative Information and Prescribing Information/1.2 Administrative Information/1.2.3 Certification and Attestation Forms"),
 ("1.2.4 Compliance and Site Information",
  "organized_ctd/CTD Structure/Module 1 Administrative Information and Prescribing Information/1.2 Administrative Information/1.2.4 Compliance and Site Information"),
 ("1.2.4",
  "organized_ctd/CTD Structure/Module 1 Administrative Information and Prescribing Information/1.2 Administrative Information/1.2.4 Compliance and Site Information"),
 ("1.2.5 Authorization for Sharing Information",
  "organized_ctd/CTD Structure/Module 1 Administrative Information and Prescribing Information/1.2 Administrative Information/1.2.5 Authorization for Sharing Information"),
 ("1.2.5",
  "organized_ctd/CTD Structure/Module 1 Administrative Information and Prescribing Information/1.2 Administrative Information/1.2.5 Authorization for Sharing Information"),
 ("1.2.6 Electronic Declaration",
  "organized_ctd/CTD Structure/Module 1 Administrative Information and Prescribing Information/1.2 Administrative Information/1.2.6 Electronic Declaration"),
 ("1.2.6",
  "organized_ctd/CTD Structure/Module 1 Administrative Information and Prescribing Information/1.2 Administrative Information/1.2.6 Electronic Declaration"),
 ("1.2.7 Trademark & Intellectual Property Information",
  "organized_ctd/CTD Structure/Module 1 Administrative Information and Prescribing Information/1.2 Administrative Information/1.2.7 Trademark & Intellectual Property Information"),
 ("1.2.7",
  "organized_ctd/CTD Structure/Module 1 Administrative Information and Prescribing Information/1.2 Administrative Information/1.2.7 Trademark & Intellectual Property Information"),
 ("1.2.8 Screening Details",
  "organized_ctd/CTD Structure/Module 1 Administrative Information and Prescribing Information/1.2 Administrative Information/1.2.8 Screening Details"),
 ("1.2.8",
  "organized_ctd/CTD Structure/Module 1 Administrative Information and Prescribing Information/1.2 Administrative Information/1.2.8 Screening Details"),
 ("1.2.A Additional Administrative Information",
  "organized_ctd/CTD Structure/Module 1 Administrative Information and Prescribing Information/1.2 Administrative Information/1.2.A Additional Administrative Information"),
 ("1.3 Product Information",
  "organized_ctd/CTD Structure/Module 1 Administrative Information and Prescribing Information/1.3 Product Information"),
 ("1.3",
  "organized_ctd/CTD Structure/Module 1 Administrative Information and Prescribing Information/1.3 Product Information"),
 ("1.3.1 Summary of Product Characteristics (SmPC)",
  "organized_ctd/CTD Structure/Module 1 Administrative Information and Prescribing Information/1.3 Product Information/1.3.1 Summary of Product Characteristics (SmPC)"),
 ("1.3.1",
  "organized_ctd/CTD Structure/Module 1 Administrative Information and Prescribing Information/1.3 Product Information/1.3.1 Summary of Product Characteristics (SmPC)"),
 ("1.3.1.1 Approved - SmPC",
  "organized_ctd/CTD Structure/Module 1 Administrative Information and Prescribing Information/1.3 Product Information/1.3.1 Summary of Product Characteristics (SmPC)/1.3.1.1 Approved - SmPC"),
 ("1.3.1.1",
  "organized_ctd/CTD Structure/Module 1 Administrative Information and Prescribing Information/1.3 Product Information/1.3.1 Summary of Product Characteristics (SmPC)/1.3.1.1 Approved - SmPC"),
 ("1.3.1.1.1 Approved - SmPC - English",
  "organized_ctd/CTD Structure/Module 1 Administrative Information and Prescribing Information/1.3 Product Information/1.3.1 Summary of Product Characteristics (SmPC)/1.3.1.1 Approved - SmPC/1.3.1.1.1 Approved - SmPC - English"),
 ("1.3.1.1.1",
  "organized_ctd/CTD Structure/Module 1 Administrative Information and Prescribing Information/1.3 Product Information/1.3.1 Summary of Product Characteristics (SmPC)/1.3.1.1 Approved - SmPC/1.3.1.1.1 Approved - SmPC - English"),
 ("1.3.1.1.2 Approved - SmPC - French",
  "organized_ctd/CTD Structure/Module 1 Administrative Information and Prescribing Information/1.3 Product Information/1.3.1 Summary of Product Characteristics (SmPC)/1.3.1.1 Approved - SmPC/1.3.1.1.2 Approved - SmPC - French"),
 ("1.3.1.1.2",
  "organized_ctd/CTD Structure/Module 1 Administrative Information and Prescribing Information/1.3 Product Information/1.3.1 Summary of Product Characteristics (SmPC)/1.3.1.1 Approved - SmPC/1.3.1.1.2 Approved - SmPC - French"),
 ("1.3.1.1.3 Approved - SmPC - Portuguese",
  "organized_ctd/CTD Structure/Module 1 Administrative Information and Prescribing Information/1.3 Product Information/1.3.1 Summary of Product Characteristics (SmPC)/1.3.1.1 Approved - SmPC/1.3.1.1.3 Approved - SmPC - Portuguese"),
 ("1.3.1.1.3",
  "organized_ctd/CTD Structure/Module 1 Administrative Information and Prescribing Information/1.3 Product Information/1.3.1 Summary of Product Characteristics (SmPC)/1.3.1.1 Approved - SmPC/1.3.1.1.3 Approved - SmPC - Portuguese"),
 ("1.3.1.2 Clean - SmPC",
  "organized_ctd/CTD Structure/Module 1 Administrative Information and Prescribing Information/1.3 Product Information/1.3.1 Summary of Product Characteristics (SmPC)/1.3.1.2 Clean - SmPC"),
 ("1.3.1.2",
  "organized_ctd/CTD Structure/Module 1 Administrative Information and Prescribing Information/1.3 Product Information/1.3.1 Summary of Product Characteristics (SmPC)/1.3.1.2 Clean - SmPC"),
 ("1.3.1.2.1 Clean - SmPC - English",
  "organized_ctd/CTD Structure/Module 1 Administrative Information and Prescribing Information/1.3 Product Information/1.3.1 Summary of Product Characteristics (SmPC)/1.3.1.2 Clean - SmPC/1.3.1.2.1 Clean - SmPC - English"),
 ("1.3.1.2.1",
  "organized_ctd/CTD Structure/Module 1 Administrative Information and Prescribing Information/1.3 Product Information/1.3.1 Summary of Product Characteristics (SmPC)/1.3.1.2 Clean - SmPC/1.3.1.2.1 Clean - SmPC - English"),
 ("1.3.1.2.2 Clean - SmPC - French",
  "organized_ctd/CTD Structure/Module 1 Administrative Information and Prescribing Information/1.3 Product Information/1.3.1 Summary of Product Characteristics (SmPC)/1.3.1.2 Clean - SmPC/1.3.1.2.2 Clean - SmPC - French"),
 ("1.3.1.2.2",
  "organized_ctd/CTD Structure/Module 1 Administrative Information and Prescribing Information/1.3 Product Information/1.3.1 Summary of Product Characteristics (SmPC)/1.3.1.2 Clean - SmPC/1.3.1.2.2 Clean - SmPC - French"),
 ("1.3.1.2.3 Clean - SmPC - Portuguese",
  "organized_ctd/CTD Structure/Module 1 Administrative Information and Prescribing Information/1.3 Product Information/1.3.1 Summary of Product Characteristics (SmPC)/1.3.1.2 Clean - SmPC/1.3.1.2.3 Clean - SmPC - Portuguese"),
 ("1.3.1.2.3",
  "organized_ctd/CTD Structure/Module 1 Administrative Information and Prescribing Information/1.3 Product Information/1.3.1 Summary of Product Characteristics (SmPC)/1.3.1.2 Clean - SmPC/1.3.1.2.3 Clean - SmPC - Portuguese"),
 ("1.3.1.3 Annotated - SmPC",
  "organized_ctd/CTD Structure/Module 1 Administrative Information and Prescribing Information/1.3 Product Information/1.3.1 Summary of Product Characteristics (SmPC)/1.3.1.3 Annotated - SmPC"),
 ("1.3.1.3",
  "organized_ctd/CTD Structure/Module 1 Administrative Information and Prescribing Information/1.3 Product Information/1.3.1 Summary of Product Characteristics (SmPC)/1.3.1.3 Annotated - SmPC"),
 ("1.3.1.3.1 Annotated - SmPC - English",
  "organized_ctd/CTD Structure/Module 1 Administrative Information and Prescribing Information/1.3 Product Information/1.3.1 Summary of Product Characteristics (SmPC)/1.3.1.3 Annotated - SmPC/1.3.1.3.1 Annotated - SmPC - English"),
 ("1.3.1.3.1",
  "organized_ctd/CTD Structure/Module 1 Administrative Information and Prescribing Information/1.3 Product Information/1.3.1 Summary of Product Characteristics (SmPC)/1.3.1.3 Annotated - SmPC/1.3.1.3.1 Annotated - SmPC - English"),
 ("1.3.1.3.2 Annotated - SmPC - French",
  "organized_ctd/CTD Structure/Module 1 Administrative Information and Prescribing Information/1.3 Product Information/1.3.1 Summary of Product Characteristics (SmPC)/1.3.1.3 Annotated - SmPC/1.3.1.3.2 Annotated - SmPC - French"),
 ("1.3.1.3.2",
  "organized_ctd/CTD Structure/Module 1 Administrative Information and Prescribing Information/1.3 Product Information/1.3.1 Summary of Product Characteristics (SmPC)/1.3.1.3 Annotated - SmPC/1.3.1.3.2 Annotated - SmPC - French"),
 ("1.3.1.3.3 Annotated - SmPC - Portuguese",
  "organized_ctd/CTD Structure/Module 1 Administrative Information and Prescribing Information/1.3 Product Information/1.3.1 Summary of Product Characteristics (SmPC)/1.3.1.3 Annotated - SmPC/1.3.1.3.3 Annotated - SmPC - Portuguese"),
 ("1.3.1.3.3",
  "organized_ctd/CTD Structure/Module 1 Administrative Information and Prescribing Information/1.3 Product Information/1.3.1 Summary of Product Characteristics (SmPC)/1.3.1.3 Annotated - SmPC/1.3.1.3.3 Annotated - SmPC - Portuguese"),
 ("1.3.2 Patient Information Leaflet (PIL)",
  "organized_ctd/CTD Structure/Module 1 Administrative Information and Prescribing Information/1.3 Product Information/1.3.2 Patient Information Leaflet (PIL)"),
 ("1.3.2",
  "organized_ctd/CTD Structure/Module 1 Administrative Information and Prescribing Information/1.3 Product Information/1.3.2 Patient Information Leaflet (PIL)"),
 ("1.3.2.1 Approved - PIL",
  "organized_ctd/CTD Structure/Module 1 Administrative Information and Prescribing Information/1.3 Product Information/1.3.2 Patient Information Leaflet (PIL)/1.3.2.1 Approved - PIL"),
 ("1.3.2.1",
  "organized_ctd/CTD Structure/Module 1 Administrative Information and Prescribing Information/1.3 Product Information/1.3.2 Patient Information Leaflet (PIL)/1.3.2.1 Approved - PIL"),
 ("1.3.2.1.1 Approved - PIL - English",
  "organized_ctd/CTD Structure/Module 1 Administrative Information and Prescribing Information/1.3 Product Information/1.3.2 Patient Information Leaflet (PIL)/1.3.2.1 Approved - PIL/1.3.2.1.1 Approved - PIL - English"),
 ("1.3.2.1.1",
  "organized_ctd/CTD Structure/Module 1 Administrative Information and Prescribing Information/1.3 Product Information/1.3.2 Patient Information Leaflet (PIL)/1.3.2.1 Approved - PIL/1.3.2.1.1 Approved - PIL - English"),
 ("1.3.2.1.2 Approved - PIL - French",
  "organized_ctd/CTD Structure/Module 1 Administrative Information and Prescribing Information/1.3 Product Information/1.3.2 Patient Information Leaflet (PIL)/1.3.2.1 Approved - PIL/1.3.2.1.2 Approved - PIL - French"),
 ("1.3.2.1.2",
  "organized_ctd/CTD Structure/Module 1 Administrative Information and Prescribing Information/1.3 Product Information/1.3.2 Patient Information Leaflet (PIL)/1.3.2.1 Approved - PIL/1.3.2.1.2 Approved - PIL - French"),
 ("1.3.2.1.3 Approved - PIL - Portuguese",
  "organized_ctd/CTD Structure/Module 1 Administrative Information and Prescribing Information/1.3 Product Information/1.3.2 Patient Information Leaflet (PIL)/1.3.2.1 Approved - PIL/1.3.2.1.3 Approved - PIL - Portuguese"),
 ("1.3.2.1.3",
  "organized_ctd/CTD Structure/Module 1 Administrative Information and Prescribing Information/1.3 Product Information/1.3.2 Patient Information Leaflet (PIL)/1.3.2.1 Approved - PIL/1.3.2.1.3 Approved - PIL - Portuguese"),
 ("1.3.2.2 Clean - PIL",
  "organized_ctd/CTD Structure/Module 1 Administrative Information and Prescribing Information/1.3 Product Information/1.3.2 Patient Information Leaflet (PIL)/1.3.2.2 Clean - PIL"),
 ("1.3.2.2",
  "organized_ctd/CTD Structure/Module 1 Administrative Information and Prescribing Information/1.3 Product Information/1.3.2 Patient Information Leaflet (PIL)/1.3.2.2 Clean - PIL"),
 ("1.3.2.2.1 Clean - PIL - English",
  "organized_ctd/CTD Structure/Module 1 Administrative Information and Prescribing Information/1.3 Product Information/1.3.2 Patient Information Leaflet (PIL)/1.3.2.2 Clean - PIL/1.3.2.2.1 Clean - PIL - English"),
 ("1.3.2.2.1",
  "organized_ctd/CTD Structure/Module 1 Administrative Information and Prescribing Information/1.3 Product Information/1.3.2 Patient Information Leaflet (PIL)/1.3.2.2 Clean - PIL/1.3.2.2.1 Clean - PIL - English"),
 ("1.3.2.2.2 Clean - PIL - French",
  "organized_ctd/CTD Structure/Module 1 Administrative Information and Prescribing Information/1.3 Product Information/1.3.2 Patient Information Leaflet (PIL)/1.3.2.2 Clean - PIL/1.3.2.2.2 Clean - PIL - French"),
 ("1.3.2.2.2",
  "organized_ctd/CTD Structure/Module 1 Administrative Information and Prescribing Information/1.3 Product Information/1.3.2 Patient Information Leaflet (PIL)/1.3.2.2 Clean - PIL/1.3.2.2.2 Clean - PIL - French"),
 ("1.3.2.2.3 Clean - PIL - Portuguese",
  "organized_ctd/CTD Structure/Module 1 Administrative Information and Prescribing Information/1.3 Product Information/1.3.2 Patient Information Leaflet (PIL)/1.3.2.2 Clean - PIL/1.3.2.2.3 Clean - PIL - Portuguese"),
 ("1.3.2.2.3",
  "organized_ctd/CTD Structure/Module 1 Administrative Information and Prescribing Information/1.3 Product Information/1.3.2 Patient Information Leaflet (PIL)/1.3.2.2 Clean - PIL/1.3.2.2.3 Clean - PIL - Portuguese"),
 ("1.3.2.3 Annotated - PIL",
  "organized_ctd/CTD Structure/Module 1 Administrative Information and Prescribing Information/1.3 Product Information/1.3.2 Patient Information Leaflet (PIL)/1.3.2.3 Annotated - PIL"),
 ("1.3.2.3",
  "organized_ctd/CTD Structure/Module 1 Administrative Information and Prescribing Information/1.3 Product Information/1.3.2 Patient Information Leaflet (PIL)/1.3.2.3 Annotated - PIL"),
 ("1.3.2.3.1 Annotated - PIL - English",
  "organized_ctd/CTD Structure/Module 1 Administrative Information and Prescribing Information/1.3 Product Information/1.3.2 Patient Information Leaflet (PIL)/1.3.2.3 Annotated - PIL/1.3.2.3.1 Annotated - PIL - English"),
 ("1.3.2.3.1",
  "organized_ctd/CTD Structure/Module 1 Administrative Information and Prescribing Information/1.3 Product Information/1.3.2 Patient Information Leaflet (PIL)/1.3.2.3 Annotated - PIL/1.3.2.3.1 Annotated - PIL - English"),
 ("1.3.2.3.2 Annotated - PIL - French",
  "organized_ctd/CTD Structure/Module 1 Administrative Information and Prescribing Information/1.3 Product Information/1.3.2 Patient Information Leaflet (PIL)/1.3.2.3 Annotated - PIL/1.3.2.3.2 Annotated - PIL - French"),
 ("1.3.2.3.2",
  "organized_ctd/CTD Structure/Module 1 Administrative Information and Prescribing Information/1.3 Product Information/1.3.2 Patient Information Leaflet (PIL)/1.3.2.3 Annotated - PIL/1.3.2.3.2 Annotated - PIL - French"),
 ("1.3.2.3.3 Annotated - PIL - Portuguese",
  "organized_ctd/CTD Structure/Module 1 Administrative Information and Prescribing Information/1.3 Product Information/1.3.2 Patient Information Leaflet (PIL)/1.3.2.3 Annotated - PIL/1.3.2.3.3 Annotated - PIL - Portuguese"),
 ("1.3.2.3.3",
  "organized_ctd/CTD Structure/Module 1 Administrative Information and Prescribing Information/1.3 Product Information/1.3.2 Patient Information Leaflet (PIL)/1.3.2.3 Annotated - PIL/1.3.2.3.3 Annotated - PIL - Portuguese"),
 ("1.3.3 Container Labels",
  "organized_ctd/CTD Structure/Module 1 Administrative Information and Prescribing Information/1.3 Product Information/1.3.3 Container Labels"),
 ("1.3.3",
  "organized_ctd/CTD Structure/Module 1 Administrative Information and Prescribing Information/1.3 Product Information/1.3.3 Container Labels"),
 ("1.3.3.1 Approved - Container Labels",
  "organized_ctd/CTD Structure/Module 1 Administrative Information and Prescribing Information/1.3 Product Information/1.3.3 Container Labels/1.3.3.1 Approved - Container Labels"),
 ("1.3.3.1",
  "organized_ctd/CTD Structure/Module 1 Administrative Information and Prescribing Information/1.3 Product Information/1.3.3 Container Labels/1.3.3.1 Approved - Container Labels"),
 ("1.3.3.1.1 Approved - Container Labels - English",
  "organized_ctd/CTD Structure/Module 1 Administrative Information and Prescribing Information/1.3 Product Information/1.3.3 Container Labels/1.3.3.1 Approved - Container Labels/1.3.3.1.1 Approved - Container Labels - English"),
 ("1.3.3.1.1",
  "organized_ctd/CTD Structure/Module 1 Administrative Information and Prescribing Information/1.3 Product Information/1.3.3 Container Labels/1.3.3.1 Approved - Container Labels/1.3.3.1.1 Approved - Container Labels - English"),
 ("1.3.3.1.2 Approved - Container Labels - French",
  "organized_ctd/CTD Structure/Module 1 Administrative Information and Prescribing Information/1.3 Product Information/1.3.3 Container Labels/1.3.3.1 Approved - Container Labels/1.3.3.1.2 Approved - Container Labels - French"),
 ("1.3.3.1.2",
  "organized_ctd/CTD Structure/Module 1 Administrative Information and Prescribing Information/1.3 Product Information/1.3.3 Container Labels/1.3.3.1 Approved - Container Labels/1.3.3.1.2 Approved - Container Labels - French"),
 ("1.3.3.1.3 Approved - Container Labels - Portuguese",
  "organized_ctd/CTD Structure/Module 1 Administrative Information and Prescribing Information/1.3 Product Information/1.3.3 Container Labels/1.3.3.1 Approved - Container Labels/1.3.3.1.3 Approved - Container Labels - Portuguese"),
 ("1.3.3.1.3",
  "organized_ctd/CTD Structure/Module 1 Administrative Information and Prescribing Information/1.3 Product Information/1.3.3 Container Labels/1.3.3.1 Approved - Container Labels/1.3.3.1.3 Approved - Container Labels - Portuguese"),
 ("1.3.3.2 Clean - Container Labels",
  "organized_ctd/CTD Structure/Module 1 Administrative Information and Prescribing Information/1.3 Product Information/1.3.3 Container Labels/1.3.3.2 Clean - Container Labels"),
 ("1.3.3.2",
  "organized_ctd/CTD Structure/Module 1 Administrative Information and Prescribing Information/1.3 Product Information/1.3.3 Container Labels/1.3.3.2 Clean - Container Labels"),
 ("1.3.3.2.1 Clean - Container Labels - English",
  "organized_ctd/CTD Structure/Module 1 Administrative Information and Prescribing Information/1.3 Product Information/1.3.3 Container Labels/1.3.3.2 Clean - Container Labels/1.3.3.2.1 Clean - Container Labels - English"),
 ("1.3.3.2.1",
  "organized_ctd/CTD Structure/Module 1 Administrative Information and Prescribing Information/1.3 Product Information/1.3.3 Container Labels/1.3.3.2 Clean - Container Labels/1.3.3.2.1 Clean - Container Labels - English"),
 ("1.3.3.2.2 Clean - Container Labels - French",
  "organized_ctd/CTD Structure/Module 1 Administrative Information and Prescribing Information/1.3 Product Information/1.3.3 Container Labels/1.3.3.2 Clean - Container Labels/1.3.3.2.2 Clean - Container Labels - French"),
 ("1.3.3.2.2",
  "organized_ctd/CTD Structure/Module 1 Administrative Information and Prescribing Information/1.3 Product Information/1.3.3 Container Labels/1.3.3.2 Clean - Container Labels/1.3.3.2.2 Clean - Container Labels - French"),
 ("1.3.3.2.3 Clean - Container Labels - Portuguese",
  "organized_ctd/CTD Structure/Module 1 Administrative Information and Prescribing Information/1.3 Product Information/1.3.3 Container Labels/1.3.3.2 Clean - Container Labels/1.3.3.2.3 Clean - Container Labels - Portuguese"),
 ("1.3.3.2.3",
  "organized_ctd/CTD Structure/Module 1 Administrative Information and Prescribing Information/1.3 Product Information/1.3.3 Container Labels/1.3.3.2 Clean - Container Labels/1.3.3.2.3 Clean - Container Labels - Portuguese"),
 ("1.3.3.3 Annotated - Container Labels",
  "organized_ctd/CTD Structure/Module 1 Administrative Information and Prescribing Information/1.3 Product Information/1.3.3 Container Labels/1.3.3.3 Annotated - Container Labels"),
 ("1.3.3.3",
  "organized_ctd/CTD Structure/Module 1 Administrative Information and Prescribing Information/1.3 Product Information/1.3.3 Container Labels/1.3.3.3 Annotated - Container Labels"),
 ("1.3.3.3.1 Annotated - Container Labels - English",
  "organized_ctd/CTD Structure/Module 1 Administrative Information and Prescribing Information/1.3 Product Information/1.3.3 Container Labels/1.3.3.3 Annotated - Container Labels/1.3.3.3.1 Annotated - Container Labels - English"),
 ("1.3.3.3.1",
  "organized_ctd/CTD Structure/Module 1 Administrative Information and Prescribing Information/1.3 Product Information/1.3.3 Container Labels/1.3.3.3 Annotated - Container Labels/1.3.3.3.1 Annotated - Container Labels - English"),
 ("1.3.3.3.2 Annotated - Container Labels - French",
  "organized_ctd/CTD Structure/Module 1 Administrative Information and Prescribing Information/1.3 Product Information/1.3.3 Container Labels/1.3.3.3 Annotated - Container Labels/1.3.3.3.2 Annotated - Container Labels - French"),
 ("1.3.3.3.2",
  "organized_ctd/CTD Structure/Module 1 Administrative Information and Prescribing Information/1.3 Product Information/1.3.3 Container Labels/1.3.3.3 Annotated - Container Labels/1.3.3.3.2 Annotated - Container Labels - French"),
 ("1.3.3.3.3 Annotated - Container Labels - Portuguese",
  "organized_ctd/CTD Structure/Module 1 Administrative Information and Prescribing Information/1.3 Product Information/1.3.3 Container Labels/1.3.3.3 Annotated - Container Labels/1.3.3.3.3 Annotated - Container Labels - Portuguese"),
 ("1.3.3.3.3",
  "organized_ctd/CTD Structure/Module 1 Administrative Information and Prescribing Information/1.3 Product Information/1.3.3 Container Labels/1.3.3.3 Annotated - Container Labels/1.3.3.3.3 Annotated - Container Labels - Portuguese"),
 ("1.3.4 Foreign Labelling",
  "organized_ctd/CTD Structure/Module 1 Administrative Information and Prescribing Information/1.3 Product Information/1.3.4 Foreign Labelling"),
 ("1.3.4",
  "organized_ctd/CTD Structure/Module 1 Administrative Information and Prescribing Information/1.3 Product Information/1.3.4 Foreign Labelling"),
 ("1.3.5 Reference Product Labelling",
  "organized_ctd/CTD Structure/Module 1 Administrative Information and Prescribing Information/1.3 Product Information/1.3.5 Reference Product Labelling"),
 ("1.3.5",
  "organized_ctd/CTD Structure/Module 1 Administrative Information and Prescribing Information/1.3 Product Information/1.3.5 Reference Product Labelling"),
 ("1.3.6 Artwork and Samples",
  "organized_ctd/CTD Structure/Module 1 Administrative Information and Prescribing Information/1.3 Product Information/1.3.6 Artwork and Samples"),
 ("1.3.6",
  "organized_ctd/CTD Structure/Module 1 Administrative Information and Prescribing Information/1.3 Product Information/1.3.6 Artwork and Samples"),
 ("1.4 Information about the Experts",
  "organized_ctd/CTD Structure/Module 1 Administrative Information and Prescribing Information/1.4 Information about the Experts"),
 ("1.4",
  "organized_ctd/CTD Structure/Module 1 Administrative Information and Prescribing Information/1.4 Information about the Experts"),
 ("1.4.1 Quality",
  "organized_ctd/CTD Structure/Module 1 Administrative Information and Prescribing Information/1.4 Information about the Experts/1.4.1 Quality"),
 ("1.4.1",
  "organized_ctd/CTD Structure/Module 1 Administrative Information and Prescribing Information/1.4 Information about the Experts/1.4.1 Quality"),
 ("1.4.2 Non-Clinical",
  "organized_ctd/CTD Structure/Module 1 Administrative Information and Prescribing Information/1.4 Information about the Experts/1.4.2 Non-Clinical"),
 ("1.4.2",
  "organized_ctd/CTD Structure/Module 1 Administrative Information and Prescribing Information/1.4 Information about the Experts/1.4.2 Non-Clinical"),
 ("1.4.3 Clinical",
  "organized_ctd/CTD Structure/Module 1 Administrative Information and Prescribing Information/1.4 Information about the Experts/1.4.3 Clinical"),
 ("1.4.3",
  "organized_ctd/CTD Structure/Module 1 Administrative Information and Prescribing Information/1.4 Information about the Experts/1.4.3 Clinical"),
 ("1.5 Specific Requirements for Different Types of Applications",
  "organized_ctd/CTD Structure/Module 1 Administrative Information and Prescribing Information/1.5 Specific Requirements for Different Types of Applications"),
 ("1.5",
  "organized_ctd/CTD Structure/Module 1 Administrative Information and Prescribing Information/1.5 Specific Requirements for Different Types of Applications"),
 ("1.5.1 Bioequivalence Trial Information",
  "organized_ctd/CTD Structure/Module 1 Administrative Information and Prescribing Information/1.5 Specific Requirements for Different Types of Applications/1.5.1 Bioequivalence Trial Information"),
 ("1.5.1",
  "organized_ctd/CTD Structure/Module 1 Administrative Information and Prescribing Information/1.5 Specific Requirements for Different Types of Applications/1.5.1 Bioequivalence Trial Information"),
 ("1.6 Environmental Risk Assessment",
  "organized_ctd/CTD Structure/Module 1 Administrative Information and Prescribing Information/1.6 Environmental Risk Assessment"),
 ("1.6",
  "organized_ctd/CTD Structure/Module 1 Administrative Information and Prescribing Information/1.6 Environmental Risk Assessment"),
 ("1.6.1 Non-GMO",
  "organized_ctd/CTD Structure/Module 1 Administrative Information and Prescribing Information/1.6 Environmental Risk Assessment/1.6.1 Non-GMO"),
 ("1.6.1",
  "organized_ctd/CTD Structure/Module 1 Administrative Information and Prescribing Information/1.6 Environmental Risk Assessment/1.6.1 Non-GMO"),
 ("1.6.2 GMO",
  "organized_ctd/CTD Structure/Module 1 Administrative Information and Prescribing Information/1.6 Environmental Risk Assessment/1.6.2 GMO"),
 ("1.6.2",
  "organized_ctd/CTD Structure/Module 1 Administrative Information and Prescribing Information/1.6 Environmental Risk Assessment/1.6.2 GMO")]

/-- The folder mapping after the first 96 visited nodes. -/
def allFoldersStage4 : List (String × String) :=
[("CTD Structure", "organized_ctd/CTD Structure"),
 ("Module 1 Administrative Information and Prescribing Information",
  "organized_ctd/CTD Structure/Module 1 Administrative Information and Prescribing Information"),
 ("1",
  "organized_ctd/CTD Structure/Module 1 Administrative Information and Prescribing Information/1.A Additional Data/1.A.1 Country Specific Data"),
 ("1.0 Correspondence",
  "organized_ctd/CTD Structure/Module 1 Administrative Information and Prescribing Information/1.0 Correspondence"),
 ("1.0",
  "organized_ctd/CTD Structure/Module 1 Administrative Information and Prescribing Information/1.0 Correspondence"),
 ("1.0.1 Cover Letter",
  "organized_ctd/CTD Structure/Module 1 Administrative Information and Prescribing Information/1.0 Correspondence/1.0.1 Cover Letter"),
 ("1.0.1",
  "organized_ctd/CTD Structure/Module 1 Administrative Information and Prescribing Information/1.0 Correspondence/1.0.1 Cover Letter"),
 ("1.0.2 General Note to Reviewer",
  "organized_ctd/CTD Structure/Module 1 Administrative Information and Prescribing Information/1.0 Correspondence/1.0.2 General Note to Reviewer"),
 ("1.0.2",
  "organized_ctd/CTD Structure/Module 1 Administrative Information and Prescribing Information/1.0 Correspondence/1.0.2 General Note to Reviewer"),
 ("1.0.3 Life Cycle Management Tracking Table",
  "organized_ctd/CTD Structure/Module 1 Administrative Information and Prescribing Information/1.0 Correspondence/1.0.3 Life Cycle Management Tracking Table"),
 ("1.0.3",
  "organized_ctd/CTD Structure/Module 1 Administrative Information and Prescribing Information/1.0 Correspondence/1.0.3 Life Cycle Management Tracking Table"),
 ("1.0.4 Correspondence Issued by Regulatory Authority",
  "organized_ctd/CTD Structure/Module 1 Administrative Information and Prescribing Information/1.0 Correspondence/1.0.4 Correspondence Issued by Regulatory Authority"),
 ("1.0.4",
  "organized_ctd/CTD Structure/Module 1 Administrative Information and Prescribing Information/1.0 Correspondence/1.0.4 Correspondence Issued by Regulatory Authority"),
 ("1.0.5 Response to Information Solicited by Regulatory Authority",
  "organized_ctd/CTD Structure/Module 1 Administrative Information and Prescribing Information/1.0 Correspondence/1.0.5 Response to Information Solicited by Regulatory Authority"),
 ("1.0.5",
  "organized_ctd/CTD Structure/Module 1 Administrative Information and Prescribing Information/1.0 Correspondence/1.0.5 Response to Information Solicited by Regulatory Authority"),
 ("1.0.6 Meeting Information",
  "organized_ctd/CTD Structure/Module 1 Administrative Information and Prescribing Information/1.0 Correspondence/1.0.6 Meeting Information"),
 ("1.0.6",
  "organized_ctd/CTD Structure/Module 1 Administrative Information and Prescribing Information/1.0 Correspondence/1.0.6 Meeting Information"),
 ("1.0.7 Request for Appeal Documentation",
  "organized_ctd/CTD Structure/Module 1 Administrative Information and Prescribing Information/1.0 Correspondence/1.0.7 Request for Appeal Documentation"),
 ("1.0.7",
  "organized_ctd/CTD Structure/Module 1 Administrative Information and Prescribing Information/1.0 Correspondence/1.0.7 Request for Appeal Documentation"),
 ("1.2 Administrative Information",
  "organized_ctd/CTD Structure/Module 1 Administrative Information and Prescribing Information/1.2 Administrative Information"),
 ("1.2",
  "organized_ctd/CTD Structure/Module 1 Administrative Information and Prescribing Information/1.2 Administrative Information/1.2.A Additional Administrative Information"),
 ("1.2.1 Application Form",
  "organized_ctd/CTD Structure/Module 1 Administrative Information and Prescribing Information/1.2 Administrative Information/1.2.1 Application Form"),
 ("1.2.1",
  "organized_ctd/CTD Structure/Module 1 Administrative Information and Prescribing Information/1.2 Administrative Information/1.2.1 Application Form"),
 ("1.2.2 Fee Forms",
  "organized_ctd/CTD Structure/Module 1 Administrative Information and Prescribing Information/1.2 Administrative Information/1.2.2 Fee Forms"),
 ("1.2.2",
  "organized_ctd/CTD Structure/Module 1 Administrative Information and Prescribing Information/1.2 Administrative Information/1.2.2 Fee Forms"),
 ("1.2.3 Certification and Attestation Forms",
  "organized_ctd/CTD Structure/Module 1 Administrative Information and Prescribing Information/1.2 Administrative Information/1.2.3 Certification and Attestation Forms"),
 ("1.2.3",
  "organized_ctd/CTD Structure/Module 1 Administrative Information and Prescribing Information/1.2 Administrative Information/1.2.3 Certification and Attestation Forms"),
 ("1.2.4 Compliance and Site Information",
  "organized_ctd/CTD Structure/Module 1 Administrative Information and Prescribing Information/1.2 Administrative Information/1.2.4 Compliance and Site Information"),
 ("1.2.4",
  "organized_ctd/CTD Structure/Module 1 Administrative Information and Prescribing Information/1.2 Administrative Information/1.2.4 Compliance and Site Information"),
 ("1.2.5 Authorization for Sharing Information",
  "organized_ctd/CTD Structure/Module 1 Administrative Information and Prescribing Information/1.2 Administrative Information/1.2.5 Authorization for Sharing Information"),
 ("1.2.5",
  "organized_ctd/CTD Structure/Module 1 Administrative Information and Prescribing Information/1.2 Administrative Information/1.2.5 Authorization for Sharing Information"),
 ("1.2.6 Electronic Declaration",
  "organized_ctd/CTD Structure/Module 1 Administrative Information and Prescribing Information/1.2 Administrative Information/1.2.6 Electronic Declaration"),
 ("1.2.6",
  "organized_ctd/CTD Structure/Module 1 Administrative Information and Prescribing Information/1.2 Administrative Information/1.2.6 Electronic Declaration"),
 ("1.2.7 Trademark & Intellectual Property Information",
  "organized_ctd/CTD Structure/Module 1 Administrative Information and Prescribing Information/1.2 Administrative Information/1.2.7 Trademark & Intellectual Property Information"),
 ("1.2.7",
  "organized_ctd/CTD Structure/Module 1 Administrative Information and Prescribing Information/1.2 Administrative Information/1.2.7 Trademark & Intellectual Property Information"),
 ("1.2.8 Screening Details",
  "organized_ctd/CTD Structure/Module 1 Administrative Information and Prescribing Information/1.2 Administrative Information/1.2.8 Screening Details"),
 ("1.2.8",
  "organized_ctd/CTD Structure/Module 1 Administrative Information and Prescribing Information/1.2 Administrative Information/1.2.8 Screening Details"),
 ("1.2.A Additional Administrative Information",
  "organized_ctd/CTD Structure/Module 1 Administrative Information and Prescribing Information/1.2 Administrative Information/1.2.A Additional Administrative Information"),
 ("1.3 Product Information",
  "organized_ctd/CTD Structure/Module 1 Administrative Information and Prescribing Information/1.3 Product Information"),
 ("1.3",
  "organized_ctd/CTD Structure/Module 1 Administrative Information and Prescribing Information/1.3 Product Information"),
 ("1.3.1 Summary of Product Characteristics (SmPC)",
  "organized_ctd/CTD Structure/Module 1 Administrative Information and Prescribing Information/1.3 Product Information/1.3.1 Summary of Product Characteristics (SmPC)"),
 ("1.3.1",
  "organized_ctd/CTD Structure/Module 1 Administrative Information and Prescribing Information/1.3 Product Information/1.3.1 Summary of Product Characteristics (SmPC)"),
 ("1.3.1.1 Approved - SmPC",
  "organized_ctd/CTD Structure/Module 1 Administrative Information and Prescribing Information/1.3 Product Information/1.3.1 Summary of Product Characteristics (SmPC)/1.3.1.1 Approved - SmPC"),
 ("1.3.1.1",
  "organized_ctd/CTD Structure/Module 1 Administrative Information and Prescribing Information/1.3 Product Information/1.3.1 Summary of Product Characteristics (SmPC)/1.3.1.1 Approved - SmPC"),
 ("1.3.1.1.1 Approved - SmPC - English",
  "organized_ctd/CTD Structure/Module 1 Administrative Information and Prescribing Information/1.3 Product Information/1.3.1 Summary of Product Characteristics (SmPC)/1.3.1.1 Approved - SmPC/1.3.1.1.1 Approved - SmPC - English"),
 ("1.3.1.1.1",
  "organized_ctd/CTD Structure/Module 1 Administrative Information and Prescribing Information/1.3 Product Information/1.3.1 Summary of Product Characteristics (SmPC)/1.3.1.1 Approved - SmPC/1.3.1.1.1 Approved - SmPC - English"),
 ("1.3.1.1.2 Approved - SmPC - French",
  "organized_ctd/CTD Structure/Module 1 Administrative Information and Prescribing Information/1.3 Product Information/1.3.1 Summary of Product Characteristics (SmPC)/1.3.1.1 Approved - SmPC/1.3.1.1.2 Approved - SmPC - French"),
 ("1.3.1.1.2",
  "organized_ctd/CTD Structure/Module 1 Administrative Information and Prescribing Information/1.3 Product Information/1.3.1 Summary of Product Characteristics (SmPC)/1.3.1.1 Approved - SmPC/1.3.1.1.2 Approved - SmPC - French"),
 ("1.3.1.1.3 Approved - SmPC - Portuguese",
  "organized_ctd/CTD Structure/Module 1 Administrative Information and Prescribing Information/1.3 Product Information/1.3.1 Summary of Product Characteristics (SmPC)/1.3.1.1 Approved - SmPC/1.3.1.1.3 Approved - SmPC - Portuguese"),
 ("1.3.1.1.3",
  "organized_ctd/CTD Structure/Module 1 Administrative Information and Prescribing Information/1.3 Product Information/1.3.1 Summary of Product Characteristics (SmPC)/1.3.1.1 Approved - SmPC/1.3.1.1.3 Approved - SmPC - Portuguese"),
 ("1.3.1.2 Clean - SmPC",
  "organized_ctd/CTD Structure/Module 1 Administrative Information and Prescribing Information/1.3 Product Information/1.3.1 Summary of Product Characteristics (SmPC)/1.3.1.2 Clean - SmPC"),
 ("1.3.1.2",
  "organized_ctd/CTD Structure/Module 1 Administrative Information and Prescribing Information/1.3 Product Information/1.3.1 Summary of Product Characteristics (SmPC)/1.3.1.2 Clean - SmPC"),
 ("1.3.1.2.1 Clean - SmPC - English",
  "organized_ctd/CTD Structure/Module 1 Administrative Information and Prescribing Information/1.3 Product Information/1.3.1 Summary of Product Characteristics (SmPC)/1.3.1.2 Clean - SmPC/1.3.1.2.1 Clean - SmPC - English"),
 ("1.3.1.2.1",
  "organized_ctd/CTD Structure/Module 1 Administrative Information and Prescribing Information/1.3 Product Information/1.3.1 Summary of Product Characteristics (SmPC)/1.3.1.2 Clean - SmPC/1.3.1.2.1 Clean - SmPC - English"),
 ("1.3.1.2.2 Clean - SmPC - French",
  "organized_ctd/CTD Structure/Module 1 Administrative Information and Prescribing Information/1.3 Product Information/1.3.1 Summary of Product Characteristics (SmPC)/1.3.1.2 Clean - SmPC/1.3.1.2.2 Clean - SmPC - French"),
 ("1.3.1.2.2",
  "organized_ctd/CTD Structure/Module 1 Administrative Information and Prescribing Information/1.3 Product Information/1.3.1 Summary of Product Characteristics (SmPC)/1.3.1.2 Clean - SmPC/1.3.1.2.2 Clean - SmPC - French"),
 ("1.3.1.2.3 Clean - SmPC - Portuguese",
  "organized_ctd/CTD Structure/Module 1 Administrative Information and Prescribing Information/1.3 Product Information/1.3.1 Summary of Product Characteristics (SmPC)/1.3.1.2 Clean - SmPC/1.3.1.2.3 Clean - SmPC - Portuguese"),
 ("1.3.1.2.3",
  "organized_ctd/CTD Structure/Module 1 Administrative Information and Prescribing Information/1.3 Product Information/1.3.1 Summary of Product Characteristics (SmPC)/1.3.1.2 Clean - SmPC/1.3.1.2.3 Clean - SmPC - Portuguese"),
 ("1.3.1.3 Annotated - SmPC",
  "organized_ctd/CTD Structure/Module 1 Administrative Information and Prescribing Information/1.3 Product Information/1.3.1 Summary of Product Characteristics (SmPC)/1.3.1.3 Annotated - SmPC"),
 ("1.3.1.3",
  "organized_ctd/CTD Structure/Module 1 Administrative Information and Prescribing Information/1.3 Product Information/1.3.1 Summary of Product Characteristics (SmPC)/1.3.1.3 Annotated - SmPC"),
 ("1.3.1.3.1 Annotated - SmPC - English",
  "organized_ctd/CTD Structure/Module 1 Administrative Information and Prescribing Information/1.3 Product Information/1.3.1 Summary of Product Characteristics (SmPC)/1.3.1.3 Annotated - SmPC/1.3.1.3.1 Annotated - SmPC - English"),
 ("1.3.1.3.1",
  "organized_ctd/CTD Structure/Module 1 Administrative Information and Prescribing Information/1.3 Product Information/1.3.1 Summary of Product Characteristics (SmPC)/1.3.1.3 Annotated - SmPC/1.3.1.3.1 Annotated - SmPC - English"),
 ("1.3.1.3.2 Annotated - SmPC - French",
  "organized_ctd/CTD Structure/Module 1 Administrative Information and Prescribing Information/1.3 Product Information/1.3.1 Summary of Product Characteristics (SmPC)/1.3.1.3 Annotated - SmPC/1.3.1.3.2 Annotated - SmPC - French"),
 ("1.3.1.3.2",
  "organized_ctd/CTD Structure/Module 1 Administrative Information and Prescribing Information/1.3 Product Information/1.3.1 Summary of Product Characteristics (SmPC)/1.3.1.3 Annotated - SmPC/1.3.1.3.2 Annotated - SmPC - French"),
 ("1.3.1.3.3 Annotated - SmPC - Portuguese",
  "organized_ctd/CTD Structure/Module 1 Administrative Information and Prescribing Information/1.3 Product Information/1.3.1 Summary of Product Characteristics (SmPC)/1.3.1.3 Annotated - SmPC/1.3.1.3.3 Annotated - SmPC - Portuguese"),
 ("1.3.1.3.3",
  "organized_ctd/CTD Structure/Module 1 Administrative Information and Prescribing Information/1.3 Product Information/1.3.1 Summary of Product Characteristics (SmPC)/1.3.1.3 Annotated - SmPC/1.3.1.3.3 Annotated - SmPC - Portuguese"),
 ("1.3.2 Patient Information Leaflet (PIL)",
  "organized_ctd/CTD Structure/Module 1 Administrative Information and Prescribing Information/1.3 Product Information/1.3.2 Patient Information Leaflet (PIL)"),
 ("1.3.2",
  "organized_ctd/CTD Structure/Module 1 Administrative Information and Prescribing Information/1.3 Product Information/1.3.2 Patient Information Leaflet (PIL)"),
 ("1.3.2.1 Approved - PIL",
  "organized_ctd/CTD Structure/Module 1 Administrative Information and Prescribing Information/1.3 Product Information/1.3.2 Patient Information Leaflet (PIL)/1.3.2.1 Approved - PIL"),
 ("1.3.2.1",
  "organized_ctd/CTD Structure/Module 1 Administrative Information and Prescribing Information/1.3 Product Information/1.3.2 Patient Information Leaflet (PIL)/1.3.2.1 Approved - PIL"),
 ("1.3.2.1.1 Approved - PIL - English",
  "organized_ctd/CTD Structure/Module 1 Administrative Information and Prescribing Information/1.3 Product Information/1.3.2 Patient Information Leaflet (PIL)/1.3.2.1 Approved - PIL/1.3.2.1.1 Approved - PIL - English"),
 ("1.3.2.1.1",
  "organized_ctd/CTD Structure/Module 1 Administrative Information and Prescribing Information/1.3 Product Information/1.3.2 Patient Information Leaflet (PIL)/1.3.2.1 Approved - PIL/1.3.2.1.1 Approved - PIL - English"),
 ("1.3.2.1.2 Approved - PIL - French",
  "organized_ctd/CTD Structure/Module 1 Administrative Information and Prescribing Information/1.3 Product Information/1.3.2 Patient Information Leaflet (PIL)/1.3.2.1 Approved - PIL/1.3.2.1.2 Approved - PIL - French"),
 ("1.3.2.1.2",
  "organized_ctd/CTD Structure/Module 1 Administrative Information and Prescribing Information/1.3 Product Information/1.3.2 Patient Information Leaflet (PIL)/1.3.2.1 Approved - PIL/1.3.2.1.2 Approved - PIL - French"),
 ("1.3.2.1.3 Approved - PIL - Portuguese",
  "organized_ctd/CTD Structure/Module 1 Administrative Information and Prescribing Information/1.3 Product Information/1.3.2 Patient Information Leaflet (PIL)/1.3.2.1 Approved - PIL/1.3.2.1.3 Approved - PIL - Portuguese"),
 ("1.3.2.1.3",
  "organized_ctd/CTD Structure/Module 1 Administrative Information and Prescribing Information/1.3 Product Information/1.3.2 Patient Information Leaflet (PIL)/1.3.2.1 Approved - PIL/1.3.2.1.3 Approved - PIL - Portuguese"),
 ("1.3.2.2 Clean - PIL",
  "organized_ctd/CTD Structure/Module 1 Administrative Information and Prescribing Information/1.3 Product Information/1.3.2 Patient Information Leaflet (PIL)/1.3.2.2 Clean - PIL"),
 ("1.3.2.2",
  "organized_ctd/CTD Structure/Module 1 Administrative Information and Prescribing Information/1.3 Product Information/1.3.2 Patient Information Leaflet (PIL)/1.3.2.2 Clean - PIL"),
 ("1.3.2.2.1 Clean - PIL - English",
  "organized_ctd/CTD Structure/Module 1 Administrative Information and Prescribing Information/1.3 Product Information/1.3.2 Patient Information Leaflet (PIL)/1.3.2.2 Clean - PIL/1.3.2.2.1 Clean - PIL - English"),
 ("1.3.2.2.1",
  "organized_ctd/CTD Structure/Module 1 Administrative Information and Prescribing Information/1.3 Product Information/1.3.2 Patient Information Leaflet (PIL)/1.3.2.2 Clean - PIL/1.3.2.2.1 Clean - PIL - English"),
 ("1.3.2.2.2 Clean - PIL - French",
  "organized_ctd/CTD Structure/Module 1 Administrative Information and Prescribing Information/1.3 Product Information/1.3.2 Patient Information Leaflet (PIL)/1.3.2.2 Clean - PIL/1.3.2.2.2 Clean - PIL - French"),
 ("1.3.2.2.2",
  "organized_ctd/CTD Structure/Module 1 Administrative Information and Prescribing Information/1.3 Product Information/1.3.2 Patient Information Leaflet (PIL)/1.3.2.2 Clean - PIL/1.3.2.2.2 Clean - PIL - French"),
 ("1.3.2.2.3 Clean - PIL - Portuguese",
  "organized_ctd/CTD Structure/Module 1 Administrative Information and Prescribing Information/1.3 Product Information/1.3.2 Patient Information Leaflet (PIL)/1.3.2.2 Clean - PIL/1.3.2.2.3 Clean - PIL - Portuguese"),
 ("1.3.2.2.3",
  "organized_ctd/CTD Structure/Module 1 Administrative Information and Prescribing Information/1.3 Product Information/1.3.2 Patient Information Leaflet (PIL)/1.3.2.2 Clean - PIL/1.3.2.2.3 Clean - PIL - Portuguese"),
 ("1.3.2.3 Annotated - PIL",
  "organized_ctd/CTD Structure/Module 1 Administrative Information and Prescribing Information/1.3 Product Information/1.3.2 Patient Information Leaflet (PIL)/1.3.2.3 Annotated - PIL"),
 ("1.3.2.3",
  "organized_ctd/CTD Structure/Module 1 Administrative Information and Prescribing Information/1.3 Product Information/1.3.2 Patient Information Leaflet (PIL)/1.3.2.3 Annotated - PIL"),
 ("1.3.2.3.1 Annotated - PIL - English",
  "organized_ctd/CTD Structure/Module 1 Administrative Information and Prescribing Information/1.3 Product Information/1.3.2 Patient Information Leaflet (PIL)/1.3.2.3 Annotated - PIL/1.3.2.3.1 Annotated - PIL - English"),
 ("1.3.2.3.1",
  "organized_ctd/CTD Structure/Module 1 Administrative Information and Prescribing Information/1.3 Product Information/1.3.2 Patient Information Leaflet (PIL)/1.3.2.3 Annotated - PIL/1.3.2.3.1 Annotated - PIL - English"),
 ("1.3.2.3.2 Annotated - PIL - French",
  "organized_ctd/CTD Structure/Module 1 Administrative Information and Prescribing Information/1.3 Product Information/1.3.2 Patient Information Leaflet (PIL)/1.3.2.3 Annotated - PIL/1.3.2.3.2 Annotated - PIL - French"),
 ("1.3.2.3.2",
  "organized_ctd/CTD Structure/Module 1 Administrative Information and Prescribing Information/1.3 Product Information/1.3.2 Patient Information Leaflet (PIL)/1.3.2.3 Annotated - PIL/1.3.2.3.2 Annotated - PIL - French"),
 ("1.3.2.3.3 Annotated - PIL - Portuguese",
  "organized_ctd/CTD Structure/Module 1 Administrative Information and Prescribing Information/1.3 Product Information/1.3.2 Patient Information Leaflet (PIL)/1.3.2.3 Annotated - PIL/1.3.2.3.3 Annotated - PIL - Portuguese"),
 ("1.3.2.3.3",
  "organized_ctd/CTD Structure/Module 1 Administrative Information and Prescribing Information/1.3 Product Information/1.3.2 Patient Information Leaflet (PIL)/1.3.2.3 Annotated - PIL/1.3.2.3.3 Annotated - PIL - Portuguese"),
 ("1.3.3 Container Labels",
  "organized_ctd/CTD Structure/Module 1 Administrative Information and Prescribing Information/1.3 Product Information/1.3.3 Container Labels"),
 ("1.3.3",
  "organized_ctd/CTD Structure/Module 1 Administrative Information and Prescribing Information/1.3 Product Information/1.3.3 Container Labels"),
 ("1.3.3.1 Approved - Container Labels",
  "organized_ctd/CTD Structure/Module 1 Administrative Information and Prescribing Information/1.3 Product Information/1.3.3 Container Labels/1.3.3.1 Approved - Container Labels"),
 ("1.3.3.1",
  "organized_ctd/CTD Structure/Module 1 Administrative Information and Prescribing Information/1.3 Product Information/1.3.3 Container Labels/1.3.3.1 Approved - Container Labels"),
 ("1.3.3.1.1 Approved - Container Labels - English",
  "organized_ctd/CTD Structure/Module 1 Administrative Information and Prescribing Information/1.3 Product Information/1.3.3 Container Labels/1.3.3.1 Approved - Container Labels/1.3.3.1.1 Approved - Container Labels - English"),
 ("1.3.3.1.1",
  "organized_ctd/CTD Structure/Module 1 Administrative Information and Prescribing Information/1.3 Product Information/1.3.3 Container Labels/1.3.3.1 Approved - Container Labels/1.3.3.1.1 Approved - Container Labels - English"),
 ("1.3.3.1.2 Approved - Container Labels - French",
  "organized_ctd/CTD Structure/Module 1 Administrative Information and Prescribing Information/1.3 Product Information/1.3.3 Container Labels/1.3.3.1 Approved - Container Labels/1.3.3.1.2 Approved - Container Labels - French"),
 ("1.3.3.1.2",
  "organized_ctd/CTD Structure/Module 1 Administrative Information and Prescribing Information/1.3 Product Information/1.3.3 Container Labels/1.3.3.1 Approved - Container Labels/1.3.3.1.2 Approved - Container Labels - French"),
 ("1.3.3.1.3 Approved - Container Labels - Portuguese",
  "organized_ctd/CTD Structure/Module 1 Administrative Information and Prescribing Information/1.3 Product Information/1.3.3 Container Labels/1.3.3.1 Approved - Container Labels/1.3.3.1.3 Approved - Container Labels - Portuguese"),
 ("1.3.3.1.3",
  "organized_ctd/CTD Structure/Module 1 Administrative Information and Prescribing Information/1.3 Product Information/1.3.3 Container Labels/1.3.3.1 Approved - Container Labels/1.3.3.1.3 Approved - Container Labels - Portuguese"),
 ("1.3.3.2 Clean - Container Labels",
  "organized_ctd/CTD Structure/Module 1 Administrative Information and Prescribing Information/1.3 Product Information/1.3.3 Container Labels/1.3.3.2 Clean - Container Labels"),
 ("1.3.3.2",
  "organized_ctd/CTD Structure/Module 1 Administrative Information and Prescribing Information/1.3 Product Information/1.3.3 Container Labels/1.3.3.2 Clean - Container Labels"),
 ("1.3.3.2.1 Clean - Container Labels - English",
  "organized_ctd/CTD Structure/Module 1 Administrative Information and Prescribing Information/1.3 Product Information/1.3.3 Container Labels/1.3.3.2 Clean - Container Labels/1.3.3.2.1 Clean - Container Labels - English"),
 ("1.3.3.2.1",
  "organized_ctd/CTD Structure/Module 1 Administrative Information and Prescribing Information/1.3 Product Information/1.3.3 Container Labels/1.3.3.2 Clean - Container Labels/1.3.3.2.1 Clean - Container Labels - English"),
 ("1.3.3.2.2 Clean - Container Labels - French",
  "organized_ctd/CTD Structure/Module 1 Administrative Information and Prescribing Information/1.3 Product Information/1.3.3 Container Labels/1.3.3.2 Clean - Container Labels/1.3.3.2.2 Clean - Container Labels - French"),
 ("1.3.3.2.2",
  "organized_ctd/CTD Structure/Module 1 Administrative Information and Prescribing Information/1.3 Product Information/1.3.3 Container Labels/1.3.3.2 Clean - Container Labels/1.3.3.2.2 Clean - Container Labels - French"),
 ("1.3.3.2.3 Clean - Container Labels - Portuguese",
  "organized_ctd/CTD Structure/Module 1 Administrative Information and Prescribing Information/1.3 Product Information/1.3.3 Container Labels/1.3.3.2 Clean - Container Labels/1.3.3.2.3 Clean - Container Labels - Portuguese"),
 ("1.3.3.2.3",
  "organized_ctd/CTD Structure/Module 1 Administrative Information and Prescribing Information/1.3 Product Information/1.3.3 Container Labels/1.3.3.2 Clean - Container Labels/1.3.3.2.3 Clean - Container Labels - Portuguese"),
 ("1.3.3.3 Annotated - Container Labels",
  "organized_ctd/CTD Structure/Module 1 Administrative Information and Prescribing Information/1.3 Product Information/1.3.3 Container Labels/1.3.3.3 Annotated - Container Labels"),
 ("1.3.3.3",
  "organized_ctd/CTD Structure/Module 1 Administrative Information and Prescribing Information/1.3 Product Information/1.3.3 Container Labels/1.3.3.3 Annotated - Container Labels"),
 ("1.3.3.3.1 Annotated - Container Labels - English",
  "organized_ctd/CTD Structure/Module 1 Administrative Information and Prescribing Information/1.3 Product Information/1.3.3 Container Labels/1.3.3.3 Annotated - Container Labels/1.3.3.3.1 Annotated - Container Labels - English"),
 ("1.3.3.3.1",
  "organized_ctd/CTD Structure/Module 1 Administrative Information and Prescribing Information/1.3 Product Information/1.3.3 Container Labels/1.3.3.3 Annotated - Container Labels/1.3.3.3.1 Annotated - Container Labels - English"),
 ("1.3.3.3.2 Annotated - Container Labels - French",
  "organized_ctd/CTD Structure/Module 1 Administrative Information and Prescribing Information/1.3 Product Information/1.3.3 Container Labels/1.3.3.3 Annotated - Container Labels/1.3.3.3.2 Annotated - Container Labels - French"),
 ("1.3.3.3.2",
  "organized_ctd/CTD Structure/Module 1 Administrative Information and Prescribing Information/1.3 Product Information/1.3.3 Container Labels/1.3.3.3 Annotated - Container Labels/1.3.3.3.2 Annotated - Container Labels - French"),
 ("1.3.3.3.3 Annotated - Container Labels - Portuguese",
  "organized_ctd/CTD Structure/Module 1 Administrative Information and Prescribing Information/1.3 Product Information/1.3.3 Container Labels/1.3.3.3 Annotated - Container Labels/1.3.3.3.3 Annotated - Container Labels - Portuguese"),
 ("1.3.3.3.3",
  "organized_ctd/CTD Structure/Module 1 Administrative Information and Prescribing Information/1.3 Product Information/1.3.3 Container Labels/1.3.3.3 Annotated - Container Labels/1.3.3.3.3 Annotated - Container Labels - Portuguese"),
 ("1.3.4 Foreign Labelling",
  "organized_ctd/CTD Structure/Module 1 Administrative Information and Prescribing Information/1.3 Product Information/1.3.4 Foreign Labelling"),
 ("1.3.4",
  "organized_ctd/CTD Structure/Module 1 Administrative Information and Prescribing Information/1.3 Product Information/1.3.4 Foreign Labelling"),
 ("1.3.5 Reference Product Labelling",
  "organized_ctd/CTD Structure/Module 1 Administrative Information and Prescribing Information/1.3 Product Information/1.3.5 Reference Product Labelling"),
 ("1.3.5",
  "organized_ctd/CTD Structure/Module 1 Administrative Information and Prescribing Information/1.3 Product Information/1.3.5 Reference Product Labelling"),
 ("1.3.6 Artwork and Samples",
  "organized_ctd/CTD Structure/Module 1 Administrative Information and Prescribing Information/1.3 Product Information/1.3.6 Artwork and Samples"),
 ("1.3.6",
  "organized_ctd/CTD Structure/Module 1 Administrative Information and Prescribing Information/1.3 Product Information/1.3.6 Artwork and Samples"),
 ("1.4 Information about the Experts",
  "organized_ctd/CTD Structure/Module 1 Administrative Information and Prescribing Information/1.4 Information about the Experts"),
 ("1.4",
  "organized_ctd/CTD Structure/Module 1 Administrative Information and Prescribing Information/1.4 Information about the Experts"),
 ("1.4.1 Quality",
  "organized_ctd/CTD Structure/Module 1 Administrative Information and Prescribing Information/1.4 Information about the Experts/1.4.1 Quality"),
 ("1.4.1",
  "organized_ctd/CTD Structure/Module 1 Administrative Information and Prescribing Information/1.4 Information about the Experts/1.4.1 Quality"),
 ("1.4.2 Non-Clinical",
  "organized_ctd/CTD Structure/Module 1 Administrative Information and Prescribing Information/1.4 Information about the Experts/1.4.2 Non-Clinical"),
 ("1.4.2",
  "organized_ctd/CTD Structure/Module 1 Administrative Information and Prescribing Information/1.4 Information about the Experts/1.4.2 Non-Clinical"),
 ("1.4.3 Clinical",
  "organized_ctd/CTD Structure/Module 1 Administrative Information and Prescribing Information/1.4 Information about the Experts/1.4.3 Clinical"),
 ("1.4.3",
  "organized_ctd/CTD Structure/Module 1 Administrative Information and Prescribing Information/1.4 Information about the Experts/1.4.3 Clinical"),
 ("1.5 Specific Requirements for Different Types of Applications",
  "organized_ctd/CTD Structure/Module 1 Administrative Information and Prescribing Information/1.5 Specific Requirements for Different Types of Applications"),
 ("1.5",
  "organized_ctd/CTD Structure/Module 1 Administrative Information and Prescribing Information/1.5 Specific Requirements for Different Types of Applications"),
 ("1.5.1 Bioequivalence Trial Information",
  "organized_ctd/CTD Structure/Module 1 Administrative Information and Prescribing Information/1.5 Specific Requirements for Different Types of Applications/1.5.1 Bioequivalence Trial Information"),
 ("1.5.1",
  "organized_ctd/CTD Structure/Module 1 Administrative Information and Prescribing Information/1.5 Specific Requirements for Different Types of Applications/1.5.1 Bioequivalence Trial Information"),
 ("1.6 Environmental Risk Assessment",
  "organized_ctd/CTD Structure/Module 1 Administrative Information and Prescribing Information/1.6 Environmental Risk Assessment"),
 ("1.6",
  "organized_ctd/CTD Structure/Module 1 Administrative Information and Prescribing Information/1.6 Environmental Risk Assessment"),
 ("1.6.1 Non-GMO",
  "organized_ctd/CTD Structure/Module 1 Administrative Information and Prescribing Information/1.6 Environmental Risk Assessment/1.6.1 Non-GMO"),
 ("1.6.1",
  "organized_ctd/CTD Structure/Module 1 Administrative Information and Prescribing Information/1.6 Environmental Risk Assessment/1.6.1 Non-GMO"),
 ("1.6.2 GMO",
  "organized_ctd/CTD Structure/Module 1 Administrative Information and Prescribing Information/1.6 Environmental Risk Assessment/1.6.2 GMO"),
 ("1.6.2",
  "organized_ctd/CTD Structure/Module 1 Administrative Information and Prescribing Information/1.6 Environmental Risk Assessment/1.6.2 GMO"),
 ("1.7 Good Manufacturing Practice (GMP)",
  "organized_ctd/CTD Structure/Module 1 Administrative Information and Prescribing Information/1.7 Good Manufacturing Practice (GMP)"),
 ("1.7",
  "organized_ctd/CTD Structure/Module 1 Administrative Information and Prescribing Information/1.7 Good Manufacturing Practice (GMP)"),
 ("1.7.1 Date of Inspection of Each Site",
  "organized_ctd/CTD Structure/Module 1 Administrative Information and Prescribing Information/1.7 Good Manufacturing Practice (GMP)/1.7.1 Date of Inspection of Each Site"),
 ("1.7.1",
  "organized_ctd/CTD Structure/Module 1 Administrative Information and Prescribing Information/1.7 Good Manufacturing Practice (GMP)/1.7.1 Date of Inspection of Each Site"),
 ("1.7.2 Inspection Reports or Equivalent Documents",
  "organized_ctd/CTD Structure/Module 1 Administrative Information and Prescribing Information/1.7 Good Manufacturing Practice (GMP)/1.7.2 Inspection Reports or Equivalent Documents"),
 ("1.7.2",
  "organized_ctd/CTD Structure/Module 1 Administrative Information and Prescribing Information/1.7 Good Manufacturing Practice (GMP)/1.7.2 Inspection Reports or Equivalent Documents"),
 ("1.7.3 GMP Certificates or Manufacturing Licences",
  "organized_ctd/CTD Structure/Module 1 Administrative Information and Prescribing Information/1.7 Good Manufacturing Practice (GMP)/1.7.3 GMP Certificates or Manufacturing Licences"),
 ("1.7.3",
  "organized_ctd/CTD Structure/Module 1 Administrative Information and Prescribing Information/1.7 Good Manufacturing Practice (GMP)/1.7.3 GMP Certificates or Manufacturing Licences"),
 ("1.7.4 Other GMP Documents",
  "organized_ctd/CTD Structure/Module 1 Administrative Information and Prescribing Information/1.7 Good Manufacturing Practice (GMP)/1.7.4 Other GMP Documents"),
 ("1.7.4",
  "organized_ctd/CTD Structure/Module 1 Administrative Information and Prescribing Information/1.7 Good Manufacturing Practice (GMP)/1.7.4 Other GMP Documents"),
 ("1.8 Information Relating to Pharmacovigilance",
  "organized_ctd/CTD Structure/Module 1 Administrative Information and Prescribing Information/1.8 Information Relating to Pharmacovigilance"),
 ("1.8",
  "organized_ctd/CTD Structure/Module 1 Administrative Information and Prescribing Information/1.8 Information Relating to Pharmacovigilance"),
 ("1.8.1 Pharmacovigilance System",
  "organized_ctd/CTD Structure/Module 1 Administrative Information and Prescribing Information/1.8 Information Relating to Pharmacovigilance/1.8.1 Pharmacovigilance System"),
 ("1.8.1",
  "organized_ctd/CTD Structure/Module 1 Administrative Information and Prescribing Information/1.8 Information Relating to Pharmacovigilance/1.8.1 Pharmacovigilance System"),
 ("1.8.2 Risk-management System",
  "organized_ctd/CTD Structure/Module 1 Administrative Information and Prescribing Information/1.8 Information Relating to Pharmacovigilance/1.8.2 Risk-management System"),
 ("1.8.2",
  "organized_ctd/CTD Structure/Module 1 Administrative Information and Prescribing Information/1.8 Information Relating to Pharmacovigilance/1.8.2 Risk-management System"),
 ("1.9 Individual Patient Data - Statement of Availability",
  "organized_ctd/CTD Structure/Module 1 Administrative Information and Prescribing Information/1.9 Individual Patient Data - Statement of Availability"),
 ("1.9",
  "organized_ctd/CTD Structure/Module 1 Administrative Information and Prescribing Information/1.9 Individual Patient Data - Statement of Availability"),
 ("1.10 Foreign Regulatory Information",
  "organized_ctd/CTD Structure/Module 1 Administrative Information and Prescribing Information/1.10 Foreign Regulatory Information"),
 ("1.10",
  "organized_ctd/CTD Structure/Module 1 Administrative Information and Prescribing Information/1.10 Foreign Regulatory Information"),
 ("1.10.1 Regional & Foreign Regulatory Status",
  "organized_ctd/CTD Structure/Module 1 Administrative Information and Prescribing Information/1.10 Foreign Regulatory Information/1.10.1 Regional & Foreign Regulatory Status"),
 ("1.10.1",
  "organized_ctd/CTD Structure/Module 1 Administrative Information and Prescribing Information/1.10 Foreign Regulatory Information/1.10.1 Regional & Foreign Regulatory Status"),
 ("1.10.2 WHO Type Certificate of Pharmaceutical Product (COPP)",
  "organized_ctd/CTD Structure/Module 1 Administrative Information and Prescribing Information/1.10 Foreign Regulatory Information/1.10.2 WHO Type Certificate of Pharmaceutical Product (COPP)"),
 ("1.10.2",
  "organized_ctd/CTD Structure/Module 1 Administrative Information and Prescribing Information/1.10 Foreign Regulatory Information/1.10.2 WHO Type Certificate of Pharmaceutical Product (COPP)"),
 ("1.10.3 Data Set Similarities and Differences",
  "organized_ctd/CTD Structure/Module 1 Administrative Information and Prescribing Information/1.10 Foreign Regulatory Information/1.10.3 Data Set Similarities and Differences"),
 ("1.10.3",
  "organized_ctd/CTD Structure/Module 1 Administrative Information and Prescribing Information/1.10 Foreign Regulatory Information/1.10.3 Data Set Similarities and Differences"),
 ("1.10.4 Foreign Evaluation Reports",
  "organized_ctd/CTD Structure/Module 1 Administrative Information and Prescribing Information/1.10 Foreign Regulatory Information/1.10.4 Foreign Evaluation Reports"),
 ("1.10.4",
  "organized_ctd/CTD Structure/Module 1 Administrative Information and Prescribing Information/1.10 Foreign Regulatory Information/1.10.4 Foreign Evaluation Reports"),
 ("1.A Additional Data",
  "organized_ctd/CTD Structure/Module 1 Administrative Information and Prescribing Information/1.A Additional Data"),
 ("1.A.1 Country Specific Data",
  "organized_ctd/CTD Structure/Module 1 Administrative Information and Prescribing Information/1.A Additional Data/1.A.1 Country Specific Data"),
 ("Module 2 Common Technical Document Summaries",
  "organized_ctd/CTD Structure/Module 2 Common Technical Document Summaries"),
 ("2", "organized_ctd/CTD Structure/Module 2 Common Technical Document Summaries"),
 ("2.2 Introduction to Summary",
  "organized_ctd/CTD Structure/Module 2 Common Technical Document Summaries/2.2 Introduction to Summary"),
 ("2.2", "organized_ctd/CTD Structure/Module 2 Common Technical Document Summaries/2.2 Introduction to Summary"),
 ("2.3 Quality Overall Summary (QOS)",
  "organized_ctd/CTD Structure/Module 2 Common Technical Document Summaries/2.3 Quality Overall Summary (QOS)"),
 ("2.3",
  "organized_ctd/CTD Structure/Module 2 Common Technical Document Summaries/2.3 Quality Overall Summary (QOS)/2.3.R Regional Information"),
 ("2.3 Introduction",
  "organized_ctd/CTD Structure/Module 2 Common Technical Document Summaries/2.3 Quality Overall Summary (QOS)/2.3 Introduction"),
 ("2.3.S Drug Substance",
  "organized_ctd/CTD Structure/Module 2 Common Technical Document Summaries/2.3 Quality Overall Summary (QOS)/2.3.S Drug Substance"),
 ("2.3.P Drug Product",
  "organized_ctd/CTD Structure/Module 2 Common Technical Document Summaries/2.3 Quality Overall Summary (QOS)/2.3.P Drug Product"),
 ("2.3.A Appendices",
  "organized_ctd/CTD Structure/Module 2 Common Technical Document Summaries/2.3 Quality Overall Summary (QOS)/2.3.A Appendices"),
 ("2.3.R Regional Information",
  "organized_ctd/CTD Structure/Module 2 Common Technical Document Summaries/2.3 Quality Overall Summary (QOS)/2.3.R Regional Information")]

/-- The folder mapping after the first 120 visited nodes. -/
def allFoldersStage5 : List (String × String) :=
[("CTD Structure", "organized_ctd/CTD Structure"),
 ("Module 1 Administrative Information and Prescribing Information",
  "organized_ctd/CTD Structure/Module 1 Administrative Information and Prescribing Information"),
 ("1",
  "organized_ctd/CTD Structure/Module 1 Administrative Information and Prescribing Information/1.A Additional Data/1.A.1 Country Specific Data"),
 ("1.0 Correspondence",
  "organized_ctd/CTD Structure/Module 1 Administrative Information and Prescribing Information/1.0 Correspondence"),
 ("1.0",
  "organized_ctd/CTD Structure/Module 1 Administrative Information and Prescribing Information/1.0 Correspondence"),
 ("1.0.1 Cover Letter",
  "organized_ctd/CTD Structure/Module 1 Administrative Information and Prescribing Information/1.0 Correspondence/1.0.1 Cover Letter"),
 ("1.0.1",
  "organized_ctd/CTD Structure/Module 1 Administrative Information and Prescribing Information/1.0 Correspondence/1.0.1 Cover Letter"),
 ("1.0.2 General Note to Reviewer",
  "organized_ctd/CTD Structure/Module 1 Administrative Information and Prescribing Information/1.0 Correspondence/1.0.2 General Note to Reviewer"),
 ("1.0.2",
  "organized_ctd/CTD Structure/Module 1 Administrative Information and Prescribing Information/1.0 Correspondence/1.0.2 General Note to Reviewer"),
 ("1.0.3 Life Cycle Management Tracking Table",
  "organized_ctd/CTD Structure/Module 1 Administrative Information and Prescribing Information/1.0 Correspondence/1.0.3 Life Cycle Management Tracking Table"),
 ("1.0.3",
  "organized_ctd/CTD Structure/Module 1 Administrative Information and Prescribing Information/1.0 Correspondence/1.0.3 Life Cycle Management Tracking Table"),
 ("1.0.4 Correspondence Issued by Regulatory Authority",
  "organized_ctd/CTD Structure/Module 1 Administrative Information and Prescribing Information/1.0 Correspondence/1.0.4 Correspondence Issued by Regulatory Authority"),
 ("1.0.4",
  "organized_ctd/CTD Structure/Module 1 Administrative Information and Prescribing Information/1.0 Correspondence/1.0.4 Correspondence Issued by Regulatory Authority"),
 ("1.0.5 Response to Information Solicited by Regulatory Authority",
  "organized_ctd/CTD Structure/Module 1 Administrative Information and Prescribing Information/1.0 Correspondence/1.0.5 Response to Information Solicited by Regulatory Authority"),
 ("1.0.5",
  "organized_ctd/CTD Structure/Module 1 Administrative Information and Prescribing Information/1.0 Correspondence/1.0.5 Response to Information Solicited by Regulatory Authority"),
 ("1.0.6 Meeting Information",
  "organized_ctd/CTD Structure/Module 1 Administrative Information and Prescribing Information/1.0 Correspondence/1.0.6 Meeting Information"),
 ("1.0.6",
  "organized_ctd/CTD Structure/Module 1 Administrative Information and Prescribing Information/1.0 Correspondence/1.0.6 Meeting Information"),
 ("1.0.7 Request for Appeal Documentation",
  "organized_ctd/CTD Structure/Module 1 Administrative Information and Prescribing Information/1.0 Correspondence/1.0.7 Request for Appeal Documentation"),
 ("1.0.7",
  "organized_ctd/CTD Structure/Module 1 Administrative Information and Prescribing Information/1.0 Correspondence/1.0.7 Request for Appeal Documentation"),
 ("1.2 Administrative Information",
  "organized_ctd/CTD Structure/Module 1 Administrative Information and Prescribing Information/1.2 Administrative Information"),
 ("1.2",
  "organized_ctd/CTD Structure/Module 1 Administrative Information and Prescribing Information/1.2 Administrative Information/1.2.A Additional Administrative Information"),
 ("1.2.1 Application Form",
  "organized_ctd/CTD Structure/Module 1 Administrative Information and Prescribing Information/1.2 Administrative Information/1.2.1 Application Form"),
 ("1.2.1",
  "organized_ctd/CTD Structure/Module 1 Administrative Information and Prescribing Information/1.2 Administrative Information/1.2.1 Application Form"),
 ("1.2.2 Fee Forms",
  "organized_ctd/CTD Structure/Module 1 Administrative Information and Prescribing Information/1.2 Administrative Information/1.2.2 Fee Forms"),
 ("1.2.2",
  "organized_ctd/CTD Structure/Module 1 Administrative Information and Prescribing Information/1.2 Administrative Information/1.2.2 Fee Forms"),
 ("1.2.3 Certification and Attestation Forms",
  "organized_ctd/CTD Structure/Module 1 Administrative Information and Prescribing Information/1.2 Administrative Information/1.2.3 Certification and Attestation Forms"),
 ("1.2.3",
  "organized_ctd/CTD Structure/Module 1 Administrative Information and Prescribing Information/1.2 Administrative Information/1.2.3 Certification and Attestation Forms"),
 ("1.2.4 Compliance and Site Information",
  "organized_ctd/CTD Structure/Module 1 Administrative Information and Prescribing Information/1.2 Administrative Information/1.2.4 Compliance and Site Information"),
 ("1.2.4",
  "organized_ctd/CTD Structure/Module 1 Administrative Information and Prescribing Information/1.2 Administrative Information/1.2.4 Compliance and Site Information"),
 ("1.2.5 Authorization for Sharing Information",
  "organized_ctd/CTD Structure/Module 1 Administrative Information and Prescribing Information/1.2 Administrative Information/1.2.5 Authorization for Sharing Information"),
 ("1.2.5",
  "organized_ctd/CTD Structure/Module 1 Administrative Information and Prescribing Information/1.2 Administrative Information/1.2.5 Authorization for Sharing Information"),
 ("1.2.6 Electronic Declaration",
  "organized_ctd/CTD Structure/Module 1 Administrative Information and Prescribing Information/1.2 Administrative Information/1.2.6 Electronic Declaration"),
 ("1.2.6",
  "organized_ctd/CTD Structure/Module 1 Administrative Information and Prescribing Information/1.2 Administrative Information/1.2.6 Electronic Declaration"),
 ("1.2.7 Trademark & Intellectual Property Information",
  "organized_ctd/CTD Structure/Module 1 Administrative Information and Prescribing Information/1.2 Administrative Information/1.2.7 Trademark & Intellectual Property Information"),
 ("1.2.7",
  "organized_ctd/CTD Structure/Module 1 Administrative Information and Prescribing Information/1.2 Administrative Information/1.2.7 Trademark & Intellectual Property Information"),
 ("1.2.8 Screening Details",
  "organized_ctd/CTD Structure/Module 1 Administrative Information and Prescribing Information/1.2 Administrative Information/1.2.8 Screening Details"),
 ("1.2.8",
  "organized_ctd/CTD Structure/Module 1 Administrative Information and Prescribing Information/1.2 Administrative Information/1.2.8 Screening Details"),
 ("1.2.A Additional Administrative Information",
  "organized_ctd/CTD Structure/Module 1 Administrative Information and Prescribing Information/1.2 Administrative Information/1.2.A Additional Administrative Information"),
 ("1.3 Product Information",
  "organized_ctd/CTD Structure/Module 1 Administrative Information and Prescribing Information/1.3 Product Information"),
 ("1.3",
  "organized_ctd/CTD Structure/Module 1 Administrative Information and Prescribing Information/1.3 Product Information"),
 ("1.3.1 Summary of Product Characteristics (SmPC)",
  "organized_ctd/CTD Structure/Module 1 Administrative Information and Prescribing Information/1.3 Product Information/1.3.1 Summary of Product Characteristics (SmPC)"),
 ("1.3.1",
  "organized_ctd/CTD Structure/Module 1 Administrative Information and Prescribing Information/1.3 Product Information/1.3.1 Summary of Product Characteristics (SmPC)"),
 ("1.3.1.1 Approved - SmPC",
  "organized_ctd/CTD Structure/Module 1 Administrative Information and Prescribing Information/1.3 Product Information/1.3.1 Summary of Product Characteristics (SmPC)/1.3.1.1 Approved - SmPC"),
 ("1.3.1.1",
  "organized_ctd/CTD Structure/Module 1 Administrative Information and Prescribing Information/1.3 Product Information/1.3.1 Summary of Product Characteristics (SmPC)/1.3.1.1 Approved - SmPC"),
 ("1.3.1.1.1 Approved - SmPC - English",
  "organized_ctd/CTD Structure/Module 1 Administrative Information and Prescribing Information/1.3 Product Information/1.3.1 Summary of Product Characteristics (SmPC)/1.3.1.1 Approved - SmPC/1.3.1.1.1 Approved - SmPC - English"),
 ("1.3.1.1.1",
  "organized_ctd/CTD Structure/Module 1 Administrative Information and Prescribing Information/1.3 Product Information/1.3.1 Summary of Product Characteristics (SmPC)/1.3.1.1 Approved - SmPC/1.3.1.1.1 Approved - SmPC - English"),
 ("1.3.1.1.2 Approved - SmPC - French",
  "organized_ctd/CTD Structure/Module 1 Administrative Information and Prescribing Information/1.3 Product Information/1.3.1 Summary of Product Characteristics (SmPC)/1.3.1.1 Approved - SmPC/1.3.1.1.2 Approved - SmPC - French"),
 ("1.3.1.1.2",
  "organized_ctd/CTD Structure/Module 1 Administrative Information and Prescribing Information/1.3 Product Information/1.3.1 Summary of Product Characteristics (SmPC)/1.3.1.1 Approved - SmPC/1.3.1.1.2 Approved - SmPC - French"),
 ("1.3.1.1.3 Approved - SmPC - Portuguese",
  "organized_ctd/CTD Structure/Module 1 Administrative Information and Prescribing Information/1.3 Product Information/1.3.1 Summary of Product Characteristics (SmPC)/1.3.1.1 Approved - SmPC/1.3.1.1.3 Approved - SmPC - Portuguese"),
 ("1.3.1.1.3",
  "organized_ctd/CTD Structure/Module 1 Administrative Information and Prescribing Information/1.3 Product Information/1.3.1 Summary of Product Characteristics (SmPC)/1.3.1.1 Approved - SmPC/1.3.1.1.3 Approved - SmPC - Portuguese"),
 ("1.3.1.2 Clean - SmPC",
  "organized_ctd/CTD Structure/Module 1 Administrative Information and Prescribing Information/1.3 Product Information/1.3.1 Summary of Product Characteristics (SmPC)/1.3.1.2 Clean - SmPC"),
 ("1.3.1.2",
  "organized_ctd/CTD Structure/Module 1 Administrative Information and Prescribing Information/1.3 Product Information/1.3.1 Summary of Product Characteristics (SmPC)/1.3.1.2 Clean - SmPC"),
 ("1.3.1.2.1 Clean - SmPC - English",
  "organized_ctd/CTD Structure/Module 1 Administrative Information and Prescribing Information/1.3 Product Information/1.3.1 Summary of Product Characteristics (SmPC)/1.3.1.2 Clean - SmPC/1.3.1.2.1 Clean - SmPC - English"),
 ("1.3.1.2.1",
  "organized_ctd/CTD Structure/Module 1 Administrative Information and Prescribing Information/1.3 Product Information/1.3.1 Summary of Product Characteristics (SmPC)/1.3.1.2 Clean - SmPC/1.3.1.2.1 Clean - SmPC - English"),
 ("1.3.1.2.2 Clean - SmPC - French",
  "organized_ctd/CTD Structure/Module 1 Administrative Information and Prescribing Information/1.3 Product Information/1.3.1 Summary of Product Characteristics (SmPC)/1.3.1.2 Clean - SmPC/1.3.1.2.2 Clean - SmPC - French"),
 ("1.3.1.2.2",
  "organized_ctd/CTD Structure/Module 1 Administrative Information and Prescribing Information/1.3 Product Information/1.3.1 Summary of Product Characteristics (SmPC)/1.3.1.2 Clean - SmPC/1.3.1.2.2 Clean - SmPC - French"),
 ("1.3.1.2.3 Clean - SmPC - Portuguese",
  "organized_ctd/CTD Structure/Module 1 Administrative Information and Prescribing Information/1.3 Product Information/1.3.1 Summary of Product Characteristics (SmPC)/1.3.1.2 Clean - SmPC/1.3.1.2.3 Clean - SmPC - Portuguese"),
 ("1.3.1.2.3",
  "organized_ctd/CTD Structure/Module 1 Administrative Information and Prescribing Information/1.3 Product Information/1.3.1 Summary of Product Characteristics (SmPC)/1.3.1.2 Clean - SmPC/1.3.1.2.3 Clean - SmPC - Portuguese"),
 ("1.3.1.3 Annotated - SmPC",
  "organized_ctd/CTD Structure/Module 1 Administrative Information and Prescribing Information/1.3 Product Information/1.3.1 Summary of Product Characteristics (SmPC)/1.3.1.3 Annotated - SmPC"),
 ("1.3.1.3",
  "organized_ctd/CTD Structure/Module 1 Administrative Information and Prescribing Information/1.3 Product Information/1.3.1 Summary of Product Characteristics (SmPC)/1.3.1.3 Annotated - SmPC"),
 ("1.3.1.3.1 Annotated - SmPC - English",
  "organized_ctd/CTD Structure/Module 1 Administrative Information and Prescribing Information/1.3 Product Information/1.3.1 Summary of Product Characteristics (SmPC)/1.3.1.3 Annotated - SmPC/1.3.1.3.1 Annotated - SmPC - English"),
 ("1.3.1.3.1",
  "organized_ctd/CTD Structure/Module 1 Administrative Information and Prescribing Information/1.3 Product Information/1.3.1 Summary of Product Characteristics (SmPC)/1.3.1.3 Annotated - SmPC/1.3.1.3.1 Annotated - SmPC - English"),
 ("1.3.1.3.2 Annotated - SmPC - French",
  "organized_ctd/CTD Structure/Module 1 Administrative Information and Prescribing Information/1.3 Product Information/1.3.1 Summary of Product Characteristics (SmPC)/1.3.1.3 Annotated - SmPC/1.3.1.3.2 Annotated - SmPC - French"),
 ("1.3.1.3.2",
  "organized_ctd/CTD Structure/Module 1 Administrative Information and Prescribing Information/1.3 Product Information/1.3.1 Summary of Product Characteristics (SmPC)/1.3.1.3 Annotated - SmPC/1.3.1.3.2 Annotated - SmPC - French"),
 ("1.3.1.3.3 Annotated - SmPC - Portuguese",
  "organized_ctd/CTD Structure/Module 1 Administrative Information and Prescribing Information/1.3 Product Information/1.3.1 Summary of Product Characteristics (SmPC)/1.3.1.3 Annotated - SmPC/1.3.1.3.3 Annotated - SmPC - Portuguese"),
 ("1.3.1.3.3",
  "organized_ctd/CTD Structure/Module 1 Administrative Information and Prescribing Information/1.3 Product Information/1.3.1 Summary of Product Characteristics (SmPC)/1.3.1.3 Annotated - SmPC/1.3.1.3.3 Annotated - SmPC - Portuguese"),
 ("1.3.2 Patient Information Leaflet (PIL)",
  "organized_ctd/CTD Structure/Module 1 Administrative Information and Prescribing Information/1.3 Product Information/1.3.2 Patient Information Leaflet (PIL)"),
 ("1.3.2",
  "organized_ctd/CTD Structure/Module 1 Administrative Information and Prescribing Information/1.3 Product Information/1.3.2 Patient Information Leaflet (PIL)"),
 ("1.3.2.1 Approved - PIL",
  "organized_ctd/CTD Structure/Module 1 Administrative Information and Prescribing Information/1.3 Product Information/1.3.2 Patient Information Leaflet (PIL)/1.3.2.1 Approved - PIL"),
 ("1.3.2.1",
  "organized_ctd/CTD Structure/Module 1 Administrative Information and Prescribing Information/1.3 Product Information/1.3.2 Patient Information Leaflet (PIL)/1.3.2.1 Approved - PIL"),
 ("1.3.2.1.1 Approved - PIL - English",
  "organized_ctd/CTD Structure/Module 1 Administrative Information and Prescribing Information/1.3 Product Information/1.3.2 Patient Information Leaflet (PIL)/1.3.2.1 Approved - PIL/1.3.2.1.1 Approved - PIL - English"),
 ("1.3.2.1.1",
  "organized_ctd/CTD Structure/Module 1 Administrative Information and Prescribing Information/1.3 Product Information/1.3.2 Patient Information Leaflet (PIL)/1.3.2.1 Approved - PIL/1.3.2.1.1 Approved - PIL - English"),
 ("1.3.2.1.2 Approved - PIL - French",
  "organized_ctd/CTD Structure/Module 1 Administrative Information and Prescribing Information/1.3 Product Information/1.3.2 Patient Information Leaflet (PIL)/1.3.2.1 Approved - PIL/1.3.2.1.2 Approved - PIL - French"),
 ("1.3.2.1.2",
  "organized_ctd/CTD Structure/Module 1 Administrative Information and Prescribing Information/1.3 Product Information/1.3.2 Patient Information Leaflet (PIL)/1.3.2.1 Approved - PIL/1.3.2.1.2 Approved - PIL - French"),
 ("1.3.2.1.3 Approved - PIL - Portuguese",
  "organized_ctd/CTD Structure/Module 1 Administrative Information and Prescribing Information/1.3 Product Information/1.3.2 Patient Information Leaflet (PIL)/1.3.2.1 Approved - PIL/1.3.2.1.3 Approved - PIL - Portuguese"),
 ("1.3.2.1.3",
  "organized_ctd/CTD Structure/Module 1 Administrative Information and Prescribing Information/1.3 Product Information/1.3.2 Patient Information Leaflet (PIL)/1.3.2.1 Approved - PIL/1.3.2.1.3 Approved - PIL - Portuguese"),
 ("1.3.2.2 Clean - PIL",
  "organized_ctd/CTD Structure/Module 1 Administrative Information and Prescribing Information/1.3 Product Information/1.3.2 Patient Information Leaflet (PIL)/1.3.2.2 Clean - PIL"),
 ("1.3.2.2",
  "organized_ctd/CTD Structure/Module 1 Administrative Information and Prescribing Information/1.3 Product Information/1.3.2 Patient Information Leaflet (PIL)/1.3.2.2 Clean - PIL"),
 ("1.3.2.2.1 Clean - PIL - English",
  "organized_ctd/CTD Structure/Module 1 Administrative Information and Prescribing Information/1.3 Product Information/1.3.2 Patient Information Leaflet (PIL)/1.3.2.2 Clean - PIL/1.3.2.2.1 Clean - PIL - English"),
 ("1.3.2.2.1",
  "organized_ctd/CTD Structure/Module 1 Administrative Information and Prescribing Information/1.3 Product Information/1.3.2 Patient Information Leaflet (PIL)/1.3.2.2 Clean - PIL/1.3.2.2.1 Clean - PIL - English"),
 ("1.3.2.2.2 Clean - PIL - French",
  "organized_ctd/CTD Structure/Module 1 Administrative Information and Prescribing Information/1.3 Product Information/1.3.2 Patient Information Leaflet (PIL)/1.3.2.2 Clean - PIL/1.3.2.2.2 Clean - PIL - French"),
 ("1.3.2.2.2",
  "organized_ctd/CTD Structure/Module 1 Administrative Information and Prescribing Information/1.3 Product Information/1.3.2 Patient Information Leaflet (PIL)/1.3.2.2 Clean - PIL/1.3.2.2.2 Clean - PIL - French"),
 ("1.3.2.2.3 Clean - PIL - Portuguese",
  "organized_ctd/CTD Structure/Module 1 Administrative Information and Prescribing Information/1.3 Product Information/1.3.2 Patient Information Leaflet (PIL)/1.3.2.2 Clean - PIL/1.3.2.2.3 Clean - PIL - Portuguese"),
 ("1.3.2.2.3",
  "organized_ctd/CTD Structure/Module 1 Administrative Information and Prescribing Information/1.3 Product Information/1.3.2 Patient Information Leaflet (PIL)/1.3.2.2 Clean - PIL/1.3.2.2.3 Clean - PIL - Portuguese"),
 ("1.3.2.3 Annotated - PIL",
  "organized_ctd/CTD Structure/Module 1 Administrative Information and Prescribing Information/1.3 Product Information/1.3.2 Patient Information Leaflet (PIL)/1.3.2.3 Annotated - PIL"),
 ("1.3.2.3",
  "organized_ctd/CTD Structure/Module 1 Administrative Information and Prescribing Information/1.3 Product Information/1.3.2 Patient Information Leaflet (PIL)/1.3.2.3 Annotated - PIL"),
 ("1.3.2.3.1 Annotated - PIL - English",
  "organized_ctd/CTD Structure/Module 1 Administrative Information and Prescribing Information/1.3 Product Information/1.3.2 Patient Information Leaflet (PIL)/1.3.2.3 Annotated - PIL/1.3.2.3.1 Annotated - PIL - English"),
 ("1.3.2.3.1",
  "organized_ctd/CTD Structure/Module 1 Administrative Information and Prescribing Information/1.3 Product Information/1.3.2 Patient Information Leaflet (PIL)/1.3.2.3 Annotated - PIL/1.3.2.3.1 Annotated - PIL - English"),
 ("1.3.2.3.2 Annotated - PIL - French",
  "organized_ctd/CTD Structure/Module 1 Administrative Information and Prescribing Information/1.3 Product Information/1.3.2 Patient Information Leaflet (PIL)/1.3.2.3 Annotated - PIL/1.3.2.3.2 Annotated - PIL - French"),
 ("1.3.2.3.2",
  "organized_ctd/CTD Structure/Module 1 Administrative Information and Prescribing Information/1.3 Product Information/1.3.2 Patient Information Leaflet (PIL)/1.3.2.3 Annotated - PIL/1.3.2.3.2 Annotated - PIL - French"),
 ("1.3.2.3.3 Annotated - PIL - Portuguese",
  "organized_ctd/CTD Structure/Module 1 Administrative Information and Prescribing Information/1.3 Product Information/1.3.2 Patient Information Leaflet (PIL)/1.3.2.3 Annotated - PIL/1.3.2.3.3 Annotated - PIL - Portuguese"),
 ("1.3.2.3.3",
  "organized_ctd/CTD Structure/Module 1 Administrative Information and Prescribing Information/1.3 Product Information/1.3.2 Patient Information Leaflet (PIL)/1.3.2.3 Annotated - PIL/1.3.2.3.3 Annotated - PIL - Portuguese"),
 ("1.3.3 Container Labels",
  "organized_ctd/CTD Structure/Module 1 Administrative Information and Prescribing Information/1.3 Product Information/1.3.3 Container Labels"),
 ("1.3.3",
  "organized_ctd/CTD Structure/Module 1 Administrative Information and Prescribing Information/1.3 Product Information/1.3.3 Container Labels"),
 ("1.3.3.1 Approved - Container Labels",
  "organized_ctd/CTD Structure/Module 1 Administrative Information and Prescribing Information/1.3 Product Information/1.3.3 Container Labels/1.3.3.1 Approved - Container Labels"),
 ("1.3.3.1",
  "organized_ctd/CTD Structure/Module 1 Administrative Information and Prescribing Information/1.3 Product Information/1.3.3 Container Labels/1.3.3.1 Approved - Container Labels"),
 ("1.3.3.1.1 Approved - Container Labels - English",
  "organized_ctd/CTD Structure/Module 1 Administrative Information and Prescribing Information/1.3 Product Information/1.3.3 Container Labels/1.3.3.1 Approved - Container Labels/1.3.3.1.1 Approved - Container Labels - English"),
 ("1.3.3.1.1",
  "organized_ctd/CTD Structure/Module 1 Administrative Information and Prescribing Information/1.3 Product Information/1.3.3 Container Labels/1.3.3.1 Approved - Container Labels/1.3.3.1.1 Approved - Container Labels - English"),
 ("1.3.3.1.2 Approved - Container Labels - French",
  "organized_ctd/CTD Structure/Module 1 Administrative Information and Prescribing Information/1.3 Product Information/1.3.3 Container Labels/1.3.3.1 Approved - Container Labels/1.3.3.1.2 Approved - Container Labels - French"),
 ("1.3.3.1.2",
  "organized_ctd/CTD Structure/Module 1 Administrative Information and Prescribing Information/1.3 Product Information/1.3.3 Container Labels/1.3.3.1 Approved - Container Labels/1.3.3.1.2 Approved - Container Labels - French"),
 ("1.3.3.1.3 Approved - Container Labels - Portuguese",
  "organized_ctd/CTD Structure/Module 1 Administrative Information and Prescribing Information/1.3 Product Information/1.3.3 Container Labels/1.3.3.1 Approved - Container Labels/1.3.3.1.3 Approved - Container Labels - Portuguese"),
 ("1.3.3.1.3",
  "organized_ctd/CTD Structure/Module 1 Administrative Information and Prescribing Information/1.3 Product Information/1.3.3 Container Labels/1.3.3.1 Approved - Container Labels/1.3.3.1.3 Approved - Container Labels - Portuguese"),
 ("1.3.3.2 Clean - Container Labels",
  "organized_ctd/CTD Structure/Module 1 Administrative Information and Prescribing Information/1.3 Product Information/1.3.3 Container Labels/1.3.3.2 Clean - Container Labels"),
 ("1.3.3.2",
  "organized_ctd/CTD Structure/Module 1 Administrative Information and Prescribing Information/1.3 Product Information/1.3.3 Container Labels/1.3.3.2 Clean - Container Labels"),
 ("1.3.3.2.1 Clean - Container Labels - English",
  "organized_ctd/CTD Structure/Module 1 Administrative Information and Prescribing Information/1.3 Product Information/1.3.3 Container Labels/1.3.3.2 Clean - Container Labels/1.3.3.2.1 Clean - Container Labels - English"),
 ("1.3.3.2.1",
  "organized_ctd/CTD Structure/Module 1 Administrative Information and Prescribing Information/1.3 Product Information/1.3.3 Container Labels/1.3.3.2 Clean - Container Labels/1.3.3.2.1 Clean - Container Labels - English"),
 ("1.3.3.2.2 Clean - Container Labels - French",
  "organized_ctd/CTD Structure/Module 1 Administrative Information and Prescribing Information/1.3 Product Information/1.3.3 Container Labels/1.3.3.2 Clean - Container Labels/1.3.3.2.2 Clean - Container Labels - French"),
 ("1.3.3.2.2",
  "organized_ctd/CTD Structure/Module 1 Administrative Information and Prescribing Information/1.3 Product Information/1.3.3 Container Labels/1.3.3.2 Clean - Container Labels/1.3.3.2.2 Clean - Container Labels - French"),
 ("1.3.3.2.3 Clean - Container Labels - Portuguese",
  "organized_ctd/CTD Structure/Module 1 Administrative Information and Prescribing Information/1.3 Product Information/1.3.3 Container Labels/1.3.3.2 Clean - Container Labels/1.3.3.2.3 Clean - Container Labels - Portuguese"),
 ("1.3.3.2.3",
  "organized_ctd/CTD Structure/Module 1 Administrative Information and Prescribing Information/1.3 Product Information/1.3.3 Container Labels/1.3.3.2 Clean - Container Labels/1.3.3.2.3 Clean - Container Labels - Portuguese"),
 ("1.3.3.3 Annotated - Container Labels",
  "organized_ctd/CTD Structure/Module 1 Administrative Information and Prescribing Information/1.3 Product Information/1.3.3 Container Labels/1.3.3.3 Annotated - Container Labels"),
 ("1.3.3.3",
  "organized_ctd/CTD Structure/Module 1 Administrative Information and Prescribing Information/1.3 Product Information/1.3.3 Container Labels/1.3.3.3 Annotated - Container Labels"),
 ("1.3.3.3.1 Annotated - Container Labels - English",
  "organized_ctd/CTD Structure/Module 1 Administrative Information and Prescribing Information/1.3 Product Information/1.3.3 Container Labels/1.3.3.3 Annotated - Container Labels/1.3.3.3.1 Annotated - Container Labels - English"),
 ("1.3.3.3.1",
  "organized_ctd/CTD Structure/Module 1 Administrative Information and Prescribing Information/1.3 Product Information/1.3.3 Container Labels/1.3.3.3 Annotated - Container Labels/1.3.3.3.1 Annotated - Container Labels - English"),
 ("1.3.3.3.2 Annotated - Container Labels - French",
  "organized_ctd/CTD Structure/Module 1 Administrative Information and Prescribing Information/1.3 Product Information/1.3.3 Container Labels/1.3.3.3 Annotated - Container Labels/1.3.3.3.2 Annotated - Container Labels - French"),
 ("1.3.3.3.2",
  "organized_ctd/CTD Structure/Module 1 Administrative Information and Prescribing Information/1.3 Product Information/1.3.3 Container Labels/1.3.3.3 Annotated - Container Labels/1.3.3.3.2 Annotated - Container Labels - French"),
 ("1.3.3.3.3 Annotated - Container Labels - Portuguese",
  "organized_ctd/CTD Structure/Module 1 Administrative Information and Prescribing Information/1.3 Product Information/1.3.3 Container Labels/1.3.3.3 Annotated - Container Labels/1.3.3.3.3 Annotated - Container Labels - Portuguese"),
 ("1.3.3.3.3",
  "organized_ctd/CTD Structure/Module 1 Administrative Information and Prescribing Information/1.3 Product Information/1.3.3 Container Labels/1.3.3.3 Annotated - Container Labels/1.3.3.3.3 Annotated - Container Labels - Portuguese"),
 ("1.3.4 Foreign Labelling",
  "organized_ctd/CTD Structure/Module 1 Administrative Information and Prescribing Information/1.3 Product Information/1.3.4 Foreign Labelling"),
 ("1.3.4",
  "organized_ctd/CTD Structure/Module 1 Administrative Information and Prescribing Information/1.3 Product Information/1.3.4 Foreign Labelling"),
 ("1.3.5 Reference Product Labelling",
  "organized_ctd/CTD Structure/Module 1 Administrative Information and Prescribing Information/1.3 Product Information/1.3.5 Reference Product Labelling"),
 ("1.3.5",
  "organized_ctd/CTD Structure/Module 1 Administrative Information and Prescribing Information/1.3 Product Information/1.3.5 Reference Product Labelling"),
 ("1.3.6 Artwork and Samples",
  "organized_ctd/CTD Structure/Module 1 Administrative Information and Prescribing Information/1.3 Product Information/1.3.6 Artwork and Samples"),
 ("1.3.6",
  "organized_ctd/CTD Structure/Module 1 Administrative Information and Prescribing Information/1.3 Product Information/1.3.6 Artwork and Samples"),
 ("1.4 Information about the Experts",
  "organized_ctd/CTD Structure/Module 1 Administrative Information and Prescribing Information/1.4 Information about the Experts"),
 ("1.4",
  "organized_ctd/CTD Structure/Module 1 Administrative Information and Prescribing Information/1.4 Information about the Experts"),
 ("1.4.1 Quality",
  "organized_ctd/CTD Structure/Module 1 Administrative Information and Prescribing Information/1.4 Information about the Experts/1.4.1 Quality"),
 ("1.4.1",
  "organized_ctd/CTD Structure/Module 1 Administrative Information and Prescribing Information/1.4 Information about the Experts/1.4.1 Quality"),
 ("1.4.2 Non-Clinical",
  "organized_ctd/CTD Structure/Module 1 Administrative Information and Prescribing Information/1.4 Information about the Experts/1.4.2 Non-Clinical"),
 ("1.4.2",
  "organized_ctd/CTD Structure/Module 1 Administrative Information and Prescribing Information/1.4 Information about the Experts/1.4.2 Non-Clinical"),
 ("1.4.3 Clinical",
  "organized_ctd/CTD Structure/Module 1 Administrative Information and Prescribing Information/1.4 Information about the Experts/1.4.3 Clinical"),
 ("1.4.3",
  "organized_ctd/CTD Structure/Module 1 Administrative Information and Prescribing Information/1.4 Information about the Experts/1.4.3 Clinical"),
 ("1.5 Specific Requirements for Different Types of Applications",
  "organized_ctd/CTD Structure/Module 1 Administrative Information and Prescribing Information/1.5 Specific Requirements for Different Types of Applications"),
 ("1.5",
  "organized_ctd/CTD Structure/Module 1 Administrative Information and Prescribing Information/1.5 Specific Requirements for Different Types of Applications"),
 ("1.5.1 Bioequivalence Trial Information",
  "organized_ctd/CTD Structure/Module 1 Administrative Information and Prescribing Information/1.5 Specific Requirements for Different Types of Applications/1.5.1 Bioequivalence Trial Information"),
 ("1.5.1",
  "organized_ctd/CTD Structure/Module 1 Administrative Information and Prescribing Information/1.5 Specific Requirements for Different Types of Applications/1.5.1 Bioequivalence Trial Information"),
 ("1.6 Environmental Risk Assessment",
  "organized_ctd/CTD Structure/Module 1 Administrative Information and Prescribing Information/1.6 Environmental Risk Assessment"),
 ("1.6",
  "organized_ctd/CTD Structure/Module 1 Administrative Information and Prescribing Information/1.6 Environmental Risk Assessment"),
 ("1.6.1 Non-GMO",
  "organized_ctd/CTD Structure/Module 1 Administrative Information and Prescribing Information/1.6 Environmental Risk Assessment/1.6.1 Non-GMO"),
 ("1.6.1",
  "organized_ctd/CTD Structure/Module 1 Administrative Information and Prescribing Information/1.6 Environmental Risk Assessment/1.6.1 Non-GMO"),
 ("1.6.2 GMO",
  "organized_ctd/CTD Structure/Module 1 Administrative Information and Prescribing Information/1.6 Environmental Risk Assessment/1.6.2 GMO"),
 ("1.6.2",
  "organized_ctd/CTD Structure/Module 1 Administrative Information and Prescribing Information/1.6 Environmental Risk Assessment/1.6.2 GMO"),
 ("1.7 Good Manufacturing Practice (GMP)",
  "organized_ctd/CTD Structure/Module 1 Administrative Information and Prescribing Information/1.7 Good Manufacturing Practice (GMP)"),
 ("1.7",
  "organized_ctd/CTD Structure/Module 1 Administrative Information and Prescribing Information/1.7 Good Manufacturing Practice (GMP)"),
 ("1.7.1 Date of Inspection of Each Site",
  "organized_ctd/CTD Structure/Module 1 Administrative Information and Prescribing Information/1.7 Good Manufacturing Practice (GMP)/1.7.1 Date of Inspection of Each Site"),
 ("1.7.1",
  "organized_ctd/CTD Structure/Module 1 Administrative Information and Prescribing Information/1.7 Good Manufacturing Practice (GMP)/1.7.1 Date of Inspection of Each Site"),
 ("1.7.2 Inspection Reports or Equivalent Documents",
  "organized_ctd/CTD Structure/Module 1 Administrative Information and Prescribing Information/1.7 Good Manufacturing Practice (GMP)/1.7.2 Inspection Reports or Equivalent Documents"),
 ("1.7.2",
  "organized_ctd/CTD Structure/Module 1 Administrative Information and Prescribing Information/1.7 Good Manufacturing Practice (GMP)/1.7.2 Inspection Reports or Equivalent Documents"),
 ("1.7.3 GMP Certificates or Manufacturing Licences",
  "organized_ctd/CTD Structure/Module 1 Administrative Information and Prescribing Information/1.7 Good Manufacturing Practice (GMP)/1.7.3 GMP Certificates or Manufacturing Licences"),
 ("1.7.3",
  "organized_ctd/CTD Structure/Module 1 Administrative Information and Prescribing Information/1.7 Good Manufacturing Practice (GMP)/1.7.3 GMP Certificates or Manufacturing Licences"),
 ("1.7.4 Other GMP Documents",
  "organized_ctd/CTD Structure/Module 1 Administrative Information and Prescribing Information/1.7 Good Manufacturing Practice (GMP)/1.7.4 Other GMP Documents"),
 ("1.7.4",
  "organized_ctd/CTD Structure/Module 1 Administrative Information and Prescribing Information/1.7 Good Manufacturing Practice (GMP)/1.7.4 Other GMP Documents"),
 ("1.8 Information Relating to Pharmacovigilance",
  "organized_ctd/CTD Structure/Module 1 Administrative Information and Prescribing Information/1.8 Information Relating to Pharmacovigilance"),
 ("1.8",
  "organized_ctd/CTD Structure/Module 1 Administrative Information and Prescribing Information/1.8 Information Relating to Pharmacovigilance"),
 ("1.8.1 Pharmacovigilance System",
  "organized_ctd/CTD Structure/Module 1 Administrative Information and Prescribing Information/1.8 Information Relating to Pharmacovigilance/1.8.1 Pharmacovigilance System"),
 ("1.8.1",
  "organized_ctd/CTD Structure/Module 1 Administrative Information and Prescribing Information/1.8 Information Relating to Pharmacovigilance/1.8.1 Pharmacovigilance System"),
 ("1.8.2 Risk-management System",
  "organized_ctd/CTD Structure/Module 1 Administrative Information and Prescribing Information/1.8 Information Relating to Pharmacovigilance/1.8.2 Risk-management System"),
 ("1.8.2",
  "organized_ctd/CTD Structure/Module 1 Administrative Information and Prescribing Information/1.8 Information Relating to Pharmacovigilance/1.8.2 Risk-management System"),
 ("1.9 Individual Patient Data - Statement of Availability",
  "organized_ctd/CTD Structure/Module 1 Administrative Information and Prescribing Information/1.9 Individual Patient Data - Statement of Availability"),
 ("1.9",
  "organized_ctd/CTD Structure/Module 1 Administrative Information and Prescribing Information/1.9 Individual Patient Data - Statement of Availability"),
 ("1.10 Foreign Regulatory Information",
  "organized_ctd/CTD Structure/Module 1 Administrative Information and Prescribing Information/1.10 Foreign Regulatory Information"),
 ("1.10",
  "organized_ctd/CTD Structure/Module 1 Administrative Information and Prescribing Information/1.10 Foreign Regulatory Information"),
 ("1.10.1 Regional & Foreign Regulatory Status",
  "organized_ctd/CTD Structure/Module 1 Administrative Information and Prescribing Information/1.10 Foreign Regulatory Information/1.10.1 Regional & Foreign Regulatory Status"),
 ("1.10.1",
  "organized_ctd/CTD Structure/Module 1 Administrative Information and Prescribing Information/1.10 Foreign Regulatory Information/1.10.1 Regional & Foreign Regulatory Status"),
 ("1.10.2 WHO Type Certificate of Pharmaceutical Product (COPP)",
  "organized_ctd/CTD Structure/Module 1 Administrative Information and Prescribing Information/1.10 Foreign Regulatory Information/1.10.2 WHO Type Certificate of Pharmaceutical Product (COPP)"),
 ("1.10.2",
  "organized_ctd/CTD Structure/Module 1 Administrative Information and Prescribing Information/1.10 Foreign Regulatory Information/1.10.2 WHO Type Certificate of Pharmaceutical Product (COPP)"),
 ("1.10.3 Data Set Similarities and Differences",
  "organized_ctd/CTD Structure/Module 1 Administrative Information and Prescribing Information/1.10 Foreign Regulatory Information/1.10.3 Data Set Similarities and Differences"),
 ("1.10.3",
  "organized_ctd/CTD Structure/Module 1 Administrative Information and Prescribing Information/1.10 Foreign Regulatory Information/1.10.3 Data Set Similarities and Differences"),
 ("1.10.4 Foreign Evaluation Reports",
  "organized_ctd/CTD Structure/Module 1 Administrative Information and Prescribing Information/1.10 Foreign Regulatory Information/1.10.4 Foreign Evaluation Reports"),
 ("1.10.4",
  "organized_ctd/CTD Structure/Module 1 Administrative Information and Prescribing Information/1.10 Foreign Regulatory Information/1.10.4 Foreign Evaluation Reports"),
 ("1.A Additional Data",
  "organized_ctd/CTD Structure/Module 1 Administrative Information and Prescribing Information/1.A Additional Data"),
 ("1.A.1 Country Specific Data",
  "organized_ctd/CTD Structure/Module 1 Administrative Information and Prescribing Information/1.A Additional Data/1.A.1 Country Specific Data"),
 ("Module 2 Common Technical Document Summaries",
  "organized_ctd/CTD Structure/Module 2 Common Technical Document Summaries"),
 ("2", "organized_ctd/CTD Structure/Module 2 Common Technical Document Summaries"),
 ("2.2 Introduction to Summary",
  "organized_ctd/CTD Structure/Module 2 Common Technical Document Summaries/2.2 Introduction to Summary"),
 ("2.2", "organized_ctd/CTD Structure/Module 2 Common Technical Document Summaries/2.2 Introduction to Summary"),
 ("2.3 Quality Overall Summary (QOS)",
  "organized_ctd/CTD Structure/Module 2 Common Technical Document Summaries/2.3 Quality Overall Summary (QOS)"),
 ("2.3",
  "organized_ctd/CTD Structure/Module 2 Common Technical Document Summaries/2.3 Quality Overall Summary (QOS)/2.3.R Regional Information"),
 ("2.3 Introduction",
  "organized_ctd/CTD Structure/Module 2 Common Technical Document Summaries/2.3 Quality Overall Summary (QOS)/2.3 Introduction"),
 ("2.3.S Drug Substance",
  "organized_ctd/CTD Structure/Module 2 Common Technical Document Summaries/2.3 Quality Overall Summary (QOS)/2.3.S Drug Substance"),
 ("2.3.P Drug Product",
  "organized_ctd/CTD Structure/Module 2 Common Technical Document Summaries/2.3 Quality Overall Summary (QOS)/2.3.P Drug Product"),
 ("2.3.A Appendices",
  "organized_ctd/CTD Structure/Module 2 Common Technical Document Summaries/2.3 Quality Overall Summary (QOS)/2.3.A Appendices"),
 ("2.3.R Regional Information",
  "organized_ctd/CTD Structure/Module 2 Common Technical Document Summaries/2.3 Quality Overall Summary (QOS)/2.3.R Regional Information"),
 ("2.4 Nonclinical Overview",
  "organized_ctd/CTD Structure/Module 2 Common Technical Document Summaries/2.4 Nonclinical Overview"),
 ("2.4", "organized_ctd/CTD Structure/Module 2 Common Technical Document Summaries/2.4 Nonclinical Overview"),
 ("2.5 Clinical Overview",
  "organized_ctd/CTD Structure/Module 2 Common Technical Document Summaries/2.5 Clinical Overview"),
 ("2.5", "organized_ctd/CTD Structure/Module 2 Common Technical Document Summaries/2.5 Clinical Overview"),
 ("2.6 NonClinical Written and Tabulated Summaries",
  "organized_ctd/CTD Structure/Module 2 Common Technical Document Summaries/2.6 NonClinical Written and Tabulated Summaries"),
 ("2.6",
  "organized_ctd/CTD Structure/Module 2 Common Technical Document Summaries/2.6 NonClinical Written and Tabulated Summaries"),
 ("2.6.1 Introduction",
  "organized_ctd/CTD Structure/Module 2 Common Technical Document Summaries/2.6 NonClinical Written and Tabulated Summaries/2.6.1 Introduction"),
 ("2.6.1",
  "organized_ctd/CTD Structure/Module 2 Common Technical Document Summaries/2.6 NonClinical Written and Tabulated Summaries/2.6.1 Introduction"),
 ("2.6.2 Pharmacology Written Summary",
  "organized_ctd/CTD Structure/Module 2 Common Technical Document Summaries/2.6 NonClinical Written and Tabulated Summaries/2.6.2 Pharmacology Written Summary"),
 ("2.6.2",
  "organized_ctd/CTD Structure/Module 2 Common Technical Document Summaries/2.6 NonClinical Written and Tabulated Summaries/2.6.2 Pharmacology Written Summary"),
 ("2.6.3 Pharmacology Tabulated Summary",
  "organized_ctd/CTD Structure/Module 2 Common Technical Document Summaries/2.6 NonClinical Written and Tabulated Summaries/2.6.3 Pharmacology Tabulated Summary"),
 ("2.6.3",
  "organized_ctd/CTD Structure/Module 2 Common Technical Document Summaries/2.6 NonClinical Written and Tabulated Summaries/2.6.3 Pharmacology Tabulated Summary"),
 ("2.6.4 Pharmacokinetics Written Summary",
  "organized_ctd/CTD Structure/Module 2 Common Technical Document Summaries/2.6 NonClinical Written and Tabulated Summaries/2.6.4 Pharmacokinetics Written Summary"),
 ("2.6.4",
  "organized_ctd/CTD Structure/Module 2 Common Technical Document Summaries/2.6 NonClinical Written and Tabulated Summaries/2.6.4 Pharmacokinetics Written Summary"),
 ("2.6.5 Pharmacokinetics Tabulated Summary",
  "organized_ctd/CTD Structure/Module 2 Common Technical Document Summaries/2.6 NonClinical Written and Tabulated Summaries/2.6.5 Pharmacokinetics Tabulated Summary"),
 ("2.6.5",
  "organized_ctd/CTD Structure/Module 2 Common Technical Document Summaries/2.6 NonClinical Written and Tabulated Summaries/2.6.5 Pharmacokinetics Tabulated Summary"),
 ("2.6.6 Toxicology Written Summary",
  "organized_ctd/CTD Structure/Module 2 Common Technical Document Summaries/2.6 NonClinical Written and Tabulated Summaries/2.6.6 Toxicology Written Summary"),
 ("2.6.6",
  "organized_ctd/CTD Structure/Module 2 Common Technical Document Summaries/2.6 NonClinical Written and Tabulated Summaries/2.6.6 Toxicology Written Summary"),
 ("2.6.7 Toxicology Tabulated Summary",
  "organized_ctd/CTD Structure/Module 2 Common Technical Document Summaries/2.6 NonClinical Written and Tabulated Summaries/2.6.7 Toxicology Tabulated Summary"),
 ("2.6.7",
  "organized_ctd/CTD Structure/Module 2 Common Technical Document Summaries/2.6 NonClinical Written and Tabulated Summaries/2.6.7 Toxicology Tabulated Summary"),
 ("2.7 Clinical Summary",
  "organized_ctd/CTD Structure/Module 2 Common Technical Document Summaries/2.7 Clinical Summary"),
 ("2.7", "organized_ctd/CTD Structure/Module 2 Common Technical Document Summaries/2.7 Clinical Summary"),
 ("2.7.1 Summary of Biopharmaceutic Studies",
  "organized_ctd/CTD Structure/Module 2 Common Technical Document Summaries/2.7 Clinical Summary/2.7.1 Summary of Biopharmaceutic Studies"),
 ("2.7.1",
  "organized_ctd/CTD Structure/Module 2 Common Technical Document Summaries/2.7 Clinical Summary/2.7.1 Summary of Biopharmaceutic Studies"),
 ("2.7.2 Summary of Clinical Pharmacology Studies",
  "organized_ctd/CTD Structure/Module 2 Common Technical Document Summaries/2.7 Clinical Summary/2.7.2 Summary of Clinical Pharmacology Studies"),
 ("2.7.2",
  "organized_ctd/CTD Structure/Module 2 Common Technical Document Summaries/2.7 Clinical Summary/2.7.2 Summary of Clinical Pharmacology Studies"),
 ("2.7.3 Summary of Clinical Efficacy",
  "organized_ctd/CTD Structure/Module 2 Common Technical Document Summaries/2.7 Clinical Summary/2.7.3 Summary of Clinical Efficacy"),
 ("2.7.3",
  "organized_ctd/CTD Structure/Module 2 Common Technical Document Summaries/2.7 Clinical Summary/2.7.3 Summary of Clinical Efficacy"),
 ("2.7.4 Summary of Clinical Safety",
  "organized_ctd/CTD Structure/Module 2 Common Technical Document Summaries/2.7 Clinical Summary/2.7.4 Summary of Clinical Safety"),
 ("2.7.4",
  "organized_ctd/CTD Structure/Module 2 Common Technical Document Summaries/2.7 Clinical Summary/2.7.4 Summary of Clinical Safety"),
 ("2.7.5 References",
  "organized_ctd/CTD Structure/Module 2 Common Technical Document Summaries/2.7 Clinical Summary/2.7.5 References"),
 ("2.7.5",
  "organized_ctd/CTD Structure/Module 2 Common Technical Document Summaries/2.7 Clinical Summary/2.7.5 References"),
 ("2.7.6 Synopses of Individual Studies",
  "organized_ctd/CTD Structure/Module 2 Common Technical Document Summaries/2.7 Clinical Summary/2.7.6 Synopses of Individual Studies"),
 ("2.7.6",
  "organized_ctd/CTD Structure/Module 2 Common Technical Document Summaries/2.7 Clinical Summary/2.7.6 Synopses of Individual Studies"),
 ("Module 3 Quality", "organized_ctd/CTD Structure/Module 3 Quality"),
 ("3", "organized_ctd/CTD Structure/Module 3 Quality"),
 ("3.2 Body of Data", "organized_ctd/CTD Structure/Module 3 Quality/3.2 Body of Data"),
 ("3.2",
  "organized_ctd/CTD Structure/Module 3 Quality/3.2 Body of Data/3.2.S Drug Substance/3.2.S.1 General Information/3.2.S.1.3 General Properties"),
 ("3.2.S Drug Substance", "organized_ctd/CTD Structure/Module 3 Quality/3.2 Body of Data/3.2.S Drug Substance"),
 ("3.2.S.1 General Information",
  "organized_ctd/CTD Structure/Module 3 Quality/3.2 Body of Data/3.2.S Drug Substance/3.2.S.1 General Information"),
 ("3.2.S.1.1 Nomenclature",
  "organized_ctd/CTD Structure/Module 3 Quality/3.2 Body of Data/3.2.S Drug Substance/3.2.S.1 General Information/3.2.S.1.1 Nomenclature"),
 ("3.2.S.1.2 Structure",
  "organized_ctd/CTD Structure/Module 3 Quality/3.2 Body of Data/3.2.S Drug Substance/3.2.S.1 General Information/3.2.S.1.2 Structure"),
 ("3.2.S.1.3 General Properties",
  "organized_ctd/CTD Structure/Module 3 Quality/3.2 Body of Data/3.2.S Drug Substance/3.2.S.1 General Information/3.2.S.1.3 General Properties")]

/-- The folder mapping after the first 144 visited nodes. -/
def allFoldersStage6 : List (String × String) :=
[("CTD Structure", "organized_ctd/CTD Structure"),
 ("Module 1 Administrative Information and Prescribing Information",
  "organized_ctd/CTD Structure/Module 1 Administrative Information and Prescribing Information"),
 ("1",
  "organized_ctd/CTD Structure/Module 1 Administrative Information and Prescribing Information/1.A Additional Data/1.A.1 Country Specific Data"),
 ("1.0 Correspondence",
  "organized_ctd/CTD Structure/Module 1 Administrative Information and Prescribing Information/1.0 Correspondence"),
 ("1.0",
  "organized_ctd/CTD Structure/Module 1 Administrative Information and Prescribing Information/1.0 Correspondence"),
 ("1.0.1 Cover Letter",
  "organized_ctd/CTD Structure/Module 1 Administrative Information and Prescribing Information/1.0 Correspondence/1.0.1 Cover Letter"),
 ("1.0.1",
  "organized_ctd/CTD Structure/Module 1 Administrative Information and Prescribing Information/1.0 Correspondence/1.0.1 Cover Letter"),
 ("1.0.2 General Note to Reviewer",
  "organized_ctd/CTD Structure/Module 1 Administrative Information and Prescribing Information/1.0 Correspondence/1.0.2 General Note to Reviewer"),
 ("1.0.2",
  "organized_ctd/CTD Structure/Module 1 Administrative Information and Prescribing Information/1.0 Correspondence/1.0.2 General Note to Reviewer"),
 ("1.0.3 Life Cycle Management Tracking Table",
  "organized_ctd/CTD Structure/Module 1 Administrative Information and Prescribing Information/1.0 Correspondence/1.0.3 Life Cycle Management Tracking Table"),
 ("1.0.3",
  "organized_ctd/CTD Structure/Module 1 Administrative Information and Prescribing Information/1.0 Correspondence/1.0.3 Life Cycle Management Tracking Table"),
 ("1.0.4 Correspondence Issued by Regulatory Authority",
  "organized_ctd/CTD Structure/Module 1 Administrative Information and Prescribing Information/1.0 Correspondence/1.0.4 Correspondence Issued by Regulatory Authority"),
 ("1.0.4",
  "organized_ctd/CTD Structure/Module 1 Administrative Information and Prescribing Information/1.0 Correspondence/1.0.4 Correspondence Issued by Regulatory Authority"),
 ("1.0.5 Response to Information Solicited by Regulatory Authority",
  "organized_ctd/CTD Structure/Module 1 Administrative Information and Prescribing Information/1.0 Correspondence/1.0.5 Response to Information Solicited by Regulatory Authority"),
 ("1.0.5",
  "organized_ctd/CTD Structure/Module 1 Administrative Information and Prescribing Information/1.0 Correspondence/1.0.5 Response to Information Solicited by Regulatory Authority"),
 ("1.0.6 Meeting Information",
  "organized_ctd/CTD Structure/Module 1 Administrative Information and Prescribing Information/1.0 Correspondence/1.0.6 Meeting Information"),
 ("1.0.6",
  "organized_ctd/CTD Structure/Module 1 Administrative Information and Prescribing Information/1.0 Correspondence/1.0.6 Meeting Information"),
 ("1.0.7 Request for Appeal Documentation",
  "organized_ctd/CTD Structure/Module 1 Administrative Information and Prescribing Information/1.0 Correspondence/1.0.7 Request for Appeal Documentation"),
 ("1.0.7",
  "organized_ctd/CTD Structure/Module 1 Administrative Information and Prescribing Information/1.0 Correspondence/1.0.7 Request for Appeal Documentation"),
 ("1.2 Administrative Information",
  "organized_ctd/CTD Structure/Module 1 Administrative Information and Prescribing Information/1.2 Administrative Information"),
 ("1.2",
  "organized_ctd/CTD Structure/Module 1 Administrative Information and Prescribing Information/1.2 Administrative Information/1.2.A Additional Administrative Information"),
 ("1.2.1 Application Form",
  "organized_ctd/CTD Structure/Module 1 Administrative Information and Prescribing Information/1.2 Administrative Information/1.2.1 Application Form"),
 ("1.2.1",
  "organized_ctd/CTD Structure/Module 1 Administrative Information and Prescribing Information/1.2 Administrative Information/1.2.1 Application Form"),
 ("1.2.2 Fee Forms",
  "organized_ctd/CTD Structure/Module 1 Administrative Information and Prescribing Information/1.2 Administrative Information/1.2.2 Fee Forms"),
 ("1.2.2",
  "organized_ctd/CTD Structure/Module 1 Administrative Information and Prescribing Information/1.2 Administrative Information/1.2.2 Fee Forms"),
 ("1.2.3 Certification and Attestation Forms",
  "organized_ctd/CTD Structure/Module 1 Administrative Information and Prescribing Information/1.2 Administrative Information/1.2.3 Certification and Attestation Forms"),
 ("1.2.3",
  "organized_ctd/CTD Structure/Module 1 Administrative Information and Prescribing Information/1.2 Administrative Information/1.2.3 Certification and Attestation Forms"),
 ("1.2.4 Compliance and Site Information",
  "organized_ctd/CTD Structure/Module 1 Administrative Information and Prescribing Information/1.2 Administrative Information/1.2.4 Compliance and Site Information"),
 ("1.2.4",
  "organized_ctd/CTD Structure/Module 1 Administrative Information and Prescribing Information/1.2 Administrative Information/1.2.4 Compliance and Site Information"),
 ("1.2.5 Authorization for Sharing Information",
  "organized_ctd/CTD Structure/Module 1 Administrative Information and Prescribing Information/1.2 Administrative Information/1.2.5 Authorization for Sharing Information"),
 ("1.2.5",
  "organized_ctd/CTD Structure/Module 1 Administrative Information and Prescribing Information/1.2 Administrative Information/1.2.5 Authorization for Sharing Information"),
 ("1.2.6 Electronic Declaration",
  "organized_ctd/CTD Structure/Module 1 Administrative Information and Prescribing Information/1.2 Administrative Information/1.2.6 Electronic Declaration"),
 ("1.2.6",
  "organized_ctd/CTD Structure/Module 1 Administrative Information and Prescribing Information/1.2 Administrative Information/1.2.6 Electronic Declaration"),
 ("1.2.7 Trademark & Intellectual Property Information",
  "organized_ctd/CTD Structure/Module 1 Administrative Information and Prescribing Information/1.2 Administrative Information/1.2.7 Trademark & Intellectual Property Information"),
 ("1.2.7",
  "organized_ctd/CTD Structure/Module 1 Administrative Information and Prescribing Information/1.2 Administrative Information/1.2.7 Trademark & Intellectual Property Information"),
 ("1.2.8 Screening Details",
  "organized_ctd/CTD Structure/Module 1 Administrative Information and Prescribing Information/1.2 Administrative Information/1.2.8 Screening Details"),
 ("1.2.8",
  "organized_ctd/CTD Structure/Module 1 Administrative Information and Prescribing Information/1.2 Administrative Information/1.2.8 Screening Details"),
 ("1.2.A Additional Administrative Information",
  "organized_ctd/CTD Structure/Module 1 Administrative Information and Prescribing Information/1.2 Administrative Information/1.2.A Additional Administrative Information"),
 ("1.3 Product Information",
  "organized_ctd/CTD Structure/Module 1 Administrative Information and Prescribing Information/1.3 Product Information"),
 ("1.3",
  "organized_ctd/CTD Structure/Module 1 Administrative Information and Prescribing Information/1.3 Product Information"),
 ("1.3.1 Summary of Product Characteristics (SmPC)",
  "organized_ctd/CTD Structure/Module 1 Administrative Information and Prescribing Information/1.3 Product Information/1.3.1 Summary of Product Characteristics (SmPC)"),
 ("1.3.1",
  "organized_ctd/CTD Structure/Module 1 Administrative Information and Prescribing Information/1.3 Product Information/1.3.1 Summary of Product Characteristics (SmPC)"),
 ("1.3.1.1 Approved - SmPC",
  "organized_ctd/CTD Structure/Module 1 Administrative Information and Prescribing Information/1.3 Product Information/1.3.1 Summary of Product Characteristics (SmPC)/1.3.1.1 Approved - SmPC"),
 ("1.3.1.1",
  "organized_ctd/CTD Structure/Module 1 Administrative Information and Prescribing Information/1.3 Product Information/1.3.1 Summary of Product Characteristics (SmPC)/1.3.1.1 Approved - SmPC"),
 ("1.3.1.1.1 Approved - SmPC - English",
  "organized_ctd/CTD Structure/Module 1 Administrative Information and Prescribing Information/1.3 Product Information/1.3.1 Summary of Product Characteristics (SmPC)/1.3.1.1 Approved - SmPC/1.3.1.1.1 Approved - SmPC - English"),
 ("1.3.1.1.1",
  "organized_ctd/CTD Structure/Module 1 Administrative Information and Prescribing Information/1.3 Product Information/1.3.1 Summary of Product Characteristics (SmPC)/1.3.1.1 Approved - SmPC/1.3.1.1.1 Approved - SmPC - English"),
 ("1.3.1.1.2 Approved - SmPC - French",
  "organized_ctd/CTD Structure/Module 1 Administrative Information and Prescribing Information/1.3 Product Information/1.3.1 Summary of Product Characteristics (SmPC)/1.3.1.1 Approved - SmPC/1.3.1.1.2 Approved - SmPC - French"),
 ("1.3.1.1.2",
  "organized_ctd/CTD Structure/Module 1 Administrative Information and Prescribing Information/1.3 Product Information/1.3.1 Summary of Product Characteristics (SmPC)/1.3.1.1 Approved - SmPC/1.3.1.1.2 Approved - SmPC - French"),
 ("1.3.1.1.3 Approved - SmPC - Portuguese",
  "organized_ctd/CTD Structure/Module 1 Administrative Information and Prescribing Information/1.3 Product Information/1.3.1 Summary of Product Characteristics (SmPC)/1.3.1.1 Approved - SmPC/1.3.1.1.3 Approved - SmPC - Portuguese"),
 ("1.3.1.1.3",
  "organized_ctd/CTD Structure/Module 1 Administrative Information and Prescribing Information/1.3 Product Information/1.3.1 Summary of Product Characteristics (SmPC)/1.3.1.1 Approved - SmPC/1.3.1.1.3 Approved - SmPC - Portuguese"),
 ("1.3.1.2 Clean - SmPC",
  "organized_ctd/CTD Structure/Module 1 Administrative Information and Prescribing Information/1.3 Product Information/1.3.1 Summary of Product Characteristics (SmPC)/1.3.1.2 Clean - SmPC"),
 ("1.3.1.2",
  "organized_ctd/CTD Structure/Module 1 Administrative Information and Prescribing Information/1.3 Product Information/1.3.1 Summary of Product Characteristics (SmPC)/1.3.1.2 Clean - SmPC"),
 ("1.3.1.2.1 Clean - SmPC - English",
  "organized_ctd/CTD Structure/Module 1 Administrative Information and Prescribing Information/1.3 Product Information/1.3.1 Summary of Product Characteristics (SmPC)/1.3.1.2 Clean - SmPC/1.3.1.2.1 Clean - SmPC - English"),
 ("1.3.1.2.1",
  "organized_ctd/CTD Structure/Module 1 Administrative Information and Prescribing Information/1.3 Product Information/1.3.1 Summary of Product Characteristics (SmPC)/1.3.1.2 Clean - SmPC/1.3.1.2.1 Clean - SmPC - English"),
 ("1.3.1.2.2 Clean - SmPC - French",
  "organized_ctd/CTD Structure/Module 1 Administrative Information and Prescribing Information/1.3 Product Information/1.3.1 Summary of Product Characteristics (SmPC)/1.3.1.2 Clean - SmPC/1.3.1.2.2 Clean - SmPC - French"),
 ("1.3.1.2.2",
  "organized_ctd/CTD Structure/Module 1 Administrative Information and Prescribing Information/1.3 Product Information/1.3.1 Summary of Product Characteristics (SmPC)/1.3.1.2 Clean - SmPC/1.3.1.2.2 Clean - SmPC - French"),
 ("1.3.1.2.3 Clean - SmPC - Portuguese",
  "organized_ctd/CTD Structure/Module 1 Administrative Information and Prescribing Information/1.3 Product Information/1.3.1 Summary of Product Characteristics (SmPC)/1.3.1.2 Clean - SmPC/1.3.1.2.3 Clean - SmPC - Portuguese"),
 ("1.3.1.2.3",
  "organized_ctd/CTD Structure/Module 1 Administrative Information and Prescribing Information/1.3 Product Information/1.3.1 Summary of Product Characteristics (SmPC)/1.3.1.2 Clean - SmPC/1.3.1.2.3 Clean - SmPC - Portuguese"),
 ("1.3.1.3 Annotated - SmPC",
  "organized_ctd/CTD Structure/Module 1 Administrative Information and Prescribing Information/1.3 Product Information/1.3.1 Summary of Product Characteristics (SmPC)/1.3.1.3 Annotated - SmPC"),
 ("1.3.1.3",
  "organized_ctd/CTD Structure/Module 1 Administrative Information and Prescribing Information/1.3 Product Information/1.3.1 Summary of Product Characteristics (SmPC)/1.3.1.3 Annotated - SmPC"),
 ("1.3.1.3.1 Annotated - SmPC - English",
  "organized_ctd/CTD Structure/Module 1 Administrative Information and Prescribing Information/1.3 Product Information/1.3.1 Summary of Product Characteristics (SmPC)/1.3.1.3 Annotated - SmPC/1.3.1.3.1 Annotated - SmPC - English"),
 ("1.3.1.3.1",
  "organized_ctd/CTD Structure/Module 1 Administrative Information and Prescribing Information/1.3 Product Information/1.3.1 Summary of Product Characteristics (SmPC)/1.3.1.3 Annotated - SmPC/1.3.1.3.1 Annotated - SmPC - English"),
 ("1.3.1.3.2 Annotated - SmPC - French",
  "organized_ctd/CTD Structure/Module 1 Administrative Information and Prescribing Information/1.3 Product Information/1.3.1 Summary of Product Characteristics (SmPC)/1.3.1.3 Annotated - SmPC/1.3.1.3.2 Annotated - SmPC - French"),
 ("1.3.1.3.2",
  "organized_ctd/CTD Structure/Module 1 Administrative Information and Prescribing Information/1.3 Product Information/1.3.1 Summary of Product Characteristics (SmPC)/1.3.1.3 Annotated - SmPC/1.3.1.3.2 Annotated - SmPC - French"),
 ("1.3.1.3.3 Annotated - SmPC - Portuguese",
  "organized_ctd/CTD Structure/Module 1 Administrative Information and Prescribing Information/1.3 Product Information/1.3.1 Summary of Product Characteristics (SmPC)/1.3.1.3 Annotated - SmPC/1.3.1.3.3 Annotated - SmPC - Portuguese"),
 ("1.3.1.3.3",
  "organized_ctd/CTD Structure/Module 1 Administrative Information and Prescribing Information/1.3 Product Information/1.3.1 Summary of Product Characteristics (SmPC)/1.3.1.3 Annotated - SmPC/1.3.1.3.3 Annotated - SmPC - Portuguese"),
 ("1.3.2 Patient Information Leaflet (PIL)",
  "organized_ctd/CTD Structure/Module 1 Administrative Information and Prescribing Information/1.3 Product Information/1.3.2 Patient Information Leaflet (PIL)"),
 ("1.3.2",
  "organized_ctd/CTD Structure/Module 1 Administrative Information and Prescribing Information/1.3 Product Information/1.3.2 Patient Information Leaflet (PIL)"),
 ("1.3.2.1 Approved - PIL",
  "organized_ctd/CTD Structure/Module 1 Administrative Information and Prescribing Information/1.3 Product Information/1.3.2 Patient Information Leaflet (PIL)/1.3.2.1 Approved - PIL"),
 ("1.3.2.1",
  "organized_ctd/CTD Structure/Module 1 Administrative Information and Prescribing Information/1.3 Product Information/1.3.2 Patient Information Leaflet (PIL)/1.3.2.1 Approved - PIL"),
 ("1.3.2.1.1 Approved - PIL - English",
  "organized_ctd/CTD Structure/Module 1 Administrative Information and Prescribing Information/1.3 Product Information/1.3.2 Patient Information Leaflet (PIL)/1.3.2.1 Approved - PIL/1.3.2.1.1 Approved - PIL - English"),
 ("1.3.2.1.1",
  "organized_ctd/CTD Structure/Module 1 Administrative Information and Prescribing Information/1.3 Product Information/1.3.2 Patient Information Leaflet (PIL)/1.3.2.1 Approved - PIL/1.3.2.1.1 Approved - PIL - English"),
 ("1.3.2.1.2 Approved - PIL - French",
  "organized_ctd/CTD Structure/Module 1 Administrative Information and Prescribing Information/1.3 Product Information/1.3.2 Patient Information Leaflet (PIL)/1.3.2.1 Approved - PIL/1.3.2.1.2 Approved - PIL - French"),
 ("1.3.2.1.2",
  "organized_ctd/CTD Structure/Module 1 Administrative Information and Prescribing Information/1.3 Product Information/1.3.2 Patient Information Leaflet (PIL)/1.3.2.1 Approved - PIL/1.3.2.1.2 Approved - PIL - French"),
 ("1.3.2.1.3 Approved - PIL - Portuguese",
  "organized_ctd/CTD Structure/Module 1 Administrative Information and Prescribing Information/1.3 Product Information/1.3.2 Patient Information Leaflet (PIL)/1.3.2.1 Approved - PIL/1.3.2.1.3 Approved - PIL - Portuguese"),
 ("1.3.2.1.3",
  "organized_ctd/CTD Structure/Module 1 Administrative Information and Prescribing Information/1.3 Product Information/1.3.2 Patient Information Leaflet (PIL)/1.3.2.1 Approved - PIL/1.3.2.1.3 Approved - PIL - Portuguese"),
 ("1.3.2.2 Clean - PIL",
  "organized_ctd/CTD Structure/Module 1 Administrative Information and Prescribing Information/1.3 Product Information/1.3.2 Patient Information Leaflet (PIL)/1.3.2.2 Clean - PIL"),
 ("1.3.2.2",
  "organized_ctd/CTD Structure/Module 1 Administrative Information and Prescribing Information/1.3 Product Information/1.3.2 Patient Information Leaflet (PIL)/1.3.2.2 Clean - PIL"),
 ("1.3.2.2.1 Clean - PIL - English",
  "organized_ctd/CTD Structure/Module 1 Administrative Information and Prescribing Information/1.3 Product Information/1.3.2 Patient Information Leaflet (PIL)/1.3.2.2 Clean - PIL/1.3.2.2.1 Clean - PIL - English"),
 ("1.3.2.2.1",
  "organized_ctd/CTD Structure/Module 1 Administrative Information and Prescribing Information/1.3 Product Information/1.3.2 Patient Information Leaflet (PIL)/1.3.2.2 Clean - PIL/1.3.2.2.1 Clean - PIL - English"),
 ("1.3.2.2.2 Clean - PIL - French",
  "organized_ctd/CTD Structure/Module 1 Administrative Information and Prescribing Information/1.3 Product Information/1.3.2 Patient Information Leaflet (PIL)/1.3.2.2 Clean - PIL/1.3.2.2.2 Clean - PIL - French"),
 ("1.3.2.2.2",
  "organized_ctd/CTD Structure/Module 1 Administrative Information and Prescribing Information/1.3 Product Information/1.3.2 Patient Information Leaflet (PIL)/1.3.2.2 Clean - PIL/1.3.2.2.2 Clean - PIL - French"),
 ("1.3.2.2.3 Clean - PIL - Portuguese",
  "organized_ctd/CTD Structure/Module 1 Administrative Information and Prescribing Information/1.3 Product Information/1.3.2 Patient Information Leaflet (PIL)/1.3.2.2 Clean - PIL/1.3.2.2.3 Clean - PIL - Portuguese"),
 ("1.3.2.2.3",
  "organized_ctd/CTD Structure/Module 1 Administrative Information and Prescribing Information/1.3 Product Information/1.3.2 Patient Information Leaflet (PIL)/1.3.2.2 Clean - PIL/1.3.2.2.3 Clean - PIL - Portuguese"),
 ("1.3.2.3 Annotated - PIL",
  "organized_ctd/CTD Structure/Module 1 Administrative Information and Prescribing Information/1.3 Product Information/1.3.2 Patient Information Leaflet (PIL)/1.3.2.3 Annotated - PIL"),
 ("1.3.2.3",
  "organized_ctd/CTD Structure/Module 1 Administrative Information and Prescribing Information/1.3 Product Information/1.3.2 Patient Information Leaflet (PIL)/1.3.2.3 Annotated - PIL"),
 ("1.3.2.3.1 Annotated - PIL - English",
  "organized_ctd/CTD Structure/Module 1 Administrative Information and Prescribing Information/1.3 Product Information/1.3.2 Patient Information Leaflet (PIL)/1.3.2.3 Annotated - PIL/1.3.2.3.1 Annotated - PIL - English"),
 ("1.3.2.3.1",
  "organized_ctd/CTD Structure/Module 1 Administrative Information and Prescribing Information/1.3 Product Information/1.3.2 Patient Information Leaflet (PIL)/1.3.2.3 Annotated - PIL/1.3.2.3.1 Annotated - PIL - English"),
 ("1.3.2.3.2 Annotated - PIL - French",
  "organized_ctd/CTD Structure/Module 1 Administrative Information and Prescribing Information/1.3 Product Information/1.3.2 Patient Information Leaflet (PIL)/1.3.2.3 Annotated - PIL/1.3.2.3.2 Annotated - PIL - French"),
 ("1.3.2.3.2",
  "organized_ctd/CTD Structure/Module 1 Administrative Information and Prescribing Information/1.3 Product Information/1.3.2 Patient Information Leaflet (PIL)/1.3.2.3 Annotated - PIL/1.3.2.3.2 Annotated - PIL - French"),
 ("1.3.2.3.3 Annotated - PIL - Portuguese",
  "organized_ctd/CTD Structure/Module 1 Administrative Information and Prescribing Information/1.3 Product Information/1.3.2 Patient Information Leaflet (PIL)/1.3.2.3 Annotated - PIL/1.3.2.3.3 Annotated - PIL - Portuguese"),
 ("1.3.2.3.3",
  "organized_ctd/CTD Structure/Module 1 Administrative Information and Prescribing Information/1.3 Product Information/1.3.2 Patient Information Leaflet (PIL)/1.3.2.3 Annotated - PIL/1.3.2.3.3 Annotated - PIL - Portuguese"),
 ("1.3.3 Container Labels",
  "organized_ctd/CTD Structure/Module 1 Administrative Information and Prescribing Information/1.3 Product Information/1.3.3 Container Labels"),
 ("1.3.3",
  "organized_ctd/CTD Structure/Module 1 Administrative Information and Prescribing Information/1.3 Product Information/1.3.3 Container Labels"),
 ("1.3.3.1 Approved - Container Labels",
  "organized_ctd/CTD Structure/Module 1 Administrative Information and Prescribing Information/1.3 Product Information/1.3.3 Container Labels/1.3.3.1 Approved - Container Labels"),
 ("1.3.3.1",
  "organized_ctd/CTD Structure/Module 1 Administrative Information and Prescribing Information/1.3 Product Information/1.3.3 Container Labels/1.3.3.1 Approved - Container Labels"),
 ("1.3.3.1.1 Approved - Container Labels - English",
  "organized_ctd/CTD Structure/Module 1 Administrative Information and Prescribing Information/1.3 Product Information/1.3.3 Container Labels/1.3.3.1 Approved - Container Labels/1.3.3.1.1 Approved - Container Labels - English"),
 ("1.3.3.1.1",
  "organized_ctd/CTD Structure/Module 1 Administrative Information and Prescribing Information/1.3 Product Information/1.3.3 Container Labels/1.3.3.1 Approved - Container Labels/1.3.3.1.1 Approved - Container Labels - English"),
 ("1.3.3.1.2 Approved - Container Labels - French",
  "organized_ctd/CTD Structure/Module 1 Administrative Information and Prescribing Information/1.3 Product Information/1.3.3 Container Labels/1.3.3.1 Approved - Container Labels/1.3.3.1.2 Approved - Container Labels - French"),
 ("1.3.3.1.2",
  "organized_ctd/CTD Structure/Module 1 Administrative Information and Prescribing Information/1.3 Product Information/1.3.3 Container Labels/1.3.3.1 Approved - Container Labels/1.3.3.1.2 Approved - Container Labels - French"),
 ("1.3.3.1.3 Approved - Container Labels - Portuguese",
  "organized_ctd/CTD Structure/Module 1 Administrative Information and Prescribing Information/1.3 Product Information/1.3.3 Container Labels/1.3.3.1 Approved - Container Labels/1.3.3.1.3 Approved - Container Labels - Portuguese"),
 ("1.3.3.1.3",
  "organized_ctd/CTD Structure/Module 1 Administrative Information and Prescribing Information/1.3 Product Information/1.3.3 Container Labels/1.3.3.1 Approved - Container Labels/1.3.3.1.3 Approved - Container Labels - Portuguese"),
 ("1.3.3.2 Clean - Container Labels",
  "organized_ctd/CTD Structure/Module 1 Administrative Information and Prescribing Information/1.3 Product Information/1.3.3 Container Labels/1.3.3.2 Clean - Container Labels"),
 ("1.3.3.2",
  "organized_ctd/CTD Structure/Module 1 Administrative Information and Prescribing Information/1.3 Product Information/1.3.3 Container Labels/1.3.3.2 Clean - Container Labels"),
 ("1.3.3.2.1 Clean - Container Labels - English",
  "organized_ctd/CTD Structure/Module 1 Administrative Information and Prescribing Information/1.3 Product Information/1.3.3 Container Labels/1.3.3.2 Clean - Container Labels/1.3.3.2.1 Clean - Container Labels - English"),
 ("1.3.3.2.1",
  "organized_ctd/CTD Structure/Module 1 Administrative Information and Prescribing Information/1.3 Product Information/1.3.3 Container Labels/1.3.3.2 Clean - Container Labels/1.3.3.2.1 Clean - Container Labels - English"),
 ("1.3.3.2.2 Clean - Container Labels - French",
  "organized_ctd/CTD Structure/Module 1 Administrative Information and Prescribing Information/1.3 Product Information/1.3.3 Container Labels/1.3.3.2 Clean - Container Labels/1.3.3.2.2 Clean - Container Labels - French"),
 ("1.3.3.2.2",
  "organized_ctd/CTD Structure/Module 1 Administrative Information and Prescribing Information/1.3 Product Information/1.3.3 Container Labels/1.3.3.2 Clean - Container Labels/1.3.3.2.2 Clean - Container Labels - French"),
 ("1.3.3.2.3 Clean - Container Labels - Portuguese",
  "organized_ctd/CTD Structure/Module 1 Administrative Information and Prescribing Information/1.3 Product Information/1.3.3 Container Labels/1.3.3.2 Clean - Container Labels/1.3.3.2.3 Clean - Container Labels - Portuguese"),
 ("1.3.3.2.3",
  "organized_ctd/CTD Structure/Module 1 Administrative Information and Prescribing Information/1.3 Product Information/1.3.3 Container Labels/1.3.3.2 Clean - Container Labels/1.3.3.2.3 Clean - Container Labels - Portuguese"),
 ("1.3.3.3 Annotated - Container Labels",
  "organized_ctd/CTD Structure/Module 1 Administrative Information and Prescribing Information/1.3 Product Information/1.3.3 Container Labels/1.3.3.3 Annotated - Container Labels"),
 ("1.3.3.3",
  "organized_ctd/CTD Structure/Module 1 Administrative Information and Prescribing Information/1.3 Product Information/1.3.3 Container Labels/1.3.3.3 Annotated - Container Labels"),
 ("1.3.3.3.1 Annotated - Container Labels - English",
  "organized_ctd/CTD Structure/Module 1 Administrative Information and Prescribing Information/1.3 Product Information/1.3.3 Container Labels/1.3.3.3 Annotated - Container Labels/1.3.3.3.1 Annotated - Container Labels - English"),
 ("1.3.3.3.1",
  "organized_ctd/CTD Structure/Module 1 Administrative Information and Prescribing Information/1.3 Product Information/1.3.3 Container Labels/1.3.3.3 Annotated - Container Labels/1.3.3.3.1 Annotated - Container Labels - English"),
 ("1.3.3.3.2 Annotated - Container Labels - French",
  "organized_ctd/CTD Structure/Module 1 Administrative Information and Prescribing Information/1.3 Product Information/1.3.3 Container Labels/1.3.3.3 Annotated - Container Labels/1.3.3.3.2 Annotated - Container Labels - French"),
 ("1.3.3.3.2",
  "organized_ctd/CTD Structure/Module 1 Administrative Information and Prescribing Information/1.3 Product Information/1.3.3 Container Labels/1.3.3.3 Annotated - Container Labels/1.3.3.3.2 Annotated - Container Labels - French"),
 ("1.3.3.3.3 Annotated - Container Labels - Portuguese",
  "organized_ctd/CTD Structure/Module 1 Administrative Information and Prescribing Information/1.3 Product Information/1.3.3 Container Labels/1.3.3.3 Annotated - Container Labels/1.3.3.3.3 Annotated - Container Labels - Portuguese"),
 ("1.3.3.3.3",
  "organized_ctd/CTD Structure/Module 1 Administrative Information and Prescribing Information/1.3 Product Information/1.3.3 Container Labels/1.3.3.3 Annotated - Container Labels/1.3.3.3.3 Annotated - Container Labels - Portuguese"),
 ("1.3.4 Foreign Labelling",
  "organized_ctd/CTD Structure/Module 1 Administrative Information and Prescribing Information/1.3 Product Information/1.3.4 Foreign Labelling"),
 ("1.3.4",
  "organized_ctd/CTD Structure/Module 1 Administrative Information and Prescribing Information/1.3 Product Information/1.3.4 Foreign Labelling"),
 ("1.3.5 Reference Product Labelling",
  "organized_ctd/CTD Structure/Module 1 Administrative Information and Prescribing Information/1.3 Product Information/1.3.5 Reference Product Labelling"),
 ("1.3.5",
  "organized_ctd/CTD Structure/Module 1 Administrative Information and Prescribing Information/1.3 Product Information/1.3.5 Reference Product Labelling"),
 ("1.3.6 Artwork and Samples",
  "organized_ctd/CTD Structure/Module 1 Administrative Information and Prescribing Information/1.3 Product Information/1.3.6 Artwork and Samples"),
 ("1.3.6",
  "organized_ctd/CTD Structure/Module 1 Administrative Information and Prescribing Information/1.3 Product Information/1.3.6 Artwork and Samples"),
 ("1.4 Information about the Experts",
  "organized_ctd/CTD Structure/Module 1 Administrative Information and Prescribing Information/1.4 Information about the Experts"),
 ("1.4",
  "organized_ctd/CTD Structure/Module 1 Administrative Information and Prescribing Information/1.4 Information about the Experts"),
 ("1.4.1 Quality",
  "organized_ctd/CTD Structure/Module 1 Administrative Information and Prescribing Information/1.4 Information about the Experts/1.4.1 Quality"),
 ("1.4.1",
  "organized_ctd/CTD Structure/Module 1 Administrative Information and Prescribing Information/1.4 Information about the Experts/1.4.1 Quality"),
 ("1.4.2 Non-Clinical",
  "organized_ctd/CTD Structure/Module 1 Administrative Information and Prescribing Information/1.4 Information about the Experts/1.4.2 Non-Clinical"),
 ("1.4.2",
  "organized_ctd/CTD Structure/Module 1 Administrative Information and Prescribing Information/1.4 Information about the Experts/1.4.2 Non-Clinical"),
 ("1.4.3 Clinical",
  "organized_ctd/CTD Structure/Module 1 Administrative Information and Prescribing Information/1.4 Information about the Experts/1.4.3 Clinical"),
 ("1.4.3",
  "organized_ctd/CTD Structure/Module 1 Administrative Information and Prescribing Information/1.4 Information about the Experts/1.4.3 Clinical"),
 ("1.5 Specific Requirements for Different Types of Applications",
  "organized_ctd/CTD Structure/Module 1 Administrative Information and Prescribing Information/1.5 Specific Requirements for Different Types of Applications"),
 ("1.5",
  "organized_ctd/CTD Structure/Module 1 Administrative Information and Prescribing Information/1.5 Specific Requirements for Different Types of Applications"),
 ("1.5.1 Bioequivalence Trial Information",
  "organized_ctd/CTD Structure/Module 1 Administrative Information and Prescribing Information/1.5 Specific Requirements for Different Types of Applications/1.5.1 Bioequivalence Trial Information"),
 ("1.5.1",
  "organized_ctd/CTD Structure/Module 1 Administrative Information and Prescribing Information/1.5 Specific Requirements for Different Types of Applications/1.5.1 Bioequivalence Trial Information"),
 ("1.6 Environmental Risk Assessment",
  "organized_ctd/CTD Structure/Module 1 Administrative Information and Prescribing Information/1.6 Environmental Risk Assessment"),
 ("1.6",
  "organized_ctd/CTD Structure/Module 1 Administrative Information and Prescribing Information/1.6 Environmental Risk Assessment"),
 ("1.6.1 Non-GMO",
  "organized_ctd/CTD Structure/Module 1 Administrative Information and Prescribing Information/1.6 Environmental Risk Assessment/1.6.1 Non-GMO"),
 ("1.6.1",
  "organized_ctd/CTD Structure/Module 1 Administrative Information and Prescribing Information/1.6 Environmental Risk Assessment/1.6.1 Non-GMO"),
 ("1.6.2 GMO",
  "organized_ctd/CTD Structure/Module 1 Administrative Information and Prescribing Information/1.6 Environmental Risk Assessment/1.6.2 GMO"),
 ("1.6.2",
  "organized_ctd/CTD Structure/Module 1 Administrative Information and Prescribing Information/1.6 Environmental Risk Assessment/1.6.2 GMO"),
 ("1.7 Good Manufacturing Practice (GMP)",
  "organized_ctd/CTD Structure/Module 1 Administrative Information and Prescribing Information/1.7 Good Manufacturing Practice (GMP)"),
 ("1.7",
  "organized_ctd/CTD Structure/Module 1 Administrative Information and Prescribing Information/1.7 Good Manufacturing Practice (GMP)"),
 ("1.7.1 Date of Inspection of Each Site",
  "organized_ctd/CTD Structure/Module 1 Administrative Information and Prescribing Information/1.7 Good Manufacturing Practice (GMP)/1.7.1 Date of Inspection of Each Site"),
 ("1.7.1",
  "organized_ctd/CTD Structure/Module 1 Administrative Information and Prescribing Information/1.7 Good Manufacturing Practice (GMP)/1.7.1 Date of Inspection of Each Site"),
 ("1.7.2 Inspection Reports or Equivalent Documents",
  "organized_ctd/CTD Structure/Module 1 Administrative Information and Prescribing Information/1.7 Good Manufacturing Practice (GMP)/1.7.2 Inspection Reports or Equivalent Documents"),
 ("1.7.2",
  "organized_ctd/CTD Structure/Module 1 Administrative Information and Prescribing Information/1.7 Good Manufacturing Practice (GMP)/1.7.2 Inspection Reports or Equivalent Documents"),
 ("1.7.3 GMP Certificates or Manufacturing Licences",
  "organized_ctd/CTD Structure/Module 1 Administrative Information and Prescribing Information/1.7 Good Manufacturing Practice (GMP)/1.7.3 GMP Certificates or Manufacturing Licences"),
 ("1.7.3",
  "organized_ctd/CTD Structure/Module 1 Administrative Information and Prescribing Information/1.7 Good Manufacturing Practice (GMP)/1.7.3 GMP Certificates or Manufacturing Licences"),
 ("1.7.4 Other GMP Documents",
  "organized_ctd/CTD Structure/Module 1 Administrative Information and Prescribing Information/1.7 Good Manufacturing Practice (GMP)/1.7.4 Other GMP Documents"),
 ("1.7.4",
  "organized_ctd/CTD Structure/Module 1 Administrative Information and Prescribing Information/1.7 Good Manufacturing Practice (GMP)/1.7.4 Other GMP Documents"),
 ("1.8 Information Relating to Pharmacovigilance",
  "organized_ctd/CTD Structure/Module 1 Administrative Information and Prescribing Information/1.8 Information Relating to Pharmacovigilance"),
 ("1.8",
  "organized_ctd/CTD Structure/Module 1 Administrative Information and Prescribing Information/1.8 Information Relating to Pharmacovigilance"),
 ("1.8.1 Pharmacovigilance System",
  "organized_ctd/CTD Structure/Module 1 Administrative Information and Prescribing Information/1.8 Information Relating to Pharmacovigilance/1.8.1 Pharmacovigilance System"),
 ("1.8.1",
  "organized_ctd/CTD Structure/Module 1 Administrative Information and Prescribing Information/1.8 Information Relating to Pharmacovigilance/1.8.1 Pharmacovigilance System"),
 ("1.8.2 Risk-management System",
  "organized_ctd/CTD Structure/Module 1 Administrative Information and Prescribing Information/1.8 Information Relating to Pharmacovigilance/1.8.2 Risk-management System"),
 ("1.8.2",
  "organized_ctd/CTD Structure/Module 1 Administrative Information and Prescribing Information/1.8 Information Relating to Pharmacovigilance/1.8.2 Risk-management System"),
 ("1.9 Individual Patient Data - Statement of Availability",
  "organized_ctd/CTD Structure/Module 1 Administrative Information and Prescribing Information/1.9 Individual Patient Data - Statement of Availability"),
 ("1.9",
  "organized_ctd/CTD Structure/Module 1 Administrative Information and Prescribing Information/1.9 Individual Patient Data - Statement of Availability"),
 ("1.10 Foreign Regulatory Information",
  "organized_ctd/CTD Structure/Module 1 Administrative Information and Prescribing Information/1.10 Foreign Regulatory Information"),
 ("1.10",
  "organized_ctd/CTD Structure/Module 1 Administrative Information and Prescribing Information/1.10 Foreign Regulatory Information"),
 ("1.10.1 Regional & Foreign Regulatory Status",
  "organized_ctd/CTD Structure/Module 1 Administrative Information and Prescribing Information/1.10 Foreign Regulatory Information/1.10.1 Regional & Foreign Regulatory Status"),
 ("1.10.1",
  "organized_ctd/CTD Structure/Module 1 Administrative Information and Prescribing Information/1.10 Foreign Regulatory Information/1.10.1 Regional & Foreign Regulatory Status"),
 ("1.10.2 WHO Type Certificate of Pharmaceutical Product (COPP)",
  "organized_ctd/CTD Structure/Module 1 Administrative Information and Prescribing Information/1.10 Foreign Regulatory Information/1.10.2 WHO Type Certificate of Pharmaceutical Product (COPP)"),
 ("1.10.2",
  "organized_ctd/CTD Structure/Module 1 Administrative Information and Prescribing Information/1.10 Foreign Regulatory Information/1.10.2 WHO Type Certificate of Pharmaceutical Product (COPP)"),
 ("1.10.3 Data Set Similarities and Differences",
  "organized_ctd/CTD Structure/Module 1 Administrative Information and Prescribing Information/1.10 Foreign Regulatory Information/1.10.3 Data Set Similarities and Differences"),
 ("1.10.3",
  "organized_ctd/CTD Structure/Module 1 Administrative Information and Prescribing Information/1.10 Foreign Regulatory Information/1.10.3 Data Set Similarities and Differences"),
 ("1.10.4 Foreign Evaluation Reports",
  "organized_ctd/CTD Structure/Module 1 Administrative Information and Prescribing Information/1.10 Foreign Regulatory Information/1.10.4 Foreign Evaluation Reports"),
 ("1.10.4",
  "organized_ctd/CTD Structure/Module 1 Administrative Information and Prescribing Information/1.10 Foreign Regulatory Information/1.10.4 Foreign Evaluation Reports"),
 ("1.A Additional Data",
  "organized_ctd/CTD Structure/Module 1 Administrative Information and Prescribing Information/1.A Additional Data"),
 ("1.A.1 Country Specific Data",
  "organized_ctd/CTD Structure/Module 1 Administrative Information and Prescribing Information/1.A Additional Data/1.A.1 Country Specific Data"),
 ("Module 2 Common Technical Document Summaries",
  "organized_ctd/CTD Structure/Module 2 Common Technical Document Summaries"),
 ("2", "organized_ctd/CTD Structure/Module 2 Common Technical Document Summaries"),
 ("2.2 Introduction to Summary",
  "organized_ctd/CTD Structure/Module 2 Common Technical Document Summaries/2.2 Introduction to Summary"),
 ("2.2", "organized_ctd/CTD Structure/Module 2 Common Technical Document Summaries/2.2 Introduction to Summary"),
 ("2.3 Quality Overall Summary (QOS)",
  "organized_ctd/CTD Structure/Module 2 Common Technical Document Summaries/2.3 Quality Overall Summary (QOS)"),
 ("2.3",
  "organized_ctd/CTD Structure/Module 2 Common Technical Document Summaries/2.3 Quality Overall Summary (QOS)/2.3.R Regional Information"),
 ("2.3 Introduction",
  "organized_ctd/CTD Structure/Module 2 Common Technical Document Summaries/2.3 Quality Overall Summary (QOS)/2.3 Introduction"),
 ("2.3.S Drug Substance",
  "organized_ctd/CTD Structure/Module 2 Common Technical Document Summaries/2.3 Quality Overall Summary (QOS)/2.3.S Drug Substance"),
 ("2.3.P Drug Product",
  "organized_ctd/CTD Structure/Module 2 Common Technical Document Summaries/2.3 Quality Overall Summary (QOS)/2.3.P Drug Product"),
 ("2.3.A Appendices",
  "organized_ctd/CTD Structure/Module 2 Common Technical Document Summaries/2.3 Quality Overall Summary (QOS)/2.3.A Appendices"),
 ("2.3.R Regional Information",
  "organized_ctd/CTD Structure/Module 2 Common Technical Document Summaries/2.3 Quality Overall Summary (QOS)/2.3.R Regional Information"),
 ("2.4 Nonclinical Overview",
  "organized_ctd/CTD Structure/Module 2 Common Technical Document Summaries/2.4 Nonclinical Overview"),
 ("2.4", "organized_ctd/CTD Structure/Module 2 Common Technical Document Summaries/2.4 Nonclinical Overview"),
 ("2.5 Clinical Overview",
  "organized_ctd/CTD Structure/Module 2 Common Technical Document Summaries/2.5 Clinical Overview"),
 ("2.5", "organized_ctd/CTD Structure/Module 2 Common Technical Document Summaries/2.5 Clinical Overview"),
 ("2.6 NonClinical Written and Tabulated Summaries",
  "organized_ctd/CTD Structure/Module 2 Common Technical Document Summaries/2.6 NonClinical Written and Tabulated Summaries"),
 ("2.6",
  "organized_ctd/CTD Structure/Module 2 Common Technical Document Summaries/2.6 NonClinical Written and Tabulated Summaries"),
 ("2.6.1 Introduction",
  "organized_ctd/CTD Structure/Module 2 Common Technical Document Summaries/2.6 NonClinical Written and Tabulated Summaries/2.6.1 Introduction"),
 ("2.6.1",
  "organized_ctd/CTD Structure/Module 2 Common Technical Document Summaries/2.6 NonClinical Written and Tabulated Summaries/2.6.1 Introduction"),
 ("2.6.2 Pharmacology Written Summary",
  "organized_ctd/CTD Structure/Module 2 Common Technical Document Summaries/2.6 NonClinical Written and Tabulated Summaries/2.6.2 Pharmacology Written Summary"),
 ("2.6.2",
  "organized_ctd/CTD Structure/Module 2 Common Technical Document Summaries/2.6 NonClinical Written and Tabulated Summaries/2.6.2 Pharmacology Written Summary"),
 ("2.6.3 Pharmacology Tabulated Summary",
  "organized_ctd/CTD Structure/Module 2 Common Technical Document Summaries/2.6 NonClinical Written and Tabulated Summaries/2.6.3 Pharmacology Tabulated Summary"),
 ("2.6.3",
  "organized_ctd/CTD Structure/Module 2 Common Technical Document Summaries/2.6 NonClinical Written and Tabulated Summaries/2.6.3 Pharmacology Tabulated Summary"),
 ("2.6.4 Pharmacokinetics Written Summary",
  "organized_ctd/CTD Structure/Module 2 Common Technical Document Summaries/2.6 NonClinical Written and Tabulated Summaries/2.6.4 Pharmacokinetics Written Summary"),
 ("2.6.4",
  "organized_ctd/CTD Structure/Module 2 Common Technical Document Summaries/2.6 NonClinical Written and Tabulated Summaries/2.6.4 Pharmacokinetics Written Summary"),
 ("2.6.5 Pharmacokinetics Tabulated Summary",
  "organized_ctd/CTD Structure/Module 2 Common Technical Document Summaries/2.6 NonClinical Written and Tabulated Summaries/2.6.5 Pharmacokinetics Tabulated Summary"),
 ("2.6.5",
  "organized_ctd/CTD Structure/Module 2 Common Technical Document Summaries/2.6 NonClinical Written and Tabulated Summaries/2.6.5 Pharmacokinetics Tabulated Summary"),
 ("2.6.6 Toxicology Written Summary",
  "organized_ctd/CTD Structure/Module 2 Common Technical Document Summaries/2.6 NonClinical Written and Tabulated Summaries/2.6.6 Toxicology Written Summary"),
 ("2.6.6",
  "organized_ctd/CTD Structure/Module 2 Common Technical Document Summaries/2.6 NonClinical Written and Tabulated Summaries/2.6.6 Toxicology Written Summary"),
 ("2.6.7 Toxicology Tabulated Summary",
  "organized_ctd/CTD Structure/Module 2 Common Technical Document Summaries/2.6 NonClinical Written and Tabulated Summaries/2.6.7 Toxicology Tabulated Summary"),
 ("2.6.7",
  "organized_ctd/CTD Structure/Module 2 Common Technical Document Summaries/2.6 NonClinical Written and Tabulated Summaries/2.6.7 Toxicology Tabulated Summary"),
 ("2.7 Clinical Summary",
  "organized_ctd/CTD Structure/Module 2 Common Technical Document Summaries/2.7 Clinical Summary"),
 ("2.7", "organized_ctd/CTD Structure/Module 2 Common Technical Document Summaries/2.7 Clinical Summary"),
 ("2.7.1 Summary of Biopharmaceutic Studies",
  "organized_ctd/CTD Structure/Module 2 Common Technical Document Summaries/2.7 Clinical Summary/2.7.1 Summary of Biopharmaceutic Studies"),
 ("2.7.1",
  "organized_ctd/CTD Structure/Module 2 Common Technical Document Summaries/2.7 Clinical Summary/2.7.1 Summary of Biopharmaceutic Studies"),
 ("2.7.2 Summary of Clinical Pharmacology Studies",
  "organized_ctd/CTD Structure/Module 2 Common Technical Document Summaries/2.7 Clinical Summary/2.7.2 Summary of Clinical Pharmacology Studies"),
 ("2.7.2",
  "organized_ctd/CTD Structure/Module 2 Common Technical Document Summaries/2.7 Clinical Summary/2.7.2 Summary of Clinical Pharmacology Studies"),
 ("2.7.3 Summary of Clinical Efficacy",
  "organized_ctd/CTD Structure/Module 2 Common Technical Document Summaries/2.7 Clinical Summary/2.7.3 Summary of Clinical Efficacy"),
 ("2.7.3",
  "organized_ctd/CTD Structure/Module 2 Common Technical Document Summaries/2.7 Clinical Summary/2.7.3 Summary of Clinical Efficacy"),
 ("2.7.4 Summary of Clinical Safety",
  "organized_ctd/CTD Structure/Module 2 Common Technical Document Summaries/2.7 Clinical Summary/2.7.4 Summary of Clinical Safety"),
 ("2.7.4",
  "organized_ctd/CTD Structure/Module 2 Common Technical Document Summaries/2.7 Clinical Summary/2.7.4 Summary of Clinical Safety"),
 ("2.7.5 References",
  "organized_ctd/CTD Structure/Module 2 Common Technical Document Summaries/2.7 Clinical Summary/2.7.5 References"),
 ("2.7.5",
  "organized_ctd/CTD Structure/Module 2 Common Technical Document Summaries/2.7 Clinical Summary/2.7.5 References"),
 ("2.7.6 Synopses of Individual Studies",
  "organized_ctd/CTD Structure/Module 2 Common Technical Document Summaries/2.7 Clinical Summary/2.7.6 Synopses of Individual Studies"),
 ("2.7.6",
  "organized_ctd/CTD Structure/Module 2 Common Technical Document Summaries/2.7 Clinical Summary/2.7.6 Synopses of Individual Studies"),
 ("Module 3 Quality", "organized_ctd/CTD Structure/Module 3 Quality"),
 ("3", "organized_ctd/CTD Structure/Module 3 Quality"),
 ("3.2 Body of Data", "organized_ctd/CTD Structure/Module 3 Quality/3.2 Body of Data"),
 ("3.2", "organized_ctd/CTD Structure/Module 3 Quality/3.2 Body of Data/3.2.P Drug Product/3.2.P.8 Stability"),
 ("3.2.S Drug Substance", "organized_ctd/CTD Structure/Module 3 Quality/3.2 Body of Data/3.2.S Drug Substance"),
 ("3.2.S.1 General Information",
  "organized_ctd/CTD Structure/Module 3 Quality/3.2 Body of Data/3.2.S Drug Substance/3.2.S.1 General Information"),
 ("3.2.S.1.1 Nomenclature",
  "organized_ctd/CTD Structure/Module 3 Quality/3.2 Body of Data/3.2.S Drug Substance/3.2.S.1 General Information/3.2.S.1.1 Nomenclature"),
 ("3.2.S.1.2 Structure",
  "organized_ctd/CTD Structure/Module 3 Quality/3.2 Body of Data/3.2.S Drug Substance/3.2.S.1 General Information/3.2.S.1.2 Structure"),
 ("3.2.S.1.3 General Properties",
  "organized_ctd/CTD Structure/Module 3 Quality/3.2 Body of Data/3.2.S Drug Substance/3.2.S.1 General Information/3.2.S.1.3 General Properties"),
 ("3.2.S.2 Manufacture",
  "organized_ctd/CTD Structure/Module 3 Quality/3.2 Body of Data/3.2.S Drug Substance/3.2.S.2 Manufacture"),
 ("3.2.S.3 Characterization",
  "organized_ctd/CTD Structure/Module 3 Quality/3.2 Body of Data/3.2.S Drug Substance/3.2.S.3 Characterization"),
 ("3.2.S.4 Control of Drug Substance",
  "organized_ctd/CTD Structure/Module 3 Quality/3.2 Body of Data/3.2.S Drug Substance/3.2.S.4 Control of Drug Substance"),
 ("3.2.S.5 Reference Standards or Materials",
  "organized_ctd/CTD Structure/Module 3 Quality/3.2 Body of Data/3.2.S Drug Substance/3.2.S.5 Reference Standards or Materials"),
 ("3.2.S.6 Container Closure Systems",
  "organized_ctd/CTD Structure/Module 3 Quality/3.2 Body of Data/3.2.S Drug Substance/3.2.S.6 Container Closure Systems"),
 ("3.2.S.7 Stability",
  "organized_ctd/CTD Structure/Module 3 Quality/3.2 Body of Data/3.2.S Drug Substance/3.2.S.7 Stability"),
 ("3.2.P Drug Product", "organized_ctd/CTD Structure/Module 3 Quality/3.2 Body of Data/3.2.P Drug Product"),
 ("3.2.P.1 Description and Composition",
  "organized_ctd/CTD Structure/Module 3 Quality/3.2 Body of Data/3.2.P Drug Product/3.2.P.1 Description and Composition"),
 ("3.2.P.2 Pharmaceutical Development",
  "organized_ctd/CTD Structure/Module 3 Quality/3.2 Body of Data/3.2.P Drug Product/3.2.P.2 Pharmaceutical Development"),
 ("3.2.P.3 Manufacture",
  "organized_ctd/CTD Structure/Module 3 Quality/3.2 Body of Data/3.2.P Drug Product/3.2.P.3 Manufacture"),
 ("3.2.P.4 Control of Excipients",
  "organized_ctd/CTD Structure/Module 3 Quality/3.2 Body of Data/3.2.P Drug Product/3.2.P.4 Control of Excipients"),
 ("3.2.P.5 Control of Drug Product",
  "organized_ctd/CTD Structure/Module 3 Quality/3.2 Body of Data/3.2.P Drug Product/3.2.P.5 Control of Drug Product"),
 ("3.2.P.6 Reference Standards or Materials",
  "organized_ctd/CTD Structure/Module 3 Quality/3.2 Body of Data/3.2.P Drug Product/3.2.P.6 Reference Standards or Materials"),
 ("3.2.P.7 Container Closure System",
  "organized_ctd/CTD Structure/Module 3 Quality/3.2 Body of Data/3.2.P Drug Product/3.2.P.7 Container Closure System"),
 ("3.2.P.8 Stability",
  "organized_ctd/CTD Structure/Module 3 Quality/3.2 Body of Data/3.2.P Drug Product/3.2.P.8 Stability"),
 ("3.3 Literature References", "organized_ctd/CTD Structure/Module 3 Quality/3.3 Literature References"),
 ("3.3", "organized_ctd/CTD Structure/Module 3 Quality/3.3 Literature References"),
 ("Module 4 Nonclinical Study Reports", "organized_ctd/CTD Structure/Module 4 Nonclinical Study Reports"),
 ("4", "organized_ctd/CTD Structure/Module 4 Nonclinical Study Reports"),
 ("4.2 Study Reports", "organized_ctd/CTD Structure/Module 4 Nonclinical Study Reports/4.2 Study Reports"),
 ("4.2", "organized_ctd/CTD Structure/Module 4 Nonclinical Study Reports/4.2 Study Reports"),
 ("4.2.1 Pharmacology",
  "organized_ctd/CTD Structure/Module 4 Nonclinical Study Reports/4.2 Study Reports/4.2.1 Pharmacology"),
 ("4.2.1", "organized_ctd/CTD Structure/Module 4 Nonclinical Study Reports/4.2 Study Reports/4.2.1 Pharmacology"),
 ("4.2.1.1 Primary Pharmacodynamics",
  "organized_ctd/CTD Structure/Module 4 Nonclinical Study Reports/4.2 Study Reports/4.2.1 Pharmacology/4.2.1.1 Primary Pharmacodynamics"),
 ("4.2.1.1",
  "organized_ctd/CTD Structure/Module 4 Nonclinical Study Reports/4.2 Study Reports/4.2.1 Pharmacology/4.2.1.1 Primary Pharmacodynamics"),
 ("4.2.1.2 Secondary Pharmacodynamics",
  "organized_ctd/CTD Structure/Module 4 Nonclinical Study Reports/4.2 Study Reports/4.2.1 Pharmacology/4.2.1.2 Secondary Pharmacodynamics"),
 ("4.2.1.2",
  "organized_ctd/CTD Structure/Module 4 Nonclinical Study Reports/4.2 Study Reports/4.2.1 Pharmacology/4.2.1.2 Secondary Pharmacodynamics"),
 ("4.2.1.3 Safety Pharmacology",
  "organized_ctd/CTD Structure/Module 4 Nonclinical Study Reports/4.2 Study Reports/4.2.1 Pharmacology/4.2.1.3 Safety Pharmacology"),
 ("4.2.1.3",
  "organized_ctd/CTD Structure/Module 4 Nonclinical Study Reports/4.2 Study Reports/4.2.1 Pharmacology/4.2.1.3 Safety Pharmacology"),
 ("4.2.1.4 Pharmacodynamic Drug Interactions",
  "organized_ctd/CTD Structure/Module 4 Nonclinical Study Reports/4.2 Study Reports/4.2.1 Pharmacology/4.2.1.4 Pharmacodynamic Drug Interactions"),
 ("4.2.1.4",
  "organized_ctd/CTD Structure/Module 4 Nonclinical Study Reports/4.2 Study Reports/4.2.1 Pharmacology/4.2.1.4 Pharmacodynamic Drug Interactions"),
 ("4.2.2 Pharmacokinetics",
  "organized_ctd/CTD Structure/Module 4 Nonclinical Study Reports/4.2 Study Reports/4.2.2 Pharmacokinetics"),
 ("4.2.2", "organized_ctd/CTD Structure/Module 4 Nonclinical Study Reports/4.2 Study Reports/4.2.2 Pharmacokinetics")]

/-- The folder mapping after the first 168 visited nodes. -/
def allFoldersStage7 : List (String × String) :=
[("CTD Structure", "organized_ctd/CTD Structure"),
 ("Module 1 Administrative Information and Prescribing Information",
  "organized_ctd/CTD Structure/Module 1 Administrative Information and Prescribing Information"),
 ("1",
  "organized_ctd/CTD Structure/Module 1 Administrative Information and Prescribing Information/1.A Additional Data/1.A.1 Country Specific Data"),
 ("1.0 Correspondence",
  "organized_ctd/CTD Structure/Module 1 Administrative Information and Prescribing Information/1.0 Correspondence"),
 ("1.0",
  "organized_ctd/CTD Structure/Module 1 Administrative Information and Prescribing Information/1.0 Correspondence"),
 ("1.0.1 Cover Letter",
  "organized_ctd/CTD Structure/Module 1 Administrative Information and Prescribing Information/1.0 Correspondence/1.0.1 Cover Letter"),
 ("1.0.1",
  "organized_ctd/CTD Structure/Module 1 Administrative Information and Prescribing Information/1.0 Correspondence/1.0.1 Cover Letter"),
 ("1.0.2 General Note to Reviewer",
  "organized_ctd/CTD Structure/Module 1 Administrative Information and Prescribing Information/1.0 Correspondence/1.0.2 General Note to Reviewer"),
 ("1.0.2",
  "organized_ctd/CTD Structure/Module 1 Administrative Information and Prescribing Information/1.0 Correspondence/1.0.2 General Note to Reviewer"),
 ("1.0.3 Life Cycle Management Tracking Table",
  "organized_ctd/CTD Structure/Module 1 Administrative Information and Prescribing Information/1.0 Correspondence/1.0.3 Life Cycle Management Tracking Table"),
 ("1.0.3",
  "organized_ctd/CTD Structure/Module 1 Administrative Information and Prescribing Information/1.0 Correspondence/1.0.3 Life Cycle Management Tracking Table"),
 ("1.0.4 Correspondence Issued by Regulatory Authority",
  "organized_ctd/CTD Structure/Module 1 Administrative Information and Prescribing Information/1.0 Correspondence/1.0.4 Correspondence Issued by Regulatory Authority"),
 ("1.0.4",
  "organized_ctd/CTD Structure/Module 1 Administrative Information and Prescribing Information/1.0 Correspondence/1.0.4 Correspondence Issued by Regulatory Authority"),
 ("1.0.5 Response to Information Solicited by Regulatory Authority",
  "organized_ctd/CTD Structure/Module 1 Administrative Information and Prescribing Information/1.0 Correspondence/1.0.5 Response to Information Solicited by Regulatory Authority"),
 ("1.0.5",
  "organized_ctd/CTD Structure/Module 1 Administrative Information and Prescribing Information/1.0 Correspondence/1.0.5 Response to Information Solicited by Regulatory Authority"),
 ("1.0.6 Meeting Information",
  "organized_ctd/CTD Structure/Module 1 Administrative Information and Prescribing Information/1.0 Correspondence/1.0.6 Meeting Information"),
 ("1.0.6",
  "organized_ctd/CTD Structure/Module 1 Administrative Information and Prescribing Information/1.0 Correspondence/1.0.6 Meeting Information"),
 ("1.0.7 Request for Appeal Documentation",
  "organized_ctd/CTD Structure/Module 1 Administrative Information and Prescribing Information/1.0 Correspondence/1.0.7 Request for Appeal Documentation"),
 ("1.0.7",
  "organized_ctd/CTD Structure/Module 1 Administrative Information and Prescribing Information/1.0 Correspondence/1.0.7 Request for Appeal Documentation"),
 ("1.2 Administrative Information",
  "organized_ctd/CTD Structure/Module 1 Administrative Information and Prescribing Information/1.2 Administrative Information"),
 ("1.2",
  "organized_ctd/CTD Structure/Module 1 Administrative Information and Prescribing Information/1.2 Administrative Information/1.2.A Additional Administrative Information"),
 ("1.2.1 Application Form",
  "organized_ctd/CTD Structure/Module 1 Administrative Information and Prescribing Information/1.2 Administrative Information/1.2.1 Application Form"),
 ("1.2.1",
  "organized_ctd/CTD Structure/Module 1 Administrative Information and Prescribing Information/1.2 Administrative Information/1.2.1 Application Form"),
 ("1.2.2 Fee Forms",
  "organized_ctd/CTD Structure/Module 1 Administrative Information and Prescribing Information/1.2 Administrative Information/1.2.2 Fee Forms"),
 ("1.2.2",
  "organized_ctd/CTD Structure/Module 1 Administrative Information and Prescribing Information/1.2 Administrative Information/1.2.2 Fee Forms"),
 ("1.2.3 Certification and Attestation Forms",
  "organized_ctd/CTD Structure/Module 1 Administrative Information and Prescribing Information/1.2 Administrative Information/1.2.3 Certification and Attestation Forms"),
 ("1.2.3",
  "organized_ctd/CTD Structure/Module 1 Administrative Information and Prescribing Information/1.2 Administrative Information/1.2.3 Certification and Attestation Forms"),
 ("1.2.4 Compliance and Site Information",
  "organized_ctd/CTD Structure/Module 1 Administrative Information and Prescribing Information/1.2 Administrative Information/1.2.4 Compliance and Site Information"),
 ("1.2.4",
  "organized_ctd/CTD Structure/Module 1 Administrative Information and Prescribing Information/1.2 Administrative Information/1.2.4 Compliance and Site Information"),
 ("1.2.5 Authorization for Sharing Information",
  "organized_ctd/CTD Structure/Module 1 Administrative Information and Prescribing Information/1.2 Administrative Information/1.2.5 Authorization for Sharing Information"),
 ("1.2.5",
  "organized_ctd/CTD Structure/Module 1 Administrative Information and Prescribing Information/1.2 Administrative Information/1.2.5 Authorization for Sharing Information"),
 ("1.2.6 Electronic Declaration",
  "organized_ctd/CTD Structure/Module 1 Administrative Information and Prescribing Information/1.2 Administrative Information/1.2.6 Electronic Declaration"),
 ("1.2.6",
  "organized_ctd/CTD Structure/Module 1 Administrative Information and Prescribing Information/1.2 Administrative Information/1.2.6 Electronic Declaration"),
 ("1.2.7 Trademark & Intellectual Property Information",
  "organized_ctd/CTD Structure/Module 1 Administrative Information and Prescribing Information/1.2 Administrative Information/1.2.7 Trademark & Intellectual Property Information"),
 ("1.2.7",
  "organized_ctd/CTD Structure/Module 1 Administrative Information and Prescribing Information/1.2 Administrative Information/1.2.7 Trademark & Intellectual Property Information"),
 ("1.2.8 Screening Details",
  "organized_ctd/CTD Structure/Module 1 Administrative Information and Prescribing Information/1.2 Administrative Information/1.2.8 Screening Details"),
 ("1.2.8",
  "organized_ctd/CTD Structure/Module 1 Administrative Information and Prescribing Information/1.2 Administrative Information/1.2.8 Screening Details"),
 ("1.2.A Additional Administrative Information",
  "organized_ctd/CTD Structure/Module 1 Administrative Information and Prescribing Information/1.2 Administrative Information/1.2.A Additional Administrative Information"),
 ("1.3 Product Information",
  "organized_ctd/CTD Structure/Module 1 Administrative Information and Prescribing Information/1.3 Product Information"),
 ("1.3",
  "organized_ctd/CTD Structure/Module 1 Administrative Information and Prescribing Information/1.3 Product Information"),
 ("1.3.1 Summary of Product Characteristics (SmPC)",
  "organized_ctd/CTD Structure/Module 1 Administrative Information and Prescribing Information/1.3 Product Information/1.3.1 Summary of Product Characteristics (SmPC)"),
 ("1.3.1",
  "organized_ctd/CTD Structure/Module 1 Administrative Information and Prescribing Information/1.3 Product Information/1.3.1 Summary of Product Characteristics (SmPC)"),
 ("1.3.1.1 Approved - SmPC",
  "organized_ctd/CTD Structure/Module 1 Administrative Information and Prescribing Information/1.3 Product Information/1.3.1 Summary of Product Characteristics (SmPC)/1.3.1.1 Approved - SmPC"),
 ("1.3.1.1",
  "organized_ctd/CTD Structure/Module 1 Administrative Information and Prescribing Information/1.3 Product Information/1.3.1 Summary of Product Characteristics (SmPC)/1.3.1.1 Approved - SmPC"),
 ("1.3.1.1.1 Approved - SmPC - English",
  "organized_ctd/CTD Structure/Module 1 Administrative Information and Prescribing Information/1.3 Product Information/1.3.1 Summary of Product Characteristics (SmPC)/1.3.1.1 Approved - SmPC/1.3.1.1.1 Approved - SmPC - English"),
 ("1.3.1.1.1",
  "organized_ctd/CTD Structure/Module 1 Administrative Information and Prescribing Information/1.3 Product Information/1.3.1 Summary of Product Characteristics (SmPC)/1.3.1.1 Approved - SmPC/1.3.1.1.1 Approved - SmPC - English"),
 ("1.3.1.1.2 Approved - SmPC - French",
  "organized_ctd/CTD Structure/Module 1 Administrative Information and Prescribing Information/1.3 Product Information/1.3.1 Summary of Product Characteristics (SmPC)/1.3.1.1 Approved - SmPC/1.3.1.1.2 Approved - SmPC - French"),
 ("1.3.1.1.2",
  "organized_ctd/CTD Structure/Module 1 Administrative Information and Prescribing Information/1.3 Product Information/1.3.1 Summary of Product Characteristics (SmPC)/1.3.1.1 Approved - SmPC/1.3.1.1.2 Approved - SmPC - French"),
 ("1.3.1.1.3 Approved - SmPC - Portuguese",
  "organized_ctd/CTD Structure/Module 1 Administrative Information and Prescribing Information/1.3 Product Information/1.3.1 Summary of Product Characteristics (SmPC)/1.3.1.1 Approved - SmPC/1.3.1.1.3 Approved - SmPC - Portuguese"),
 ("1.3.1.1.3",
  "organized_ctd/CTD Structure/Module 1 Administrative Information and Prescribing Information/1.3 Product Information/1.3.1 Summary of Product Characteristics (SmPC)/1.3.1.1 Approved - SmPC/1.3.1.1.3 Approved - SmPC - Portuguese"),
 ("1.3.1.2 Clean - SmPC",
  "organized_ctd/CTD Structure/Module 1 Administrative Information and Prescribing Information/1.3 Product Information/1.3.1 Summary of Product Characteristics (SmPC)/1.3.1.2 Clean - SmPC"),
 ("1.3.1.2",
  "organized_ctd/CTD Structure/Module 1 Administrative Information and Prescribing Information/1.3 Product Information/1.3.1 Summary of Product Characteristics (SmPC)/1.3.1.2 Clean - SmPC"),
 ("1.3.1.2.1 Clean - SmPC - English",
  "organized_ctd/CTD Structure/Module 1 Administrative Information and Prescribing Information/1.3 Product Information/1.3.1 Summary of Product Characteristics (SmPC)/1.3.1.2 Clean - SmPC/1.3.1.2.1 Clean - SmPC - English"),
 ("1.3.1.2.1",
  "organized_ctd/CTD Structure/Module 1 Administrative Information and Prescribing Information/1.3 Product Information/1.3.1 Summary of Product Characteristics (SmPC)/1.3.1.2 Clean - SmPC/1.3.1.2.1 Clean - SmPC - English"),
 ("1.3.1.2.2 Clean - SmPC - French",
  "organized_ctd/CTD Structure/Module 1 Administrative Information and Prescribing Information/1.3 Product Information/1.3.1 Summary of Product Characteristics (SmPC)/1.3.1.2 Clean - SmPC/1.3.1.2.2 Clean - SmPC - French"),
 ("1.3.1.2.2",
  "organized_ctd/CTD Structure/Module 1 Administrative Information and Prescribing Information/1.3 Product Information/1.3.1 Summary of Product Characteristics (SmPC)/1.3.1.2 Clean - SmPC/1.3.1.2.2 Clean - SmPC - French"),
 ("1.3.1.2.3 Clean - SmPC - Portuguese",
  "organized_ctd/CTD Structure/Module 1 Administrative Information and Prescribing Information/1.3 Product Information/1.3.1 Summary of Product Characteristics (SmPC)/1.3.1.2 Clean - SmPC/1.3.1.2.3 Clean - SmPC - Portuguese"),
 ("1.3.1.2.3",
  "organized_ctd/CTD Structure/Module 1 Administrative Information and Prescribing Information/1.3 Product Information/1.3.1 Summary of Product Characteristics (SmPC)/1.3.1.2 Clean - SmPC/1.3.1.2.3 Clean - SmPC - Portuguese"),
 ("1.3.1.3 Annotated - SmPC",
  "organized_ctd/CTD Structure/Module 1 Administrative Information and Prescribing Information/1.3 Product Information/1.3.1 Summary of Product Characteristics (SmPC)/1.3.1.3 Annotated - SmPC"),
 ("1.3.1.3",
  "organized_ctd/CTD Structure/Module 1 Administrative Information and Prescribing Information/1.3 Product Information/1.3.1 Summary of Product Characteristics (SmPC)/1.3.1.3 Annotated - SmPC"),
 ("1.3.1.3.1 Annotated - SmPC - English",
  "organized_ctd/CTD Structure/Module 1 Administrative Information and Prescribing Information/1.3 Product Information/1.3.1 Summary of Product Characteristics (SmPC)/1.3.1.3 Annotated - SmPC/1.3.1.3.1 Annotated - SmPC - English"),
 ("1.3.1.3.1",
  "organized_ctd/CTD Structure/Module 1 Administrative Information and Prescribing Information/1.3 Product Information/1.3.1 Summary of Product Characteristics (SmPC)/1.3.1.3 Annotated - SmPC/1.3.1.3.1 Annotated - SmPC - English"),
 ("1.3.1.3.2 Annotated - SmPC - French",
  "organized_ctd/CTD Structure/Module 1 Administrative Information and Prescribing Information/1.3 Product Information/1.3.1 Summary of Product Characteristics (SmPC)/1.3.1.3 Annotated - SmPC/1.3.1.3.2 Annotated - SmPC - French"),
 ("1.3.1.3.2",
  "organized_ctd/CTD Structure/Module 1 Administrative Information and Prescribing Information/1.3 Product Information/1.3.1 Summary of Product Characteristics (SmPC)/1.3.1.3 Annotated - SmPC/1.3.1.3.2 Annotated - SmPC - French"),
 ("1.3.1.3.3 Annotated - SmPC - Portuguese",
  "organized_ctd/CTD Structure/Module 1 Administrative Information and Prescribing Information/1.3 Product Information/1.3.1 Summary of Product Characteristics (SmPC)/1.3.1.3 Annotated - SmPC/1.3.1.3.3 Annotated - SmPC - Portuguese"),
 ("1.3.1.3.3",
  "organized_ctd/CTD Structure/Module 1 Administrative Information and Prescribing Information/1.3 Product Information/1.3.1 Summary of Product Characteristics (SmPC)/1.3.1.3 Annotated - SmPC/1.3.1.3.3 Annotated - SmPC - Portuguese"),
 ("1.3.2 Patient Information Leaflet (PIL)",
  "organized_ctd/CTD Structure/Module 1 Administrative Information and Prescribing Information/1.3 Product Information/1.3.2 Patient Information Leaflet (PIL)"),
 ("1.3.2",
  "organized_ctd/CTD Structure/Module 1 Administrative Information and Prescribing Information/1.3 Product Information/1.3.2 Patient Information Leaflet (PIL)"),
 ("1.3.2.1 Approved - PIL",
  "organized_ctd/CTD Structure/Module 1 Administrative Information and Prescribing Information/1.3 Product Information/1.3.2 Patient Information Leaflet (PIL)/1.3.2.1 Approved - PIL"),
 ("1.3.2.1",
  "organized_ctd/CTD Structure/Module 1 Administrative Information and Prescribing Information/1.3 Product Information/1.3.2 Patient Information Leaflet (PIL)/1.3.2.1 Approved - PIL"),
 ("1.3.2.1.1 Approved - PIL - English",
  "organized_ctd/CTD Structure/Module 1 Administrative Information and Prescribing Information/1.3 Product Information/1.3.2 Patient Information Leaflet (PIL)/1.3.2.1 Approved - PIL/1.3.2.1.1 Approved - PIL - English"),
 ("1.3.2.1.1",
  "organized_ctd/CTD Structure/Module 1 Administrative Information and Prescribing Information/1.3 Product Information/1.3.2 Patient Information Leaflet (PIL)/1.3.2.1 Approved - PIL/1.3.2.1.1 Approved - PIL - English"),
 ("1.3.2.1.2 Approved - PIL - French",
  "organized_ctd/CTD Structure/Module 1 Administrative Information and Prescribing Information/1.3 Product Information/1.3.2 Patient Information Leaflet (PIL)/1.3.2.1 Approved - PIL/1.3.2.1.2 Approved - PIL - French"),
 ("1.3.2.1.2",
  "organized_ctd/CTD Structure/Module 1 Administrative Information and Prescribing Information/1.3 Product Information/1.3.2 Patient Information Leaflet (PIL)/1.3.2.1 Approved - PIL/1.3.2.1.2 Approved - PIL - French"),
 ("1.3.2.1.3 Approved - PIL - Portuguese",
  "organized_ctd/CTD Structure/Module 1 Administrative Information and Prescribing Information/1.3 Product Information/1.3.2 Patient Information Leaflet (PIL)/1.3.2.1 Approved - PIL/1.3.2.1.3 Approved - PIL - Portuguese"),
 ("1.3.2.1.3",
  "organized_ctd/CTD Structure/Module 1 Administrative Information and Prescribing Information/1.3 Product Information/1.3.2 Patient Information Leaflet (PIL)/1.3.2.1 Approved - PIL/1.3.2.1.3 Approved - PIL - Portuguese"),
 ("1.3.2.2 Clean - PIL",
  "organized_ctd/CTD Structure/Module 1 Administrative Information and Prescribing Information/1.3 Product Information/1.3.2 Patient Information Leaflet (PIL)/1.3.2.2 Clean - PIL"),
 ("1.3.2.2",
  "organized_ctd/CTD Structure/Module 1 Administrative Information and Prescribing Information/1.3 Product Information/1.3.2 Patient Information Leaflet (PIL)/1.3.2.2 Clean - PIL"),
 ("1.3.2.2.1 Clean - PIL - English",
  "organized_ctd/CTD Structure/Module 1 Administrative Information and Prescribing Information/1.3 Product Information/1.3.2 Patient Information Leaflet (PIL)/1.3.2.2 Clean - PIL/1.3.2.2.1 Clean - PIL - English"),
 ("1.3.2.2.1",
  "organized_ctd/CTD Structure/Module 1 Administrative Information and Prescribing Information/1.3 Product Information/1.3.2 Patient Information Leaflet (PIL)/1.3.2.2 Clean - PIL/1.3.2.2.1 Clean - PIL - English"),
 ("1.3.2.2.2 Clean - PIL - French",
  "organized_ctd/CTD Structure/Module 1 Administrative Information and Prescribing Information/1.3 Product Information/1.3.2 Patient Information Leaflet (PIL)/1.3.2.2 Clean - PIL/1.3.2.2.2 Clean - PIL - French"),
 ("1.3.2.2.2",
  "organized_ctd/CTD Structure/Module 1 Administrative Information and Prescribing Information/1.3 Product Information/1.3.2 Patient Information Leaflet (PIL)/1.3.2.2 Clean - PIL/1.3.2.2.2 Clean - PIL - French"),
 ("1.3.2.2.3 Clean - PIL - Portuguese",
  "organized_ctd/CTD Structure/Module 1 Administrative Information and Prescribing Information/1.3 Product Information/1.3.2 Patient Information Leaflet (PIL)/1.3.2.2 Clean - PIL/1.3.2.2.3 Clean - PIL - Portuguese"),
 ("1.3.2.2.3",
  "organized_ctd/CTD Structure/Module 1 Administrative Information and Prescribing Information/1.3 Product Information/1.3.2 Patient Information Leaflet (PIL)/1.3.2.2 Clean - PIL/1.3.2.2.3 Clean - PIL - Portuguese"),
 ("1.3.2.3 Annotated - PIL",
  "organized_ctd/CTD Structure/Module 1 Administrative Information and Prescribing Information/1.3 Product Information/1.3.2 Patient Information Leaflet (PIL)/1.3.2.3 Annotated - PIL"),
 ("1.3.2.3",
  "organized_ctd/CTD Structure/Module 1 Administrative Information and Prescribing Information/1.3 Product Information/1.3.2 Patient Information Leaflet (PIL)/1.3.2.3 Annotated - PIL"),
 ("1.3.2.3.1 Annotated - PIL - English",
  "organized_ctd/CTD Structure/Module 1 Administrative Information and Prescribing Information/1.3 Product Information/1.3.2 Patient Information Leaflet (PIL)/1.3.2.3 Annotated - PIL/1.3.2.3.1 Annotated - PIL - English"),
 ("1.3.2.3.1",
  "organized_ctd/CTD Structure/Module 1 Administrative Information and Prescribing Information/1.3 Product Information/1.3.2 Patient Information Leaflet (PIL)/1.3.2.3 Annotated - PIL/1.3.2.3.1 Annotated - PIL - English"),
 ("1.3.2.3.2 Annotated - PIL - French",
  "organized_ctd/CTD Structure/Module 1 Administrative Information and Prescribing Information/1.3 Product Information/1.3.2 Patient Information Leaflet (PIL)/1.3.2.3 Annotated - PIL/1.3.2.3.2 Annotated - PIL - French"),
 ("1.3.2.3.2",
  "organized_ctd/CTD Structure/Module 1 Administrative Information and Prescribing Information/1.3 Product Information/1.3.2 Patient Information Leaflet (PIL)/1.3.2.3 Annotated - PIL/1.3.2.3.2 Annotated - PIL - French"),
 ("1.3.2.3.3 Annotated - PIL - Portuguese",
  "organized_ctd/CTD Structure/Module 1 Administrative Information and Prescribing Information/1.3 Product Information/1.3.2 Patient Information Leaflet (PIL)/1.3.2.3 Annotated - PIL/1.3.2.3.3 Annotated - PIL - Portuguese"),
 ("1.3.2.3.3",
  "organized_ctd/CTD Structure/Module 1 Administrative Information and Prescribing Information/1.3 Product Information/1.3.2 Patient Information Leaflet (PIL)/1.3.2.3 Annotated - PIL/1.3.2.3.3 Annotated - PIL - Portuguese"),
 ("1.3.3 Container Labels",
  "organized_ctd/CTD Structure/Module 1 Administrative Information and Prescribing Information/1.3 Product Information/1.3.3 Container Labels"),
 ("1.3.3",
  "organized_ctd/CTD Structure/Module 1 Administrative Information and Prescribing Information/1.3 Product Information/1.3.3 Container Labels"),
 ("1.3.3.1 Approved - Container Labels",
  "organized_ctd/CTD Structure/Module 1 Administrative Information and Prescribing Information/1.3 Product Information/1.3.3 Container Labels/1.3.3.1 Approved - Container Labels"),
 ("1.3.3.1",
  "organized_ctd/CTD Structure/Module 1 Administrative Information and Prescribing Information/1.3 Product Information/1.3.3 Container Labels/1.3.3.1 Approved - Container Labels"),
 ("1.3.3.1.1 Approved - Container Labels - English",
  "organized_ctd/CTD Structure/Module 1 Administrative Information and Prescribing Information/1.3 Product Information/1.3.3 Container Labels/1.3.3.1 Approved - Container Labels/1.3.3.1.1 Approved - Container Labels - English"),
 ("1.3.3.1.1",
  "organized_ctd/CTD Structure/Module 1 Administrative Information and Prescribing Information/1.3 Product Information/1.3.3 Container Labels/1.3.3.1 Approved - Container Labels/1.3.3.1.1 Approved - Container Labels - English"),
 ("1.3.3.1.2 Approved - Container Labels - French",
  "organized_ctd/CTD Structure/Module 1 Administrative Information and Prescribing Information/1.3 Product Information/1.3.3 Container Labels/1.3.3.1 Approved - Container Labels/1.3.3.1.2 Approved - Container Labels - French"),
 ("1.3.3.1.2",
  "organized_ctd/CTD Structure/Module 1 Administrative Information and Prescribing Information/1.3 Product Information/1.3.3 Container Labels/1.3.3.1 Approved - Container Labels/1.3.3.1.2 Approved - Container Labels - French"),
 ("1.3.3.1.3 Approved - Container Labels - Portuguese",
  "organized_ctd/CTD Structure/Module 1 Administrative Information and Prescribing Information/1.3 Product Information/1.3.3 Container Labels/1.3.3.1 Approved - Container Labels/1.3.3.1.3 Approved - Container Labels - Portuguese"),
 ("1.3.3.1.3",
  "organized_ctd/CTD Structure/Module 1 Administrative Information and Prescribing Information/1.3 Product Information/1.3.3 Container Labels/1.3.3.1 Approved - Container Labels/1.3.3.1.3 Approved - Container Labels - Portuguese"),
 ("1.3.3.2 Clean - Container Labels",
  "organized_ctd/CTD Structure/Module 1 Administrative Information and Prescribing Information/1.3 Product Information/1.3.3 Container Labels/1.3.3.2 Clean - Container Labels"),
 ("1.3.3.2",
  "organized_ctd/CTD Structure/Module 1 Administrative Information and Prescribing Information/1.3 Product Information/1.3.3 Container Labels/1.3.3.2 Clean - Container Labels"),
 ("1.3.3.2.1 Clean - Container Labels - English",
  "organized_ctd/CTD Structure/Module 1 Administrative Information and Prescribing Information/1.3 Product Information/1.3.3 Container Labels/1.3.3.2 Clean - Container Labels/1.3.3.2.1 Clean - Container Labels - English"),
 ("1.3.3.2.1",
  "organized_ctd/CTD Structure/Module 1 Administrative Information and Prescribing Information/1.3 Product Information/1.3.3 Container Labels/1.3.3.2 Clean - Container Labels/1.3.3.2.1 Clean - Container Labels - English"),
 ("1.3.3.2.2 Clean - Container Labels - French",
  "organized_ctd/CTD Structure/Module 1 Administrative Information and Prescribing Information/1.3 Product Information/1.3.3 Container Labels/1.3.3.2 Clean - Container Labels/1.3.3.2.2 Clean - Container Labels - French"),
 ("1.3.3.2.2",
  "organized_ctd/CTD Structure/Module 1 Administrative Information and Prescribing Information/1.3 Product Information/1.3.3 Container Labels/1.3.3.2 Clean - Container Labels/1.3.3.2.2 Clean - Container Labels - French"),
 ("1.3.3.2.3 Clean - Container Labels - Portuguese",
  "organized_ctd/CTD Structure/Module 1 Administrative Information and Prescribing Information/1.3 Product Information/1.3.3 Container Labels/1.3.3.2 Clean - Container Labels/1.3.3.2.3 Clean - Container Labels - Portuguese"),
 ("1.3.3.2.3",
  "organized_ctd/CTD Structure/Module 1 Administrative Information and Prescribing Information/1.3 Product Information/1.3.3 Container Labels/1.3.3.2 Clean - Container Labels/1.3.3.2.3 Clean - Container Labels - Portuguese"),
 ("1.3.3.3 Annotated - Container Labels",
  "organized_ctd/CTD Structure/Module 1 Administrative Information and Prescribing Information/1.3 Product Information/1.3.3 Container Labels/1.3.3.3 Annotated - Container Labels"),
 ("1.3.3.3",
  "organized_ctd/CTD Structure/Module 1 Administrative Information and Prescribing Information/1.3 Product Information/1.3.3 Container Labels/1.3.3.3 Annotated - Container Labels"),
 ("1.3.3.3.1 Annotated - Container Labels - English",
  "organized_ctd/CTD Structure/Module 1 Administrative Information and Prescribing Information/1.3 Product Information/1.3.3 Container Labels/1.3.3.3 Annotated - Container Labels/1.3.3.3.1 Annotated - Container Labels - English"),
 ("1.3.3.3.1",
  "organized_ctd/CTD Structure/Module 1 Administrative Information and Prescribing Information/1.3 Product Information/1.3.3 Container Labels/1.3.3.3 Annotated - Container Labels/1.3.3.3.1 Annotated - Container Labels - English"),
 ("1.3.3.3.2 Annotated - Container Labels - French",
  "organized_ctd/CTD Structure/Module 1 Administrative Information and Prescribing Information/1.3 Product Information/1.3.3 Container Labels/1.3.3.3 Annotated - Container Labels/1.3.3.3.2 Annotated - Container Labels - French"),
 ("1.3.3.3.2",
  "organized_ctd/CTD Structure/Module 1 Administrative Information and Prescribing Information/1.3 Product Information/1.3.3 Container Labels/1.3.3.3 Annotated - Container Labels/1.3.3.3.2 Annotated - Container Labels - French"),
 ("1.3.3.3.3 Annotated - Container Labels - Portuguese",
  "organized_ctd/CTD Structure/Module 1 Administrative Information and Prescribing Information/1.3 Product Information/1.3.3 Container Labels/1.3.3.3 Annotated - Container Labels/1.3.3.3.3 Annotated - Container Labels - Portuguese"),
 ("1.3.3.3.3",
  "organized_ctd/CTD Structure/Module 1 Administrative Information and Prescribing Information/1.3 Product Information/1.3.3 Container Labels/1.3.3.3 Annotated - Container Labels/1.3.3.3.3 Annotated - Container Labels - Portuguese"),
 ("1.3.4 Foreign Labelling",
  "organized_ctd/CTD Structure/Module 1 Administrative Information and Prescribing Information/1.3 Product Information/1.3.4 Foreign Labelling"),
 ("1.3.4",
  "organized_ctd/CTD Structure/Module 1 Administrative Information and Prescribing Information/1.3 Product Information/1.3.4 Foreign Labelling"),
 ("1.3.5 Reference Product Labelling",
  "organized_ctd/CTD Structure/Module 1 Administrative Information and Prescribing Information/1.3 Product Information/1.3.5 Reference Product Labelling"),
 ("1.3.5",
  "organized_ctd/CTD Structure/Module 1 Administrative Information and Prescribing Information/1.3 Product Information/1.3.5 Reference Product Labelling"),
 ("1.3.6 Artwork and Samples",
  "organized_ctd/CTD Structure/Module 1 Administrative Information and Prescribing Information/1.3 Product Information/1.3.6 Artwork and Samples"),
 ("1.3.6",
  "organized_ctd/CTD Structure/Module 1 Administrative Information and Prescribing Information/1.3 Product Information/1.3.6 Artwork and Samples"),
 ("1.4 Information about the Experts",
  "organized_ctd/CTD Structure/Module 1 Administrative Information and Prescribing Information/1.4 Information about the Experts"),
 ("1.4",
  "organized_ctd/CTD Structure/Module 1 Administrative Information and Prescribing Information/1.4 Information about the Experts"),
 ("1.4.1 Quality",
  "organized_ctd/CTD Structure/Module 1 Administrative Information and Prescribing Information/1.4 Information about the Experts/1.4.1 Quality"),
 ("1.4.1",
  "organized_ctd/CTD Structure/Module 1 Administrative Information and Prescribing Information/1.4 Information about the Experts/1.4.1 Quality"),
 ("1.4.2 Non-Clinical",
  "organized_ctd/CTD Structure/Module 1 Administrative Information and Prescribing Information/1.4 Information about the Experts/1.4.2 Non-Clinical"),
 ("1.4.2",
  "organized_ctd/CTD Structure/Module 1 Administrative Information and Prescribing Information/1.4 Information about the Experts/1.4.2 Non-Clinical"),
 ("1.4.3 Clinical",
  "organized_ctd/CTD Structure/Module 1 Administrative Information and Prescribing Information/1.4 Information about the Experts/1.4.3 Clinical"),
 ("1.4.3",
  "organized_ctd/CTD Structure/Module 1 Administrative Information and Prescribing Information/1.4 Information about the Experts/1.4.3 Clinical"),
 ("1.5 Specific Requirements for Different Types of Applications",
  "organized_ctd/CTD Structure/Module 1 Administrative Information and Prescribing Information/1.5 Specific Requirements for Different Types of Applications"),
 ("1.5",
  "organized_ctd/CTD Structure/Module 1 Administrative Information and Prescribing Information/1.5 Specific Requirements for Different Types of Applications"),
 ("1.5.1 Bioequivalence Trial Information",
  "organized_ctd/CTD Structure/Module 1 Administrative Information and Prescribing Information/1.5 Specific Requirements for Different Types of Applications/1.5.1 Bioequivalence Trial Information"),
 ("1.5.1",
  "organized_ctd/CTD Structure/Module 1 Administrative Information and Prescribing Information/1.5 Specific Requirements for Different Types of Applications/1.5.1 Bioequivalence Trial Information"),
 ("1.6 Environmental Risk Assessment",
  "organized_ctd/CTD Structure/Module 1 Administrative Information and Prescribing Information/1.6 Environmental Risk Assessment"),
 ("1.6",
  "organized_ctd/CTD Structure/Module 1 Administrative Information and Prescribing Information/1.6 Environmental Risk Assessment"),
 ("1.6.1 Non-GMO",
  "organized_ctd/CTD Structure/Module 1 Administrative Information and Prescribing Information/1.6 Environmental Risk Assessment/1.6.1 Non-GMO"),
 ("1.6.1",
  "organized_ctd/CTD Structure/Module 1 Administrative Information and Prescribing Information/1.6 Environmental Risk Assessment/1.6.1 Non-GMO"),
 ("1.6.2 GMO",
  "organized_ctd/CTD Structure/Module 1 Administrative Information and Prescribing Information/1.6 Environmental Risk Assessment/1.6.2 GMO"),
 ("1.6.2",
  "organized_ctd/CTD Structure/Module 1 Administrative Information and Prescribing Information/1.6 Environmental Risk Assessment/1.6.2 GMO"),
 ("1.7 Good Manufacturing Practice (GMP)",
  "organized_ctd/CTD Structure/Module 1 Administrative Information and Prescribing Information/1.7 Good Manufacturing Practice (GMP)"),
 ("1.7",
  "organized_ctd/CTD Structure/Module 1 Administrative Information and Prescribing Information/1.7 Good Manufacturing Practice (GMP)"),
 ("1.7.1 Date of Inspection of Each Site",
  "organized_ctd/CTD Structure/Module 1 Administrative Information and Prescribing Information/1.7 Good Manufacturing Practice (GMP)/1.7.1 Date of Inspection of Each Site"),
 ("1.7.1",
  "organized_ctd/CTD Structure/Module 1 Administrative Information and Prescribing Information/1.7 Good Manufacturing Practice (GMP)/1.7.1 Date of Inspection of Each Site"),
 ("1.7.2 Inspection Reports or Equivalent Documents",
  "organized_ctd/CTD Structure/Module 1 Administrative Information and Prescribing Information/1.7 Good Manufacturing Practice (GMP)/1.7.2 Inspection Reports or Equivalent Documents"),
 ("1.7.2",
  "organized_ctd/CTD Structure/Module 1 Administrative Information and Prescribing Information/1.7 Good Manufacturing Practice (GMP)/1.7.2 Inspection Reports or Equivalent Documents"),
 ("1.7.3 GMP Certificates or Manufacturing Licences",
  "organized_ctd/CTD Structure/Module 1 Administrative Information and Prescribing Information/1.7 Good Manufacturing Practice (GMP)/1.7.3 GMP Certificates or Manufacturing Licences"),
 ("1.7.3",
  "organized_ctd/CTD Structure/Module 1 Administrative Information and Prescribing Information/1.7 Good Manufacturing Practice (GMP)/1.7.3 GMP Certificates or Manufacturing Licences"),
 ("1.7.4 Other GMP Documents",
  "organized_ctd/CTD Structure/Module 1 Administrative Information and Prescribing Information/1.7 Good Manufacturing Practice (GMP)/1.7.4 Other GMP Documents"),
 ("1.7.4",
  "organized_ctd/CTD Structure/Module 1 Administrative Information and Prescribing Information/1.7 Good Manufacturing Practice (GMP)/1.7.4 Other GMP Documents"),
 ("1.8 Information Relating to Pharmacovigilance",
  "organized_ctd/CTD Structure/Module 1 Administrative Information and Prescribing Information/1.8 Information Relating to Pharmacovigilance"),
 ("1.8",
  "organized_ctd/CTD Structure/Module 1 Administrative Information and Prescribing Information/1.8 Information Relating to Pharmacovigilance"),
 ("1.8.1 Pharmacovigilance System",
  "organized_ctd/CTD Structure/Module 1 Administrative Information and Prescribing Information/1.8 Information Relating to Pharmacovigilance/1.8.1 Pharmacovigilance System"),
 ("1.8.1",
  "organized_ctd/CTD Structure/Module 1 Administrative Information and Prescribing Information/1.8 Information Relating to Pharmacovigilance/1.8.1 Pharmacovigilance System"),
 ("1.8.2 Risk-management System",
  "organized_ctd/CTD Structure/Module 1 Administrative Information and Prescribing Information/1.8 Information Relating to Pharmacovigilance/1.8.2 Risk-management System"),
 ("1.8.2",
  "organized_ctd/CTD Structure/Module 1 Administrative Information and Prescribing Information/1.8 Information Relating to Pharmacovigilance/1.8.2 Risk-management System"),
 ("1.9 Individual Patient Data - Statement of Availability",
  "organized_ctd/CTD Structure/Module 1 Administrative Information and Prescribing Information/1.9 Individual Patient Data - Statement of Availability"),
 ("1.9",
  "organized_ctd/CTD Structure/Module 1 Administrative Information and Prescribing Information/1.9 Individual Patient Data - Statement of Availability"),
 ("1.10 Foreign Regulatory Information",
  "organized_ctd/CTD Structure/Module 1 Administrative Information and Prescribing Information/1.10 Foreign Regulatory Information"),
 ("1.10",
  "organized_ctd/CTD Structure/Module 1 Administrative Information and Prescribing Information/1.10 Foreign Regulatory Information"),
 ("1.10.1 Regional & Foreign Regulatory Status",
  "organized_ctd/CTD Structure/Module 1 Administrative Information and Prescribing Information/1.10 Foreign Regulatory Information/1.10.1 Regional & Foreign Regulatory Status"),
 ("1.10.1",
  "organized_ctd/CTD Structure/Module 1 Administrative Information and Prescribing Information/1.10 Foreign Regulatory Information/1.10.1 Regional & Foreign Regulatory Status"),
 ("1.10.2 WHO Type Certificate of Pharmaceutical Product (COPP)",
  "organized_ctd/CTD Structure/Module 1 Administrative Information and Prescribing Information/1.10 Foreign Regulatory Information/1.10.2 WHO Type Certificate of Pharmaceutical Product (COPP)"),
 ("1.10.2",
  "organized_ctd/CTD Structure/Module 1 Administrative Information and Prescribing Information/1.10 Foreign Regulatory Information/1.10.2 WHO Type Certificate of Pharmaceutical Product (COPP)"),
 ("1.10.3 Data Set Similarities and Differences",
  "organized_ctd/CTD Structure/Module 1 Administrative Information and Prescribing Information/1.10 Foreign Regulatory Information/1.10.3 Data Set Similarities and Differences"),
 ("1.10.3",
  "organized_ctd/CTD Structure/Module 1 Administrative Information and Prescribing Information/1.10 Foreign Regulatory Information/1.10.3 Data Set Similarities and Differences"),
 ("1.10.4 Foreign Evaluation Reports",
  "organized_ctd/CTD Structure/Module 1 Administrative Information and Prescribing Information/1.10 Foreign Regulatory Information/1.10.4 Foreign Evaluation Reports"),
 ("1.10.4",
  "organized_ctd/CTD Structure/Module 1 Administrative Information and Prescribing Information/1.10 Foreign Regulatory Information/1.10.4 Foreign Evaluation Reports"),
 ("1.A Additional Data",
  "organized_ctd/CTD Structure/Module 1 Administrative Information and Prescribing Information/1.A Additional Data"),
 ("1.A.1 Country Specific Data",
  "organized_ctd/CTD Structure/Module 1 Administrative Information and Prescribing Information/1.A Additional Data/1.A.1 Country Specific Data"),
 ("Module 2 Common Technical Document Summaries",
  "organized_ctd/CTD Structure/Module 2 Common Technical Document Summaries"),
 ("2", "organized_ctd/CTD Structure/Module 2 Common Technical Document Summaries"),
 ("2.2 Introduction to Summary",
  "organized_ctd/CTD Structure/Module 2 Common Technical Document Summaries/2.2 Introduction to Summary"),
 ("2.2", "organized_ctd/CTD Structure/Module 2 Common Technical Document Summaries/2.2 Introduction to Summary"),
 ("2.3 Quality Overall Summary (QOS)",
  "organized_ctd/CTD Structure/Module 2 Common Technical Document Summaries/2.3 Quality Overall Summary (QOS)"),
 ("2.3",
  "organized_ctd/CTD Structure/Module 2 Common Technical Document Summaries/2.3 Quality Overall Summary (QOS)/2.3.R Regional Information"),
 ("2.3 Introduction",
  "organized_ctd/CTD Structure/Module 2 Common Technical Document Summaries/2.3 Quality Overall Summary (QOS)/2.3 Introduction"),
 ("2.3.S Drug Substance",
  "organized_ctd/CTD Structure/Module 2 Common Technical Document Summaries/2.3 Quality Overall Summary (QOS)/2.3.S Drug Substance"),
 ("2.3.P Drug Product",
  "organized_ctd/CTD Structure/Module 2 Common Technical Document Summaries/2.3 Quality Overall Summary (QOS)/2.3.P Drug Product"),
 ("2.3.A Appendices",
  "organized_ctd/CTD Structure/Module 2 Common Technical Document Summaries/2.3 Quality Overall Summary (QOS)/2.3.A Appendices"),
 ("2.3.R Regional Information",
  "organized_ctd/CTD Structure/Module 2 Common Technical Document Summaries/2.3 Quality Overall Summary (QOS)/2.3.R Regional Information"),
 ("2.4 Nonclinical Overview",
  "organized_ctd/CTD Structure/Module 2 Common Technical Document Summaries/2.4 Nonclinical Overview"),
 ("2.4", "organized_ctd/CTD Structure/Module 2 Common Technical Document Summaries/2.4 Nonclinical Overview"),
 ("2.5 Clinical Overview",
  "organized_ctd/CTD Structure/Module 2 Common Technical Document Summaries/2.5 Clinical Overview"),
 ("2.5", "organized_ctd/CTD Structure/Module 2 Common Technical Document Summaries/2.5 Clinical Overview"),
 ("2.6 NonClinical Written and Tabulated Summaries",
  "organized_ctd/CTD Structure/Module 2 Common Technical Document Summaries/2.6 NonClinical Written and Tabulated Summaries"),
 ("2.6",
  "organized_ctd/CTD Structure/Module 2 Common Technical Document Summaries/2.6 NonClinical Written and Tabulated Summaries"),
 ("2.6.1 Introduction",
  "organized_ctd/CTD Structure/Module 2 Common Technical Document Summaries/2.6 NonClinical Written and Tabulated Summaries/2.6.1 Introduction"),
 ("2.6.1",
  "organized_ctd/CTD Structure/Module 2 Common Technical Document Summaries/2.6 NonClinical Written and Tabulated Summaries/2.6.1 Introduction"),
 ("2.6.2 Pharmacology Written Summary",
  "organized_ctd/CTD Structure/Module 2 Common Technical Document Summaries/2.6 NonClinical Written and Tabulated Summaries/2.6.2 Pharmacology Written Summary"),
 ("2.6.2",
  "organized_ctd/CTD Structure/Module 2 Common Technical Document Summaries/2.6 NonClinical Written and Tabulated Summaries/2.6.2 Pharmacology Written Summary"),
 ("2.6.3 Pharmacology Tabulated Summary",
  "organized_ctd/CTD Structure/Module 2 Common Technical Document Summaries/2.6 NonClinical Written and Tabulated Summaries/2.6.3 Pharmacology Tabulated Summary"),
 ("2.6.3",
  "organized_ctd/CTD Structure/Module 2 Common Technical Document Summaries/2.6 NonClinical Written and Tabulated Summaries/2.6.3 Pharmacology Tabulated Summary"),
 ("2.6.4 Pharmacokinetics Written Summary",
  "organized_ctd/CTD Structure/Module 2 Common Technical Document Summaries/2.6 NonClinical Written and Tabulated Summaries/2.6.4 Pharmacokinetics Written Summary"),
 ("2.6.4",
  "organized_ctd/CTD Structure/Module 2 Common Technical Document Summaries/2.6 NonClinical Written and Tabulated Summaries/2.6.4 Pharmacokinetics Written Summary"),
 ("2.6.5 Pharmacokinetics Tabulated Summary",
  "organized_ctd/CTD Structure/Module 2 Common Technical Document Summaries/2.6 NonClinical Written and Tabulated Summaries/2.6.5 Pharmacokinetics Tabulated Summary"),
 ("2.6.5",
  "organized_ctd/CTD Structure/Module 2 Common Technical Document Summaries/2.6 NonClinical Written and Tabulated Summaries/2.6.5 Pharmacokinetics Tabulated Summary"),
 ("2.6.6 Toxicology Written Summary",
  "organized_ctd/CTD Structure/Module 2 Common Technical Document Summaries/2.6 NonClinical Written and Tabulated Summaries/2.6.6 Toxicology Written Summary"),
 ("2.6.6",
  "organized_ctd/CTD Structure/Module 2 Common Technical Document Summaries/2.6 NonClinical Written and Tabulated Summaries/2.6.6 Toxicology Written Summary"),
 ("2.6.7 Toxicology Tabulated Summary",
  "organized_ctd/CTD Structure/Module 2 Common Technical Document Summaries/2.6 NonClinical Written and Tabulated Summaries/2.6.7 Toxicology Tabulated Summary"),
 ("2.6.7",
  "organized_ctd/CTD Structure/Module 2 Common Technical Document Summaries/2.6 NonClinical Written and Tabulated Summaries/2.6.7 Toxicology Tabulated Summary"),
 ("2.7 Clinical Summary",
  "organized_ctd/CTD Structure/Module 2 Common Technical Document Summaries/2.7 Clinical Summary"),
 ("2.7", "organized_ctd/CTD Structure/Module 2 Common Technical Document Summaries/2.7 Clinical Summary"),
 ("2.7.1 Summary of Biopharmaceutic Studies",
  "organized_ctd/CTD Structure/Module 2 Common Technical Document Summaries/2.7 Clinical Summary/2.7.1 Summary of Biopharmaceutic Studies"),
 ("2.7.1",
  "organized_ctd/CTD Structure/Module 2 Common Technical Document Summaries/2.7 Clinical Summary/2.7.1 Summary of Biopharmaceutic Studies"),
 ("2.7.2 Summary of Clinical Pharmacology Studies",
  "organized_ctd/CTD Structure/Module 2 Common Technical Document Summaries/2.7 Clinical Summary/2.7.2 Summary of Clinical Pharmacology Studies"),
 ("2.7.2",
  "organized_ctd/CTD Structure/Module 2 Common Technical Document Summaries/2.7 Clinical Summary/2.7.2 Summary of Clinical Pharmacology Studies"),
 ("2.7.3 Summary of Clinical Efficacy",
  "organized_ctd/CTD Structure/Module 2 Common Technical Document Summaries/2.7 Clinical Summary/2.7.3 Summary of Clinical Efficacy"),
 ("2.7.3",
  "organized_ctd/CTD Structure/Module 2 Common Technical Document Summaries/2.7 Clinical Summary/2.7.3 Summary of Clinical Efficacy"),
 ("2.7.4 Summary of Clinical Safety",
  "organized_ctd/CTD Structure/Module 2 Common Technical Document Summaries/2.7 Clinical Summary/2.7.4 Summary of Clinical Safety"),
 ("2.7.4",
  "organized_ctd/CTD Structure/Module 2 Common Technical Document Summaries/2.7 Clinical Summary/2.7.4 Summary of Clinical Safety"),
 ("2.7.5 References",
  "organized_ctd/CTD Structure/Module 2 Common Technical Document Summaries/2.7 Clinical Summary/2.7.5 References"),
 ("2.7.5",
  "organized_ctd/CTD Structure/Module 2 Common Technical Document Summaries/2.7 Clinical Summary/2.7.5 References"),
 ("2.7.6 Synopses of Individual Studies",
  "organized_ctd/CTD Structure/Module 2 Common Technical Document Summaries/2.7 Clinical Summary/2.7.6 Synopses of Individual Studies"),
 ("2.7.6",
  "organized_ctd/CTD Structure/Module 2 Common Technical Document Summaries/2.7 Clinical Summary/2.7.6 Synopses of Individual Studies"),
 ("Module 3 Quality", "organized_ctd/CTD Structure/Module 3 Quality"),
 ("3", "organized_ctd/CTD Structure/Module 3 Quality"),
 ("3.2 Body of Data", "organized_ctd/CTD Structure/Module 3 Quality/3.2 Body of Data"),
 ("3.2", "organized_ctd/CTD Structure/Module 3 Quality/3.2 Body of Data/3.2.P Drug Product/3.2.P.8 Stability"),
 ("3.2.S Drug Substance", "organized_ctd/CTD Structure/Module 3 Quality/3.2 Body of Data/3.2.S Drug Substance"),
 ("3.2.S.1 General Information",
  "organized_ctd/CTD Structure/Module 3 Quality/3.2 Body of Data/3.2.S Drug Substance/3.2.S.1 General Information"),
 ("3.2.S.1.1 Nomenclature",
  "organized_ctd/CTD Structure/Module 3 Quality/3.2 Body of Data/3.2.S Drug Substance/3.2.S.1 General Information/3.2.S.1.1 Nomenclature"),
 ("3.2.S.1.2 Structure",
  "organized_ctd/CTD Structure/Module 3 Quality/3.2 Body of Data/3.2.S Drug Substance/3.2.S.1 General Information/3.2.S.1.2 Structure"),
 ("3.2.S.1.3 General Properties",
  "organized_ctd/CTD Structure/Module 3 Quality/3.2 Body of Data/3.2.S Drug Substance/3.2.S.1 General Information/3.2.S.1.3 General Properties"),
 ("3.2.S.2 Manufacture",
  "organized_ctd/CTD Structure/Module 3 Quality/3.2 Body of Data/3.2.S Drug Substance/3.2.S.2 Manufacture"),
 ("3.2.S.3 Characterization",
  "organized_ctd/CTD Structure/Module 3 Quality/3.2 Body of Data/3.2.S Drug Substance/3.2.S.3 Characterization"),
 ("3.2.S.4 Control of Drug Substance",
  "organized_ctd/CTD Structure/Module 3 Quality/3.2 Body of Data/3.2.S Drug Substance/3.2.S.4 Control of Drug Substance"),
 ("3.2.S.5 Reference Standards or Materials",
  "organized_ctd/CTD Structure/Module 3 Quality/3.2 Body of Data/3.2.S Drug Substance/3.2.S.5 Reference Standards or Materials"),
 ("3.2.S.6 Container Closure Systems",
  "organized_ctd/CTD Structure/Module 3 Quality/3.2 Body of Data/3.2.S Drug Substance/3.2.S.6 Container Closure Systems"),
 ("3.2.S.7 Stability",
  "organized_ctd/CTD Structure/Module 3 Quality/3.2 Body of Data/3.2.S Drug Substance/3.2.S.7 Stability"),
 ("3.2.P Drug Product", "organized_ctd/CTD Structure/Module 3 Quality/3.2 Body of Data/3.2.P Drug Product"),
 ("3.2.P.1 Description and Composition",
  "organized_ctd/CTD Structure/Module 3 Quality/3.2 Body of Data/3.2.P Drug Product/3.2.P.1 Description and Composition"),
 ("3.2.P.2 Pharmaceutical Development",
  "organized_ctd/CTD Structure/Module 3 Quality/3.2 Body of Data/3.2.P Drug Product/3.2.P.2 Pharmaceutical Development"),
 ("3.2.P.3 Manufacture",
  "organized_ctd/CTD Structure/Module 3 Quality/3.2 Body of Data/3.2.P Drug Product/3.2.P.3 Manufacture"),
 ("3.2.P.4 Control of Excipients",
  "organized_ctd/CTD Structure/Module 3 Quality/3.2 Body of Data/3.2.P Drug Product/3.2.P.4 Control of Excipients"),
 ("3.2.P.5 Control of Drug Product",
  "organized_ctd/CTD Structure/Module 3 Quality/3.2 Body of Data/3.2.P Drug Product/3.2.P.5 Control of Drug Product"),
 ("3.2.P.6 Reference Standards or Materials",
  "organized_ctd/CTD Structure/Module 3 Quality/3.2 Body of Data/3.2.P Drug Product/3.2.P.6 Reference Standards or Materials"),
 ("3.2.P.7 Container Closure System",
  "organized_ctd/CTD Structure/Module 3 Quality/3.2 Body of Data/3.2.P Drug Product/3.2.P.7 Container Closure System"),
 ("3.2.P.8 Stability",
  "organized_ctd/CTD Structure/Module 3 Quality/3.2 Body of Data/3.2.P Drug Product/3.2.P.8 Stability"),
 ("3.3 Literature References", "organized_ctd/CTD Structure/Module 3 Quality/3.3 Literature References"),
 ("3.3", "organized_ctd/CTD Structure/Module 3 Quality/3.3 Literature References"),
 ("Module 4 Nonclinical Study Reports", "organized_ctd/CTD Structure/Module 4 Nonclinical Study Reports"),
 ("4", "organized_ctd/CTD Structure/Module 4 Nonclinical Study Reports"),
 ("4.2 Study Reports", "organized_ctd/CTD Structure/Module 4 Nonclinical Study Reports/4.2 Study Reports"),
 ("4.2", "organized_ctd/CTD Structure/Module 4 Nonclinical Study Reports/4.2 Study Reports"),
 ("4.2.1 Pharmacology",
  "organized_ctd/CTD Structure/Module 4 Nonclinical Study Reports/4.2 Study Reports/4.2.1 Pharmacology"),
 ("4.2.1", "organized_ctd/CTD Structure/Module 4 Nonclinical Study Reports/4.2 Study Reports/4.2.1 Pharmacology"),
 ("4.2.1.1 Primary Pharmacodynamics",
  "organized_ctd/CTD Structure/Module 4 Nonclinical Study Reports/4.2 Study Reports/4.2.1 Pharmacology/4.2.1.1 Primary Pharmacodynamics"),
 ("4.2.1.1",
  "organized_ctd/CTD Structure/Module 4 Nonclinical Study Reports/4.2 Study Reports/4.2.1 Pharmacology/4.2.1.1 Primary Pharmacodynamics"),
 ("4.2.1.2 Secondary Pharmacodynamics",
  "organized_ctd/CTD Structure/Module 4 Nonclinical Study Reports/4.2 Study Reports/4.2.1 Pharmacology/4.2.1.2 Secondary Pharmacodynamics"),
 ("4.2.1.2",
  "organized_ctd/CTD Structure/Module 4 Nonclinical Study Reports/4.2 Study Reports/4.2.1 Pharmacology/4.2.1.2 Secondary Pharmacodynamics"),
 ("4.2.1.3 Safety Pharmacology",
  "organized_ctd/CTD Structure/Module 4 Nonclinical Study Reports/4.2 Study Reports/4.2.1 Pharmacology/4.2.1.3 Safety Pharmacology"),
 ("4.2.1.3",
  "organized_ctd/CTD Structure/Module 4 Nonclinical Study Reports/4.2 Study Reports/4.2.1 Pharmacology/4.2.1.3 Safety Pharmacology"),
 ("4.2.1.4 Pharmacodynamic Drug Interactions",
  "organized_ctd/CTD Structure/Module 4 Nonclinical Study Reports/4.2 Study Reports/4.2.1 Pharmacology/4.2.1.4 Pharmacodynamic Drug Interactions"),
 ("4.2.1.4",
  "organized_ctd/CTD Structure/Module 4 Nonclinical Study Reports/4.2 Study Reports/4.2.1 Pharmacology/4.2.1.4 Pharmacodynamic Drug Interactions"),
 ("4.2.2 Pharmacokinetics",
  "organized_ctd/CTD Structure/Module 4 Nonclinical Study Reports/4.2 Study Reports/4.2.2 Pharmacokinetics"),
 ("4.2.2", "organized_ctd/CTD Structure/Module 4 Nonclinical Study Reports/4.2 Study Reports/4.2.2 Pharmacokinetics"),
 ("4.2.2.1 Analytical Methods and Validation",
  "organized_ctd/CTD Structure/Module 4 Nonclinical Study Reports/4.2 Study Reports/4.2.2 Pharmacokinetics/4.2.2.1 Analytical Methods and Validation"),
 ("4.2.2.1",
  "organized_ctd/CTD Structure/Module 4 Nonclinical Study Reports/4.2 Study Reports/4.2.2 Pharmacokinetics/4.2.2.1 Analytical Methods and Validation"),
 ("4.2.2.2 Absorption",
  "organized_ctd/CTD Structure/Module 4 Nonclinical Study Reports/4.2 Study Reports/4.2.2 Pharmacokinetics/4.2.2.2 Absorption"),
 ("4.2.2.2",
  "organized_ctd/CTD Structure/Module 4 Nonclinical Study Reports/4.2 Study Reports/4.2.2 Pharmacokinetics/4.2.2.2 Absorption"),
 ("4.2.2.3 Distribution",
  "organized_ctd/CTD Structure/Module 4 Nonclinical Study Reports/4.2 Study Reports/4.2.2 Pharmacokinetics/4.2.2.3 Distribution"),
 ("4.2.2.3",
  "organized_ctd/CTD Structure/Module 4 Nonclinical Study Reports/4.2 Study Reports/4.2.2 Pharmacokinetics/4.2.2.3 Distribution"),
 ("4.2.2.4 Metabolism",
  "organized_ctd/CTD Structure/Module 4 Nonclinical Study Reports/4.2 Study Reports/4.2.2 Pharmacokinetics/4.2.2.4 Metabolism"),
 ("4.2.2.4",
  "organized_ctd/CTD Structure/Module 4 Nonclinical Study Reports/4.2 Study Reports/4.2.2 Pharmacokinetics/4.2.2.4 Metabolism"),
 ("4.2.2.5 Excretion",
  "organized_ctd/CTD Structure/Module 4 Nonclinical Study Reports/4.2 Study Reports/4.2.2 Pharmacokinetics/4.2.2.5 Excretion"),
 ("4.2.2.5",
  "organized_ctd/CTD Structure/Module 4 Nonclinical Study Reports/4.2 Study Reports/4.2.2 Pharmacokinetics/4.2.2.5 Excretion"),
 ("4.2.2.6 Pharmacokinetic Drug Interactions",
  "organized_ctd/CTD Structure/Module 4 Nonclinical Study Reports/4.2 Study Reports/4.2.2 Pharmacokinetics/4.2.2.6 Pharmacokinetic Drug Interactions"),
 ("4.2.2.6",
  "organized_ctd/CTD Structure/Module 4 Nonclinical Study Reports/4.2 Study Reports/4.2.2 Pharmacokinetics/4.2.2.6 Pharmacokinetic Drug Interactions"),
 ("4.2.2.7 Other Pharmacokinetic Studies",
  "organized_ctd/CTD Structure/Module 4 Nonclinical Study Reports/4.2 Study Reports/4.2.2 Pharmacokinetics/4.2.2.7 Other Pharmacokinetic Studies"),
 ("4.2.2.7",
  "organized_ctd/CTD Structure/Module 4 Nonclinical Study Reports/4.2 Study Reports/4.2.2 Pharmacokinetics/4.2.2.7 Other Pharmacokinetic Studies"),
 ("4.2.3 Toxicology",
  "organized_ctd/CTD Structure/Module 4 Nonclinical Study Reports/4.2 Study Reports/4.2.3 Toxicology"),
 ("4.2.3", "organized_ctd/CTD Structure/Module 4 Nonclinical Study Reports/4.2 Study Reports/4.2.3 Toxicology"),
 ("4.2.3.1 Single-Dose Toxicity",
  "organized_ctd/CTD Structure/Module 4 Nonclinical Study Reports/4.2 Study Reports/4.2.3 Toxicology/4.2.3.1 Single-Dose Toxicity"),
 ("4.2.3.1",
  "organized_ctd/CTD Structure/Module 4 Nonclinical Study Reports/4.2 Study Reports/4.2.3 Toxicology/4.2.3.1 Single-Dose Toxicity"),
 ("4.2.3.2 Repeat-Dose Toxicity",
  "organized_ctd/CTD Structure/Module 4 Nonclinical Study Reports/4.2 Study Reports/4.2.3 Toxicology/4.2.3.2 Repeat-Dose Toxicity"),
 ("4.2.3.2",
  "organized_ctd/CTD Structure/Module 4 Nonclinical Study Reports/4.2 Study Reports/4.2.3 Toxicology/4.2.3.2 Repeat-Dose Toxicity"),
 ("4.2.3.3 Genotoxicity",
  "organized_ctd/CTD Structure/Module 4 Nonclinical Study Reports/4.2 Study Reports/4.2.3 Toxicology/4.2.3.3 Genotoxicity"),
 ("4.2.3.3",
  "organized_ctd/CTD Structure/Module 4 Nonclinical Study Reports/4.2 Study Reports/4.2.3 Toxicology/4.2.3.3 Genotoxicity"),
 ("4.2.3.4 Carcinogenicity",
  "organized_ctd/CTD Structure/Module 4 Nonclinical Study Reports/4.2 Study Reports/4.2.3 Toxicology/4.2.3.4 Carcinogenicity"),
 ("4.2.3.4",
  "organized_ctd/CTD Structure/Module 4 Nonclinical Study Reports/4.2 Study Reports/4.2.3 Toxicology/4.2.3.4 Carcinogenicity"),
 ("4.2.3.5 Reproductive and Developmental Toxicity",
  "organized_ctd/CTD Structure/Module 4 Nonclinical Study Reports/4.2 Study Reports/4.2.3 Toxicology/4.2.3.5 Reproductive and Developmental Toxicity"),
 ("4.2.3.5",
  "organized_ctd/CTD Structure/Module 4 Nonclinical Study Reports/4.2 Study Reports/4.2.3 Toxicology/4.2.3.5 Reproductive and Developmental Toxicity"),
 ("4.2.3.6 Local Tolerance",
  "organized_ctd/CTD Structure/Module 4 Nonclinical Study Reports/4.2 Study Reports/4.2.3 Toxicology/4.2.3.6 Local Tolerance"),
 ("4.2.3.6",
  "organized_ctd/CTD Structure/Module 4 Nonclinical Study Reports/4.2 Study Reports/4.2.3 Toxicology/4.2.3.6 Local Tolerance"),
 ("4.2.3.7 Other Toxicity Studies",
  "organized_ctd/CTD Structure/Module 4 Nonclinical Study Reports/4.2 Study Reports/4.2.3 Toxicology/4.2.3.7 Other Toxicity Studies"),
 ("4.2.3.7",
  "organized_ctd/CTD Structure/Module 4 Nonclinical Study Reports/4.2 Study Reports/4.2.3 Toxicology/4.2.3.7 Other Toxicity Studies"),
 ("4.3 Literature References",
  "organized_ctd/CTD Structure/Module 4 Nonclinical Study Reports/4.3 Literature References"),
 ("4.3", "organized_ctd/CTD Structure/Module 4 Nonclinical Study Reports/4.3 Literature References"),
 ("Module 5 Clinical Study Reports", "organized_ctd/CTD Structure/Module 5 Clinical Study Reports"),
 ("5", "organized_ctd/CTD Structure/Module 5 Clinical Study Reports"),
 ("5.2 Tabular Listing of all Clinical Studies",
  "organized_ctd/CTD Structure/Module 5 Clinical Study Reports/5.2 Tabular Listing of all Clinical Studies"),
 ("5.2", "organized_ctd/CTD Structure/Module 5 Clinical Study Reports/5.2 Tabular Listing of all Clinical Studies"),
 ("5.3 Clinical Study Reports and Related Information",
  "organized_ctd/CTD Structure/Module 5 Clinical Study Reports/5.3 Clinical Study Reports and Related Information"),
 ("5.3",
  "organized_ctd/CTD Structure/Module 5 Clinical Study Reports/5.3 Clinical Study Reports and Related Information"),
 ("5.3.1 Reports of Biopharmaceutic Studies",
  "organized_ctd/CTD Structure/Module 5 Clinical Study Reports/5.3 Clinical Study Reports and Related Information/5.3.1 Reports of Biopharmaceutic Studies"),
 ("5.3.1",
  "organized_ctd/CTD Structure/Module 5 Clinical Study Reports/5.3 Clinical Study Reports and Related Information/5.3.1 Reports of Biopharmaceutic Studies"),
 ("5.3.1.1 Bioavailability (BA) Study Reports",
  "organized_ctd/CTD Structure/Module 5 Clinical Study Reports/5.3 Clinical Study Reports and Related Information/5.3.1 Reports of Biopharmaceutic Studies/5.3.1.1 Bioavailability (BA) Study Reports"),
 ("5.3.1.1",
  "organized_ctd/CTD Structure/Module 5 Clinical Study Reports/5.3 Clinical Study Reports and Related Information/5.3.1 Reports of Biopharmaceutic Studies/5.3.1.1 Bioavailability (BA) Study Reports"),
 ("5.3.1.2 Comparative BA and BE Study Reports",
  "organized_ctd/CTD Structure/Module 5 Clinical Study Reports/5.3 Clinical Study Reports and Related Information/5.3.1 Reports of Biopharmaceutic Studies/5.3.1.2 Comparative BA and BE Study Reports"),
 ("5.3.1.2",
  "organized_ctd/CTD Structure/Module 5 Clinical Study Reports/5.3 Clinical Study Reports and Related Information/5.3.1 Reports of Biopharmaceutic Studies/5.3.1.2 Comparative BA and BE Study Reports"),
 ("5.3.1.3 In Vitro - In Vivo Correlation",
  "organized_ctd/CTD Structure/Module 5 Clinical Study Reports/5.3 Clinical Study Reports and Related Information/5.3.1 Reports of Biopharmaceutic Studies/5.3.1.3 In Vitro - In Vivo Correlation"),
 ("5.3.1.3",
  "organized_ctd/CTD Structure/Module 5 Clinical Study Reports/5.3 Clinical Study Reports and Related Information/5.3.1 Reports of Biopharmaceutic Studies/5.3.1.3 In Vitro - In Vivo Correlation"),
 ("5.3.1.4 Bioanalytical Methods",
  "organized_ctd/CTD Structure/Module 5 Clinical Study Reports/5.3 Clinical Study Reports and Related Information/5.3.1 Reports of Biopharmaceutic Studies/5.3.1.4 Bioanalytical Methods"),
 ("5.3.1.4",
  "organized_ctd/CTD Structure/Module 5 Clinical Study Reports/5.3 Clinical Study Reports and Related Information/5.3.1 Reports of Biopharmaceutic Studies/5.3.1.4 Bioanalytical Methods")]

set_option maxHeartbeats 1000000 in
/-- Folding the final chunk of node writes completes the folder mapping. -/
theorem foldStage8 : List.foldl nodeKeyInserts allFoldersStage7 (ctdFlatList.drop 168) = allFoldersList := by decide

set_option maxHeartbeats 1000000 in
/-- Folding the remaining node writes from stage 6 completes the folder mapping. -/
theorem foldStage7 : List.foldl nodeKeyInserts allFoldersStage6 (ctdFlatList.drop 144) = allFoldersList := by
  have hsplit : ctdFlatList.drop 144 = (ctdFlatList.drop 144).take 24 ++ ctdFlatList.drop 168 := by decide
  have hchunk : List.foldl nodeKeyInserts allFoldersStage6 ((ctdFlatList.drop 144).take 24) = allFoldersStage7 := by decide
  rw [hsplit, List.foldl_append, hchunk]
  exact foldStage8

set_option maxHeartbeats 1000000 in
/-- Folding the remaining node writes from stage 5 completes the folder mapping. -/
theorem foldStage6 : List.foldl nodeKeyInserts allFoldersStage5 (ctdFlatList.drop 120) = allFoldersList := by
  have hsplit : ctdFlatList.drop 120 = (ctdFlatList.drop 120).take 24 ++ ctdFlatList.drop 144 := by decide
  have hchunk : List.foldl nodeKeyInserts allFoldersStage5 ((ctdFlatList.drop 120).take 24) = allFoldersStage6 := by decide
  rw [hsplit, List.foldl_append, hchunk]
  exact foldStage7

set_option maxHeartbeats 1000000 in
/-- Folding the remaining node writes from stage 4 completes the folder mapping. -/
theorem foldStage5 : List.foldl nodeKeyInserts allFoldersStage4 (ctdFlatList.drop 96) = allFoldersList := by
  have hsplit : ctdFlatList.drop 96 = (ctdFlatList.drop 96).take 24 ++ ctdFlatList.drop 120 := by decide
  have hchunk : List.foldl nodeKeyInserts allFoldersStage4 ((ctdFlatList.drop 96).take 24) = allFoldersStage5 := by decide
  rw [hsplit, List.foldl_append, hchunk]
  exact foldStage6

set_option maxHeartbeats 1000000 in
/-- Folding the remaining node writes from stage 3 completes the folder mapping. -/
theorem foldStage4 : List.foldl nodeKeyInserts allFoldersStage3 (ctdFlatList.drop 72) = allFoldersList := by
  have hsplit : ctdFlatList.drop 72 = (ctdFlatList.drop 72).take 24 ++ ctdFlatList.drop 96 := by decide
  have hchunk : List.foldl nodeKeyInserts allFoldersStage3 ((ctdFlatList.drop 72).take 24) = allFoldersStage4 := by decide
  rw [hsplit, List.foldl_append, hchunk]
  exact foldStage5

set_option maxHeartbeats 1000000 in
/-- Folding the remaining node writes from stage 2 completes the folder mapping. -/
theorem foldStage3 : List.foldl nodeKeyInserts allFoldersStage2 (ctdFlatList.drop 48) = allFoldersList := by
  have hsplit : ctdFlatList.drop 48 = (ctdFlatList.drop 48).take 24 ++ ctdFlatList.drop 72 := by decide
  have hchunk : List.foldl nodeKeyInserts allFoldersStage2 ((ctdFlatList.drop 48).take 24) = allFoldersStage3 := by decide
  rw [hsplit, List.foldl_append, hchunk]
  exact foldStage4

set_option maxHeartbeats 1000000 in
/-- Folding the remaining node writes from stage 1 completes the folder mapping. -/
theorem foldStage2 : List.foldl nodeKeyInserts allFoldersStage1 (ctdFlatList.drop 24) = allFoldersList := by
  have hsplit : ctdFlatList.drop 24 = (ctdFlatList.drop 24).take 24 ++ ctdFlatList.drop 48 := by decide
  have hchunk : List.foldl nodeKeyInserts allFoldersStage1 ((ctdFlatList.drop 24).take 24) = allFoldersStage2 := by decide
  rw [hsplit, List.foldl_append, hchunk]
  exact foldStage3

set_option maxHeartbeats 1000000 in
/-- Folding all node writes in depth-first order yields the literal folder
mapping. -/
theorem foldStage1 : List.foldl nodeKeyInserts [] ctdFlatList = allFoldersList := by
  have hsplit : ctdFlatList = ctdFlatList.take 24 ++ ctdFlatList.drop 24 := by decide
  have hchunk : List.foldl nodeKeyInserts [] (ctdFlatList.take 24) = allFoldersStage1 := by decide
  rw [hsplit, List.foldl_append, hchunk]
  exact foldStage2

/-- The literal folder mapping coincides with the depth-first traversal of
the taxonomy tree by _get_all_folder_paths. -/
theorem allFoldersActual_eq_list : allFoldersActual = allFoldersList := by
  rw [allFoldersActual, traverseNodeFuel_eq_flatten, ctdFlatList_eval]
  exact foldStage1

/-! ## Keyword table and content analysis (organize_documents.py) -/

/-- CTD_KEYWORDS (organize_documents.py lines 36-114), in definition order. -/
def CTD_KEYWORDS : List (String × List String) := [
  ("1.0.1 Cover Letter", ["cover letter", "application cover letter", "submission cover letter",
    "official cover letter", "regulatory cover letter", "letter of application"]),
  ("1.0.2 General Note to Reviewer", ["note to reviewer", "reviewer note", "general note",
    "explanatory note", "review note"]),
  ("1.0.3 Life Cycle Management Tracking Table", ["life cycle management", "lifecycle",
    "product lifecycle", "management tracking", "tracking table"]),
  ("1.0.4 Correspondence Issued by Regulatory Authority", ["regulatory authority correspondence",
    "authority correspondence", "regulatory letter received", "agency correspondence"]),
  ("1.0.5 Response to Information Solicited by Regulatory Authority", ["response to query",
    "query response", "information response", "response to regulatory", "questions and answers"]),
  ("1.0.6 Meeting Information", ["meeting minutes", "meeting notes", "meeting summary",
    "pre-meeting information", "post-meeting follow-up"]),
  ("1.0.7 Request for Appeal Documentation", ["appeal documentation", "request for appeal",
    "appeal letter", "regulatory appeal", "appeal request"]),
  ("1.2.1 Application Form", ["application form", "submission application",
    "regulatory application", "marketing application", "application dossier"]),
  ("1.2.2 Fee Forms", ["fee form", "payment form", "fee payment", "administrative fee",
    "regulatory fee", "processing fee"]),
  ("1.2.3 Certification and Attestation Forms", ["certification form", "attestation form",
    "declaration form", "certificate", "attestation", "declaration"]),
  ("1.2.4 Compliance and Site Information", ["site information", "compliance information",
    "manufacturing site", "facility information"]),
  ("1.2.5 Authorization for Sharing Information", ["authorization form", "sharing authorization",
    "information sharing", "data sharing authorization"]),
  ("1.2.6 Electronic Declaration", ["electronic declaration", "e-declaration",
    "digital declaration"]),
  ("1.2.7 Trademark & Intellectual Property Information", ["trademark", "intellectual property",
    "ip", "brand name", "trade name", "proprietary name"]),
  ("1.2.8 Screening Details", ["screening", "pre-screening", "regulatory screening"]),
  ("1.3.1 Summary of Product Characteristics", ["summary of product characteristics", "smc",
    "product characteristics", "prescribing information"]),
  ("1.3.2 Patient Information Leaflet", ["patient information leaflet", "pil", "patient leaflet",
    "patient information", "medication guide"]),
  ("1.3.3 Container Labels", ["container label", "primary label", "secondary label",
    "package label", "outer label", "inner label"]),
  ("1.3.4 Foreign Labelling", ["foreign labelling", "foreign labeling", "export labelling",
    "international labelling", "multicountry labelling"]),
  ("1.3.5 Reference Product Labelling", ["reference product", "comparator labelling",
    "reference labelling", "originator labelling"]),
  ("1.3.6 Artwork and Samples", ["artwork", "sample artwork", "label artwork", "mock-up",
    "sample", "prototype"]),
  ("1.7.1 Date of Inspection of Each Site", ["inspection date", "site inspection date",
    "gmp inspection date"]),
  ("1.7.2 Inspection Reports or Equivalent Documents", ["inspection report", "gmp inspection",
    "regulatory inspection", "site inspection", "facility inspection"]),
  ("1.7.3 GMP Certificates or Manufacturing Licences", ["gmp certificate",
    "manufacturing license", "manufacturing authorization", "gmp compliance certificate",
    "site license"]),
  ("1.7.4 Other GMP Documents", ["gmp documentation", "gmp compliance", "gmp related"]),
  ("2.3 Quality Overall Summary", ["quality overall summary", "qos", "module 2.3",
    "drug substance summary", "drug product summary"]),
  ("2.4 Nonclinical Overview", ["nonclinical overview", "preclinical overview", "module 2.4"]),
  ("2.5 Clinical Overview", ["clinical overview", "module 2.5", "medical overview"]),
  ("3.2.S Drug Substance", ["drug substance", "active substance", "api",
    "active pharmaceutical ingredient"]),
  ("3.2.P Drug Product", ["drug product", "finished product", "formulation", "composition"]),
  ("3.2.P.8 Stability", ["stability", "stability study", "shelf life", "storage condition"]),
  ("4.2.1 Pharmacology", ["pharmacology", "pharmacodynamic", "primary pharmacodynamics",
    "secondary pharmacodynamics", "safety pharmacology"]),
  ("4.2.2 Pharmacokinetics", ["pharmacokinetics", "pk", "adme", "absorption", "distribution",
    "metabolism", "excretion"]),
  ("4.2.3 Toxicology", ["toxicology", "toxicity study", "single dose toxicity",
    "repeat dose toxicity", "genotoxicity", "carcinogenicity", "reproductive toxicity",
    "developmental toxicity"]),
  ("5.3 Clinical Study Reports", ["clinical study", "clinical trial", "study report",
    "clinical report", "study protocol"]),
  ("5.3.1 Reports of Biopharmaceutic Studies", ["biopharmaceutics", "bioavailability",
    "bioequivalence", "ba", "be"]),
  ("5.3.5 Reports of Efficacy and Safety Studies", ["efficacy", "effectiveness",
    "clinical efficacy", "safety"])]

/-- Result of PDFProcessor.analyze_content. -/
structure AnalysisResult where
  scores : List (String × Nat)
  found_sections : List String
  text_sample : String

/-- Score contribution of one category's keyword list, translated from the
inner loop of analyze_content (organize_documents.py lines 206-218): per
keyword, +5 per non-overlapping occurrence in the lowercased text when the
keyword occurs at all, and +50 flat when the filename is non-empty and the
keyword occurs in the lowercased filename. -/
def keywordScore (textLower filenameLower : String) (filenameNonEmpty : Bool)
    (keywords : List String) : Nat :=
  keywords.foldl
    (fun acc kw =>
      let kl := pyLower kw
      let acc1 := if pyIn kl textLower then acc + pyCount textLower kl * 5 else acc
      if filenameNonEmpty && pyIn kl filenameLower then acc1 + 50 else acc1)
    0

/-- PDFProcessor.analyze_content (organize_documents.py lines 197-227):
lowercase text and filename once, score every category of CTD_KEYWORDS (in
definition order, all initialized to zero), and extract the CTD section
numbers from the lowercased text. -/
def analyze_content (text : String) (filename : String) : AnalysisResult :=
  let textLower := pyLower text
  let filenameLower := pyLower filename
  { scores :=
      CTD_KEYWORDS.map fun fk =>
        (fk.1, keywordScore textLower filenameLower (filename != "") fk.2)
    found_sections := extract_ctd_sections textLower
    text_sample := String.mk (text.data.take 500) }

example :
    (analyze_content "stability study stability study stability study stability study stability study" "doc.pdf").scores.find?
      (fun p => p.1 = "3.2.P.8 Stability") = some ("3.2.P.8 Stability", 50) := by decide

/-! ## The resolver (CTDOrganizer.find_exact_ctd_folder) -/

/-- The exact-match step of Strategy 1 (organize_documents.py lines 309-313):
if the section is a key of all_folders and its folder exists, return it. -/
def exactSectionMatch (allF : List (String × String)) (fs : List String)
    (sec : String) : Option (String × String) :=
  match dictFind? allF sec with
  | some p => if pathExists fs p then some (p, "Exact CTD section match: " ++ sec) else none
  | none => none

/-- The partial-match step of Strategy 1 (organize_documents.py lines
315-320): scan the dict keys in insertion order for the first key that the
section is a prefix of and whose folder exists. -/
def partialSectionMatch (allF : List (String × String)) (fs : List String)
    (sec : String) : Option (String × String) :=
  allF.findSome? fun kv =>
    if sec.data.isPrefixOf kv.1.data && pathExists fs kv.2 then
      some (kv.2, "Partial CTD section match: " ++ sec ++ " -> " ++ kv.1)
    else none

/-- Strategy 1 (direct section number match): for each found section in
iteration order, try an exact match, then a partial match, returning on the
first hit. -/
def sectionStrategy (allF : List (String × String)) (fs : List String)
    (found_sections : List String) : Option (String × String) :=
  found_sections.findSome? fun sec =>
    match exactSectionMatch allF fs sec with
    | some r => some r
    | none => partialSectionMatch allF fs sec

/-- Strategy 2 (keyword score match, organize_documents.py lines 322-331):
sort the scoreboard descending (stable), and if the top score exceeds 10,
return the first existing folder whose dict key contains the top category
as a substring. -/
def keywordStrategy (allF : List (String × String)) (fs : List String)
    (scores : List (String × Nat)) : Option (String × String) :=
  match sortDescStable scores with
  | [] => none
  | (topFolder, topScore) :: _ =>
    if topScore > 10 then
      allF.findSome? fun kv =>
        if pyIn topFolder kv.1 && pathExists fs kv.2 then
          some (kv.2, "Keyword match: " ++ topFolder)
        else none
    else none

/-- The ordered filename-pattern table of CTDOrganizer._match_from_filename
(organize_documents.py lines 349-360). -/
def filenamePatterns : List (List String × String) := [
  (["cover letter", "cover-letter", "cover_letter", "emea-cover", "ema-cover"],
    "1.0.1 Cover Letter"),
  (["application form", "application-form", "appform", "emea-form", "ema-form"],
    "1.2.1 Application Form"),
  (["gmp certificate", "gmp-cert"], "1.7.3 GMP Certificates or Manufacturing Licences"),
  (["smc", "summary of product"], "1.3.1 Summary of Product Characteristics (SmPC)"),
  (["pil", "patient leaflet"], "1.3.2 Patient Information Leaflet (PIL)"),
  (["clinical study", "study-report", "clinical-trial"],
    "5.3 Clinical Study Reports and Related Information"),
  (["protocol", "study-protocol"], "5.3 Clinical Study Reports and Related Information"),
  (["quality summary", "qos"], "2.3 Quality Overall Summary (QOS)"),
  (["stability", "stability-study"], "3.2.P.8 Stability"),
  (["specification", "spec"], "3.2.P.5 Control of Drug Product")]

/-- One rule of _match_from_filename: if any of its literal patterns occurs
in the lowercased filename, return the folder path of the first dict entry
whose key contains the rule's target category name (note: no existence check
on the folder).  If no dict entry matches, the rule yields nothing and the
outer loop continues with the next rule. -/
def ruleFires (allF : List (String × String)) (filenameLower : String)
    (rule : List String × String) : Option String :=
  rule.1.findSome? fun pat =>
    if pyIn pat filenameLower then
      allF.findSome? fun kv =>
        if pyIn rule.2 kv.1 then some kv.2 else none
    else none

/-- CTDOrganizer._match_from_filename (organize_documents.py lines 344-370). -/
def match_from_filename (allF : List (String × String)) (filename : String) : Option String :=
  filenamePatterns.findSome? (ruleFires allF (pyLower filename))

/-- The fallback destination: os.path.join(CTD_FOLDER, "Uncategorized"),
created on demand by os.makedirs before the fallback returns. -/
def uncategorizedPath : String := CTD_FOLDER ++ "/" ++ "Uncategorized"

/-- CTDOrganizer.find_exact_ctd_folder (organize_documents.py lines 302-342):
apply the three strategies in order and fall back to the Uncategorized
folder.  Filesystem effects (os.makedirs for the fallback folder) are noted
in the claims about the fallback rather than threaded through the state. -/
def find_exact_ctd_folder (allF : List (String × String)) (fs : List String)
    (scores : List (String × Nat)) (found_sections : List String)
    (filename : String) : String × String :=
  match sectionStrategy allF fs found_sections with
  | some r => r
  | none =>
    match keywordStrategy allF fs scores with
    | some r => r
    | none =>
      match (if filename != "" then match_from_filename allF filename else none) with
      | some p => (p, "Filename match: " ++ filename)
      | none => (uncategorizedPath, "No match found")

/-- The per-document step of CTDOrganizer.process_folder
(organize_documents.py lines 427-441): a document whose extracted text is
empty after stripping is skipped (none); otherwise it is analyzed and
resolved. -/
def process_document_step (allF : List (String × String)) (fs : List String)
    (text : String) (filename : String) : Option (String × String) :=
  if pyStrip text = "" then none
  else
    let analysis := analyze_content text filename
    some (find_exact_ctd_folder allF fs analysis.scores analysis.found_sections filename)

/-- The empty-text handling of CTDOrganizer.process_documents
(organize_documents_by_ai.py lines 360-365): when no text could be
extracted, the filename is used as the text and processing continues. -/
def ai_effective_text (text : String) (filename : String) : String :=
  if pyStrip text = "" then filename else text

/-! ## Generic helper lemmas -/

theorem findSome?_exists_of_eq_some {α β : Type} {f : α → Option β} {l : List α} {b : β}
    (h : l.findSome? f = some b) : ∃ a ∈ l, f a = some b := by
  induction l with
  | nil => simp [List.findSome?] at h
  | cons a t ih =>
    rw [List.findSome?_cons] at h
    cases hfa : f a with
    | some c =>
      rw [hfa] at h
      exact ⟨a, List.mem_cons_self a t, hfa.trans h⟩
    | none =>
      rw [hfa] at h
      obtain ⟨x, hx, hfx⟩ := ih h
      exact ⟨x, List.mem_cons_of_mem a hx, hfx⟩

theorem findSome?_append_of_left_none {α β : Type} {f : α → Option β} {l1 l2 : List α}
    (h : ∀ a ∈ l1, f a = none) : (l1 ++ l2).findSome? f = l2.findSome? f := by
  induction l1 with
  | nil => simp
  | cons a t ih =>
    rw [List.cons_append, List.findSome?_cons, h a (List.mem_cons_self a t)]
    exact ih fun x hx => h x (List.mem_cons_of_mem a hx)

theorem findSome?_isSome_iff {α β : Type} {f : α → Option β} {l : List α} :
    (l.findSome? f).isSome ↔ ∃ a ∈ l, (f a).isSome := by
  induction l with
  | nil => simp [List.findSome?]
  | cons a t ih =>
    rw [List.findSome?_cons]
    cases hfa : f a with
    | some c => simp [List.mem_cons, hfa]
    | none =>
      simp only [List.mem_cons, ih]
      constructor
      · rintro ⟨x, hx, h2⟩
        exact ⟨x, Or.inr hx, h2⟩
      · rintro ⟨x, hx | hx, h2⟩
        · rw [hx, hfa] at h2
          simp at h2
        · exact ⟨x, hx, h2⟩

/-- Python dict writes: after d[k] = v, looking up k yields v (last write
wins), whether or not k was already present. -/
theorem dictFind?_dictInsert (d : List (String × String)) (k v : String) :
    dictFind? (dictInsert d k v) k = some v := by
  induction d with
  | nil => simp [dictInsert, dictFind?, List.find?]
  | cons p rest ih =>
    rw [dictInsert]
    by_cases hp : p.1 = k
    · rw [if_pos hp, dictFind?, List.find?_cons_of_pos _ (by simp)]
      rfl
    · rw [if_neg hp, dictFind?, List.find?_cons_of_neg _ (by simp [hp])]
      exact ih

/-! ## Resolver dispatch lemmas -/

theorem resolver_of_sectionStrategy (allF : List (String × String)) (fs : List String)
    (scores : List (String × Nat)) (found : List String) (fn : String)
    (r : String × String) (h : sectionStrategy allF fs found = some r) :
    find_exact_ctd_folder allF fs scores found fn = r := by
  rw [find_exact_ctd_folder, h]

theorem resolver_of_keywordStrategy (allF : List (String × String)) (fs : List String)
    (scores : List (String × Nat)) (found : List String) (fn : String)
    (r : String × String) (h1 : sectionStrategy allF fs found = none)
    (h2 : keywordStrategy allF fs scores = some r) :
    find_exact_ctd_folder allF fs scores found fn = r := by
  rw [find_exact_ctd_folder, h1, h2]

theorem resolver_of_filename (allF : List (String × String)) (fs : List String)
    (scores : List (String × Nat)) (found : List String) (fn : String) (p : String)
    (h1 : sectionStrategy allF fs found = none)
    (h2 : keywordStrategy allF fs scores = none) (h3 : fn ≠ "")
    (h4 : match_from_filename allF fn = some p) :
    find_exact_ctd_folder allF fs scores found fn = (p, "Filename match: " ++ fn) := by
  have h3b : (fn != "") = true := by simp [bne_iff_ne, h3]
  rw [find_exact_ctd_folder, h1, h2, h3b]
  simp [h4]

/-! ## Claim C9 -/

/-- C9: when two (or more) taxonomy display names yield the same dotted
numeric run, the folder index maps that run to the folder path of the node
visited last in the depth-first traversal (Python dict writes overwrite in
place, so the last write wins).  On the repository's taxonomy, the names
"2.3 Quality Overall Summary (QOS)", "2.3 Introduction", "2.3.S Drug
Substance", "2.3.P Drug Product", "2.3.A Appendices" and "2.3.R Regional
Information" all yield the run "2.3"; the exact lookup of "2.3" resolves
silently to the DFS-last of these, "2.3.R Regional Information", and in
particular not to the earlier "2.3 Quality Overall Summary (QOS)" node. -/
theorem C9_duplicate_section_last_write :
    (∀ (d : List (String × String)) (k v : String),
        dictFind? (dictInsert d k v) k = some v) ∧
    dictFind? allFoldersActual "2.3" =
      some "organized_ctd/CTD Structure/Module 2 Common Technical Document Summaries/2.3 Quality Overall Summary (QOS)/2.3.R Regional Information" ∧
    dictFind? allFoldersActual "2.3" ≠
      some "organized_ctd/CTD Structure/Module 2 Common Technical Document Summaries/2.3 Quality Overall Summary (QOS)" := by
  refine ⟨dictFind?_dictInsert, ?_, ?_⟩ <;> rw [allFoldersActual_eq_list] <;> decide

/-! ## Claim C2 -/

/-- C2 counterexample: with found sections ["1.1", "2.3"], the section "2.3"
has an exact-match identifier whose folder exists, yet the resolver returns
the partial match of the other section "1.1" (to "1.10 Foreign Regulatory
Information"), because the partial match of an earlier-iterated section is
tried before the exact match of a later one. -/
theorem C2_counterexample :
    (dictFind? allFoldersActual "2.3" =
        some "organized_ctd/CTD Structure/Module 2 Common Technical Document Summaries/2.3 Quality Overall Summary (QOS)/2.3.R Regional Information" ∧
      pathExists fsAll
        "organized_ctd/CTD Structure/Module 2 Common Technical Document Summaries/2.3 Quality Overall Summary (QOS)/2.3.R Regional Information" = true) ∧
    find_exact_ctd_folder allFoldersActual fsAll [] ["1.1", "2.3"] "doc.pdf" =
      ("organized_ctd/CTD Structure/Module 1 Administrative Information and Prescribing Information/1.10 Foreign Regulatory Information",
        "Partial CTD section match: 1.1 -> 1.10 Foreign Regulatory Information") := by
  rw [allFoldersActual_eq_list]
  exact ⟨⟨by decide, by decide⟩, by decide⟩

/-- C2 (amended): the resolver iterates the found sections in list order;
for each section it tries the exact match before the partial match of that
same section, and the first section yielding either kind of match wins, so a
partial match on an earlier found section is selected before an exact match
on a later found section is even consulted. -/
theorem C2_amended_section_iteration (allF : List (String × String)) (fs : List String)
    (scores : List (String × Nat)) (s : String) (rest : List String) (fn : String)
    (r : String × String) :
    (exactSectionMatch allF fs s = some r →
      find_exact_ctd_folder allF fs scores (s :: rest) fn = r) ∧
    (exactSectionMatch allF fs s = none → partialSectionMatch allF fs s = some r →
      find_exact_ctd_folder allF fs scores (s :: rest) fn = r) := by
  constructor
  · intro h
    refine resolver_of_sectionStrategy _ _ _ _ _ _ ?_
    rw [sectionStrategy, List.findSome?_cons]
    simp [h]
  · intro h1 h2
    refine resolver_of_sectionStrategy _ _ _ _ _ _ ?_
    rw [sectionStrategy, List.findSome?_cons]
    simp [h1, h2]

/-- Witness for C2_amended_section_iteration at concrete inputs: with the
exactly-matching section first, the exact match wins; with the
partially-matching section first, the partial match wins. -/
theorem C2_amended_section_iteration_witness :
    find_exact_ctd_folder allFoldersActual fsAll [] ["2.3", "1.1"] "doc.pdf" =
      ("organized_ctd/CTD Structure/Module 2 Common Technical Document Summaries/2.3 Quality Overall Summary (QOS)/2.3.R Regional Information",
        "Exact CTD section match: 2.3") ∧
    find_exact_ctd_folder allFoldersActual fsAll [] ["1.1", "2.3"] "doc.pdf" =
      ("organized_ctd/CTD Structure/Module 1 Administrative Information and Prescribing Information/1.10 Foreign Regulatory Information",
        "Partial CTD section match: 1.1 -> 1.10 Foreign Regulatory Information") := by
  constructor
  · exact (C2_amended_section_iteration allFoldersActual fsAll [] "2.3" ["1.1"] "doc.pdf"
      ("organized_ctd/CTD Structure/Module 2 Common Technical Document Summaries/2.3 Quality Overall Summary (QOS)/2.3.R Regional Information",
        "Exact CTD section match: 2.3")).1
      (by rw [allFoldersActual_eq_list]; decide)
  · exact (C2_amended_section_iteration allFoldersActual fsAll [] "1.1" ["2.3"] "doc.pdf"
      ("organized_ctd/CTD Structure/Module 1 Administrative Information and Prescribing Information/1.10 Foreign Regulatory Information",
        "Partial CTD section match: 1.1 -> 1.10 Foreign Regulatory Information")).2
      (by rw [allFoldersActual_eq_list]; decide)
      (by rw [allFoldersActual_eq_list]; decide)

/-! ## Claim C3 -/

/-- C3: the resolver's result depends on the enumeration order of the
found-sections set.  For the document text "see section 1.1 and module 2.3"
(filename "doc.pdf"), the extracted set is exactly the two sections "2.3"
and "1.1"; enumerating it as ["2.3", "1.1"] the resolver returns the exact
match for 2.3, enumerating it as ["1.1", "2.3"] it returns the partial match
for 1.1 -- so the code's iteration over the Python set (whose enumeration
order is hash-seed dependent and not canonical) does not make the winner
between competing section matches invariant across runs. -/
theorem C3_enumeration_order_dependence :
    (analyze_content "see section 1.1 and module 2.3" "doc.pdf").found_sections =
      ["2.3", "1.1"] ∧
    List.Perm ["2.3", "1.1"] ["1.1", "2.3"] ∧
    find_exact_ctd_folder allFoldersActual fsAll
        (analyze_content "see section 1.1 and module 2.3" "doc.pdf").scores
        ["2.3", "1.1"] "doc.pdf" ≠
      find_exact_ctd_folder allFoldersActual fsAll
        (analyze_content "see section 1.1 and module 2.3" "doc.pdf").scores
        ["1.1", "2.3"] "doc.pdf" := by
  refine ⟨by decide, List.Perm.swap _ _ _, ?_⟩
  rw [allFoldersActual_eq_list]
  decide

/-! ## Claim C7 -/

/-- C7 counterexample: with only the root folder "organized_ctd" existing on
disk (every taxonomy subfolder missing), the filename heuristic still
resolves "Cover Letter.pdf" to the non-existent Cover Letter folder:
_match_from_filename performs no os.path.exists check on its result. -/
theorem C7_counterexample :
    find_exact_ctd_folder allFoldersActual ["organized_ctd"] [] [] "Cover Letter.pdf" =
      ("organized_ctd/CTD Structure/Module 1 Administrative Information and Prescribing Information/1.0 Correspondence/1.0.1 Cover Letter",
        "Filename match: Cover Letter.pdf") ∧
    pathExists ["organized_ctd"]
      "organized_ctd/CTD Structure/Module 1 Administrative Information and Prescribing Information/1.0 Correspondence/1.0.1 Cover Letter" = false := by
  rw [allFoldersActual_eq_list]
  exact ⟨by decide, by decide⟩

/-- C7 (amended): in the filename-heuristic strategy the first rule in table
order whose pattern occurs in the lowercased filename and whose target
category name is contained in some taxonomy identifier wins; the returned
destination is the folder path of the first such identifier, taken from the
taxonomy mapping without any check that the folder exists on disk. -/
theorem C7_amended_filename_rules (allF : List (String × String)) (fs : List String)
    (scores : List (String × Nat)) (found : List String) (fn : String) (p : String)
    (pre post : List (List String × String)) (rule : List String × String) :
    (match_from_filename allF fn = some p → ∃ kv ∈ allF, kv.2 = p) ∧
    (filenamePatterns = pre ++ rule :: post →
      (∀ r0 ∈ pre, ruleFires allF (pyLower fn) r0 = none) →
      ruleFires allF (pyLower fn) rule = some p →
      match_from_filename allF fn = some p) ∧
    (sectionStrategy allF fs found = none → keywordStrategy allF fs scores = none →
      fn ≠ "" → match_from_filename allF fn = some p →
      find_exact_ctd_folder allF fs scores found fn = (p, "Filename match: " ++ fn)) := by
  refine ⟨?_, ?_, ?_⟩
  · intro h
    obtain ⟨r0, _, hr0⟩ := findSome?_exists_of_eq_some h
    rw [ruleFires] at hr0
    obtain ⟨pat, _, hpat⟩ := findSome?_exists_of_eq_some hr0
    by_cases hin : pyIn pat (pyLower fn) = true
    · rw [if_pos hin] at hpat
      obtain ⟨kv, hkv, hkveq⟩ := findSome?_exists_of_eq_some hpat
      by_cases hin2 : pyIn r0.2 kv.1 = true
      · rw [if_pos hin2] at hkveq
        exact ⟨kv, hkv, by injection hkveq⟩
      · rw [if_neg hin2] at hkveq
        exact absurd hkveq (by simp)
    · rw [if_neg hin] at hpat
      exact absurd hpat (by simp)
  · intro heq hpre hfire
    rw [match_from_filename, heq, findSome?_append_of_left_none hpre,
      List.findSome?_cons, hfire]
  · exact resolver_of_filename allF fs scores found fn p

/-- Witness for C7_amended_filename_rules at a concrete input: the first
rule (cover letter) fires for "Cover Letter.pdf" and the resolver returns
the Cover Letter folder path with the filename-match reason, with no
existence requirement (the filesystem here contains only the root). -/
theorem C7_amended_filename_rules_witness :
    find_exact_ctd_folder allFoldersActual ["organized_ctd"] [] [] "Cover Letter.pdf" =
      ("organized_ctd/CTD Structure/Module 1 Administrative Information and Prescribing Information/1.0 Correspondence/1.0.1 Cover Letter",
        "Filename match: Cover Letter.pdf") := by
  exact (C7_amended_filename_rules allFoldersActual ["organized_ctd"] [] [] "Cover Letter.pdf"
      "organized_ctd/CTD Structure/Module 1 Administrative Information and Prescribing Information/1.0 Correspondence/1.0.1 Cover Letter"
      [] [] (["x"], "y")).2.2
    (by decide) (by decide) (by decide)
    (by rw [allFoldersActual_eq_list]; decide)

/-! ## Claim C8 -/

/-- C8 counterexample: a document whose extracted text is empty is skipped
by process_folder (the step yields none: no classification, no placement),
even though filename-only evidence would have classified it -- the same
evidence resolves "cover letter.pdf" to the Cover Letter folder via the
keyword score gathered from the filename. -/
theorem C8_counterexample :
    process_document_step allFoldersActual fsAll "" "cover letter.pdf" = none ∧
    find_exact_ctd_folder allFoldersActual fsAll
        (analyze_content "" "cover letter.pdf").scores
        (analyze_content "" "cover letter.pdf").found_sections "cover letter.pdf" =
      ("organized_ctd/CTD Structure/Module 1 Administrative Information and Prescribing Information/1.0 Correspondence/1.0.1 Cover Letter",
        "Keyword match: 1.0.1 Cover Letter") := by
  constructor
  · decide
  · rw [allFoldersActual_eq_list]
    decide

/-- C8 (amended): in organize_documents.py the per-document step skips a
document exactly when its extracted text is empty after stripping
whitespace (the document is then neither classified nor placed, and the
batch continues); organize_documents_by_ai.py instead substitutes the
filename for empty text, so there the document is still classified. -/
theorem C8_amended_empty_text (allF : List (String × String)) (fs : List String)
    (text fn : String) :
    (process_document_step allF fs text fn = none ↔ pyStrip text = "") ∧
    (pyStrip text = "" → ai_effective_text text fn = fn) ∧
    (pyStrip text ≠ "" → ai_effective_text text fn = text) := by
  refine ⟨?_, ?_, ?_⟩
  · rw [process_document_step]
    by_cases h : pyStrip text = "" <;> simp [h]
  · intro h
    rw [ai_effective_text, if_pos h]
  · intro h
    rw [ai_effective_text, if_neg h]

/-- Witness for C8_amended_empty_text at concrete inputs: a whitespace-only
extraction is skipped by organize_documents.py, and an empty extraction is
replaced by the filename in organize_documents_by_ai.py. -/
theorem C8_amended_empty_text_witness :
    process_document_step allFoldersActual fsAll "  " "scan.pdf" = none ∧
    ai_effective_text "" "scan.pdf" = "scan.pdf" := by
  constructor
  · exact (C8_amended_empty_text allFoldersActual fsAll "  " "scan.pdf").1.mpr (by decide)
  · exact (C8_amended_empty_text allFoldersActual fsAll "" "scan.pdf").2.1 (by decide)

/-! ## Claim C10: sanitizer idempotence -/

theorem mem_replaceAllChar {s : List Char} {a b c : Char} (h : c ∈ replaceAllChar s a b) :
    c = b ∨ c ∈ s := by
  rw [replaceAllChar] at h
  obtain ⟨x, hx, hxc⟩ := List.mem_map.mp h
  by_cases hxa : x = a
  · left
    rw [← hxc, if_pos hxa]
  · right
    rw [← hxc, if_neg hxa]
    exact hx

theorem not_mem_replaceAllChar_self {s : List Char} {a b : Char} (hab : a ≠ b) :
    a ∉ replaceAllChar s a b := by
  intro h
  rw [replaceAllChar] at h
  obtain ⟨x, hx, hxc⟩ := List.mem_map.mp h
  by_cases hxa : x = a
  · rw [if_pos hxa] at hxc
    exact hab hxc.symm
  · rw [if_neg hxa] at hxc
    exact hxa hxc

theorem mem_foldl_replace (L : List Char) :
    ∀ (s : List Char) (c : Char),
      c ∈ L.foldl (fun acc a => replaceAllChar acc a '-') s → c = '-' ∨ c ∈ s := by
  induction L with
  | nil => exact fun s c h => Or.inr h
  | cons a L' ih =>
    intro s c h
    rw [List.foldl_cons] at h
    rcases ih _ c h with h1 | h1
    · exact Or.inl h1
    · exact mem_replaceAllChar h1

theorem ne_of_mem_foldl_replace (L : List Char) :
    ∀ a : Char, a ∈ L → a ≠ '-' →
      ∀ (s : List Char) (c : Char),
        c ∈ L.foldl (fun acc x => replaceAllChar acc x '-') s → c ≠ a := by
  induction L with
  | nil => exact fun a ha => absurd ha (List.not_mem_nil a)
  | cons x L' ih =>
    intro a ha hne s c h hc
    rw [List.foldl_cons] at h
    rcases List.mem_cons.mp ha with hax | hax
    · subst hax
      subst hc
      rcases mem_foldl_replace L' _ c h with h1 | h1
      · exact hne h1
      · exact not_mem_replaceAllChar_self hne h1
    · exact ih a hax hne _ c h hc

theorem removeInvalid_not_invalid (s : List Char) (c : Char) (h : c ∈ removeInvalid s) :
    c ∉ invalidChars := by
  intro hc
  have hne : c ≠ '-' := by
    intro he
    rw [he] at hc
    revert hc
    decide
  exact ne_of_mem_foldl_replace invalidChars c hc hne s c h rfl

theorem replaceAllChar_eq_self : ∀ (s : List Char) (a b : Char), a ∉ s →
    replaceAllChar s a b = s := by
  intro s a b
  induction s with
  | nil => exact fun _ => rfl
  | cons x xs ih =>
    intro h
    have hxa : ¬(x = a) := fun he => h (by rw [← he]; exact List.mem_cons_self x xs)
    have h2 : replaceAllChar xs a b = xs := ih fun hmem => h (List.mem_cons_of_mem x hmem)
    rw [replaceAllChar, List.map_cons, if_neg hxa]
    rw [replaceAllChar] at h2
    rw [h2]

theorem foldl_replace_eq_self (L : List Char) :
    ∀ s : List Char, (∀ c ∈ s, c ∉ L) →
      L.foldl (fun acc a => replaceAllChar acc a '-') s = s := by
  induction L with
  | nil => exact fun s _ => rfl
  | cons a L' ih =>
    intro s h
    rw [List.foldl_cons]
    have ha : a ∉ s := fun hmem => h a hmem (List.mem_cons_self a L')
    rw [replaceAllChar_eq_self s a '-' ha]
    exact ih s fun c hc hmem => h c hc (List.mem_cons_of_mem a hmem)

theorem removeInvalid_eq_self (s : List Char) (h : ∀ c ∈ s, c ∉ invalidChars) :
    removeInvalid s = s :=
  foldl_replace_eq_self invalidChars s h

theorem pySplitAux_words : ∀ (s acc : List Char), (∀ c ∈ acc, pyIsSpace c = false) →
    ∀ w ∈ pySplitAux s acc,
      w ≠ [] ∧ (∀ c ∈ w, pyIsSpace c = false) ∧ (∀ c ∈ w, c ∈ s ∨ c ∈ acc) := by
  intro s
  induction s with
  | nil =>
    intro acc hacc w hw
    rw [pySplitAux] at hw
    cases acc with
    | nil => exact absurd hw (List.not_mem_nil w)
    | cons a as =>
      rw [List.isEmpty_cons] at hw
      simp only [Bool.false_eq_true, if_false] at hw
      rcases List.mem_singleton.mp hw with rfl
      refine ⟨by simp, ?_, ?_⟩
      · intro c hc
        exact hacc c (List.mem_reverse.mp hc)
      · intro c hc
        exact Or.inr (List.mem_reverse.mp hc)
  | cons ch cs ih =>
    intro acc hacc w hw
    rw [pySplitAux] at hw
    by_cases hsp : pyIsSpace ch
    · rw [if_pos hsp] at hw
      cases acc with
      | nil =>
        rw [List.isEmpty_nil, if_pos rfl] at hw
        obtain ⟨h0, h1, h2⟩ := ih [] (fun c hc => absurd hc (List.not_mem_nil c)) w hw
        refine ⟨h0, h1, fun c hc => ?_⟩
        rcases h2 c hc with h3 | h3
        · exact Or.inl (List.mem_cons_of_mem ch h3)
        · exact absurd h3 (List.not_mem_nil c)
      | cons a as =>
        rw [List.isEmpty_cons] at hw
        simp only [Bool.false_eq_true, if_false] at hw
        rcases List.mem_cons.mp hw with rfl | hw2
        · refine ⟨by simp, ?_, ?_⟩
          · intro c hc
            exact hacc c (List.mem_reverse.mp hc)
          · intro c hc
            exact Or.inr (List.mem_reverse.mp hc)
        · obtain ⟨h0, h1, h2⟩ := ih [] (fun c hc => absurd hc (List.not_mem_nil c)) w hw2
          refine ⟨h0, h1, fun c hc => ?_⟩
          rcases h2 c hc with h3 | h3
          · exact Or.inl (List.mem_cons_of_mem ch h3)
          · exact absurd h3 (List.not_mem_nil c)
    · rw [if_neg hsp] at hw
      have hinv : ∀ c ∈ ch :: acc, pyIsSpace c = false := by
        intro c hc
        rcases List.mem_cons.mp hc with rfl | hc2
        · exact Bool.eq_false_iff.mpr hsp
        · exact hacc c hc2
      obtain ⟨h0, h1, h2⟩ := ih (ch :: acc) hinv w hw
      refine ⟨h0, h1, fun c hc => ?_⟩
      rcases h2 c hc with h3 | h3
      · exact Or.inl (List.mem_cons_of_mem ch h3)
      · rcases List.mem_cons.mp h3 with rfl | h4
        · exact Or.inl (List.mem_cons_self c cs)
        · exact Or.inr h4

theorem pySplitAux_flush (w : List Char) :
    ∀ (t acc : List Char), (∀ c ∈ w, pyIsSpace c = false) →
      pySplitAux (w ++ t) acc = pySplitAux t (w.reverse ++ acc) := by
  induction w with
  | nil => intro t acc _; simp
  | cons c w' ih =>
    intro t acc h
    have hc : pyIsSpace c = false := h c (List.mem_cons_self c w')
    rw [List.cons_append, pySplitAux, hc]
    simp only [Bool.false_eq_true, if_false]
    rw [ih t (c :: acc) (fun x hx => h x (List.mem_cons_of_mem c hx))]
    simp [List.append_assoc]

theorem mem_joinWords : ∀ (ws : List (List Char)) (c : Char), c ∈ joinWords ws →
    c = ' ' ∨ ∃ w ∈ ws, c ∈ w := by
  intro ws
  induction ws with
  | nil => exact fun c h => absurd h (List.not_mem_nil c)
  | cons w ws' ih =>
    intro c h
    cases ws' with
    | nil => exact Or.inr ⟨w, List.mem_cons_self w [], h⟩
    | cons w2 ws'' =>
      rcases List.mem_append.mp h with h1 | h1
      · exact Or.inr ⟨w, List.mem_cons_self _ _, h1⟩
      · rcases List.mem_cons.mp h1 with h2 | h2
        · exact Or.inl h2
        · rcases ih c h2 with h3 | ⟨w3, hw3, hc3⟩
          · exact Or.inl h3
          · exact Or.inr ⟨w3, List.mem_cons_of_mem w hw3, hc3⟩

theorem pySplit_joinWords : ∀ ws : List (List Char),
    (∀ w ∈ ws, w ≠ [] ∧ ∀ c ∈ w, pyIsSpace c = false) →
    pySplit (joinWords ws) = ws := by
  intro ws
  induction ws with
  | nil => exact fun _ => rfl
  | cons w ws' ih =>
    intro h
    obtain ⟨hw0, hwc⟩ := h w (List.mem_cons_self w ws')
    have hrevne : w.reverse ≠ [] := fun he => hw0 (List.reverse_eq_nil_iff.mp he)
    cases ws' with
    | nil =>
      show pySplitAux (joinWords [w]) [] = [w]
      have hjw : joinWords [w] = w := rfl
      have hflush := pySplitAux_flush w [] [] hwc
      rw [List.append_nil, List.append_nil] at hflush
      have hie : w.reverse.isEmpty = false := by
        cases hh : w.reverse with
        | nil => exact absurd hh hrevne
        | cons a l => rfl
      rw [hjw, hflush, pySplitAux, hie]
      simp
    | cons w2 ws'' =>
      show pySplitAux (joinWords (w :: w2 :: ws'')) [] = w :: w2 :: ws''
      have hjw : joinWords (w :: w2 :: ws'') = w ++ ' ' :: joinWords (w2 :: ws'') := rfl
      have hie : w.reverse.isEmpty = false := by
        cases hh : w.reverse with
        | nil => exact absurd hh hrevne
        | cons a l => rfl
      rw [hjw, pySplitAux_flush w _ [] hwc, List.append_nil, pySplitAux]
      have hsp : pyIsSpace ' ' = true := rfl
      rw [hsp, hie]
      have htail : pySplitAux (joinWords (w2 :: ws'')) [] = w2 :: ws'' :=
        ih fun x hx => h x (List.mem_cons_of_mem w hx)
      simp [htail]

/-- C10: folder-name sanitization is idempotent: applying clean_folder_name
twice yields the same result as applying it once, since the replacement
character '-' is not itself an invalid character and whitespace is already
collapsed to single spaces (with no leading or trailing whitespace) after
one application. -/
theorem C10_clean_folder_name_idempotent (s : String) :
    clean_folder_name (clean_folder_name s) = clean_folder_name s := by
  rw [clean_folder_name, clean_folder_name]
  have hdata : (String.mk (joinWords (pySplit (removeInvalid s.data)))).data =
      joinWords (pySplit (removeInvalid s.data)) := rfl
  rw [hdata]
  have hwords : ∀ w ∈ pySplit (removeInvalid s.data),
      w ≠ [] ∧ (∀ c ∈ w, pyIsSpace c = false) ∧
        (∀ c ∈ w, c ∈ removeInvalid s.data ∨ c ∈ ([] : List Char)) :=
    fun w hw =>
      pySplitAux_words (removeInvalid s.data) []
        (fun c hc => absurd hc (List.not_mem_nil c)) w hw
  have hclean : ∀ c ∈ joinWords (pySplit (removeInvalid s.data)), c ∉ invalidChars := by
    intro c hc
    rcases mem_joinWords _ c hc with h1 | ⟨w, hw, hcw⟩
    · rw [h1]
      decide
    · rcases (hwords w hw).2.2 c hcw with h2 | h2
      · exact removeInvalid_not_invalid _ c h2
      · exact absurd h2 (List.not_mem_nil c)
  rw [removeInvalid_eq_self _ hclean]
  rw [pySplit_joinWords (pySplit (removeInvalid s.data))
    (fun w hw => ⟨(hwords w hw).1, (hwords w hw).2.1⟩)]

/-! ## Claim C6: extraction lemmas -/

theorem mem_dedupFirst_aux (x : String) : ∀ (l acc : List String),
    x ∈ l.foldl (fun acc s => if s ∈ acc then acc else acc ++ [s]) acc ↔
      x ∈ acc ∨ x ∈ l := by
  intro l
  induction l with
  | nil => intro acc; simp
  | cons s t ih =>
    intro acc
    rw [List.foldl_cons]
    by_cases hs : s ∈ acc
    · rw [if_pos hs, ih]
      constructor
      · rintro (h | h)
        · exact Or.inl h
        · exact Or.inr (List.mem_cons_of_mem s h)
      · rintro (h | h)
        · exact Or.inl h
        · rcases List.mem_cons.mp h with rfl | h2
          · exact Or.inl hs
          · exact Or.inr h2
    · rw [if_neg hs, ih]
      constructor
      · rintro (h | h)
        · rcases List.mem_append.mp h with h2 | h2
          · exact Or.inl h2
          · rcases List.mem_singleton.mp h2 with rfl
            exact Or.inr (List.mem_cons_self _ _)
        · exact Or.inr (List.mem_cons_of_mem s h)
      · rintro (h | h)
        · exact Or.inl (List.mem_append.mpr (Or.inl h))
        · rcases List.mem_cons.mp h with rfl | h2
          · exact Or.inl (List.mem_append.mpr (Or.inr (List.mem_singleton.mpr rfl)))
          · exact Or.inr h2

theorem mem_dedupFirst {x : String} {l : List String} : x ∈ dedupFirst l ↔ x ∈ l := by
  rw [dedupFirst, mem_dedupFirst_aux]
  simp

theorem takeDotGroups_mem_dot : ∀ (fuel : Nat) (s g : List Char),
    g ∈ (takeDotGroups fuel s).1 → '.' ∈ g := by
  intro fuel
  induction fuel with
  | zero => intro s g h; exact absurd h (List.not_mem_nil g)
  | succ n ih =>
    intro s g h
    rcases s with _ | ⟨c0, _ | ⟨c, cs⟩⟩
    · have he : takeDotGroups (n + 1) ([] : List Char) = ([], []) := rfl
      rw [he] at h
      exact absurd h (List.not_mem_nil g)
    · have he : takeDotGroups (n + 1) [c0] = ([], [c0]) := rfl
      rw [he] at h
      exact absurd h (List.not_mem_nil g)
    · rw [takeDotGroups] at h
      by_cases hcc : (c0 = '.' && c.isDigit) = true
      · rw [if_pos hcc] at h
        rcases htd : takeDigits (c :: cs) with ⟨d, r1⟩
        simp only [htd] at h
        rcases hdg : takeDotGroups n r1 with ⟨gs, r2⟩
        simp only [hdg] at h
        rcases List.mem_cons.mp h with rfl | h2
        · exact List.mem_cons_self '.' d
        · exact ih r1 g (by rw [hdg]; exact h2)
      · rw [if_neg hcc] at h
        exact absurd h (List.not_mem_nil g)

theorem parseNumTail_dot : ∀ {s m r : List Char}, parseNumTail s = some (m, r) → '.' ∈ m := by
  intro s m r h
  rw [parseNumTail] at h
  rcases htd : takeDigits s with ⟨d1, r1⟩
  simp only [htd] at h
  by_cases hd1 : d1.isEmpty
  · rw [if_pos hd1] at h
    exact absurd h (by simp)
  · rw [if_neg hd1] at h
    rcases hdg : takeDotGroups r1.length r1 with ⟨gs, r2⟩
    simp only [hdg] at h
    rcases hrev : gs.reverse with _ | ⟨glast, grest⟩
    · simp only [hrev] at h
      exact absurd h (by simp)
    · simp only [hrev] at h
      have hglastgs : glast ∈ gs := by
        refine List.mem_reverse.mp ?_
        rw [hrev]
        exact List.mem_cons_self glast grest
      have hglast : '.' ∈ glast :=
        takeDotGroups_mem_dot r1.length r1 glast (by rw [hdg]; exact hglastgs)
      by_cases hb : boundaryOk r2 = true
      · rw [if_pos hb] at h
        rw [Option.some.injEq, Prod.mk.injEq] at h
        rw [← h.1]
        refine List.mem_append.mpr (Or.inr ?_)
        exact List.mem_flatten.mpr ⟨glast, hglastgs, hglast⟩
      · rw [if_neg hb] at h
        rcases grest with _ | ⟨g0, grest'⟩
        · exact absurd h (by simp)
        · have hg0gs : g0 ∈ gs := by
            refine List.mem_reverse.mp ?_
            rw [hrev]
            exact List.mem_cons_of_mem glast (List.mem_cons_self g0 grest')
          have hg0dot : '.' ∈ g0 :=
            takeDotGroups_mem_dot r1.length r1 g0 (by rw [hdg]; exact hg0gs)
          rw [Option.some.injEq, Prod.mk.injEq] at h
          rw [← h.1]
          refine List.mem_append.mpr (Or.inr ?_)
          refine List.mem_flatten.mpr ⟨g0, ?_, hg0dot⟩
          exact List.mem_reverse.mpr (List.mem_cons_self g0 grest')

theorem scanWith_mem (tryPat : List Char → Option (List Char × List Char)) :
    ∀ (fuel : Nat) (prevW : Bool) (s m : List Char),
      m ∈ scanWith tryPat fuel prevW s → ∃ s2 r, tryPat s2 = some (m, r) := by
  intro fuel
  induction fuel with
  | zero => intro prevW s m h; exact absurd h (by rw [scanWith] at h ⊢; exact List.not_mem_nil m)
  | succ n ih =>
    intro prevW s m h
    cases s with
    | nil => rw [scanWith] at h; exact absurd h (List.not_mem_nil m)
    | cons c cs =>
      rw [scanWith] at h
      rcases htp : (if prevW then none else tryPat (c :: cs)) with _ | ⟨m2, rest⟩
      · rw [htp] at h
        exact ih _ _ m h
      · rw [htp] at h
        rcases List.mem_cons.mp h with rfl | h2
        · by_cases hpw : prevW
          · rw [if_pos hpw] at htp
            exact absurd htp (by simp)
          · rw [if_neg hpw] at htp
            exact ⟨c :: cs, rest, htp⟩
        · exact ih _ _ m h2

theorem tryMatchSection_dot : ∀ {s m r : List Char},
    tryMatchSection s = some (m, r) → '.' ∈ m := by
  intro s m r h
  rw [tryMatchSection] at h
  rcases hst : stripLit "section".data s with _ | r1
  · rw [hst] at h
    exact absurd h (by simp)
  · rw [hst] at h
    exact parseNumTail_dot h

theorem tryMatchModule_dot : ∀ {s m r : List Char},
    tryMatchModule s = some (m, r) → '.' ∈ m := by
  intro s m r h
  rw [tryMatchModule] at h
  rcases hst : (match stripLit "ctd".data s with
      | some r => some r
      | none => stripLit "module".data s) with _ | r1
  · rw [hst] at h
    exact absurd h (by simp)
  · rw [hst] at h
    simp only at h
    split at h
    · exact parseNumTail_dot h
    · exact parseNumTail_dot h

theorem countOccAux_single (c : Char) : ∀ (fuel : Nat) (h : List Char), h.length ≤ fuel →
    countOccAux fuel h [c] = h.countP (fun x => x = c) := by
  intro fuel
  induction fuel with
  | zero =>
    intro h hl
    rw [Nat.le_zero] at hl
    rw [List.length_eq_zero] at hl
    subst hl
    rfl
  | succ n ih =>
    intro h hl
    cases h with
    | nil => rfl
    | cons x xs =>
      rw [countOccAux]
      have hpre : ([c].isPrefixOf (x :: xs)) = (c == x) := by
        simp [List.isPrefixOf]
      rw [hpre]
      rw [List.length_cons, Nat.succ_le_succ_iff] at hl
      rw [List.countP_cons]
      by_cases hxc : c = x
      · have hbeq : (c == x) = true := by simp [hxc]
        rw [hbeq]
        simp only [if_true]
        simp only [List.length_cons, List.length_nil, Nat.zero_add, List.drop_succ_cons,
          List.drop_zero]
        rw [ih xs hl]
        have hdec : (decide (x = c)) = true := by simp [hxc.symm]
        rw [hdec]
        simp only [if_true]
        omega
      · have hbeq : (c == x) = false := by simp [hxc]
        rw [hbeq]
        simp only [Bool.false_eq_true, if_false]
        rw [ih xs hl]
        have hdec : (decide (x = c)) = false := by
          simp only [decide_eq_false_iff_not]
          exact fun he => hxc he.symm
        rw [hdec]
        simp

theorem pyCount_dot_pos {m : List Char} (h : '.' ∈ m) : 1 ≤ pyCount (String.mk m) "." := by
  rw [pyCount]
  have hne : (".".data.isEmpty) = false := rfl
  rw [hne]
  simp only [Bool.false_eq_true, if_false]
  rw [countOccAux_single '.' m.length m (Nat.le_refl _)]
  have hpos : 0 < m.countP (fun x => decide (x = '.')) :=
    List.countP_pos_iff.mpr ⟨'.', h, by simp⟩
  exact hpos

theorem findall_dot {text s : String}
    (h : s ∈ findallModulePat text ∨ s ∈ findallSectionPat text ∨ s ∈ findallBarePat text) :
    1 ≤ pyCount s "." := by
  have hdot : '.' ∈ s.data := by
    rcases h with h | h | h
    · rw [findallModulePat] at h
      obtain ⟨m, hm, hms⟩ := List.mem_map.mp h
      obtain ⟨s2, r, hsr⟩ := scanWith_mem tryMatchModule _ _ _ m hm
      have hmd : '.' ∈ m := tryMatchModule_dot hsr
      rw [← hms]
      exact hmd
    · rw [findallSectionPat] at h
      obtain ⟨m, hm, hms⟩ := List.mem_map.mp h
      obtain ⟨s2, r, hsr⟩ := scanWith_mem tryMatchSection _ _ _ m hm
      have hmd : '.' ∈ m := tryMatchSection_dot hsr
      rw [← hms]
      exact hmd
    · rw [findallBarePat] at h
      obtain ⟨m, hm, hms⟩ := List.mem_map.mp h
      obtain ⟨s2, r, hsr⟩ := scanWith_mem tryMatchBare _ _ _ m hm
      have hmd : '.' ∈ m := parseNumTail_dot hsr
      rw [← hms]
      exact hmd
  exact pyCount_dot_pos hdot

/-- C6: the extracted section-number set is exactly the deduplicated union of
the matches of the three pattern families (ctd/module-prefixed,
section-prefixed, and bare dotted runs), and every member contains at least
one dot, so a bare integer with zero dots is never a member. -/
theorem C6_extraction_union (text s : String) :
    (s ∈ extract_ctd_sections text ↔
      s ∈ findallModulePat text ∨ s ∈ findallSectionPat text ∨ s ∈ findallBarePat text) ∧
    (s ∈ extract_ctd_sections text → 1 ≤ pyCount s ".") := by
  have hext : s ∈ extract_ctd_sections text ↔
      s ∈ (((findallModulePat text ++ findallSectionPat text) ++ findallBarePat text).filter
        (fun x => decide (1 ≤ pyCount x "."))) := by
    rw [extract_ctd_sections]
    exact mem_dedupFirst
  constructor
  · rw [hext, List.mem_filter]
    constructor
    · intro h2
      rcases List.mem_append.mp h2.1 with h3 | h3
      · rcases List.mem_append.mp h3 with h4 | h4
        · exact Or.inl h4
        · exact Or.inr (Or.inl h4)
      · exact Or.inr (Or.inr h3)
    · intro h2
      refine ⟨?_, by simp [findall_dot h2]⟩
      rcases h2 with h3 | h3 | h3
      · exact List.mem_append.mpr (Or.inl (List.mem_append.mpr (Or.inl h3)))
      · exact List.mem_append.mpr (Or.inl (List.mem_append.mpr (Or.inr h3)))
      · exact List.mem_append.mpr (Or.inr h3)
  · intro h2
    rw [hext, List.mem_filter] at h2
    simpa using h2.2

/-- Witness for C6_extraction_union at a concrete input: for the text
"module 5.3.1 and 42", the string "5.3.1" is extracted (it is among the
matches of the patterns), the bare integer "42" is not, and "5.3.1" has at
least one dot. -/
theorem C6_extraction_union_witness :
    "5.3.1" ∈ extract_ctd_sections "module 5.3.1 and 42" ∧
    1 ≤ pyCount "5.3.1" "." ∧
    "42" ∉ extract_ctd_sections "module 5.3.1 and 42" := by
  refine ⟨?_, ?_, by decide⟩
  · exact ((C6_extraction_union "module 5.3.1 and 42" "5.3.1").1).mpr (Or.inl (by decide))
  · exact (C6_extraction_union "module 5.3.1 and 42" "5.3.1").2
      (((C6_extraction_union "module 5.3.1 and 42" "5.3.1").1).mpr (Or.inl (by decide)))

/-! ## Claim C4: scoring lemmas -/

theorem countOccAux_zero_of_not_contains : ∀ (fuel : Nat) (h n : List Char),
    containsSub h n = false → countOccAux fuel h n = 0 := by
  intro fuel
  induction fuel with
  | zero => intro h n _; rfl
  | succ k ih =>
    intro h n hc
    cases h with
    | nil => rfl
    | cons c cs =>
      rw [containsSub, Bool.or_eq_false_iff] at hc
      rw [countOccAux, hc.1]
      simp only [Bool.false_eq_true, if_false]
      exact ih cs n hc.2

theorem data_ne_nil_of_ne_empty {s : String} (h : s ≠ "") : s.data ≠ [] := by
  intro hd
  exact h (congrArg String.mk hd)

theorem pyCount_eq_zero_of_not_in {needle hay : String} (hne : needle ≠ "")
    (h : pyIn needle hay = false) : pyCount hay needle = 0 := by
  rw [pyCount]
  have hnd : needle.data.isEmpty = false := by
    cases hd : needle.data with
    | nil => exact absurd hd (data_ne_nil_of_ne_empty hne)
    | cons a l => rfl
  rw [hnd]
  simp only [Bool.false_eq_true, if_false]
  exact countOccAux_zero_of_not_contains _ _ _ h

theorem pyIn_empty_right {n : String} (h : n ≠ "") : pyIn n "" = false := by
  rw [pyIn]
  have : ("" : String).data = [] := rfl
  rw [this, containsSub]
  cases hd : n.data with
  | nil => exact absurd hd (data_ne_nil_of_ne_empty h)
  | cons a l => rfl

theorem pyLower_ne_empty {kw : String} (h : kw ≠ "") : pyLower kw ≠ "" := by
  intro he
  apply h
  have hmap : kw.data.map Char.toLower = [] := congrArg String.data he
  rw [List.map_eq_nil_iff] at hmap
  exact congrArg String.mk hmap

/-- The score formula exactly as claim C4 states it: 5 per non-overlapping
occurrence of each phrase in the lowercased body text, plus 50 flat per
phrase occurring as a substring of the lowercased filename. -/
def claimedScore (text filename : String) (kws : List String) : Nat :=
  kws.foldl
    (fun acc kw =>
      acc + 5 * pyCount (pyLower text) (pyLower kw) +
        (if pyIn (pyLower kw) (pyLower filename) = true then 50 else 0))
    0

theorem keywordScore_eq_claimedScore (text filename : String) (kws : List String)
    (hkws : ∀ kw ∈ kws, kw ≠ "") :
    keywordScore (pyLower text) (pyLower filename) (filename != "") kws =
      claimedScore text filename kws := by
  rw [keywordScore, claimedScore]
  suffices hgen : ∀ (ks : List String), (∀ kw ∈ ks, kw ≠ "") → ∀ acc : Nat,
      ks.foldl
        (fun acc kw =>
          let kl := pyLower kw
          let acc1 := if pyIn kl (pyLower text) then acc + pyCount (pyLower text) kl * 5 else acc
          if (filename != "") && pyIn kl (pyLower filename) then acc1 + 50 else acc1) acc =
      ks.foldl
        (fun acc kw =>
          acc + 5 * pyCount (pyLower text) (pyLower kw) +
            (if pyIn (pyLower kw) (pyLower filename) = true then 50 else 0)) acc by
    exact hgen kws hkws 0
  intro ks
  induction ks with
  | nil => intro _ acc; rfl
  | cons kw rest ih =>
    intro hkw acc
    rw [List.foldl_cons, List.foldl_cons]
    rw [ih fun k hk => hkw k (List.mem_cons_of_mem kw hk)]
    congr 1
    have hk : kw ≠ "" := hkw kw (List.mem_cons_self kw rest)
    have hkl : pyLower kw ≠ "" := pyLower_ne_empty hk
    simp only
    by_cases ht : pyIn (pyLower kw) (pyLower text) = true
    · rw [if_pos ht]
      by_cases hf : ((filename != "") && pyIn (pyLower kw) (pyLower filename)) = true
      · rw [if_pos hf]
        rw [Bool.and_eq_true] at hf
        rw [if_pos hf.2]
        omega
      · rw [if_neg hf]
        have hfin : pyIn (pyLower kw) (pyLower filename) = false := by
          by_cases hfe : filename = ""
          · subst hfe
            exact pyIn_empty_right hkl
          · have hb : (filename != "") = true := by simp [hfe]
            cases h2 : pyIn (pyLower kw) (pyLower filename) with
            | false => rfl
            | true => exact absurd (by rw [hb, h2]; rfl) hf
        rw [hfin]
        simp only [Bool.false_eq_true, if_false]
        omega
    · have htf : pyIn (pyLower kw) (pyLower text) = false := by
        cases h2 : pyIn (pyLower kw) (pyLower text) with
        | false => rfl
        | true => exact absurd h2 ht
      rw [htf]
      simp only [Bool.false_eq_true, if_false]
      have hzero : pyCount (pyLower text) (pyLower kw) = 0 :=
        pyCount_eq_zero_of_not_in hkl htf
      rw [hzero]
      by_cases hf : ((filename != "") && pyIn (pyLower kw) (pyLower filename)) = true
      · rw [if_pos hf]
        rw [Bool.and_eq_true] at hf
        rw [if_pos hf.2]
      · rw [if_neg hf]
        have hfin : pyIn (pyLower kw) (pyLower filename) = false := by
          by_cases hfe : filename = ""
          · subst hfe
            exact pyIn_empty_right hkl
          · have hb : (filename != "") = true := by simp [hfe]
            cases h2 : pyIn (pyLower kw) (pyLower filename) with
            | false => rfl
            | true => exact absurd (by rw [hb, h2]; rfl) hf
        rw [hfin]
        simp only [Bool.false_eq_true, if_false]
        omega

theorem find?_map_keys {β : Type} (f : String × List String → β) (folder : String)
    (kws : List String) :
    ∀ l : List (String × List String), (folder, kws) ∈ l →
      (l.map (fun p => p.1)).Nodup →
      (l.map (fun p => (p.1, f p))).find? (fun q => q.1 = folder) =
        some (folder, f (folder, kws)) := by
  intro l
  induction l with
  | nil => intro h _; exact absurd h (List.not_mem_nil _)
  | cons a t ih =>
    intro hmem hnd
    rw [List.map_cons] at hnd
    rw [List.nodup_cons] at hnd
    rw [List.map_cons]
    rcases List.mem_cons.mp hmem with rfl | hmem2
    · rw [List.find?_cons_of_pos _ (by simp)]
    · by_cases hak : a.1 = folder
      · exfalso
        apply hnd.1
        rw [hak]
        exact List.mem_map.mpr ⟨(folder, kws), hmem2, rfl⟩
      · rw [List.find?_cons_of_neg _ (by simp [hak])]
        exact ih hmem2 hnd.2

theorem ctdKeywords_facts :
    ((CTD_KEYWORDS.map (fun p => p.1)).Nodup) ∧
    (∀ p ∈ CTD_KEYWORDS, (∀ kw ∈ p.2, kw ≠ "") ∧ p.2.Nodup) := by
  decide

/-- C4: for every body text, filename and category of CTD_KEYWORDS, the
computed score of that category equals 5 times the total number of
non-overlapping occurrences of each of its phrases in the lowercased body
text, plus 50 flat for each phrase occurring as a substring of the
lowercased filename (not multiplied by its occurrence count there); the
phrase list of every category is duplicate-free, so the per-phrase sum is
the per-distinct-phrase sum the claim describes. -/
theorem C4_keyword_scoring (text filename folder : String) (kws : List String)
    (hmem : (folder, kws) ∈ CTD_KEYWORDS) :
    ((analyze_content text filename).scores.find? (fun q => q.1 = folder) =
      some (folder, claimedScore text filename kws)) ∧ kws.Nodup := by
  refine ⟨?_, (ctdKeywords_facts.2 (folder, kws) hmem).2⟩
  have hlookup := find?_map_keys
    (fun p => keywordScore (pyLower text) (pyLower filename) (filename != "") p.2)
    folder kws CTD_KEYWORDS hmem ctdKeywords_facts.1
  rw [analyze_content]
  simp only
  rw [hlookup]
  dsimp only
  rw [keywordScore_eq_claimedScore text filename kws
    (ctdKeywords_facts.2 (folder, kws) hmem).1]

/-- Witness for C4_keyword_scoring at the spec's concrete scenario: body
text containing "stability study" five times and filename doc.pdf give the
Stability category the score 50 (25 from "stability", 25 from "stability
study"), which is at least 25. -/
theorem C4_keyword_scoring_witness :
    ((analyze_content
          "stability study stability study stability study stability study stability study"
          "doc.pdf").scores.find? (fun q => q.1 = "3.2.P.8 Stability") =
      some ("3.2.P.8 Stability",
        claimedScore
          "stability study stability study stability study stability study stability study"
          "doc.pdf" ["stability", "stability study", "shelf life", "storage condition"])) ∧
    claimedScore
      "stability study stability study stability study stability study stability study"
      "doc.pdf" ["stability", "stability study", "shelf life", "storage condition"] = 50 := by
  constructor
  · exact (C4_keyword_scoring
      "stability study stability study stability study stability study stability study"
      "doc.pdf" "3.2.P.8 Stability"
      ["stability", "stability study", "shelf life", "storage condition"] (by decide)).1
  · decide

/-! ## Claim C5: keyword-score strategy lemmas -/

/-- The maximal score of a scoreboard (zero on the empty board). -/
def maxScore (l : List (String × Nat)) : Nat :=
  l.foldr (fun p m => max p.2 m) 0

theorem sortDescStable_ne_nil (a : String × Nat) (l : List (String × Nat)) :
    sortDescStable (a :: l) ≠ [] := by
  show insertDesc a (sortDescStable l) ≠ []
  cases hs : sortDescStable l with
  | nil => simp [insertDesc]
  | cons y ys =>
    rw [insertDesc]
    by_cases h : y.2 > a.2
    · rw [if_pos h]
      simp
    · rw [if_neg h]
      simp

theorem sortDescStable_head : ∀ l : List (String × Nat),
    (sortDescStable l).head? = l.find? (fun p => p.2 = maxScore l) := by
  intro l
  induction l with
  | nil => rfl
  | cons a t ih =>
    have hstep : sortDescStable (a :: t) = insertDesc a (sortDescStable t) := rfl
    have hmaxstep : maxScore (a :: t) = max a.2 (maxScore t) := rfl
    rw [hstep, hmaxstep]
    cases hs : sortDescStable t with
    | nil =>
      have ht : t = [] := by
        cases t with
        | nil => rfl
        | cons b t2 => exact absurd hs (sortDescStable_ne_nil b t2)
      subst ht
      rw [insertDesc]
      have hm : maxScore ([] : List (String × Nat)) = 0 := rfl
      rw [hm, Nat.max_zero]
      rw [List.head?_cons, List.find?_cons_of_pos _ (by simp)]
    | cons y ys =>
      rw [hs] at ih
      rw [List.head?_cons] at ih
      have hyfind : t.find? (fun p => p.2 = maxScore t) = some y := ih.symm
      have hymax : y.2 = maxScore t := by
        have := List.find?_some hyfind
        simpa using this
      rw [insertDesc]
      by_cases hgt : y.2 > a.2
      · rw [if_pos hgt]
        have hmax : max a.2 (maxScore t) = maxScore t :=
          Nat.max_eq_right (Nat.le_of_lt (hymax ▸ hgt))
        rw [hmax]
        rw [List.find?_cons_of_neg _ (by simp; omega)]
        rw [List.head?_cons]
        exact ih
      · rw [if_neg hgt]
        have hmax : max a.2 (maxScore t) = a.2 :=
          Nat.max_eq_left (by omega)
        rw [hmax]
        rw [List.find?_cons_of_pos _ (by simp)]
        rw [List.head?_cons]

theorem keywordStrategy_iff (allF : List (String × String)) (fs : List String)
    (scores : List (String × Nat)) (topF : String) (topS : Nat)
    (hhead : (sortDescStable scores).head? = some (topF, topS)) :
    ((keywordStrategy allF fs scores).isSome ↔
      10 < topS ∧ ∃ kv ∈ allF, pyIn topF kv.1 = true ∧ pathExists fs kv.2 = true) ∧
    (∀ r, keywordStrategy allF fs scores = some r → r.2 = "Keyword match: " ++ topF) := by
  cases hs : sortDescStable scores with
  | nil =>
    rw [hs] at hhead
    exact absurd hhead (by simp)
  | cons top rest =>
    rw [hs] at hhead
    rw [List.head?_cons, Option.some.injEq] at hhead
    subst hhead
    rw [keywordStrategy, hs]
    dsimp only
    by_cases h10 : topS > 10
    · rw [if_pos h10]
      constructor
      · rw [findSome?_isSome_iff]
        constructor
        · rintro ⟨kv, hkv, hsome⟩
          by_cases hc : (pyIn topF kv.1 && pathExists fs kv.2) = true
          · rw [Bool.and_eq_true] at hc
            exact ⟨h10, kv, hkv, hc.1, hc.2⟩
          · rw [if_neg hc] at hsome
            simp at hsome
        · rintro ⟨_, kv, hkv, h1, h2⟩
          refine ⟨kv, hkv, ?_⟩
          rw [if_pos (by rw [h1, h2]; rfl)]
          rfl
      · intro r hr
        obtain ⟨kv, _, hkveq⟩ := findSome?_exists_of_eq_some hr
        by_cases hc : (pyIn topF kv.1 && pathExists fs kv.2) = true
        · rw [if_pos hc, Option.some.injEq] at hkveq
          rw [← hkveq]
        · rw [if_neg hc] at hkveq
          exact absurd hkveq (by simp)
    · rw [if_neg h10]
      constructor
      · simp only [Option.isSome_none, Bool.false_eq_true, false_iff]
        rintro ⟨h1, _⟩
        exact h10 h1
      · intro r hr
        exact absurd hr (by simp)

theorem analyze_scores_keys (text fn : String) :
    (analyze_content text fn).scores.map (fun p => p.1) =
      CTD_KEYWORDS.map (fun p => p.1) := by
  rw [analyze_content]
  simp only
  rw [List.map_map]
  rfl

/-- C5: the keyword-score strategy selects the top entry of the scoreboard
sorted descending with ties broken by definition order (the head of the
stable sort is the first entry attaining the maximal score), fires exactly
when that top score strictly exceeds 10 and some taxonomy identifier
containing the top category token has an existing folder (so a top score of
exactly 10 never fires), and when it fires the resolver (with no section
match) returns its result; the scoreboard gives every category of
CTD_KEYWORDS an entry (scores are Nat, hence non-negative) and all zeros on
empty evidence. -/
theorem C5_keyword_score_strategy :
    (∀ l : List (String × Nat),
      (sortDescStable l).head? = l.find? (fun p => p.2 = maxScore l)) ∧
    (∀ (allF : List (String × String)) (fs : List String) (scores : List (String × Nat))
        (topF : String) (topS : Nat),
      (sortDescStable scores).head? = some (topF, topS) →
      (((keywordStrategy allF fs scores).isSome ↔
        10 < topS ∧ ∃ kv ∈ allF, pyIn topF kv.1 = true ∧ pathExists fs kv.2 = true) ∧
       (∀ r, keywordStrategy allF fs scores = some r →
         r.2 = "Keyword match: " ++ topF))) ∧
    (∀ (allF : List (String × String)) (fs : List String) (scores : List (String × Nat))
        (found : List String) (fn : String) (r : String × String),
      sectionStrategy allF fs found = none → keywordStrategy allF fs scores = some r →
      find_exact_ctd_folder allF fs scores found fn = r) ∧
    (∀ text fn : String,
      (analyze_content text fn).scores.map (fun p => p.1) =
        CTD_KEYWORDS.map (fun p => p.1)) ∧
    (analyze_content "" "").scores = CTD_KEYWORDS.map (fun p => (p.1, 0)) := by
  refine ⟨sortDescStable_head, ?_, ?_, analyze_scores_keys, by decide⟩
  · intro allF fs scores topF topS hhead
    exact keywordStrategy_iff allF fs scores topF topS hhead
  · intro allF fs scores found fn r h1 h2
    exact resolver_of_keywordStrategy allF fs scores found fn r h1 h2

/-- Witness for C5_keyword_score_strategy at concrete inputs: on the board
[(A, 12), (B, 12)] the head of the stable sort is the first-defined (A, 12);
the strategy fires (12 exceeds 10 and the identifier xAy containing A has an
existing folder p), and the resolver returns (p, Keyword match: A); on the
board [(A, 10)] the score of exactly 10 does not fire the strategy. -/
theorem C5_keyword_score_strategy_witness :
    (sortDescStable [("A", 12), ("B", 12)]).head? = some ("A", 12) ∧
    (keywordStrategy [("xAy", "p")] ["p"] [("A", 12), ("B", 12)]).isSome = true ∧
    find_exact_ctd_folder [("xAy", "p")] ["p"] [("A", 12), ("B", 12)] [] "f.pdf" =
      ("p", "Keyword match: A") ∧
    (keywordStrategy [("xAy", "p")] ["p"] [("A", 10)]).isSome = false := by
  refine ⟨?_, ?_, ?_, ?_⟩
  · have h := C5_keyword_score_strategy.1 [("A", 12), ("B", 12)]
    rw [h]
    decide
  · exact ((C5_keyword_score_strategy.2.1 [("xAy", "p")] ["p"] [("A", 12), ("B", 12)]
      "A" 12 (by decide)).1).mpr ⟨by decide, ("xAy", "p"), by decide, by decide, by decide⟩
  · exact C5_keyword_score_strategy.2.2.1 [("xAy", "p")] ["p"] [("A", 12), ("B", 12)] []
      "f.pdf" ("p", "Keyword match: A") rfl (by decide)
  · have h := (C5_keyword_score_strategy.2.1 [("xAy", "p")] ["p"] [("A", 10)]
      "A" 10 (by decide)).1
    cases hks : (keywordStrategy [("xAy", "p")] ["p"] [("A", 10)]).isSome with
    | false => rfl
    | true =>
      exfalso
      rw [hks] at h
      obtain ⟨h1, _⟩ := h.mp rfl
      omega

/-! ## Claim C1: totality and fallback lemmas -/

theorem pathExists_mem {fs : List String} {p : String} (h : pathExists fs p = true) : p ∈ fs :=
  of_decide_eq_true h

theorem match_from_filename_is_value (allF : List (String × String)) (fn p : String)
    (h : match_from_filename allF fn = some p) : ∃ kv ∈ allF, kv.2 = p := by
  obtain ⟨r0, _, hr0⟩ := findSome?_exists_of_eq_some h
  rw [ruleFires] at hr0
  obtain ⟨pat, _, hpat⟩ := findSome?_exists_of_eq_some hr0
  by_cases hin : pyIn pat (pyLower fn) = true
  · rw [if_pos hin] at hpat
    obtain ⟨kv, hkv, hkveq⟩ := findSome?_exists_of_eq_some hpat
    by_cases hin2 : pyIn r0.2 kv.1 = true
    · rw [if_pos hin2] at hkveq
      exact ⟨kv, hkv, by injection hkveq⟩
    · rw [if_neg hin2] at hkveq
      exact absurd hkveq (by simp)
  · rw [if_neg hin] at hpat
    exact absurd hpat (by simp)

theorem sectionStrategy_mem_fs {allF : List (String × String)} {fs : List String}
    {found : List String} {r : String × String}
    (h : sectionStrategy allF fs found = some r) : r.1 ∈ fs := by
  obtain ⟨sec, _, hsec⟩ := findSome?_exists_of_eq_some h
  cases he : exactSectionMatch allF fs sec with
  | some r2 =>
    simp only [he] at hsec
    have hr2 : r2.1 ∈ fs := by
      rw [exactSectionMatch] at he
      cases hd : dictFind? allF sec with
      | none =>
        simp only [hd] at he
        exact absurd he (by simp)
      | some p =>
        simp only [hd] at he
        by_cases hp : pathExists fs p = true
        · rw [if_pos hp, Option.some.injEq] at he
          rw [← he]
          exact pathExists_mem hp
        · rw [if_neg hp] at he
          exact absurd he (by simp)
    rw [Option.some.injEq] at hsec
    rw [← hsec]
    exact hr2
  | none =>
    simp only [he] at hsec
    obtain ⟨kv, _, hkv⟩ := findSome?_exists_of_eq_some hsec
    by_cases hc : (sec.data.isPrefixOf kv.1.data && pathExists fs kv.2) = true
    · rw [if_pos hc, Option.some.injEq] at hkv
      rw [Bool.and_eq_true] at hc
      rw [← hkv]
      exact pathExists_mem hc.2
    · rw [if_neg hc] at hkv
      exact absurd hkv (by simp)

theorem keywordStrategy_mem_fs {allF : List (String × String)} {fs : List String}
    {scores : List (String × Nat)} {r : String × String}
    (h : keywordStrategy allF fs scores = some r) : r.1 ∈ fs := by
  rw [keywordStrategy] at h
  cases hs : sortDescStable scores with
  | nil =>
    rw [hs] at h
    exact absurd h (by simp)
  | cons top rest =>
    obtain ⟨tf, ts⟩ := top
    rw [hs] at h
    dsimp only at h
    by_cases h10 : ts > 10
    · rw [if_pos h10] at h
      obtain ⟨kv, _, hkv⟩ := findSome?_exists_of_eq_some h
      by_cases hc : (pyIn tf kv.1 && pathExists fs kv.2) = true
      · rw [if_pos hc, Option.some.injEq] at hkv
        rw [Bool.and_eq_true] at hc
        rw [← hkv]
        exact pathExists_mem hc.2
      · rw [if_neg hc] at hkv
        exact absurd hkv (by simp)
    · rw [if_neg h10] at h
      exact absurd h (by simp)

/-- C1: for every scoreboard, found-sections list and filename, the resolver
returns a (destination, reason) pair; when every taxonomy folder exists on
disk the destination is an existing folder or the reserved Uncategorized
folder (the latter created on demand by os.makedirs just before the
fallback returns), and when no strategy matches the result is exactly
(Uncategorized, "No match found") -- resolution never fails and never
produces a missing path. -/
theorem C1_fallback_totality (allF : List (String × String)) (fs : List String)
    (scores : List (String × Nat)) (found : List String) (fn : String)
    (hvals : ∀ kv ∈ allF, kv.2 ∈ fs) :
    ((find_exact_ctd_folder allF fs scores found fn).1 ∈ fs ∨
      (find_exact_ctd_folder allF fs scores found fn).1 = uncategorizedPath) ∧
    (sectionStrategy allF fs found = none → keywordStrategy allF fs scores = none →
      (fn = "" ∨ match_from_filename allF fn = none) →
      find_exact_ctd_folder allF fs scores found fn =
        (uncategorizedPath, "No match found")) := by
  constructor
  · cases h1 : sectionStrategy allF fs found with
    | some r =>
      rw [resolver_of_sectionStrategy allF fs scores found fn r h1]
      exact Or.inl (sectionStrategy_mem_fs h1)
    | none =>
      cases h2 : keywordStrategy allF fs scores with
      | some r =>
        rw [resolver_of_keywordStrategy allF fs scores found fn r h1 h2]
        exact Or.inl (keywordStrategy_mem_fs h2)
      | none =>
        by_cases hfn : fn = ""
        · have hres : find_exact_ctd_folder allF fs scores found fn =
              (uncategorizedPath, "No match found") := by
            rw [find_exact_ctd_folder, h1, h2]
            subst hfn
            rfl
          rw [hres]
          exact Or.inr rfl
        · cases h3 : match_from_filename allF fn with
          | some p =>
            rw [resolver_of_filename allF fs scores found fn p h1 h2 hfn h3]
            obtain ⟨kv, hkv, hkvp⟩ := match_from_filename_is_value allF fn p h3
            exact Or.inl (hkvp ▸ hvals kv hkv)
          | none =>
            have hres : find_exact_ctd_folder allF fs scores found fn =
                (uncategorizedPath, "No match found") := by
              rw [find_exact_ctd_folder, h1, h2]
              have hb : (fn != "") = true := by simp [hfn]
              simp [hb, h3]
            rw [hres]
            exact Or.inr rfl
  · intro h1 h2 h3
    rw [find_exact_ctd_folder, h1, h2]
    by_cases hfn : fn = ""
    · subst hfn
      rfl
    · rcases h3 with h3 | h3
      · exact absurd h3 hfn
      · have hb : (fn != "") = true := by simp [hfn]
        simp [hb, h3]

/-- Witness for C1_fallback_totality at a concrete input: with the
filesystem holding exactly the taxonomy folder paths and empty evidence, the
resolver produces the Uncategorized fallback with reason "No match found",
and its destination satisfies the totality disjunction. -/
theorem C1_fallback_totality_witness :
    ((find_exact_ctd_folder allFoldersActual (allFoldersActual.map (fun kv => kv.2))
          [] [] "").1 ∈ allFoldersActual.map (fun kv => kv.2) ∨
      (find_exact_ctd_folder allFoldersActual (allFoldersActual.map (fun kv => kv.2))
          [] [] "").1 = uncategorizedPath) ∧
    find_exact_ctd_folder allFoldersActual (allFoldersActual.map (fun kv => kv.2)) [] [] "" =
      (uncategorizedPath, "No match found") := by
  have h := C1_fallback_totality allFoldersActual (allFoldersActual.map (fun kv => kv.2))
    [] [] "" (fun kv hkv => List.mem_map.mpr ⟨kv, hkv, rfl⟩)
  exact ⟨h.1, h.2 rfl rfl (Or.inl rfl)⟩
